import Mathlib

/-!
# SPRED sprite editor: container codecs, canvas and import session

A shallow embedding of the binary codecs, the sprite canvas, the PNG import
session and the palette matcher of the SPRED sprite editor
(`SpriteCompression.cpp`, `SpriteData.cpp`, `PaletteLibrary.cpp`) and the
properties proved about them.

Conventions of the embedding.

* A byte is a `Nat`; a file is the list of its bytes; `Option (List Nat)` is a
  file name that may fail to open (`none`).
* A C array or pointer target (`uint8_t*`, `uint8_t m_pixels[1600]`) is a
  function `Nat → Nat` from byte offset to byte, written with `poke` and `blit`.
  The function is total and the array is not: an offset from 1600 on in
  `m_pixels` (from 64 on in `m_palette`) is not part of the array, and in the
  program it is a byte of the members that follow (`m_palette` after `m_pixels`,
  then the import session). What is stated of the program concerns offsets
  inside the arrays, under hypotheses that keep every access inside them
  (`SpriteData.targetInArray` for the resample).
* A C `int` is an `Int`; the products of `int`s that feed a file field wrap to
  32 bits (`imul`); other `int` arithmetic is exact, signed overflow being
  undefined in the source.
* Multi-byte scalars are stored little-endian and `int` is 32 bits wide, as on
  the x86-64 and arm64 targets of the program.
* Locals that the source leaves uninitialised before reading into them start
  from an arbitrary content, supplied by a `Locals` argument.
* zlib is an external library: its two entry points are the fields of a `Zlib`
  argument.
* The PNG decoder delivers its result as an argument of `startPNGImport`; the
  resize, the quantizer and the colour matcher of `PNGConverter` are the fields
  of a `PngEnv` argument.
* A `float` is an IEEE 754 binary32 number, held as the rational it denotes:
  every conversion from `int` and every operation is rounded to the nearest
  number with 24 significant bits, ties to even (`roundF32`), and the conversion
  to `int` truncates toward zero (`truncRat`). The exponent range, infinities
  and NaN are not modelled: the quotients and products of the import session are
  those of two 32-bit integers, far inside the range, and a division by zero is
  kept out by hypotheses.
* A `std::vector<uint8_t>` is the list of its bytes; an index outside it reads
  0 (`readAt`).
-/

namespace SPRED

/-! ## Memory and scalar helpers -/

/-- Store one byte: `buf[i] = v`. -/
def poke (buf : Nat → Nat) (i v : Nat) : Nat → Nat :=
  fun k => if k = i then v else buf k

/-- Store a run of bytes at the start of a buffer (what `read(buf, n)` and
`memcpy` do with the bytes they obtained); the rest of the buffer is kept. -/
def blit (buf : Nat → Nat) (bytes : List Nat) : Nat → Nat :=
  fun k => if k < bytes.length then bytes.getD k 0 else buf k

/-- The first `n` bytes of a buffer, as they are written to a file. -/
def peekN (buf : Nat → Nat) (n : Nat) : List Nat :=
  (List.range n).map buf

/-- Value of a little-endian `uint16_t` held in a 2-byte buffer. -/
def u16 (b : Nat → Nat) : Nat := b 0 + 256 * b 1

/-- Value of a little-endian `uint32_t` held in a 4-byte buffer. -/
def u32 (b : Nat → Nat) : Nat := b 0 + 256 * b 1 + 65536 * b 2 + 16777216 * b 3

/-- Bytes of a `uint16_t`, little-endian. -/
def le16 (v : Nat) : List Nat := [v % 256, v / 256 % 256]

/-- Bytes of a `uint32_t`, little-endian. -/
def le32 (v : Nat) : List Nat :=
  [v % 256, v / 256 % 256, v / 65536 % 256, v / 16777216 % 256]

/-- Conversion `static_cast<uint8_t>(x)` of an `int`. -/
def toU8 (x : Int) : Nat := (x % 256).toNat

/-- Conversion `static_cast<uint32_t>(x)` of an `int`. -/
def toU32 (x : Int) : Nat := (x % 4294967296).toNat

/-- Two's-complement reading of a 32-bit pattern as an `int`. -/
def asI32 (v : Nat) : Int :=
  if v % 4294967296 < 2147483648 then ((v % 4294967296 : Nat) : Int)
  else ((v % 4294967296 : Nat) : Int) - 4294967296

/-- Product of two `int`s as the hardware computes it (wrapped to 32 bits). -/
def imul (a b : Int) : Int := asI32 (toU32 (a * b))

/-- Value of a native `int` held in a 4-byte buffer. -/
def i32 (b : Nat → Nat) : Int := asI32 (u32 b)

/-! ## Input streams -/

/-- A `std::ifstream` opened in binary mode: the bytes of the file, the bytes
not yet consumed, and the `good()` flag. -/
structure IStream where
  data : List Nat
  rest : List Nat
  good : Bool

/-- Stream positioned at the start of a file that opened successfully. -/
def IStream.ofFile (bytes : List Nat) : IStream := ⟨bytes, bytes, true⟩

/-- The call `file.read(buf, n)`: returns the bytes extracted (the caller stores
them at the start of `buf`). A stream that is not good extracts nothing; a
request for more bytes than remain extracts what remains and sets the failure
bits, so `good()` is false from then on. -/
def IStream.read (s : IStream) (n : Nat) : IStream × List Nat :=
  if s.good then
    if n ≤ s.rest.length then (⟨s.data, s.rest.drop n, true⟩, s.rest.take n)
    else (⟨s.data, [], false⟩, s.rest)
  else (s, [])

/-- The call `file.read(buf, n)` with a signed count: a negative count extracts
nothing and sets the failure bits. -/
def IStream.readI (s : IStream) (n : Int) : IStream × List Nat :=
  if n < 0 then (if s.good then (⟨s.data, s.rest, false⟩, []) else (s, []))
  else s.read n.toNat

/-! ## zlib -/

/-- The two zlib entry points the codec calls. `compress2 src` is the return
code and the bytes produced for source `src` at level `Z_BEST_COMPRESSION` into a
buffer of `compressBound` bytes. `uncompress src cap` is the return code and the
bytes stored in a destination of capacity `cap`; the stored count is what zlib
reports back through `destLen`. -/
structure Zlib where
  compress2 : List Nat → Int × List Nat
  uncompress : List Nat → Nat → Int × List Nat

/-- The zlib success code. -/
def Z_OK : Int := 0

/-- The zlib code for a destination that is too small. -/
def Z_BUF_ERROR : Int := -5

/-- Losslessness of the byte compressor on the sources the format can describe
(at most 255 * 255 bytes, the largest product of a width byte and a height
byte): compression succeeds, the compressed length fits the 32-bit header
field, and decompressing into a buffer of the original size gives the original
bytes back. -/
def Zlib.Lossless (z : Zlib) : Prop :=
  ∀ b : List Nat, b.length ≤ 65025 →
    (z.compress2 b).1 = Z_OK ∧ (z.compress2 b).2.length < 4294967296 ∧
      z.uncompress (z.compress2 b).2 b.length = (Z_OK, b)

/-- A lossless instance of the interface: bytes are stored as they are. -/
def storedZlib : Zlib where
  compress2 := fun b => (Z_OK, b)
  uncompress := fun src cap =>
    if src.length ≤ cap then (Z_OK, src) else (Z_BUF_ERROR, src.take cap)

/-! ## SpriteCompression -/

/-- `SpriteCompression::compressRLE`: the compressed bytes, or nothing when zlib
reports an error. A canvas has a non-negative pixel count. -/
def compressRLE (z : Zlib) (pixels : Nat → Nat) (pixelCount : Int) : List Nat :=
  let r := z.compress2 (peekN pixels pixelCount.toNat)
  if r.1 ≠ Z_OK then [] else r.2

/-- `SpriteCompression::decompressRLE`: success flag and the pixel buffer after
zlib has written to it. -/
def decompressRLE (z : Zlib) (compressed : List Nat) (pixels : Nat → Nat)
    (pixelCount : Int) : Bool × (Nat → Nat) :=
  let r := z.uncompress compressed pixelCount.toNat
  let pixels1 := blit pixels r.2
  if r.1 ≠ Z_OK then (false, pixels1)
  else if r.2.length ≠ pixelCount.toNat then (false, pixels1)
  else (true, pixels1)

/-- The loop `for (i = 2; i < 16; i++)` of the savers: R, G, B of palette
entries 2..15. -/
def writePaletteRGB (palette : Nat → Nat) : List Nat :=
  (List.range' 2 14).foldl
    (fun out i => out ++ [palette (i * 4), palette (i * 4 + 1), palette (i * 4 + 2)]) []

/-- The 16 header bytes shared by all SPRTZ savers. -/
def writeHeader (version : Nat) (width height : Int) (compressedLen : Nat) : List Nat :=
  [83, 80, 84, 90] ++ le16 version ++ [toU8 width] ++ [toU8 height]
    ++ le32 (toU32 (imul width height)) ++ le32 (compressedLen % 4294967296)

/-- `SpriteCompression::saveSPRTZ`: the bytes written (the file is taken to open
and every write to succeed, so the call returns true). -/
def saveSPRTZ (z : Zlib) (width height : Int) (pixels palette : Nat → Nat) :
    Option (List Nat) :=
  let pixelCount := imul width height
  let compressed := compressRLE z pixels pixelCount
  some (writeHeader 1 width height compressed.length ++ writePaletteRGB palette ++ compressed)

/-- `SpriteCompression::saveSPRTZv2Standard`: refused for a palette id of 32 or
more, otherwise header, palette id and payload. -/
def saveSPRTZv2Standard (z : Zlib) (width height : Int) (pixels : Nat → Nat)
    (standardPaletteID : Nat) : Option (List Nat) :=
  if standardPaletteID ≥ 32 then none
  else
    let pixelCount := imul width height
    let compressed := compressRLE z pixels pixelCount
    some (writeHeader 2 width height compressed.length ++ [standardPaletteID] ++ compressed)

/-- `SpriteCompression::saveSPRTZv2Custom`: header, mode byte 0xFF, the 42
palette bytes and the payload. -/
def saveSPRTZv2Custom (z : Zlib) (width height : Int) (pixels palette : Nat → Nat) :
    Option (List Nat) :=
  let pixelCount := imul width height
  let compressed := compressRLE z pixels pixelCount
  some (writeHeader 2 width height compressed.length ++ [255] ++ writePaletteRGB palette
    ++ compressed)

/-! ## Standard palette library (the parts the codec uses) -/

/-- One palette colour (`PaletteColor`): four bytes r, g, b, a. -/
structure PaletteColor where
  r : Nat
  g : Nat
  b : Nat
  a : Nat
  deriving DecidableEq, Repr

/-- Metadata record of a standard palette (`StandardPaletteInfo`). -/
structure StandardPaletteInfo where
  id : Nat
  name : String
  description : String
  category : String
  deriving DecidableEq, Repr

/-- Number of standard palettes. -/
def STANDARD_PALETTE_COUNT : Nat := 32

/-- Number of colours of a standard palette. -/
def STANDARD_PALETTE_COLORS : Nat := 16

/-- Palette-mode byte and palette id that stand for a custom palette. -/
def PALETTE_MODE_CUSTOM : Nat := 255

/-- `StandardPaletteLibrary::LibraryData`: the arrays are indexed by palette id
(and colour index). -/
structure LibraryData where
  palettes : Nat → Nat → PaletteColor
  info : Nat → StandardPaletteInfo
  names : Nat → String
  descriptions : Nat → String
  categories : Nat → String
  initialized : Bool
  lastError : String

/-- `StandardPaletteLibrary::isInitialized`, on the value of the static pointer
`s_data` (`none` is the null pointer). -/
def isInitialized (s_data : Option LibraryData) : Bool :=
  match s_data with
  | none => false
  | some d => d.initialized

/-- `StandardPaletteLibrary::getPalette`: the 16 colours of a palette, or the
null pointer. -/
def getPalette (s_data : Option LibraryData) (paletteID : Nat) : Option (Nat → PaletteColor) :=
  match s_data with
  | none => none
  | some d =>
    if !d.initialized || decide (paletteID ≥ STANDARD_PALETTE_COUNT) then none
    else some (d.palettes paletteID)

/-- `StandardPaletteLibrary::copyPaletteRGBA`: success flag and the output
buffer after the call. -/
def copyPaletteRGBA (s_data : Option LibraryData) (paletteID : Nat) (outRGBA : Nat → Nat) :
    Bool × (Nat → Nat) :=
  match getPalette s_data paletteID with
  | none => (false, outRGBA)
  | some palette =>
    (true, (List.range STANDARD_PALETTE_COLORS).foldl
      (fun out i =>
        poke (poke (poke (poke out (i * 4 + 0) (palette i).r) (i * 4 + 1) (palette i).g)
          (i * 4 + 2) (palette i).b) (i * 4 + 3) (palette i).a) outRGBA)

/-! ## SPRTZ loaders -/

/-- Arbitrary initial contents of the locals that the SPRTZ loaders read into
without initialising them; `rgb i` is the 3-byte array of loop iteration `i`. -/
structure Locals where
  magic : Nat → Nat
  version : Nat → Nat
  w : Nat → Nat
  h : Nat → Nat
  uncompressedSize : Nat → Nat
  compressedSize : Nat → Nat
  paletteMode : Nat → Nat
  rgb : Nat → Nat → Nat

/-- The output parameters `outWidth`, `outHeight`, `outPixels`, `outPalette`. -/
structure SprtzOut where
  outWidth : Int
  outHeight : Int
  outPixels : Nat → Nat
  outPalette : Nat → Nat

/-- The eight stores that set palette entries 0 and 1 to transparent black and
opaque black. -/
def setFixedColors (p : Nat → Nat) : Nat → Nat :=
  poke (poke (poke (poke (poke (poke (poke (poke p 0 0) 1 0) 2 0) 3 0) 4 0) 5 0) 6 0) 7 255

/-- One iteration of the loop that reads colours 2..15: three bytes into `rgb`,
then four stores into the palette. -/
def readColorStep (j : Locals) (st : IStream × (Nat → Nat)) (i : Nat) :
    IStream × (Nat → Nat) :=
  let r := st.1.read 3
  let rgb := blit (j.rgb i) r.2
  (r.1, poke (poke (poke (poke st.2 (i * 4 + 0) (rgb 0)) (i * 4 + 1) (rgb 1))
    (i * 4 + 2) (rgb 2)) (i * 4 + 3) 255)

/-- The loop `for (i = 2; i < 16; i++)` of the loaders. -/
def readColors (j : Locals) (s : IStream) (p : Nat → Nat) : IStream × (Nat → Nat) :=
  (List.range' 2 14).foldl (readColorStep j) (s, p)

/-- The tail shared by both loaders: allocate a zeroed vector of
`compressedSize` bytes, read into it, fail if the stream is not good, otherwise
decompress into `outPixels`. -/
def readPayload (z : Zlib) (s : IStream) (compressedSize : Nat) (expectedPixels : Int)
    (o : SprtzOut) : Bool × SprtzOut :=
  let r := s.read compressedSize
  let compressed := r.2 ++ (List.replicate compressedSize 0).drop r.2.length
  if !r.1.good then (false, o)
  else
    let d := decompressRLE z compressed o.outPixels expectedPixels
    (d.1, { o with outPixels := d.2 })

/-- `SpriteCompression::loadSPRTZ`: the returned flag and the output parameters
after the call. -/
def loadSPRTZ (z : Zlib) (file : Option (List Nat)) (j : Locals) (o : SprtzOut) :
    Bool × SprtzOut :=
  match file with
  | none => (false, o)
  | some bytes =>
    let s0 := IStream.ofFile bytes
    let r1 := s0.read 4
    let magic := blit j.magic r1.2
    if magic 0 ≠ 83 ∨ magic 1 ≠ 80 ∨ magic 2 ≠ 84 ∨ magic 3 ≠ 90 then (false, o)
    else
      let r2 := r1.1.read 2
      let version := u16 (blit j.version r2.2)
      if version ≠ 1 then (false, o)
      else
        let r3 := r2.1.read 1
        let w := blit j.w r3.2 0
        let r4 := r3.1.read 1
        let h := blit j.h r4.2 0
        let o1 := { o with outWidth := (w : Int), outHeight := (h : Int) }
        let r5 := r4.1.read 4
        let uncompressedSize := u32 (blit j.uncompressedSize r5.2)
        let r6 := r5.1.read 4
        let compressedSize := u32 (blit j.compressedSize r6.2)
        let expectedPixels := imul o1.outWidth o1.outHeight
        if uncompressedSize ≠ toU32 expectedPixels then (false, o1)
        else
          let c := readColors j r6.1 (setFixedColors o1.outPalette)
          let o2 := { o1 with outPalette := c.2 }
          readPayload z c.1 compressedSize expectedPixels o2

/-- `SpriteCompression::loadSPRTZv2`: the returned flag, the four output
parameters, `outIsStandard` and `outPaletteID` after the call. `j1` holds the
locals of the nested `loadSPRTZ` call; that call reopens the file by name, so
the `seekg(0)` on the caller's own stream has no effect on it. -/
def loadSPRTZv2 (z : Zlib) (s_data : Option LibraryData) (file : Option (List Nat))
    (j j1 : Locals) (o : SprtzOut) (isStandard : Bool) (paletteID : Nat) :
    Bool × SprtzOut × Bool × Nat :=
  match file with
  | none => (false, o, isStandard, paletteID)
  | some bytes =>
    let s0 := IStream.ofFile bytes
    let r1 := s0.read 4
    let magic := blit j.magic r1.2
    if magic 0 ≠ 83 ∨ magic 1 ≠ 80 ∨ magic 2 ≠ 84 ∨ magic 3 ≠ 90 then
      (false, o, isStandard, paletteID)
    else
      let r2 := r1.1.read 2
      let version := u16 (blit j.version r2.2)
      if version = 1 then
        let v1 := loadSPRTZ z file j1 o
        (v1.1, v1.2, false, PALETTE_MODE_CUSTOM)
      else if version ≠ 2 then (false, o, isStandard, paletteID)
      else
        let r3 := r2.1.read 1
        let w := blit j.w r3.2 0
        let r4 := r3.1.read 1
        let h := blit j.h r4.2 0
        let o1 := { o with outWidth := (w : Int), outHeight := (h : Int) }
        let r5 := r4.1.read 4
        let uncompressedSize := u32 (blit j.uncompressedSize r5.2)
        let r6 := r5.1.read 4
        let compressedSize := u32 (blit j.compressedSize r6.2)
        let expectedPixels := imul o1.outWidth o1.outHeight
        if uncompressedSize ≠ toU32 expectedPixels then (false, o1, isStandard, paletteID)
        else
          let r7 := r6.1.read 1
          let paletteMode := blit j.paletteMode r7.2 0
          let o2 := { o1 with outPalette := setFixedColors o1.outPalette }
          if paletteMode = 255 then
            let c := readColors j r7.1 o2.outPalette
            let o3 := { o2 with outPalette := c.2 }
            let p := readPayload z c.1 compressedSize expectedPixels o3
            (p.1, p.2, false, PALETTE_MODE_CUSTOM)
          else if paletteMode < 32 then
            if isInitialized s_data then
              let cp := copyPaletteRGBA s_data paletteMode o2.outPalette
              let o3 := { o2 with outPalette := cp.2 }
              if !cp.1 then (false, o3, true, paletteMode)
              else
                let p := readPayload z r7.1 compressedSize expectedPixels o3
                (p.1, p.2, true, paletteMode)
            else (false, o2, true, paletteMode)
          else (false, o2, isStandard, paletteID)

/-! ## SpriteData -/

/-- Largest sprite side (`MAX_SPRITE_SIZE`). -/
def MAX_SPRITE_SIZE : Int := 40

/-- Size of the pixel array (`MAX_SPRITE_PIXELS`). -/
def MAX_SPRITE_PIXELS : Nat := 1600

/-- Number of palette entries (`PALETTE_SIZE`). -/
def PALETTE_SIZE : Int := 16

/-- Size of the palette array (`PALETTE_BYTES`). -/
def PALETTE_BYTES : Nat := 64

/-- The members of `SpriteData`. The arrays `m_pixels[1600]` and `m_palette[64]`
are functions on all offsets; the offsets from 1600 on (from 64 on) are outside
the arrays. -/
structure SpriteData where
  m_width : Int
  m_height : Int
  m_pixels : Nat → Nat
  m_palette : Nat → Nat
  m_importedPNGData : List Nat
  m_importedPNGWidth : Int
  m_importedPNGHeight : Int
  m_pngOffsetX : Int
  m_pngOffsetY : Int
  m_pngTargetWidth : Int
  m_pngTargetHeight : Int
  m_hasPendingImport : Bool

/-- `SpriteData::setPaletteColor`. -/
def SpriteData.setPaletteColor (sd : SpriteData) (index : Int) (r g b a : Nat) : SpriteData :=
  if index < 0 ∨ index ≥ PALETTE_SIZE then sd
  else
    let off := (index * 4).toNat
    let pal := poke (poke (poke (poke sd.m_palette (off + 0) r) (off + 1) g) (off + 2) b)
      (off + 3) a
    { sd with m_palette := pal }

/-- `SpriteData::initializeDefaultPalette`: transparent black, opaque black and
a grey ramp. -/
def SpriteData.initializeDefaultPalette (sd : SpriteData) : SpriteData :=
  let sd1 := sd.setPaletteColor 0 0 0 0 0
  let sd2 := sd1.setPaletteColor 1 0 0 0 255
  (List.range' 2 14).foldl
    (fun acc i =>
      let gray := toU8 (((i : Int) - 2) * 255 / 13)
      acc.setPaletteColor (i : Int) gray gray gray 255) sd2

/-- `SpriteData::clear`: zero the whole pixel array, then the default palette. -/
def SpriteData.clear (sd : SpriteData) : SpriteData :=
  SpriteData.initializeDefaultPalette
    { sd with m_pixels := fun k => if k < MAX_SPRITE_PIXELS then 0 else sd.m_pixels k }

/-- The default constructor `SpriteData()`: an 8x8 cleared sprite with no
pending import. -/
def SpriteData.new : SpriteData :=
  SpriteData.clear
    { m_width := 8, m_height := 8, m_pixels := fun _ => 0, m_palette := fun _ => 0,
      m_importedPNGData := [], m_importedPNGWidth := 0, m_importedPNGHeight := 0,
      m_pngOffsetX := 0, m_pngOffsetY := 0, m_pngTargetWidth := 0, m_pngTargetHeight := 0,
      m_hasPendingImport := false }

/-- Arbitrary initial contents of the locals `version`, `width` and `height`
of `loadSprite` and `loadPalette`, which are read into without being
initialised. -/
structure SpriteLocals where
  version : Nat → Nat
  width : Nat → Nat
  height : Nat → Nat

/-- The conversion `std::string(magic)` of a char array: the bytes before the
first NUL. -/
def cString (buf : List Nat) : List Nat := buf.takeWhile (fun c => c != 0)

/-- `SpriteData::saveSprite`: the bytes written (the file is taken to open and
every write to succeed; the pixel count of a canvas is not negative). -/
def SpriteData.saveSprite (sd : SpriteData) : Option (List Nat) :=
  let numPixels := imul sd.m_width sd.m_height
  some ([83, 80, 82, 69, 68] ++ [1] ++ le32 (toU32 sd.m_width) ++ le32 (toU32 sd.m_height)
    ++ peekN sd.m_pixels numPixels.toNat ++ peekN sd.m_palette PALETTE_BYTES)

/-- `SpriteData::loadSprite`: the returned flag and the object after the call.
The four members the function assigns (`m_width`, `m_height`, then the reads
into `m_pixels` and `m_palette`) are gathered in the final record. The read
into `m_pixels` is the program's for a file that announces at most 1600 pixels;
a longer read runs past the array in the program, which this function does not
show. -/
def SpriteData.loadSprite (sd : SpriteData) (file : Option (List Nat)) (j : SpriteLocals) :
    Bool × SpriteData :=
  match file with
  | none => (false, sd)
  | some bytes =>
    let s0 := IStream.ofFile bytes
    let r1 := s0.read 5
    let magic := r1.2 ++ (List.replicate 6 0).drop r1.2.length
    if cString magic ≠ [83, 80, 82, 69, 68] then (false, sd)
    else
      let r2 := r1.1.read 1
      let version := blit j.version r2.2 0
      if version ≠ 1 then (false, sd)
      else
        let r3 := r2.1.read 4
        let width := i32 (blit j.width r3.2)
        let r4 := r3.1.read 4
        let height := i32 (blit j.height r4.2)
        let numPixels := imul width height
        let r5 := r4.1.readI numPixels
        let r6 := r5.1.read PALETTE_BYTES
        (r6.1.good, { sd with m_width := width, m_height := height,
                              m_pixels := blit sd.m_pixels r5.2,
                              m_palette := blit sd.m_palette r6.2 })

/-- `SpriteData::savePalette`: the bytes written. -/
def SpriteData.savePalette (sd : SpriteData) : Option (List Nat) :=
  some ([83, 84, 80, 65, 76] ++ [1] ++ peekN sd.m_palette PALETTE_BYTES)

/-- `SpriteData::loadPalette`: the returned flag and the object after the call. -/
def SpriteData.loadPalette (sd : SpriteData) (file : Option (List Nat)) (j : SpriteLocals) :
    Bool × SpriteData :=
  match file with
  | none => (false, sd)
  | some bytes =>
    let s0 := IStream.ofFile bytes
    let r1 := s0.read 5
    let magic := r1.2 ++ (List.replicate 6 0).drop r1.2.length
    if cString magic ≠ [83, 84, 80, 65, 76] then (false, sd)
    else
      let r2 := r1.1.read 1
      let version := blit j.version r2.2 0
      if version ≠ 1 then (false, sd)
      else
        let r3 := r2.1.read PALETTE_BYTES
        (r3.1.good, { sd with m_palette := blit sd.m_palette r3.2 })

/-- The call `std::memcpy(dst, src, n)`. -/
def memcpy (dst src : Nat → Nat) (n : Nat) : Nat → Nat :=
  fun k => if k < n then src k else dst k

/-- `SpriteData::loadSPRTZ`: decode into temporaries, copy into the members
only on success. `t` is the arbitrary initial content of the temporaries
`width`, `height`, `tempPixels` and `tempPalette`. -/
def SpriteData.loadSPRTZ (sd : SpriteData) (z : Zlib) (file : Option (List Nat)) (j : Locals)
    (t : SprtzOut) : Bool × SpriteData :=
  let r := SPRED.loadSPRTZ z file j t
  if !r.1 then (false, sd)
  else (true, { sd with m_width := r.2.outWidth, m_height := r.2.outHeight,
                        m_pixels := memcpy sd.m_pixels r.2.outPixels MAX_SPRITE_PIXELS,
                        m_palette := memcpy sd.m_palette r.2.outPalette PALETTE_BYTES })

/-- `SpriteData::loadSPRTZv2`: the returned flag, the object, `outIsStandard`
and `outPaletteID` after the call. -/
def SpriteData.loadSPRTZv2 (sd : SpriteData) (z : Zlib) (s_data : Option LibraryData)
    (file : Option (List Nat)) (j j1 : Locals) (t : SprtzOut) (isStandard : Bool)
    (paletteID : Nat) : Bool × SpriteData × Bool × Nat :=
  let r := SPRED.loadSPRTZv2 z s_data file j j1 t isStandard paletteID
  if !r.1 then (false, sd, r.2.2)
  else (true, { sd with m_width := r.2.1.outWidth, m_height := r.2.1.outHeight,
                        m_pixels := memcpy sd.m_pixels r.2.1.outPixels MAX_SPRITE_PIXELS,
                        m_palette := memcpy sd.m_palette r.2.1.outPalette PALETTE_BYTES },
        r.2.2)

/-- `SpriteData::resize`: clamp both sides to 1..40, then clear. -/
def SpriteData.resize (sd : SpriteData) (width height : Int) : SpriteData :=
  let width1 := if width < 1 then 1 else width
  let height1 := if height < 1 then 1 else height
  let width2 := if width1 > MAX_SPRITE_SIZE then MAX_SPRITE_SIZE else width1
  let height2 := if height1 > MAX_SPRITE_SIZE then MAX_SPRITE_SIZE else height1
  SpriteData.clear { sd with m_width := width2, m_height := height2 }

/-- `SpriteData::getPixel`. -/
def SpriteData.getPixel (sd : SpriteData) (x y : Int) : Nat :=
  if x < 0 ∨ x ≥ sd.m_width ∨ y < 0 ∨ y ≥ sd.m_height then 0
  else sd.m_pixels (y * sd.m_width + x).toNat

/-- `SpriteData::setPixel`: ignored out of bounds; an index of 16 or more is
stored as 0. -/
def SpriteData.setPixel (sd : SpriteData) (x y : Int) (colorIndex : Nat) : SpriteData :=
  if x < 0 ∨ x ≥ sd.m_width ∨ y < 0 ∨ y ≥ sd.m_height then sd
  else
    let colorIndex1 := if (colorIndex : Int) ≥ PALETTE_SIZE then 0 else colorIndex
    let pix := poke sd.m_pixels (y * sd.m_width + x).toNat colorIndex1
    { sd with m_pixels := pix }

/-! ## Colours and colour distance -/

/-- The struct `Color` of `PNGConverter.h`: four bytes r, g, b, a. -/
structure Color where
  r : Nat
  g : Nat
  b : Nat
  a : Nat
  deriving DecidableEq, Repr

/-- `Color::distanceTo`: squared distance in RGB space, computed in `int`. -/
def Color.distanceTo (c other : Color) : Int :=
  let dr : Int := (c.r : Int) - (other.r : Int)
  let dg : Int := (c.g : Int) - (other.g : Int)
  let db : Int := (c.b : Int) - (other.b : Int)
  dr * dr + dg * dg + db * db

/-- `StandardPaletteLibrary::colorDistance`, computed in `int32_t`. -/
def colorDistance (c1 c2 : PaletteColor) : Int :=
  let dr : Int := (c1.r : Int) - (c2.r : Int)
  let dg : Int := (c1.g : Int) - (c2.g : Int)
  let db : Int := (c1.b : Int) - (c2.b : Int)
  dr * dr + dg * dg + db * db

/-! ## Closest standard palette -/

/-- The largest `int32_t`. -/
def INT32_MAX : Int := 2147483647

/-- Modelled from the spec: `operator==` of `PaletteColor`, whose declaration
(PaletteLibrary.h) is outside the sources at hand; the spec has "equality is
exact byte equality". -/
def PaletteColor.same (c other : PaletteColor) : Bool := decide (c = other)

/-- The first loop of `findClosestPalette`: the colours of the custom palette
in order of first appearance, duplicates dropped. -/
def uniqueColors (customPalette : Nat → PaletteColor) : List PaletteColor :=
  (List.range STANDARD_PALETTE_COLORS).foldl
    (fun uniqueColors i =>
      let color := customPalette i
      let isDuplicate := uniqueColors.any (fun existing => existing.same color)
      if !isDuplicate then uniqueColors ++ [color] else uniqueColors) []

/-- The loop over `j`: the least distance from `customColor` to a colour of the
standard palette, starting from `INT32_MAX`. -/
def minDistance (customColor : PaletteColor) (standardPal : Nat → PaletteColor) : Int :=
  (List.range STANDARD_PALETTE_COLORS).foldl
    (fun minDist j =>
      let dist := colorDistance customColor (standardPal j)
      if dist < minDist then dist else minDist) INT32_MAX

/-- The loop over the unique colours for one standard palette:
(totalDistance, exactMatches, closeMatches). -/
def matchTally (uniqueColors : List PaletteColor) (standardPal : Nat → PaletteColor) :
    Int × Int × Int :=
  uniqueColors.foldl
    (fun (t : Int × Int × Int) customColor =>
      let minDist := minDistance customColor standardPal
      (t.1 + minDist,
        if minDist = 0 then t.2.1 + 1 else t.2.1,
        if minDist = 0 then t.2.2 else if minDist < 100 then t.2.2 + 1 else t.2.2))
    (0, 0, 0)

/-- The score of a tally: totalDistance - exactMatches * 10000 -
closeMatches * 1000. -/
def paletteScore (t : Int × Int × Int) : Int := t.1 - t.2.1 * 10000 - t.2.2 * 1000

/-- The loop over the palette ids: (bestScore, bestPaletteID,
bestTotalDistance), replaced when a score is strictly lower. -/
def bestPalette (d : LibraryData) (uniqueColors : List PaletteColor) : Int × Nat × Int :=
  (List.range STANDARD_PALETTE_COUNT).foldl
    (fun (best : Int × Nat × Int) pid =>
      let t := matchTally uniqueColors (d.palettes pid)
      let score := paletteScore t
      if score < best.1 then (score, pid, t.1) else best)
    (INT32_MAX, PALETTE_MODE_CUSTOM, INT32_MAX)

/-- `StandardPaletteLibrary::findClosestPalette`: the returned id and the value
stored through `outDistance`. -/
def findClosestPalette (s_data : Option LibraryData) (customPalette : Nat → PaletteColor) :
    Nat × Int :=
  match s_data with
  | none => (PALETTE_MODE_CUSTOM, -1)
  | some d =>
    if !d.initialized then (PALETTE_MODE_CUSTOM, -1)
    else
      let u := uniqueColors customPalette
      let best := bestPalette d u
      let numColors : Int := (u.length : Int)
      let avgDistancePerColor : Int :=
        if numColors > 0 then Int.tdiv best.2.2 numColors else INT32_MAX
      if avgDistancePerColor < 200 ∨ best.2.2 < 50 * numColors then (best.2.1, best.2.2)
      else (PALETTE_MODE_CUSTOM, best.2.2)

/-! ## PNG import session -/

/-- The operations of the import pipeline whose code is outside the sources at
hand, as deterministic functions of their arguments: `resizePNG` (called with
the vImage method; `none` when it returns false, otherwise the output vector),
`extractPalette` (the colours it puts in `outColors`) and `findClosestColor`. -/
structure PngEnv where
  resizePNG : List Nat → Int → Int → Int → Int → Int → Int → Option (List Nat)
  extractPalette : List Nat → Int → Int → List Color
  findClosestColor : Color → List Color → Int

/-- The integer nearest to a rational, the even one of the two when the
rational lies half way between them. -/
def roundHalfEven (x : Rat) : Int :=
  let f := Rat.floor x
  let r := x - (f : Rat)
  if 2 * r < 1 then f
  else if 1 < 2 * r then f + 1
  else if f % 2 = 0 then f else f + 1

/-- The `float` nearest to a rational: with 2^e <= |q| < 2^(e+1) the multiple of
2^(e-23) nearest to `q`, ties to the even multiple (IEEE 754 binary32, round to
nearest even, 24 significant bits). It is the result of `static_cast<float>` on
an `int` and of one `float` division or multiplication on the exact quotient or
product. -/
def roundF32 (q : Rat) : Rat :=
  if q = 0 then 0
  else
    let e := Int.log 2 |q|
    let ulp : Rat := (2 : Rat) ^ (e - 23)
    (roundHalfEven (q / ulp) : Rat) * ulp

/-- The conversion `static_cast<int>(f)` of a `float`: truncation toward
zero. -/
def truncRat (q : Rat) : Int := if 0 ≤ q then Rat.floor q else -Rat.floor (-q)

/-- The integers 0, 1, ..., n-1 visited by `for (int i = 0; i < n; i++)`. -/
def intRange (n : Int) : List Int := (List.range n.toNat).map Int.ofNat

/-- The integers hi, hi-1, ..., lo visited by `for (int i = hi; i >= lo; i--)`. -/
def intDownTo (hi lo : Int) : List Int :=
  (List.range (hi - lo + 1).toNat).map (fun i => hi - Int.ofNat i)

/-- Element `v[i]` of a vector; an index outside the vector, which the source
leaves undefined, reads 0. -/
def readAt (v : List Nat) (i : Int) : Nat := if i < 0 then 0 else v.getD i.toNat 0

/-- The target-size computation of `startPNGImport`: fit the box keeping the
aspect ratio, then raise each side to at least 1. `pngAspect` is a `float`; in
`targetWidth / pngAspect` and `targetHeight * pngAspect` the `int` operand is
converted to `float` and the operation is carried out in `float`. -/
def targetSize (pngWidth pngHeight targetWidth targetHeight : Int) : Int × Int :=
  let pngAspect : Rat := roundF32 (roundF32 (pngWidth : Rat) / roundF32 (pngHeight : Rat))
  let a : Int × Int :=
    if pngWidth > pngHeight then
      let actualHeight := truncRat (roundF32 (roundF32 (targetWidth : Rat) / pngAspect))
      if actualHeight > targetHeight then
        (truncRat (roundF32 (roundF32 (targetHeight : Rat) * pngAspect)), targetHeight)
      else (targetWidth, actualHeight)
    else
      let actualWidth := truncRat (roundF32 (roundF32 (targetHeight : Rat) * pngAspect))
      if actualWidth > targetWidth then
        (targetWidth, truncRat (roundF32 (roundF32 (targetWidth : Rat) / pngAspect)))
      else (actualWidth, targetHeight)
  (if a.1 < 1 then 1 else a.1, if a.2 < 1 then 1 else a.2)

/-- The loop `for (i = 0; i < size; i += 4)` that keeps the high four bits of
R, G and B and leaves alpha. -/
def quantizeLoop : List Nat → List Nat
  | r :: g :: b :: a :: rest => (r / 16 * 16) :: (g / 16 * 16) :: (b / 16 * 16) :: a
      :: quantizeLoop rest
  | [r, g, b] => [r / 16 * 16, g / 16 * 16, b / 16 * 16]
  | [r, g] => [r / 16 * 16, g / 16 * 16]
  | [r] => [r / 16 * 16]
  | [] => []

/-- The loop that turns every pixel whose R, G, B equal the background colour
into transparent black. -/
def keyLoop (bgR bgG bgB : Nat) : List Nat → List Nat
  | r :: g :: b :: a :: rest =>
      if r = bgR ∧ g = bgG ∧ b = bgB then 0 :: 0 :: 0 :: 0 :: keyLoop bgR bgG bgB rest
      else r :: g :: b :: a :: keyLoop bgR bgG bgB rest
  | tail => tail

/-- Step B of the resample: quantize a copy of the source, take the top-left
pixel as background and key it out. -/
def keyedSource (data : List Nat) : List Nat :=
  let quantizedSource := quantizeLoop data
  keyLoop (readAt quantizedSource 0) (readAt quantizedSource 1) (readAt quantizedSource 2)
    quantizedSource

/-- The test `quantizedSource[offset+3] != 0` for pixel (x, y) of an image of
width `W`. -/
def hasAlpha (q : List Nat) (W x y : Int) : Bool :=
  readAt q ((y * W + x) * 4 + 3) != 0

/-- The inner loop over y: does column `x` hold a non-transparent pixel. -/
def columnHasContent (q : List Nat) (W H x : Int) : Bool :=
  (intRange H).any (fun y => hasAlpha q W x y)

/-- The inner loop over x: does row `y` hold a non-transparent pixel. -/
def rowHasContent (q : List Nat) (W y : Int) : Bool :=
  (intRange W).any (fun x => hasAlpha q W x y)

/-- Step C of the resample, the four border searches: (cropLeft, cropRight,
cropTop, cropBottom), each keeping its initial value when its loop finds
nothing. -/
def cropBounds (q : List Nat) (W H : Int) : Int × Int × Int × Int :=
  let cropLeft := ((intRange W).find? (fun x => columnHasContent q W H x)).getD 0
  let cropRight := ((intDownTo (W - 1) cropLeft).find? (fun x => columnHasContent q W H x)).getD
    (W - 1)
  let cropTop := ((intRange H).find? (fun y => rowHasContent q W y)).getD 0
  let cropBottom := ((intDownTo (H - 1) cropTop).find? (fun y => rowHasContent q W y)).getD
    (H - 1)
  (cropLeft, cropRight, cropTop, cropBottom)

/-- The copy loops shared by the crop step and by `trimPNGImport`: a vector of
`w * h * 4` bytes that receives, for each (x, y), the four bytes of source pixel
(left + x, top + y) of an image of width `W`. -/
def copyRect (src : List Nat) (W left top w h : Int) : List Nat :=
  (intRange h).flatMap (fun y =>
    (intRange w).flatMap (fun x =>
      let srcOffset := ((top + y) * W + (left + x)) * 4
      [readAt src (srcOffset + 0), readAt src (srcOffset + 1), readAt src (srcOffset + 2),
        readAt src (srcOffset + 3)]))

/-- Steps B and C of the resample: the cropped image with its width and
height. -/
def croppedSource (data : List Nat) (W H : Int) : List Nat × Int × Int :=
  let quantizedSource := keyedSource data
  let c := cropBounds quantizedSource W H
  let croppedWidth := c.2.1 - c.1 + 1
  let croppedHeight := c.2.2.2 - c.2.2.1 + 1
  (copyRect quantizedSource W c.1 c.2.2.1 croppedWidth croppedHeight, croppedWidth,
    croppedHeight)

/-- Step F of the resample: entries 0 and 1, then the 14 extracted colours with
alpha 255, grey where there is none. -/
def SpriteData.buildImportPalette (sd : SpriteData) (extractedColors : List Color) :
    SpriteData :=
  let sd1 := sd.setPaletteColor 0 0 0 0 0
  let sd2 := sd1.setPaletteColor 1 0 0 0 255
  (List.range 14).foldl
    (fun acc i =>
      if i < extractedColors.length then
        acc.setPaletteColor ((i : Int) + 2) (extractedColors.getD i ⟨0, 0, 0, 255⟩).r
          (extractedColors.getD i ⟨0, 0, 0, 255⟩).g (extractedColors.getD i ⟨0, 0, 0, 255⟩).b 255
      else acc.setPaletteColor ((i : Int) + 2) 128 128 128 255) sd2

/-- Step G of the resample, first part: force the canvas size to the target
size. -/
def SpriteData.syncDimensions (sd : SpriteData) : SpriteData :=
  if sd.m_width ≠ sd.m_pngTargetWidth ∨ sd.m_height ≠ sd.m_pngTargetHeight then
    { sd with m_width := sd.m_pngTargetWidth, m_height := sd.m_pngTargetHeight }
  else sd

/-- The body of the pixel loops of step G for pixel (x, y). The store is that of
`setPixel`, at offset `y * m_width + x` of `m_pixels`: inside the array when the
target lies inside it (`SpriteData.targetInArray`); for a larger target the
program stores past the array, on the palette and the session members, which
this function does not show. -/
def SpriteData.mapImportPixel (sd : SpriteData) (env : PngEnv) (quantizedRGBA : List Nat)
    (extractedColors : List Color) (x y : Int) : SpriteData :=
  let linearIdx := y * sd.m_width + x
  let offset := linearIdx * 4
  let pixel : Color := ⟨readAt quantizedRGBA (offset + 0), readAt quantizedRGBA (offset + 1),
    readAt quantizedRGBA (offset + 2), readAt quantizedRGBA (offset + 3)⟩
  let paletteIdx := env.findClosestColor pixel extractedColors
  sd.setPixel x y (toU8 paletteIdx)

/-- Step G of the resample, second part: the loops over y and x. -/
def SpriteData.mapImportPixels (sd : SpriteData) (env : PngEnv) (quantizedRGBA : List Nat)
    (extractedColors : List Color) : SpriteData :=
  (intRange sd.m_height).foldl
    (fun acc y =>
      (intRange sd.m_width).foldl
        (fun acc2 x => acc2.mapImportPixel env quantizedRGBA extractedColors x y) acc) sd

/-- `SpriteData::resamplePNGAtOffset`: the returned flag and the object after
the call. It is the program's result for a target inside the pixel array
(`SpriteData.targetInArray`), see `SpriteData.mapImportPixel`. -/
def SpriteData.resamplePNGAtOffset (sd : SpriteData) (env : PngEnv) : Bool × SpriteData :=
  if !sd.m_hasPendingImport || sd.m_importedPNGData.isEmpty then (false, sd)
  else
    let c := croppedSource sd.m_importedPNGData sd.m_importedPNGWidth sd.m_importedPNGHeight
    match env.resizePNG c.1 c.2.1 c.2.2 0 0 sd.m_pngTargetWidth sd.m_pngTargetHeight with
    | none => (false, sd)
    | some resizedRGBA =>
      let quantizedRGBA := quantizeLoop resizedRGBA
      let extractedColors := env.extractPalette quantizedRGBA
        (sd.m_pngTargetWidth * sd.m_pngTargetHeight) 14
      let sd1 := sd.buildImportPalette extractedColors
      let sd2 := sd1.syncDimensions
      (true, sd2.mapImportPixels env quantizedRGBA extractedColors)

/-- `SpriteData::startPNGImport`; `png` is what `loadPNGFile` delivers: nothing
on failure, otherwise the RGBA bytes, the width and the height. -/
def SpriteData.startPNGImport (sd : SpriteData) (env : PngEnv)
    (png : Option (List Nat × Int × Int)) (targetWidth targetHeight : Int) :
    Bool × SpriteData :=
  match png with
  | none => (false, sd)
  | some (rgba, pngWidth, pngHeight) =>
    let actual := targetSize pngWidth pngHeight targetWidth targetHeight
    let sd1 : SpriteData :=
      { sd with m_importedPNGData := rgba, m_importedPNGWidth := pngWidth,
                m_importedPNGHeight := pngHeight, m_pngOffsetX := 0, m_pngOffsetY := 0,
                m_hasPendingImport := true, m_pngTargetWidth := actual.1,
                m_pngTargetHeight := actual.2 }
    (sd1.resize actual.1 actual.2).resamplePNGAtOffset env

/-- The offset update of `shiftPNGImportOffset` along one axis: scale the
delta, add it, clamp to 0..max(0, sourceDim - targetDim). The scale is a
`float`, and so is its product with the delta. -/
def shiftedOffset (offset sourceDim targetDim d : Int) : Int :=
  let scale : Rat := roundF32 (roundF32 (sourceDim : Rat) / roundF32 (targetDim : Rat))
  let pngD := truncRat (roundF32 (roundF32 (d : Rat) * scale))
  let off := offset + pngD
  let maxOffset0 := sourceDim - targetDim
  let maxOffset := if maxOffset0 < 0 then 0 else maxOffset0
  let off1 := if off < 0 then 0 else off
  if off1 > maxOffset then maxOffset else off1

/-- `SpriteData::shiftPNGImportOffset`. -/
def SpriteData.shiftPNGImportOffset (sd : SpriteData) (env : PngEnv) (dx dy : Int) :
    SpriteData :=
  if !sd.m_hasPendingImport then sd
  else
    let offX := shiftedOffset sd.m_pngOffsetX sd.m_importedPNGWidth sd.m_pngTargetWidth dx
    let offY := shiftedOffset sd.m_pngOffsetY sd.m_importedPNGHeight sd.m_pngTargetHeight dy
    let sd1 : SpriteData := { sd with m_pngOffsetX := offX, m_pngOffsetY := offY }
    (sd1.resamplePNGAtOffset env).2

/-- `SpriteData::trimPNGImport`. -/
def SpriteData.trimPNGImport (sd : SpriteData) (env : PngEnv) (left right top bottom : Int) :
    SpriteData :=
  if !sd.m_hasPendingImport then sd
  else
    let newWidth := sd.m_importedPNGWidth - left - right
    let newHeight := sd.m_importedPNGHeight - top - bottom
    if newWidth < 1 ∨ newHeight < 1 then sd
    else
      let trimmedRGBA := copyRect sd.m_importedPNGData sd.m_importedPNGWidth left top newWidth
        newHeight
      let sd1 : SpriteData :=
        { sd with m_importedPNGData := trimmedRGBA, m_importedPNGWidth := newWidth,
                  m_importedPNGHeight := newHeight }
      (sd1.resamplePNGAtOffset env).2

/-- The eight assignments shared by `commitPNGImport` and `cancelPNGImport`. -/
def SpriteData.clearImport (sd : SpriteData) : SpriteData :=
  { sd with m_importedPNGData := [], m_importedPNGWidth := 0, m_importedPNGHeight := 0,
            m_pngOffsetX := 0, m_pngOffsetY := 0, m_pngTargetWidth := 0,
            m_pngTargetHeight := 0, m_hasPendingImport := false }

/-- `SpriteData::commitPNGImport`. -/
def SpriteData.commitPNGImport (sd : SpriteData) : SpriteData := sd.clearImport

/-- `SpriteData::cancelPNGImport`. -/
def SpriteData.cancelPNGImport (sd : SpriteData) : SpriteData := sd.clearImport.clear

/-- `SpriteData::hasPendingPNGImport`. -/
def SpriteData.hasPendingPNGImport (sd : SpriteData) : Bool := sd.m_hasPendingImport

/-! ## Standard palette library: accessors, enumeration and binary loading -/

/-- `StandardPaletteLibrary::getPaletteName`: the stored name, or the null
pointer. -/
def getPaletteName (s_data : Option LibraryData) (paletteID : Nat) : Option String :=
  match s_data with
  | none => none
  | some d =>
    if !d.initialized || decide (paletteID ≥ STANDARD_PALETTE_COUNT) then none
    else some (d.names paletteID)

/-- `StandardPaletteLibrary::getPaletteDescription`. -/
def getPaletteDescription (s_data : Option LibraryData) (paletteID : Nat) : Option String :=
  match s_data with
  | none => none
  | some d =>
    if !d.initialized || decide (paletteID ≥ STANDARD_PALETTE_COUNT) then none
    else some (d.descriptions paletteID)

/-- `StandardPaletteLibrary::getPaletteCategory`: the string held in
`categories[paletteID]`, or the null pointer. -/
def getPaletteCategory (s_data : Option LibraryData) (paletteID : Nat) : Option String :=
  match s_data with
  | none => none
  | some d =>
    if !d.initialized || decide (paletteID ≥ STANDARD_PALETTE_COUNT) then none
    else some (d.categories paletteID)

/-- `StandardPaletteLibrary::getPaletteInfo`: the record `info[paletteID]`, or
the null pointer. -/
def getPaletteInfo (s_data : Option LibraryData) (paletteID : Nat) :
    Option StandardPaletteInfo :=
  match s_data with
  | none => none
  | some d =>
    if !d.initialized || decide (paletteID ≥ STANDARD_PALETTE_COUNT) then none
    else some (d.info paletteID)

/-- `StandardPaletteLibrary::copyPalette`: success flag and the output array
after the call. -/
def copyPalette (s_data : Option LibraryData) (paletteID : Nat)
    (outColors : Nat → PaletteColor) : Bool × (Nat → PaletteColor) :=
  match getPalette s_data paletteID with
  | none => (false, outColors)
  | some palette =>
    (true, (List.range STANDARD_PALETTE_COLORS).foldl
      (fun out i => fun k => if k = i then palette i else out k) outColors)

/-- `StandardPaletteLibrary::getPalettesByCategory`: the returned count and the
output array after the call; `none` is a null `category` or `outIDs`. The loop
stops storing once `count` has reached `maxIDs`. -/
def getPalettesByCategory (s_data : Option LibraryData) (category : Option String)
    (outIDs : Option (Nat → Nat)) (maxIDs : Int) : Int × Option (Nat → Nat) :=
  match s_data, category, outIDs with
  | some d, some cat, some out =>
    if !d.initialized || decide (maxIDs ≤ 0) then (0, outIDs)
    else
      let r := (List.range STANDARD_PALETTE_COUNT).foldl
        (fun (st : Int × (Nat → Nat)) i =>
          if st.1 < maxIDs ∧ d.categories i = cat then (st.1 + 1, poke st.2 st.1.toNat i)
          else st) (0, out)
      (r.1, some r.2)
  | _, _, _ => (0, outIDs)

/-- `StandardPaletteLibrary::setError` on an existing library object. -/
def LibraryData.setError (d : LibraryData) (error : String) : LibraryData :=
  { d with lastError := error }

/-- The constructor `LibraryData()`: the `info` records are reset, the strings
are empty, `initialized` is false; `junk` is the content the palette array
starts with. -/
def LibraryData.new (junk : Nat → Nat → PaletteColor) : LibraryData :=
  { palettes := junk,
    info := fun i => ⟨i, "", "", ""⟩,
    names := fun _ => "", descriptions := fun _ => "", categories := fun _ => "",
    initialized := false, lastError := "" }

/-- The assignment of the four members of `palettes[pid][cid]`. -/
def LibraryData.setColor (d : LibraryData) (pid cid : Nat) (c : PaletteColor) : LibraryData :=
  { d with palettes := fun p k => if p = pid ∧ k = cid then c else d.palettes p k }

/-- The slots (pid, cid) in the order in which the nested loops of
`parseBinary` visit them. -/
def paletteSlots : List (Nat × Nat) :=
  (List.range STANDARD_PALETTE_COUNT).flatMap
    (fun pid => (List.range STANDARD_PALETTE_COLORS).map (fun cid => (pid, cid)))

/-- The nested loops of `parseBinary` over the slots still to visit: read four
bytes; on a failed read set the error and return false; otherwise store the
colour and go on. -/
def readPaletteSlots (d : LibraryData) (s : IStream) :
    List (Nat × Nat) → Bool × IStream × LibraryData
  | [] => (true, s, d)
  | (pid, cid) :: rest =>
    if !(s.read 4).1.good then
      (false, (s.read 4).1, d.setError "Binary: Unexpected end of file")
    else
      readPaletteSlots
        (d.setColor pid cid ⟨(s.read 4).2.getD 0 0, (s.read 4).2.getD 1 0,
          (s.read 4).2.getD 2 0, (s.read 4).2.getD 3 0⟩)
        (s.read 4).1 rest

/-- The table `categoryNames` of `parseBinary`. -/
def categoryNames (i : Nat) : String :=
  if i = 0 then "retro" else if i = 1 then "biome" else if i = 2 then "themed" else "utility"

/-- The metadata loop of `parseBinary`: it assigns the four members of
`info[i]` for i in 0..31. -/
def defaultMetadata (d : LibraryData) : LibraryData :=
  (List.range STANDARD_PALETTE_COUNT).foldl
    (fun acc i =>
      { acc with info := fun k =>
          if k = i then ⟨i, "Standard Palette", "Binary loaded palette", categoryNames (i / 8)⟩
          else acc.info k }) d

/-- `StandardPaletteLibrary::parseBinary` on the library object and the open
stream: the returned flag and the library object after the call. -/
def parseBinary (d : LibraryData) (file : IStream) : Bool × LibraryData :=
  let r := readPaletteSlots d file paletteSlots
  if !r.1 then (false, r.2.2) else (true, defaultMetadata r.2.2)

/-- `StandardPaletteLibrary::initializeFromBinary`: the returned flag and the
library object after the call. `s_data` is the static pointer before the call;
when it is null the object is created first. -/
def initializeFromBinary (s_data : Option LibraryData) (junk : Nat → Nat → PaletteColor)
    (palPath : String) (file : Option (List Nat)) : Bool × LibraryData :=
  let d0 := match s_data with
    | none => LibraryData.new junk
    | some d => d
  match file with
  | none => (false, d0.setError ("Failed to open binary file: " ++ palPath))
  | some bytes =>
    let r := parseBinary d0 (IStream.ofFile bytes)
    if !r.1 then (false, r.2) else (true, { r.2 with initialized := true })

/-! ## The colour quantizer -/

/-- `ColorEntry` of PNGConverter.h: a colour of the histogram and its count. -/
structure ColorEntry where
  color : Color
  count : Int
  deriving DecidableEq, Repr

/-- Pixel `i` of an RGBA buffer. -/
def pixelAt (rgba : List Nat) (i : Nat) : Color :=
  ⟨rgba.getD (4 * i) 0, rgba.getD (4 * i + 1) 0, rgba.getD (4 * i + 2) 0,
    rgba.getD (4 * i + 3) 0⟩

/-- One pixel more in a histogram: the count of its colour grows, or the colour
is added at the end with count 1. -/
def addToHistogram : List ColorEntry → Color → List ColorEntry
  | [], c => [⟨c, 1⟩]
  | e :: rest, c =>
    if e.color = c then ⟨e.color, e.count + 1⟩ :: rest else e :: addToHistogram rest c

/-- Modelled from the spec: `PNGConverter::buildHistogram`, declared in
PNGConverter.h with its code outside the sources at hand; the spec has "builds
a histogram (distinct colors → counts)". The colours of the first `pixelCount`
pixels, in order of first appearance. -/
def buildHistogram (rgba : List Nat) (pixelCount : Int) : List ColorEntry :=
  (List.range pixelCount.toNat).foldl (fun h i => addToHistogram h (pixelAt rgba i)) []

/-- The value range of one channel over a bucket. -/
def channelRange (channel : Color → Nat) (colors : List ColorEntry) : Nat :=
  (colors.map (fun e => channel e.color)).foldl max 0
    - (colors.map (fun e => channel e.color)).foldl min 255

/-- Modelled from the spec: "find the channel (R, G, or B) with the greatest
value range across the bucket's colors"; R before G before B on equal
ranges. -/
def widestChannel (colors : List ColorEntry) : Color → Nat :=
  if channelRange (fun c => c.r) colors ≥ channelRange (fun c => c.g) colors ∧
      channelRange (fun c => c.r) colors ≥ channelRange (fun c => c.b) colors then
    fun c => c.r
  else if channelRange (fun c => c.g) colors ≥ channelRange (fun c => c.b) colors then
    fun c => c.g
  else fun c => c.b

/-- The number of entries of the shortest prefix that holds at least half of
the total count `total`, `acc` being the count before the list. -/
def prefixToHalf (total : Int) : List ColorEntry → Int → Nat
  | [], _ => 0
  | e :: rest, acc =>
    if 2 * (acc + e.count) ≥ total then 1 else 1 + prefixToHalf total rest (acc + e.count)

/-- Modelled from the spec: "split at the count-weighted median so each half
represents roughly equal total pixel weight": the split position in a sorted
bucket, at least 1 and at most the length less 1. -/
def medianIndex (sorted : List ColorEntry) : Nat :=
  max 1 (min (prefixToHalf ((sorted.map (fun e => e.count)).sum) sorted 0) (sorted.length - 1))

/-- Modelled from the spec: `PNGConverter::getRepresentativeColor`, declared in
PNGConverter.h with its code outside the sources at hand; the spec has "each
leaf's representative color is the (weighted) average of its members". -/
def getRepresentativeColor (colors : List ColorEntry) : Color :=
  let total := (colors.map (fun e => e.count)).sum
  let avg := fun (channel : Color → Nat) =>
    ((colors.map (fun e => (channel e.color : Int) * e.count)).sum / total).toNat
  ⟨avg (fun c => c.r), avg (fun c => c.g), avg (fun c => c.b), avg (fun c => c.a)⟩

/-- Modelled from the spec: `PNGConverter::medianCut`, declared in
PNGConverter.h with its code outside the sources at hand; the spec has
"recursively splits the histogram into buckets by median cut: at each node,
find the channel with the greatest value range, sort by that channel, and split
at the count-weighted median; a bucket that cannot be split further (fewer than
2 distinct colors) yields a leaf early", one representative per leaf. `depth` is
the number of levels still allowed. -/
def medianCut : Nat → List ColorEntry → List Color
  | _, [] => []
  | 0, e :: rest => [getRepresentativeColor (e :: rest)]
  | depth + 1, e :: rest =>
    if (e :: rest).length < 2 then [getRepresentativeColor (e :: rest)]
    else
      let sorted := (e :: rest).insertionSort
        (fun a b => widestChannel (e :: rest) a.color ≤ widestChannel (e :: rest) b.color)
      medianCut depth (sorted.take (medianIndex sorted))
        ++ medianCut depth (sorted.drop (medianIndex sorted))

/-- Modelled from the spec: `PNGConverter::extractPalette`, declared in
PNGConverter.h with its code outside the sources at hand; the spec has "builds
a histogram, recursively splits it by median cut; recursion depth is
⌈log2(K)⌉; each leaf's representative color is the average of its members.
Output: an ordered list of ≤K colors; if the histogram has fewer distinct colors
than K, the list is correspondingly shorter". A median cut of depth ⌈log2(K)⌉
can leave more than K leaves (16 for K = 14); the output keeps the first K
representatives in leaf order. -/
def extractPalette (rgba : List Nat) (pixelCount numColors : Int) : List Color :=
  (medianCut (Nat.clog 2 numColors.toNat) (buildHistogram rgba pixelCount)).take
    numColors.toNat

/-! ## JSON loading of the palette library -/

/-- The bytes of a string literal of the source (ASCII). -/
def bytesOf (s : String) : List Nat := s.toList.map Char.toNat

/-- The `std::string` held in a byte sequence, as a Lean string. -/
def textOf (bytes : List Nat) : String := String.mk (bytes.map Char.ofNat)

/-- The search of `std::string::find` in a suffix whose first byte has index
`pos`. -/
def findIn (pat : List Nat) : List Nat → Nat → Option Nat
  | [], pos => if pat.isEmpty then some pos else none
  | c :: rest, pos =>
    if pat.isPrefixOf (c :: rest) then some pos else findIn pat rest (pos + 1)

/-- The call `json.find(pat, start)`: the first position at or after `start`
where `pat` occurs; `none` is `std::string::npos`. -/
def strFind (json pat : List Nat) (start : Nat) : Option Nat :=
  if pat.isEmpty && decide (start > json.length) then none
  else findIn pat (json.drop start) start

/-- The key as it is searched for: `"\"" + key + "\""`. -/
def quoted (key : String) : List Nat := [34] ++ bytesOf key ++ [34]

/-- `extractStringValue`: the text between the first two quotes after the
first colon after the key; empty when a search fails. -/
def extractStringValue (json : List Nat) (key : String) (start : Nat) : List Nat :=
  match strFind json (quoted key) start with
  | none => []
  | some keyPos =>
    match strFind json [58] keyPos with
    | none => []
    | some colonPos =>
      match strFind json [34] colonPos with
      | none => []
      | some quoteStart =>
        match strFind json [34] (quoteStart + 1) with
        | none => []
        | some quoteEnd => (json.drop (quoteStart + 1)).take (quoteEnd - quoteStart - 1)

/-- The test `isdigit(c) || c == '-'` of `extractIntValue`. -/
def isNumberByte (c : Nat) : Bool := (decide (48 ≤ c) && decide (c ≤ 57)) || c == 45

/-- The test `c == ' ' || c == '\t' || c == '\n'` of `extractIntValue`. -/
def isBlankByte (c : Nat) : Bool := c == 32 || c == 9 || c == 10

/-- `std::stoi` on a non-empty text made of digits and minus signs: an optional
minus sign and the digits that follow; `none` when it throws (no digit, or a
value outside `int`). -/
def stoi (numStr : List Nat) : Option Int :=
  let negative := numStr.head? == some 45
  let body := if negative then numStr.tail else numStr
  let digits := body.takeWhile (fun c => decide (48 ≤ c) && decide (c ≤ 57))
  if digits.isEmpty then none
  else
    let magnitude : Int := digits.foldl (fun acc c => acc * 10 + ((c : Int) - 48)) 0
    let value := if negative then -magnitude else magnitude
    if value < -2147483648 ∨ value > 2147483647 then none else some value

/-- `extractIntValue`: the integer after the first colon after the key, 0 when
a search fails or no number follows; `none` when `std::stoi` throws. -/
def extractIntValue (json : List Nat) (key : String) (start : Nat) : Option Int :=
  match strFind json (quoted key) start with
  | none => some 0
  | some keyPos =>
    match strFind json [58] keyPos with
    | none => some 0
    | some colonPos =>
      let numStr := (((json.drop (colonPos + 1)).dropWhile isBlankByte).takeWhile isNumberByte)
      if numStr.isEmpty then some 0 else stoi numStr

/-- The brace-matching loop `while (objEnd < json.size() && braceDepth > 0)` on
the bytes from `objEnd` on: the final `objEnd` and `braceDepth`. -/
def matchBrace : List Nat → Int → Nat → Nat × Int
  | [], braceDepth, objEnd => (objEnd, braceDepth)
  | c :: rest, braceDepth, objEnd =>
    if braceDepth > 0 then
      matchBrace rest
        (if c = 123 then braceDepth + 1 else if c = 125 then braceDepth - 1 else braceDepth)
        (objEnd + 1)
    else (objEnd, braceDepth)

/-- The colour loop of `parseJSON` with `fuel` rounds left before `colorIndex`
reaches 16: the final `colorIndex` and library object; `none` when `std::stoi`
throws. -/
def parseColorLoop (json : List Nat) (objEnd : Nat) (id : Nat) :
    Nat → Nat → Nat → LibraryData → Option (Nat × LibraryData)
  | 0, _, colorIndex, d => some (colorIndex, d)
  | fuel + 1, colorPos, colorIndex, d =>
    match strFind json [123] colorPos with
    | none => some (colorIndex, d)
    | some colorObjStart =>
      if colorObjStart > objEnd then some (colorIndex, d)
      else
        match extractIntValue json "r" colorObjStart, extractIntValue json "g" colorObjStart,
          extractIntValue json "b" colorObjStart, extractIntValue json "a" colorObjStart with
        | some r, some g, some b, some a =>
          parseColorLoop json objEnd id fuel
            (matchBrace (json.drop (colorObjStart + 1)) 1 (colorObjStart + 1)).1
            (colorIndex + 1)
            (d.setColor id colorIndex ⟨toU8 r, toU8 g, toU8 b, if a = 0 then 255 else toU8 a⟩)
        | _, _, _, _ => none

/-- What one round of the palette loop of `parseJSON` does. -/
inductive PaletteStep where
  | stop (d : LibraryData)
  | fail (d : LibraryData)
  | next (d : LibraryData) (pos : Nat)
  | throw

/-- The assignments to `names[id]`, `descriptions[id]`, `categories[id]` and
`info[id]`. -/
def LibraryData.setMetadata (d : LibraryData) (id : Nat) (name description category : String) :
    LibraryData :=
  { d with
    names := fun k => if k = id then name else d.names k
    descriptions := fun k => if k = id then description else d.descriptions k
    categories := fun k => if k = id then category else d.categories k
    info := fun k => if k = id then ⟨id, name, description, category⟩ else d.info k }

/-- The part of a round of the palette loop after the metadata: find the
colours, run the colour loop, check the count; the flag is false after a
`return false`. -/
def parseColorsOf (json : List Nat) (objStart objEnd id : Nat) (d : LibraryData) :
    Option (Bool × LibraryData) :=
  match strFind json (quoted "colors") objStart with
  | none =>
    some (false, d.setError ("JSON: \x27colors\x27 not found for palette " ++ toString id))
  | some colorsPos =>
    if colorsPos > objEnd then
      some (false, d.setError ("JSON: \x27colors\x27 not found for palette " ++ toString id))
    else
      match strFind json [91] colorsPos with
      | none =>
        some (false, d.setError ("JSON: colors array not found for palette " ++ toString id))
      | some colorsArrayStart =>
        if colorsArrayStart > objEnd then
          some (false,
            d.setError ("JSON: colors array not found for palette " ++ toString id))
        else
          match parseColorLoop json objEnd id 16 (colorsArrayStart + 1) 0 d with
          | none => none
          | some (colorIndex, d1) =>
            if colorIndex ≠ 16 then
              some (false, d1.setError ("JSON: Expected 16 colors for palette "
                ++ toString id ++ ", got " ++ toString colorIndex))
            else some (true, d1)

/-- The body of the palette loop of `parseJSON` at position `pos`: `stop` is
the `break` (no further object), `fail` a `return false` after `setError`,
`next` the end of the round with the new `pos`, `throw` an exception of
`std::stoi`. -/
def parsePaletteObject (json : List Nat) (pos : Nat) (d : LibraryData) : PaletteStep :=
  match strFind json [123] pos with
  | none => PaletteStep.stop d
  | some objStart =>
    if (matchBrace (json.drop (objStart + 1)) 1 (objStart + 1)).2 ≠ 0 then
      PaletteStep.fail (d.setError "JSON: Unmatched braces in palette object")
    else
      match extractIntValue json "id" objStart with
      | none => PaletteStep.throw
      | some id =>
        if id < 0 ∨ id ≥ 32 then
          PaletteStep.fail (d.setError ("JSON: Invalid palette ID: " ++ toString id))
        else
          match parseColorsOf json objStart
            (matchBrace (json.drop (objStart + 1)) 1 (objStart + 1)).1 id.toNat
            (d.setMetadata id.toNat (textOf (extractStringValue json "name" objStart))
              (textOf (extractStringValue json "description" objStart))
              (textOf (extractStringValue json "category" objStart))) with
          | none => PaletteStep.throw
          | some (false, d1) => PaletteStep.fail d1
          | some (true, d1) =>
            PaletteStep.next d1 (matchBrace (json.drop (objStart + 1)) 1 (objStart + 1)).1

/-- The palette loop of `parseJSON` with `fuel` rounds left before
`paletteIndex` reaches 32, and the check that follows it: the returned flag and
the library object; `none` when `std::stoi` throws. -/
def parsePaletteLoop (json : List Nat) :
    Nat → Nat → Nat → LibraryData → Option (Bool × LibraryData)
  | 0, _, paletteIndex, d =>
    if paletteIndex ≠ 32 then
      some (false, d.setError ("JSON: Expected 32 palettes, parsed " ++ toString paletteIndex))
    else some (true, d)
  | fuel + 1, pos, paletteIndex, d =>
    match parsePaletteObject json pos d with
    | PaletteStep.stop d1 =>
      if paletteIndex ≠ 32 then
        some (false,
          d1.setError ("JSON: Expected 32 palettes, parsed " ++ toString paletteIndex))
      else some (true, d1)
    | PaletteStep.fail d1 => some (false, d1)
    | PaletteStep.next d1 pos1 => parsePaletteLoop json fuel pos1 (paletteIndex + 1) d1
    | PaletteStep.throw => none

/-- `StandardPaletteLibrary::parseJSON`: the returned flag and the library
object after the call; `none` when `std::stoi` throws. -/
def parseJSON (json : List Nat) (d : LibraryData) : Option (Bool × LibraryData) :=
  match strFind json (quoted "palettes") 0 with
  | none => some (false, d.setError "JSON: \x27palettes\x27 key not found")
  | some palettesPos =>
    match strFind json [91] palettesPos with
    | none => some (false, d.setError "JSON: palettes array not found")
    | some arrayStart => parsePaletteLoop json 32 (arrayStart + 1) 0 d

/-- `StandardPaletteLibrary::initializeFromJSON`: the returned flag and the
library object after the call; `none` when `std::stoi` throws. -/
def initializeFromJSON (s_data : Option LibraryData) (junk : Nat → Nat → PaletteColor)
    (jsonPath : String) (file : Option (List Nat)) : Option (Bool × LibraryData) :=
  let d0 := match s_data with
    | none => LibraryData.new junk
    | some d => d
  match file with
  | none => some (false, d0.setError ("Failed to open JSON file: " ++ jsonPath))
  | some json =>
    match parseJSON json d0 with
    | none => none
    | some (false, d1) => some (false, d1)
    | some (true, d1) => some (true, { d1 with initialized := true })

/-! ## Auxiliary definitions used in the statements -/

/-- Palette left by the colour loop when the 42 bytes it reads are the R, G, B
of entries 2..15 of `pal`: those entries with alpha 255, the other bytes of the
buffer `p` untouched. -/
def decodedPalette (pal p : Nat → Nat) : Nat → Nat :=
  fun k => if 8 ≤ k ∧ k < 64 then (if k % 4 = 3 then 255 else pal k) else p k

/-- The 64 bytes `copyPaletteRGBA` stores for palette `pal`, over buffer `out`. -/
def libraryRGBA (pal : Nat → PaletteColor) (out : Nat → Nat) : Nat → Nat :=
  fun k => if k < 64 then
      (if k % 4 = 0 then (pal (k / 4)).r else if k % 4 = 1 then (pal (k / 4)).g
       else if k % 4 = 2 then (pal (k / 4)).b else (pal (k / 4)).a)
    else out k

/-- The palette a compact container can represent: entry 0 is (0,0,0,0),
entry 1 is (0,0,0,255), entries 2..15 keep r, g, b and get alpha 255. -/
def normalizePalette (p : Nat → Nat) : Nat → Nat :=
  fun k => if k < 7 then 0 else if k = 7 then 255
    else if k < 64 ∧ k % 4 = 3 then 255 else p k

/-- The object with its palette array replaced. -/
def SpriteData.withPalette (sd : SpriteData) (p : Nat → Nat) : SpriteData :=
  { sd with m_palette := p }

/-- The object with its pixel array replaced. -/
def SpriteData.withPixels (sd : SpriteData) (p : Nat → Nat) : SpriteData :=
  { sd with m_pixels := p }

/-- Palette `pid` of the library holds, for each of the 16 colours of the
custom palette, a colour with the same r, g and b. -/
def holdsAllColors (d : LibraryData) (pid : Nat) (customPalette : Nat → PaletteColor) : Prop :=
  ∀ i, i < STANDARD_PALETTE_COLORS → ∃ j, j < STANDARD_PALETTE_COLORS ∧
    (d.palettes pid j).r = (customPalette i).r ∧ (d.palettes pid j).g = (customPalette i).g ∧
    (d.palettes pid j).b = (customPalette i).b

instance (d : LibraryData) (pid : Nat) (customPalette : Nat → PaletteColor) :
    Decidable (holdsAllColors d pid customPalette) := by
  unfold holdsAllColors
  infer_instance

/-- The two objects hold the same import session: source buffer, source
dimensions, offset, target size and pending flag. -/
def SpriteData.sameSession (a b : SpriteData) : Prop :=
  a.m_importedPNGData = b.m_importedPNGData ∧ a.m_importedPNGWidth = b.m_importedPNGWidth ∧
  a.m_importedPNGHeight = b.m_importedPNGHeight ∧ a.m_pngOffsetX = b.m_pngOffsetX ∧
  a.m_pngOffsetY = b.m_pngOffsetY ∧ a.m_pngTargetWidth = b.m_pngTargetWidth ∧
  a.m_pngTargetHeight = b.m_pngTargetHeight ∧ a.m_hasPendingImport = b.m_hasPendingImport

/-- Byte `k` (below 64) of the palette that step F of the resample builds from
the extracted colours: entry 0 = (0,0,0,0), entry 1 = (0,0,0,255), entry i+2 =
the i-th extracted colour with alpha 255, or grey 128 where there is none. -/
def importPaletteByte (extractedColors : List Color) (k : Nat) : Nat :=
  if k < 7 then 0 else if k = 7 then 255
  else if k % 4 = 3 then 255
  else if k / 4 - 2 < extractedColors.length then
    (if k % 4 = 0 then (extractedColors.getD (k / 4 - 2) ⟨0, 0, 0, 255⟩).r
     else if k % 4 = 1 then (extractedColors.getD (k / 4 - 2) ⟨0, 0, 0, 255⟩).g
     else (extractedColors.getD (k / 4 - 2) ⟨0, 0, 0, 255⟩).b)
  else 128

/-- The index that step G of the resample stores for the pixel with linear
index `k`: what `findClosestColor` returns for the four bytes at `4 * k`,
converted to a byte, and replaced by 0 when it is 16 or more. -/
def storedIndex (env : PngEnv) (quantizedRGBA : List Nat) (extractedColors : List Color)
    (k : Nat) : Nat :=
  let v := toU8 (env.findClosestColor
    ⟨readAt quantizedRGBA ((k : Int) * 4 + 0), readAt quantizedRGBA ((k : Int) * 4 + 1),
      readAt quantizedRGBA ((k : Int) * 4 + 2), readAt quantizedRGBA ((k : Int) * 4 + 3)⟩
    extractedColors)
  if (v : Int) ≥ PALETTE_SIZE then 0 else v

/-- The object a successful resample leaves when the resize delivered
`resizedRGBA`: the canvas has the target size, the palette of step F and the
indices of step G; the session members are those of `sd`. -/
def SpriteData.resampled (sd : SpriteData) (env : PngEnv) (resizedRGBA : List Nat) :
    SpriteData :=
  { sd with
    m_width := sd.m_pngTargetWidth
    m_height := sd.m_pngTargetHeight
    m_pixels := fun k =>
      if k < sd.m_pngTargetHeight.toNat * sd.m_pngTargetWidth.toNat then
        storedIndex env (quantizeLoop resizedRGBA)
          (env.extractPalette (quantizeLoop resizedRGBA)
            (sd.m_pngTargetWidth * sd.m_pngTargetHeight) 14) k
      else sd.m_pixels k
    m_palette := fun k =>
      if k < 64 then
        importPaletteByte (env.extractPalette (quantizeLoop resizedRGBA)
          (sd.m_pngTargetWidth * sd.m_pngTargetHeight) 14) k
      else sd.m_palette k }

/-- The library object with its palette array replaced. -/
def LibraryData.withPalettes (d : LibraryData) (p : Nat → Nat → PaletteColor) : LibraryData :=
  { d with palettes := p }

/-- The colour held by the `k`-th group of four bytes of a byte sequence. -/
def colorAt (bytes : List Nat) (k : Nat) : PaletteColor :=
  ⟨bytes.getD (4 * k) 0, bytes.getD (4 * k + 1) 0, bytes.getD (4 * k + 2) 0,
    bytes.getD (4 * k + 3) 0⟩

/-- The palette array in which the `m` slots with linear index (16 * pid + cid)
from `a` on hold the successive four-byte groups of `bytes`, the other slots
being those of `pal`. -/
def overlaySlots (a m : Nat) (bytes : List Nat) (pal : Nat → Nat → PaletteColor) :
    Nat → Nat → PaletteColor :=
  fun p k => if k < 16 ∧ a ≤ 16 * p + k ∧ 16 * p + k < a + m then colorAt bytes (16 * p + k - a)
    else pal p k

/-- Following the claim: the distinct colours of a 16-entry custom palette. -/
def specDistinct (customPalette : Nat → PaletteColor) : List PaletteColor :=
  ((List.range 16).map customPalette).dedup

/-- Following the claim: the minimum `colorDistance` from a colour to one of
the 16 entries of a palette. -/
def specMinDistance (c : PaletteColor) (pal : Nat → PaletteColor) : Int :=
  ((List.range 16).map (fun j => colorDistance c (pal j))).foldl min (colorDistance c (pal 0))

/-- Following the claim: total(p), the sum over the distinct colours of the
minimum distance to an entry of palette p. -/
def specTotal (d : LibraryData) (customPalette : Nat → PaletteColor) (p : Nat) : Int :=
  ((specDistinct customPalette).map (fun c => specMinDistance c (d.palettes p))).sum

/-- Following the claim: exact(p), the number of those minima equal to 0. -/
def specExact (d : LibraryData) (customPalette : Nat → PaletteColor) (p : Nat) : Int :=
  (((specDistinct customPalette).countP
    (fun c => decide (specMinDistance c (d.palettes p) = 0)) : Nat) : Int)

/-- Following the claim: close(p), the number of those minima strictly between
0 and 100. -/
def specClose (d : LibraryData) (customPalette : Nat → PaletteColor) (p : Nat) : Int :=
  (((specDistinct customPalette).countP
    (fun c => decide (0 < specMinDistance c (d.palettes p) ∧
      specMinDistance c (d.palettes p) < 100)) : Nat) : Int)

/-- Following the claim: score(p) = total(p) - 10000*exact(p) - 1000*close(p). -/
def specScore (d : LibraryData) (customPalette : Nat → PaletteColor) (p : Nat) : Int :=
  specTotal d customPalette p - 10000 * specExact d customPalette p
    - 1000 * specClose d customPalette p

/-- Entry `i` of a 64-byte palette as a colour. -/
def paletteEntry (palette : Nat → Nat) (i : Nat) : Color :=
  ⟨palette (4 * i), palette (4 * i + 1), palette (4 * i + 2), palette (4 * i + 3)⟩

/-- The library object after the colour `c` has been stored in the `n` entries
of palette `pid` that start at entry `cid`. -/
def setColors (pid : Nat) (c : PaletteColor) : Nat → Nat → LibraryData → LibraryData
  | 0, _, d => d
  | n + 1, cid, d => setColors pid c n (cid + 1) (d.setColor pid cid c)

/-- The outcome of a round of the palette loop with its position moved `n`
bytes to the right. -/
def PaletteStep.shift (n : Nat) : PaletteStep → PaletteStep
  | PaletteStep.next d pos => PaletteStep.next d (pos + n)
  | s => s

/-- The number of pixels of the import target, `m_pngTargetWidth *
m_pngTargetHeight`: the number of stores of step G of the resample when both
sides are positive, at the offsets 0 .. targetPixels - 1 of `m_pixels`. -/
def SpriteData.targetPixels (sd : SpriteData) : Int :=
  sd.m_pngTargetWidth * sd.m_pngTargetHeight

/-- The target of the import session lies inside the pixel array: both sides
are at least 1 and the target has at most `MAX_SPRITE_PIXELS` pixels, so that
every subscript `y * m_width + x` at which step G of the resample stores is
below the 1600 bytes of `m_pixels`. -/
def SpriteData.targetInArray (sd : SpriteData) : Prop :=
  1 ≤ sd.m_pngTargetWidth ∧ 1 ≤ sd.m_pngTargetHeight ∧
  sd.targetPixels ≤ (MAX_SPRITE_PIXELS : Int)

/-- The two objects hold the same canvas: width, height, pixels and palette. -/
def SpriteData.sameCanvas (a b : SpriteData) : Prop :=
  a.m_width = b.m_width ∧ a.m_height = b.m_height ∧ a.m_pixels = b.m_pixels ∧
  a.m_palette = b.m_palette

/-- The test of the last `if` of `findClosestPalette`, on the values of
`bestTotalDistance` and `numColors`: the average, by the division of `int`, is
below 200, or the total is below 50 times the number of colours. -/
def acceptsMatch (bestTotalDistance numColors : Int) : Prop :=
  (if numColors > 0 then Int.tdiv bestTotalDistance numColors else INT32_MAX) < 200
    ∨ bestTotalDistance < 50 * numColors

instance (bestTotalDistance numColors : Int) :
    Decidable (acceptsMatch bestTotalDistance numColors) := by
  unfold acceptsMatch
  infer_instance

/-- The byte offsets `srcOffset + 0 .. srcOffset + 3` at which the copy loops of
`trimPNGImport` read the source, in the order of the reads. -/
def copyOffsets (W left top w h : Int) : List Int :=
  (intRange h).flatMap (fun y =>
    (intRange w).flatMap (fun x =>
      let srcOffset := ((top + y) * W + (left + x)) * 4
      [srcOffset + 0, srcOffset + 1, srcOffset + 2, srcOffset + 3]))

/-- The colour a pixel has after the first quantization of the resample: r, g
and b rounded down to a multiple of 16, alpha kept. -/
def quantizedPixel (p : Color) : Color :=
  ⟨p.r / 16 * 16, p.g / 16 * 16, p.b / 16 * 16, p.a⟩

/-- The pixel and the top-left pixel have the same 4-bit r, g and b. -/
def sameKey (p bg : Color) : Prop :=
  p.r / 16 = bg.r / 16 ∧ p.g / 16 = bg.g / 16 ∧ p.b / 16 = bg.b / 16

instance (p bg : Color) : Decidable (sameKey p bg) := by
  unfold sameKey
  infer_instance

/-- Pixel (x, y) of an image of width `W` has an alpha other than 0, (x, y)
being inside the image of height `H`. -/
def opaqueAt (q : List Nat) (W H x y : Int) : Prop :=
  0 ≤ x ∧ x < W ∧ 0 ≤ y ∧ y < H ∧ hasAlpha q W x y = true

/-! ## Concrete inputs used to instantiate the theorems -/

/-- Locals whose initial content is the byte 170 everywhere. -/
def sampleLocals : Locals :=
  { magic := fun _ => 170, version := fun _ => 170, w := fun _ => 170, h := fun _ => 170,
    uncompressedSize := fun _ => 170, compressedSize := fun _ => 170,
    paletteMode := fun _ => 170, rgb := fun _ _ => 170 }

/-- Output parameters before a call: 3x3, buffers filled with the byte 9. -/
def sampleOut : SprtzOut :=
  { outWidth := 3, outHeight := 3, outPixels := fun _ => 9, outPalette := fun _ => 9 }

/-- A pixel buffer cycling through the indices 0..15. -/
def samplePixels : Nat → Nat := fun i => i % 16

/-- A palette whose entries 0 and 1 are not the fixed blacks and whose alphas
are not 255. -/
def samplePalette : Nat → Nat := fun k => (k * 7 + 1) % 256

/-- An initialized library in which colour `c` of palette `p` is
(p, c, p + c, 200). -/
def sampleLibrary : LibraryData :=
  { palettes := fun p c => ⟨p, c, p + c, 200⟩,
    info := fun i => ⟨i, "", "", ""⟩,
    names := fun _ => "", descriptions := fun _ => "", categories := fun _ => "",
    initialized := true, lastError := "" }

/-- Locals of the sprite and palette loaders whose initial content is the byte
170 everywhere. -/
def sampleSpriteLocals : SpriteLocals :=
  { version := fun _ => 170, width := fun _ => 170, height := fun _ => 170 }

/-- A 3x2 sprite with pixels 1, 2, 3, ... and the sample palette. -/
def sampleSprite : SpriteData :=
  { SpriteData.new with m_width := 3, m_height := 2, m_pixels := fun i => (i + 1) % 16,
                        m_palette := samplePalette }

/-- A sample resize: nearest-neighbour sampling, refused for an empty source
or target. -/
def sampleResize (src : List Nat) (sw sh _ox _oy tw th : Int) : Option (List Nat) :=
  if sw < 1 ∨ sh < 1 ∨ tw < 1 ∨ th < 1 then none
  else some ((intRange th).flatMap (fun y =>
    (intRange tw).flatMap (fun x =>
      let o := ((y * sh / th) * sw + x * sw / tw) * 4
      [readAt src (o + 0), readAt src (o + 1), readAt src (o + 2), readAt src (o + 3)])))

/-- A sample quantizer: the distinct opaque colours in order of appearance, at
most `numColors` of them. -/
def sampleExtract : List Nat → Int → Int → List Color
  | r :: g :: b :: a :: rest, pixelCount, numColors =>
      let tail := sampleExtract rest pixelCount numColors
      if a < 128 ∨ (⟨r, g, b, 255⟩ : Color) ∈ tail then tail
      else (⟨r, g, b, 255⟩ :: tail).take numColors.toNat
  | _, _, _ => []

/-- A sample matcher: the first index at minimum RGB distance, -1 for an empty
palette. -/
def sampleClosest (pixel : Color) (palette : List Color) : Int :=
  ((List.range palette.length).foldl
    (fun (best : Int × Int) i =>
      let d := pixel.distanceTo (palette.getD i ⟨0, 0, 0, 255⟩)
      if best.1 < 0 ∨ d < best.2 then ((i : Int), d) else best) (-1, 0)).1

/-- The sample pipeline operations. -/
def sampleEnv : PngEnv :=
  { resizePNG := sampleResize, extractPalette := sampleExtract,
    findClosestColor := sampleClosest }

/-- A 4x2 source image: a white background with two red pixels in the lower
right corner. -/
def sampleImage : List Nat :=
  [255, 255, 255, 255, 255, 255, 255, 255, 255, 255, 255, 255, 255, 255, 255, 255,
   255, 255, 255, 255, 255, 255, 255, 255, 200, 10, 10, 255, 200, 10, 10, 255]

/-- The session started on the fresh sprite from the 4x2 sample image with a
2x2 box. -/
def sampleSession : SpriteData :=
  (SpriteData.new.startPNGImport sampleEnv (some (sampleImage, 4, 2)) 2 2).2

/-- A 50x1 source image, every pixel opaque white. -/
def sampleStrip : List Nat := List.replicate 200 255

/-- An initialized library whose entries 0 and 5 are the same grey ramp; colour
`c` of any other entry `p` is (p, c, p + c, 200). -/
def duplicateLibrary : LibraryData :=
  { palettes := fun p c => if p = 0 ∨ p = 5 then ⟨c, c, c, 255⟩ else ⟨p, c, p + c, 200⟩,
    info := fun i => ⟨i, "", "", ""⟩,
    names := fun _ => "", descriptions := fun _ => "", categories := fun _ => "",
    initialized := true, lastError := "" }

/-- The palette array of a new library object before anything is stored in it:
every colour (9, 9, 9, 9). -/
def sampleJunk : Nat → Nat → PaletteColor := fun _ _ => ⟨9, 9, 9, 9⟩

/-- A palette file of 2048 bytes: byte i is i mod 256. -/
def sampleLibraryFile : List Nat := (List.range 2048).map (fun i => i % 256)

/-- A 3x2 source image: a white background with two red pixels in the lower
row. -/
def sampleTile : List Nat :=
  [255, 255, 255, 255, 255, 255, 255, 255, 255, 255, 255, 255,
   255, 255, 255, 255, 200, 10, 10, 255, 200, 10, 10, 255]

/-- An image of 16 pixels with 16 different greys: pixel i is
(16 i, 16 i, 16 i, 255). -/
def sixteenGreys : List Nat :=
  (List.range 16).flatMap (fun i => [16 * i, 16 * i, 16 * i, 255])

/-- The decimal digits of a number below 100. -/
def decimalBytes (n : Nat) : List Nat :=
  if n < 10 then [48 + n] else [48 + n / 10, 48 + n % 10]

/-- A colour object of a palette file: r = 1, g = 2, b = 3, a = 4. -/
def sampleColorText : List Nat :=
  bytesOf "\x7b\"r\":1,\"g\":2,\"b\":3,\"a\":4\x7d"

/-- The bytes of a sample palette object up to the bracket that opens its
colours: the given id, name "n", description "d", category "c". -/
def samplePaletteHead (id : Nat) : List Nat :=
  bytesOf "\x7b\"id\":" ++ decimalBytes id
    ++ bytesOf ",\"name\":\"n\",\"description\":\"d\",\"category\":\"c\",\"colors\":["

/-- A palette object with the given id, name "n", description "d", category
"c" and sixteen times the sample colour. -/
def samplePaletteText (id : Nat) : List Nat :=
  samplePaletteHead id ++ (sampleColorText
    ++ ((List.replicate 15 ([44] ++ sampleColorText)).flatten ++ bytesOf "]\x7d"))

/-- The palette objects of a file, separated by commas. -/
def joinObjects : List (List Nat) → List Nat
  | [] => []
  | [o] => o
  | o :: os => o ++ [44] ++ joinObjects os

/-- A palette file made of the given palette objects. -/
def libraryText (objects : List (List Nat)) : List Nat :=
  bytesOf "\x7b\"palettes\":[" ++ (joinObjects objects ++ bytesOf "]\x7d")

/-- A palette file with 32 palette objects that all carry the id 0. -/
def duplicateIdText : List Nat :=
  libraryText (List.replicate 32 (samplePaletteText 0))

/-- The library object after the sample palette object with id 0 has been
stored: the metadata and sixteen times the sample colour. -/
def sampleStored (d : LibraryData) : LibraryData :=
  setColors 0 ⟨1, 2, 3, 4⟩ 16 0 (d.setMetadata 0 "n" "d" "c")

/-! # Theorems -/

/-! ## Scalar facts -/

theorem poke_apply (buf : Nat → Nat) (i v k : Nat) :
    poke buf i v k = if k = i then v else buf k := rfl

theorem toU8_of_byte (w : Int) (h0 : 0 ≤ w) (h1 : w ≤ 255) : ((toU8 w : Nat) : Int) = w := by
  unfold toU8
  omega

theorem imul_of_bytes (w h : Int) (hw0 : 0 ≤ w) (hw1 : w ≤ 255) (hh0 : 0 ≤ h) (hh1 : h ≤ 255) :
    imul w h = w * h := by
  have h1 : 0 ≤ w * h := mul_nonneg hw0 hh0
  have h2 : w * h ≤ 255 * 255 := mul_le_mul hw1 hh1 hh0 (by norm_num)
  unfold imul asI32 toU32
  generalize w * h = x at *
  omega

theorem writePaletteRGB_eq (p : Nat → Nat) : writePaletteRGB p =
  [p 8, p 9, p 10, p 12, p 13, p 14, p 16, p 17, p 18, p 20, p 21, p 22, p 24, p 25, p 26,
   p 28, p 29, p 30, p 32, p 33, p 34, p 36, p 37, p 38, p 40, p 41, p 42, p 44, p 45, p 46,
   p 48, p 49, p 50, p 52, p 53, p 54, p 56, p 57, p 58, p 60, p 61, p 62] := by
  rfl

theorem range'_2_14 : List.range' 2 14 = [2,3,4,5,6,7,8,9,10,11,12,13,14,15] := by rfl

/-! ## Parsing the 16-byte header -/

/-- What `loadSPRTZ` does on a file that has its 16 header bytes. -/
theorem loadSPRTZ_header (z : Zlib) (m0 m1 m2 m3 v0 v1 w h u0 u1 u2 u3 c0 c1 c2 c3 : Nat)
    (body : List Nat) (j : Locals) (o : SprtzOut) :
    loadSPRTZ z (some (m0 :: m1 :: m2 :: m3 :: v0 :: v1 :: w :: h :: u0 :: u1 :: u2 :: u3 ::
      c0 :: c1 :: c2 :: c3 :: body)) j o =
    if m0 ≠ 83 ∨ m1 ≠ 80 ∨ m2 ≠ 84 ∨ m3 ≠ 90 then (false, o)
    else if v0 + 256 * v1 ≠ 1 then (false, o)
    else if u0 + 256 * u1 + 65536 * u2 + 16777216 * u3 ≠ toU32 (imul w h) then
      (false, { o with outWidth := (w : Int), outHeight := (h : Int) })
    else
      let c := readColors j ⟨m0 :: m1 :: m2 :: m3 :: v0 :: v1 :: w :: h :: u0 :: u1 :: u2 ::
        u3 :: c0 :: c1 :: c2 :: c3 :: body, body, true⟩ (setFixedColors o.outPalette)
      readPayload z c.1 (c0 + 256 * c1 + 65536 * c2 + 16777216 * c3) (imul w h)
        { outWidth := (w : Int), outHeight := (h : Int), outPixels := o.outPixels,
          outPalette := c.2 } := by
  simp [loadSPRTZ, IStream.ofFile, IStream.read, blit, u16, u32]

/-! ## The colour loop and the payload -/

theorem readColorStep_cons (j : Locals) (d t : List Nat) (a b c : Nat) (p : Nat → Nat) (i : Nat) :
    readColorStep j (⟨d, a :: b :: c :: t, true⟩, p) i =
      (⟨d, t, true⟩, poke (poke (poke (poke p (i * 4 + 0) a) (i * 4 + 1) b) (i * 4 + 2) c)
        (i * 4 + 3) 255) := by
  simp [readColorStep, IStream.read, blit]

set_option maxRecDepth 4000 in
theorem readColors_writePaletteRGB (j : Locals) (d t : List Nat) (pal p : Nat → Nat) :
    readColors j ⟨d, writePaletteRGB pal ++ t, true⟩ p = (⟨d, t, true⟩, decodedPalette pal p) := by
  rw [writePaletteRGB_eq]
  simp only [readColors, range'_2_14, List.foldl, List.cons_append, List.nil_append,
    readColorStep_cons]
  refine Prod.ext rfl ?_
  funext k
  simp only [poke_apply, decodedPalette]
  by_cases hk : k < 64
  · interval_cases k <;> simp
  · have h1 : ¬ (8 ≤ k ∧ k < 64) := fun h => hk h.2
    simp only [h1, if_false]
    repeat (rw [if_neg (by omega)])

theorem length_peekN (buf : Nat → Nat) (n : Nat) : (peekN buf n).length = n := by
  simp [peekN]

/-- Under a lossless compressor `compressRLE` is the zlib output. -/
theorem compressRLE_of_lossless (z : Zlib) (hz : z.Lossless) (pixels : Nat → Nat) (n : Int)
    (hn : n.toNat ≤ 65025) :
    compressRLE z pixels n = (z.compress2 (peekN pixels n.toNat)).2 := by
  have h := (hz (peekN pixels n.toNat) (by rw [length_peekN]; exact hn)).1
  simp [compressRLE, h]

/-- Under a lossless compressor the payload length fits its header field. -/
theorem compressRLE_length_lt (z : Zlib) (hz : z.Lossless) (pixels : Nat → Nat) (n : Int)
    (hn : n.toNat ≤ 65025) : (compressRLE z pixels n).length < 4294967296 := by
  rw [compressRLE_of_lossless z hz pixels n hn]
  exact (hz (peekN pixels n.toNat) (by rw [length_peekN]; exact hn)).2.1

/-- Decompressing what `compressRLE` produced restores the pixels. -/
theorem decompressRLE_compressRLE (z : Zlib) (hz : z.Lossless) (pixels out : Nat → Nat)
    (n : Int) (hn : n.toNat ≤ 65025) :
    decompressRLE z (compressRLE z pixels n) out n = (true, blit out (peekN pixels n.toNat)) := by
  have h := (hz (peekN pixels n.toNat) (by rw [length_peekN]; exact hn)).2.2
  rw [length_peekN] at h
  simp [decompressRLE, compressRLE_of_lossless z hz pixels n hn, h, length_peekN]

/-- Reading a payload that is exactly the rest of the stream. -/
theorem readPayload_exact (z : Zlib) (d c : List Nat) (e : Int) (o : SprtzOut) :
    readPayload z ⟨d, c, true⟩ c.length e o =
      ((decompressRLE z c o.outPixels e).1,
        { o with outPixels := (decompressRLE z c o.outPixels e).2 }) := by
  simp [readPayload, IStream.read]

theorem u32_le32 (v : Nat) (hv : v < 4294967296) :
    v % 256 + 256 * (v / 256 % 256) + 65536 * (v / 65536 % 256)
      + 16777216 * (v / 16777216 % 256) = v := by
  omega

theorem toU32_lt (x : Int) : toU32 x < 4294967296 := by
  unfold toU32
  omega

/-- A product of two byte-sized dimensions is at most 255 * 255. -/
theorem toNat_mul_le (w h : Int) (hw1 : w ≤ 255) (hh0 : 0 ≤ h) (hh1 : h ≤ 255) :
    (w * h).toNat ≤ 65025 := by
  have h2 : w * h ≤ 255 * 255 := mul_le_mul hw1 hh1 hh0 (by norm_num)
  omega

/-- The v1 round trip in closed form. -/
theorem loadSPRTZ_saveSPRTZ (z : Zlib) (hz : z.Lossless) (w h : Int) (hw0 : 0 ≤ w)
    (hw1 : w ≤ 255) (hh0 : 0 ≤ h) (hh1 : h ≤ 255) (pixels palette : Nat → Nat) (j : Locals)
    (o : SprtzOut) :
    loadSPRTZ z (saveSPRTZ z w h pixels palette) j o =
      (true, { outWidth := w, outHeight := h,
               outPixels := blit o.outPixels (peekN pixels (w * h).toNat),
               outPalette := decodedPalette palette (setFixedColors o.outPalette) }) := by
  have hm := imul_of_bytes w h hw0 hw1 hh0 hh1
  have hw := toU8_of_byte w hw0 hw1
  have hh := toU8_of_byte h hh0 hh1
  have hn := toNat_mul_le w h hw1 hh0 hh1
  have hm' : imul (toU8 w : Int) (toU8 h : Int) = w * h := by rw [hw, hh, hm]
  have hfit := compressRLE_length_lt z hz pixels (w * h) hn
  simp only [saveSPRTZ, writeHeader, le16, le32, List.cons_append, List.nil_append,
    List.append_assoc, hm]
  rw [loadSPRTZ_header]
  have hu := u32_le32 (toU32 (w * h)) (toU32_lt _)
  have hc := u32_le32 ((compressRLE z pixels (w * h)).length % 4294967296)
    (Nat.mod_lt _ (by norm_num))
  rw [hu, hc, hm', Nat.mod_eq_of_lt hfit]
  simp only [readColors_writePaletteRGB, readPayload_exact]
  simp [decompressRLE_compressRLE z hz _ _ _ hn, hw, hh]

/-! ## The version-2 loader -/

/-- What `loadSPRTZv2` does on a file that has its 16 header bytes and the
palette-mode byte. -/
theorem loadSPRTZv2_header (z : Zlib) (s_data : Option LibraryData)
    (m0 m1 m2 m3 v0 v1 w h u0 u1 u2 u3 c0 c1 c2 c3 mode : Nat)
    (body : List Nat) (j j1 : Locals) (o : SprtzOut) (isStandard : Bool) (paletteID : Nat) :
    loadSPRTZv2 z s_data (some (m0 :: m1 :: m2 :: m3 :: v0 :: v1 :: w :: h :: u0 :: u1 :: u2 ::
      u3 :: c0 :: c1 :: c2 :: c3 :: mode :: body)) j j1 o isStandard paletteID =
    if m0 ≠ 83 ∨ m1 ≠ 80 ∨ m2 ≠ 84 ∨ m3 ≠ 90 then (false, o, isStandard, paletteID)
    else if v0 + 256 * v1 = 1 then
      ((loadSPRTZ z (some (m0 :: m1 :: m2 :: m3 :: v0 :: v1 :: w :: h :: u0 :: u1 :: u2 ::
          u3 :: c0 :: c1 :: c2 :: c3 :: mode :: body)) j1 o).1,
        (loadSPRTZ z (some (m0 :: m1 :: m2 :: m3 :: v0 :: v1 :: w :: h :: u0 :: u1 :: u2 ::
          u3 :: c0 :: c1 :: c2 :: c3 :: mode :: body)) j1 o).2, false, PALETTE_MODE_CUSTOM)
    else if v0 + 256 * v1 ≠ 2 then (false, o, isStandard, paletteID)
    else if u0 + 256 * u1 + 65536 * u2 + 16777216 * u3 ≠ toU32 (imul w h) then
      (false, { o with outWidth := (w : Int), outHeight := (h : Int) }, isStandard, paletteID)
    else if mode = 255 then
      let c := readColors j ⟨m0 :: m1 :: m2 :: m3 :: v0 :: v1 :: w :: h :: u0 :: u1 :: u2 ::
        u3 :: c0 :: c1 :: c2 :: c3 :: mode :: body, body, true⟩ (setFixedColors o.outPalette)
      let p := readPayload z c.1 (c0 + 256 * c1 + 65536 * c2 + 16777216 * c3) (imul w h)
        { outWidth := (w : Int), outHeight := (h : Int), outPixels := o.outPixels,
          outPalette := c.2 }
      (p.1, p.2, false, PALETTE_MODE_CUSTOM)
    else if mode < 32 then
      if isInitialized s_data then
        let cp := copyPaletteRGBA s_data mode (setFixedColors o.outPalette)
        if !cp.1 then
          (false, { outWidth := (w : Int), outHeight := (h : Int), outPixels := o.outPixels,
                    outPalette := cp.2 }, true, mode)
        else
          let p := readPayload z ⟨m0 :: m1 :: m2 :: m3 :: v0 :: v1 :: w :: h :: u0 :: u1 ::
            u2 :: u3 :: c0 :: c1 :: c2 :: c3 :: mode :: body, body, true⟩
            (c0 + 256 * c1 + 65536 * c2 + 16777216 * c3) (imul w h)
            { outWidth := (w : Int), outHeight := (h : Int), outPixels := o.outPixels,
              outPalette := cp.2 }
          (p.1, p.2, true, mode)
      else
        (false, { outWidth := (w : Int), outHeight := (h : Int), outPixels := o.outPixels,
                  outPalette := setFixedColors o.outPalette }, true, mode)
    else
      (false, { outWidth := (w : Int), outHeight := (h : Int), outPixels := o.outPixels,
                outPalette := setFixedColors o.outPalette }, isStandard, paletteID) := by
  simp [loadSPRTZv2, IStream.ofFile, IStream.read, blit, u16, u32]

theorem range_16 : List.range 16 = [0,1,2,3,4,5,6,7,8,9,10,11,12,13,14,15] := by rfl

set_option maxRecDepth 4000 in
theorem copyPaletteRGBA_ok (d : LibraryData) (hd : d.initialized = true) (paletteID : Nat)
    (hid : paletteID < 32) (out : Nat → Nat) :
    copyPaletteRGBA (some d) paletteID out = (true, libraryRGBA (d.palettes paletteID) out) := by
  have hid' : ¬ (STANDARD_PALETTE_COUNT ≤ paletteID) := by
    simp only [STANDARD_PALETTE_COUNT]; omega
  simp only [copyPaletteRGBA, getPalette, hd, hid', STANDARD_PALETTE_COLORS, range_16,
    List.foldl, Bool.not_true, decide_False, Bool.or_self, Bool.false_eq_true, if_false]
  refine Prod.ext rfl ?_
  funext k
  simp only [poke_apply, libraryRGBA]
  by_cases hk : k < 64
  · interval_cases k <;> simp
  · simp only [hk, if_false]
    repeat (rw [if_neg (by omega)])

/-- The v2 custom-palette round trip in closed form. -/
theorem loadSPRTZv2_saveSPRTZv2Custom (z : Zlib) (hz : z.Lossless)
    (s_data : Option LibraryData) (w h : Int) (hw0 : 0 ≤ w)
    (hw1 : w ≤ 255) (hh0 : 0 ≤ h) (hh1 : h ≤ 255) (pixels palette : Nat → Nat) (j j1 : Locals)
    (o : SprtzOut) (isStandard : Bool) (paletteID : Nat) :
    loadSPRTZv2 z s_data (saveSPRTZv2Custom z w h pixels palette) j j1 o isStandard paletteID =
      (true, { outWidth := w, outHeight := h,
               outPixels := blit o.outPixels (peekN pixels (w * h).toNat),
               outPalette := decodedPalette palette (setFixedColors o.outPalette) },
        false, 255) := by
  have hm := imul_of_bytes w h hw0 hw1 hh0 hh1
  have hw := toU8_of_byte w hw0 hw1
  have hh := toU8_of_byte h hh0 hh1
  have hn := toNat_mul_le w h hw1 hh0 hh1
  have hm' : imul (toU8 w : Int) (toU8 h : Int) = w * h := by rw [hw, hh, hm]
  have hfit := compressRLE_length_lt z hz pixels (w * h) hn
  simp only [saveSPRTZv2Custom, writeHeader, le16, le32, List.cons_append, List.nil_append,
    List.append_assoc, hm]
  rw [loadSPRTZv2_header]
  have hu := u32_le32 (toU32 (w * h)) (toU32_lt _)
  have hc := u32_le32 ((compressRLE z pixels (w * h)).length % 4294967296)
    (Nat.mod_lt _ (by norm_num))
  rw [hu, hc, hm', Nat.mod_eq_of_lt hfit]
  simp only [readColors_writePaletteRGB, readPayload_exact]
  simp [decompressRLE_compressRLE z hz _ _ _ hn, hw, hh, PALETTE_MODE_CUSTOM]

/-- The v2 standard-palette round trip in closed form. -/
theorem loadSPRTZv2_saveSPRTZv2Standard (z : Zlib) (hz : z.Lossless)
    (d : LibraryData) (hd : d.initialized = true) (id : Nat) (hid : id < 32)
    (w h : Int) (hw0 : 0 ≤ w) (hw1 : w ≤ 255) (hh0 : 0 ≤ h) (hh1 : h ≤ 255)
    (pixels : Nat → Nat) (j j1 : Locals)
    (o : SprtzOut) (isStandard : Bool) (paletteID : Nat) :
    loadSPRTZv2 z (some d) (saveSPRTZv2Standard z w h pixels id) j j1 o isStandard paletteID =
      (true, { outWidth := w, outHeight := h,
               outPixels := blit o.outPixels (peekN pixels (w * h).toNat),
               outPalette := libraryRGBA (d.palettes id) (setFixedColors o.outPalette) },
        true, id) := by
  have hm := imul_of_bytes w h hw0 hw1 hh0 hh1
  have hw := toU8_of_byte w hw0 hw1
  have hh := toU8_of_byte h hh0 hh1
  have hn := toNat_mul_le w h hw1 hh0 hh1
  have hm' : imul (toU8 w : Int) (toU8 h : Int) = w * h := by rw [hw, hh, hm]
  have hfit := compressRLE_length_lt z hz pixels (w * h) hn
  have hid' : ¬ (id ≥ 32) := by omega
  have hid2 : id ≠ 255 := by omega
  simp only [saveSPRTZv2Standard, hid', if_false, writeHeader, le16, le32, List.cons_append,
    List.nil_append, List.append_assoc, hm]
  rw [loadSPRTZv2_header]
  have hu := u32_le32 (toU32 (w * h)) (toU32_lt _)
  have hc := u32_le32 ((compressRLE z pixels (w * h)).length % 4294967296)
    (Nat.mod_lt _ (by norm_num))
  rw [hu, hc, hm', Nat.mod_eq_of_lt hfit]
  simp only [readPayload_exact]
  simp [decompressRLE_compressRLE z hz _ _ _ hn, hw, hh, hid, hid2, isInitialized, hd,
    copyPaletteRGBA_ok d hd id hid]

/-! ## Facts used by the round-trip claims -/

theorem storedZlib_lossless : storedZlib.Lossless := by
  intro b hb
  refine ⟨rfl, ?_, ?_⟩
  · show b.length < 4294967296
    omega
  · simp [storedZlib]

/-- Reading back, below the count, a buffer that received the first bytes of
another buffer. -/
theorem blit_peekN (out buf : Nat → Nat) (n i : Nat) (hi : i < n) :
    blit out (peekN buf n) i = buf i := by
  simp [blit, peekN, hi, List.getD_eq_getElem?_getD, List.getElem?_range hi]

/-- On the 64 palette bytes the decoded palette is the normalized one. -/
theorem decodedPalette_eq_normalize (pal p : Nat → Nat) (k : Nat) (hk : k < 64) :
    decodedPalette pal (setFixedColors p) k = normalizePalette pal k := by
  interval_cases k <;> simp [decodedPalette, setFixedColors, poke, normalizePalette]

/-! ## C1 -/

/-- C1, as stated, fails: with a lossless compressor the v1 and v2 custom loads
of an 8x8 canvas succeed but byte 0 of the returned palette is 0 where the
canvas had 1 (palette entry 0 is never stored and comes back as transparent
black). -/
theorem C1_counterexample :
    storedZlib.Lossless ∧
    (loadSPRTZ storedZlib (saveSPRTZ storedZlib 8 8 samplePixels samplePalette)
        sampleLocals sampleOut).1 = true ∧
    (loadSPRTZ storedZlib (saveSPRTZ storedZlib 8 8 samplePixels samplePalette)
        sampleLocals sampleOut).2.outPalette 0 = 0 ∧
    (loadSPRTZv2 storedZlib none (saveSPRTZv2Custom storedZlib 8 8 samplePixels samplePalette)
        sampleLocals sampleLocals sampleOut false 0).2.1.outPalette 0 = 0 ∧
    samplePalette 0 = 1 := by
  refine ⟨storedZlib_lossless, ?_, ?_, ?_, rfl⟩
  · rw [loadSPRTZ_saveSPRTZ storedZlib storedZlib_lossless 8 8 (by norm_num) (by norm_num)
      (by norm_num) (by norm_num)]
  · rw [loadSPRTZ_saveSPRTZ storedZlib storedZlib_lossless 8 8 (by norm_num) (by norm_num)
      (by norm_num) (by norm_num)]
    simp [decodedPalette, setFixedColors, poke]
  · rw [loadSPRTZv2_saveSPRTZv2Custom storedZlib storedZlib_lossless none 8 8 (by norm_num)
      (by norm_num) (by norm_num) (by norm_num)]
    simp [decodedPalette, setFixedColors, poke]

/-- C1 (amended): for width and height in {8, 16, 40}, any pixels and any
palette, under a lossless compressor, `loadSPRTZ` of the `saveSPRTZ` file and
`loadSPRTZv2` of the `saveSPRTZv2Custom` file both succeed and return the
original width, height and width*height pixels; the 64 palette bytes returned
are those of the normalized palette (entry 0 = (0,0,0,0), entry 1 =
(0,0,0,255), entries 2..15 with their r, g, b and alpha 255). -/
theorem C1_roundtrip_normalized (z : Zlib) (hz : z.Lossless) (s_data : Option LibraryData)
    (w h : Int) (hw : w = 8 ∨ w = 16 ∨ w = 40) (hh : h = 8 ∨ h = 16 ∨ h = 40)
    (pixels palette : Nat → Nat) (j j1 : Locals) (o : SprtzOut) (isStandard : Bool)
    (paletteID : Nat) :
    ((loadSPRTZ z (saveSPRTZ z w h pixels palette) j o).1 = true ∧
      (loadSPRTZ z (saveSPRTZ z w h pixels palette) j o).2.outWidth = w ∧
      (loadSPRTZ z (saveSPRTZ z w h pixels palette) j o).2.outHeight = h ∧
      (∀ i, i < (w * h).toNat →
        (loadSPRTZ z (saveSPRTZ z w h pixels palette) j o).2.outPixels i = pixels i) ∧
      (∀ k, k < 64 →
        (loadSPRTZ z (saveSPRTZ z w h pixels palette) j o).2.outPalette k
          = normalizePalette palette k)) ∧
    ((loadSPRTZv2 z s_data (saveSPRTZv2Custom z w h pixels palette) j j1 o isStandard
        paletteID).1 = true ∧
      (loadSPRTZv2 z s_data (saveSPRTZv2Custom z w h pixels palette) j j1 o isStandard
        paletteID).2.1.outWidth = w ∧
      (loadSPRTZv2 z s_data (saveSPRTZv2Custom z w h pixels palette) j j1 o isStandard
        paletteID).2.1.outHeight = h ∧
      (∀ i, i < (w * h).toNat →
        (loadSPRTZv2 z s_data (saveSPRTZv2Custom z w h pixels palette) j j1 o isStandard
          paletteID).2.1.outPixels i = pixels i) ∧
      (∀ k, k < 64 →
        (loadSPRTZv2 z s_data (saveSPRTZv2Custom z w h pixels palette) j j1 o isStandard
          paletteID).2.1.outPalette k = normalizePalette palette k)) := by
  have hw0 : 0 ≤ w := by omega
  have hw1 : w ≤ 255 := by omega
  have hh0 : 0 ≤ h := by omega
  have hh1 : h ≤ 255 := by omega
  rw [loadSPRTZ_saveSPRTZ z hz w h hw0 hw1 hh0 hh1,
    loadSPRTZv2_saveSPRTZv2Custom z hz s_data w h hw0 hw1 hh0 hh1]
  exact ⟨⟨rfl, rfl, rfl, fun i hi => blit_peekN _ _ _ _ hi,
      fun k hk => decodedPalette_eq_normalize _ _ k hk⟩,
    ⟨rfl, rfl, rfl, fun i hi => blit_peekN _ _ _ _ hi,
      fun k hk => decodedPalette_eq_normalize _ _ k hk⟩⟩

/-- C1 (amended) at a concrete input: an 8x8 canvas and the stored compressor. -/
theorem C1_roundtrip_normalized_witness :
    storedZlib.Lossless ∧ ((8 : Int) = 8 ∨ (8 : Int) = 16 ∨ (8 : Int) = 40) ∧
    ((loadSPRTZ storedZlib (saveSPRTZ storedZlib 8 8 samplePixels samplePalette)
        sampleLocals sampleOut).1 = true ∧
     (∀ k, k < 64 →
        (loadSPRTZ storedZlib (saveSPRTZ storedZlib 8 8 samplePixels samplePalette)
          sampleLocals sampleOut).2.outPalette k = normalizePalette samplePalette k)) ∧
    ((loadSPRTZv2 storedZlib none (saveSPRTZv2Custom storedZlib 8 8 samplePixels samplePalette)
        sampleLocals sampleLocals sampleOut false 0).1 = true ∧
     (∀ i, i < ((8 : Int) * 8).toNat →
        (loadSPRTZv2 storedZlib none
          (saveSPRTZv2Custom storedZlib 8 8 samplePixels samplePalette)
          sampleLocals sampleLocals sampleOut false 0).2.1.outPixels i = samplePixels i)) := by
  have h := C1_roundtrip_normalized storedZlib storedZlib_lossless none 8 8 (Or.inl rfl)
    (Or.inl rfl) samplePixels samplePalette sampleLocals sampleLocals sampleOut false 0
  exact ⟨storedZlib_lossless, Or.inl rfl, ⟨h.1.1, h.1.2.2.2.2⟩, ⟨h.2.1, h.2.2.2.2.1⟩⟩

/-! ## C2 -/

/-- The four bytes `copyPaletteRGBA` leaves for colour `c`. -/
theorem libraryRGBA_at (pal : Nat → PaletteColor) (out : Nat → Nat) (c : Nat) (hc : c < 16) :
    libraryRGBA pal out (4 * c) = (pal c).r ∧ libraryRGBA pal out (4 * c + 1) = (pal c).g ∧
    libraryRGBA pal out (4 * c + 2) = (pal c).b ∧ libraryRGBA pal out (4 * c + 3) = (pal c).a := by
  have h0 : 4 * c < 64 := by omega
  have h1 : 4 * c + 1 < 64 := by omega
  have h2 : 4 * c + 2 < 64 := by omega
  have h3 : 4 * c + 3 < 64 := by omega
  have d0 : 4 * c / 4 = c := by omega
  have d1 : (4 * c + 1) / 4 = c := by omega
  have d2 : (4 * c + 2) / 4 = c := by omega
  have d3 : (4 * c + 3) / 4 = c := by omega
  have m0 : 4 * c % 4 = 0 := by omega
  have m1 : (4 * c + 1) % 4 = 1 := by omega
  have m2 : (4 * c + 2) % 4 = 2 := by omega
  have m3 : (4 * c + 3) % 4 = 3 := by omega
  simp [libraryRGBA, h0, h1, h2, h3, d0, d1, d2, d3, m0, m1, m2, m3]

/-- C2: with an initialized library, a palette id in 0..31 and a canvas whose
sides fit a byte (so every canvas with sides 1..40), under a lossless
compressor, `loadSPRTZv2` of the `saveSPRTZv2Standard` file succeeds, returns
the original width, height and width*height pixels, reports isStandard = true
and paletteID = id, and the 64 palette bytes returned are r, g, b, a of the 16
library colours of that id, entries 0 and 1 included. -/
theorem C2_standard_roundtrip (z : Zlib) (hz : z.Lossless) (d : LibraryData)
    (hd : isInitialized (some d) = true) (id : Nat) (hid : id < 32)
    (w h : Int) (hw0 : 0 ≤ w) (hw1 : w ≤ 255) (hh0 : 0 ≤ h) (hh1 : h ≤ 255)
    (pixels : Nat → Nat) (j j1 : Locals) (o : SprtzOut) (isStandard : Bool) (paletteID : Nat) :
    (loadSPRTZv2 z (some d) (saveSPRTZv2Standard z w h pixels id) j j1 o isStandard
        paletteID).1 = true ∧
    (loadSPRTZv2 z (some d) (saveSPRTZv2Standard z w h pixels id) j j1 o isStandard
        paletteID).2.1.outWidth = w ∧
    (loadSPRTZv2 z (some d) (saveSPRTZv2Standard z w h pixels id) j j1 o isStandard
        paletteID).2.1.outHeight = h ∧
    (∀ i, i < (w * h).toNat →
      (loadSPRTZv2 z (some d) (saveSPRTZv2Standard z w h pixels id) j j1 o isStandard
        paletteID).2.1.outPixels i = pixels i) ∧
    (loadSPRTZv2 z (some d) (saveSPRTZv2Standard z w h pixels id) j j1 o isStandard
        paletteID).2.2 = (true, id) ∧
    (∀ c, c < 16 →
      (loadSPRTZv2 z (some d) (saveSPRTZv2Standard z w h pixels id) j j1 o isStandard
        paletteID).2.1.outPalette (4 * c) = (d.palettes id c).r ∧
      (loadSPRTZv2 z (some d) (saveSPRTZv2Standard z w h pixels id) j j1 o isStandard
        paletteID).2.1.outPalette (4 * c + 1) = (d.palettes id c).g ∧
      (loadSPRTZv2 z (some d) (saveSPRTZv2Standard z w h pixels id) j j1 o isStandard
        paletteID).2.1.outPalette (4 * c + 2) = (d.palettes id c).b ∧
      (loadSPRTZv2 z (some d) (saveSPRTZv2Standard z w h pixels id) j j1 o isStandard
        paletteID).2.1.outPalette (4 * c + 3) = (d.palettes id c).a) := by
  have hd' : d.initialized = true := hd
  rw [loadSPRTZv2_saveSPRTZv2Standard z hz d hd' id hid w h hw0 hw1 hh0 hh1]
  exact ⟨rfl, rfl, rfl, fun i hi => blit_peekN _ _ _ _ hi, rfl,
    fun c hc => libraryRGBA_at _ _ c hc⟩

/-- C2 at a concrete input: palette 5 of the sample library, an 8x8 canvas. -/
theorem C2_standard_roundtrip_witness :
    storedZlib.Lossless ∧ isInitialized (some sampleLibrary) = true ∧ 5 < 32 ∧
    (loadSPRTZv2 storedZlib (some sampleLibrary)
      (saveSPRTZv2Standard storedZlib 8 8 samplePixels 5) sampleLocals sampleLocals sampleOut
      false 0).1 = true ∧
    (loadSPRTZv2 storedZlib (some sampleLibrary)
      (saveSPRTZv2Standard storedZlib 8 8 samplePixels 5) sampleLocals sampleLocals sampleOut
      false 0).2.2 = (true, 5) ∧
    (loadSPRTZv2 storedZlib (some sampleLibrary)
      (saveSPRTZv2Standard storedZlib 8 8 samplePixels 5) sampleLocals sampleLocals sampleOut
      false 0).2.1.outPalette (4 * 0) = (sampleLibrary.palettes 5 0).r := by
  have h := C2_standard_roundtrip storedZlib storedZlib_lossless sampleLibrary rfl 5
    (by decide) 8 8 (by decide) (by decide) (by decide) (by decide) samplePixels sampleLocals
    sampleLocals sampleOut false 0
  exact ⟨storedZlib_lossless, rfl, by decide, h.1, h.2.2.2.2.1, (h.2.2.2.2.2 0 (by decide)).1⟩

/-! ## C3 -/

/-- C3, as stated, fails: on a stream whose version field is 1 but whose first
magic byte is wrong, `loadSPRTZv2` fails before it looks at the version and
leaves isStandard = true and paletteID = 7 as the caller had them. -/
theorem C3_counterexample :
    (loadSPRTZv2 storedZlib none
      (some ([88, 80, 84, 90, 1, 0, 1, 1, 1, 0, 0, 0, 1, 0, 0, 0] ++ List.replicate 42 0 ++ [5]))
      sampleLocals sampleLocals sampleOut true 7).1 = false ∧
    (loadSPRTZv2 storedZlib none
      (some ([88, 80, 84, 90, 1, 0, 1, 1, 1, 0, 0, 0, 1, 0, 0, 0] ++ List.replicate 42 0 ++ [5]))
      sampleLocals sampleLocals sampleOut true 7).2.2 = (true, 7) := by
  constructor <;> rfl

/-- C3 (amended): on every stream that starts with the magic "SPTZ" and whose
version field is 1, `loadSPRTZv2` returns the flag, width, height, pixels and
palette that `loadSPRTZ` returns on that stream, and reports isStandard = false
and paletteID = 0xFF. -/
theorem C3_v1_fallback (z : Zlib) (s_data : Option LibraryData) (body : List Nat)
    (j j1 : Locals) (o : SprtzOut) (isStandard : Bool) (paletteID : Nat) :
    loadSPRTZv2 z s_data (some (83 :: 80 :: 84 :: 90 :: 1 :: 0 :: body)) j j1 o isStandard
        paletteID =
      ((loadSPRTZ z (some (83 :: 80 :: 84 :: 90 :: 1 :: 0 :: body)) j1 o).1,
        (loadSPRTZ z (some (83 :: 80 :: 84 :: 90 :: 1 :: 0 :: body)) j1 o).2, false, 255) := by
  simp [loadSPRTZv2, IStream.ofFile, IStream.read, blit, u16, PALETTE_MODE_CUSTOM]

/-! ## C4 -/

/-- `loadSPRTZ` rejects every file written by `saveSPRTZv2Custom`. -/
theorem loadSPRTZ_saveSPRTZv2Custom (z : Zlib) (w h : Int) (pixels palette : Nat → Nat)
    (j : Locals) (o : SprtzOut) :
    loadSPRTZ z (saveSPRTZv2Custom z w h pixels palette) j o = (false, o) := by
  simp only [saveSPRTZv2Custom, writeHeader, le16, le32, List.cons_append, List.nil_append,
    List.append_assoc]
  rw [loadSPRTZ_header]
  simp

/-- `loadSPRTZ` rejects every file written by `saveSPRTZv2Standard`. -/
theorem loadSPRTZ_saveSPRTZv2Standard (z : Zlib) (w h : Int) (pixels : Nat → Nat) (id : Nat)
    (j : Locals) (o : SprtzOut) :
    loadSPRTZ z (saveSPRTZv2Standard z w h pixels id) j o = (false, o) := by
  by_cases hid : id ≥ 32
  · simp [saveSPRTZv2Standard, hid, loadSPRTZ]
  · simp only [saveSPRTZv2Standard, hid, if_false, writeHeader, le16, le32, List.cons_append,
      List.nil_append, List.append_assoc]
    rw [loadSPRTZ_header]
    simp

/-- C4 (the code at the failing input): `loadSPRTZ` returns false on the
version-2 files of an 8x8 canvas, custom and standard, which `loadSPRTZv2`
loads. -/
theorem C4_loadSPRTZ_rejects_v2 :
    (loadSPRTZ storedZlib (saveSPRTZv2Custom storedZlib 8 8 samplePixels samplePalette)
      sampleLocals sampleOut).1 = false ∧
    (loadSPRTZv2 storedZlib (some sampleLibrary)
      (saveSPRTZv2Custom storedZlib 8 8 samplePixels samplePalette)
      sampleLocals sampleLocals sampleOut false 0).1 = true ∧
    (loadSPRTZ storedZlib (saveSPRTZv2Standard storedZlib 8 8 samplePixels 5)
      sampleLocals sampleOut).1 = false ∧
    (loadSPRTZv2 storedZlib (some sampleLibrary)
      (saveSPRTZv2Standard storedZlib 8 8 samplePixels 5)
      sampleLocals sampleLocals sampleOut false 0).1 = true := by
  refine ⟨?_, ?_, ?_, ?_⟩
  · rw [loadSPRTZ_saveSPRTZv2Custom]
  · rw [loadSPRTZv2_saveSPRTZv2Custom storedZlib storedZlib_lossless _ 8 8 (by decide)
      (by decide) (by decide) (by decide)]
  · rw [loadSPRTZ_saveSPRTZv2Standard]
  · rw [loadSPRTZv2_saveSPRTZv2Standard storedZlib storedZlib_lossless sampleLibrary rfl 5
      (by decide) 8 8 (by decide) (by decide) (by decide) (by decide)]

/-! ## C5 -/

/-- For a width byte and a height byte the 32-bit pixel count is the product. -/
theorem toU32_imul_bytes (w h : Nat) (hw : w < 256) (hh : h < 256) :
    toU32 (imul (w : Int) (h : Int)) = w * h := by
  have h1 := imul_of_bytes (w : Int) (h : Int) (by omega) (by omega) (by omega) (by omega)
  have h2 : w * h ≤ 255 * 255 := Nat.mul_le_mul (by omega) (by omega)
  rw [h1]
  unfold toU32
  have h3 : ((w : Int) * (h : Int)) = ((w * h : Nat) : Int) := by push_cast; ring
  rw [h3]
  omega

/-- The signed pixel count of a width byte and a height byte. -/
theorem toNat_imul_bytes (w h : Nat) (hw : w < 256) (hh : h < 256) :
    (imul (w : Int) (h : Int)).toNat = w * h := by
  have h1 := imul_of_bytes (w : Int) (h : Int) (by omega) (by omega) (by omega) (by omega)
  rw [h1]
  have h3 : ((w : Int) * (h : Int)) = ((w * h : Nat) : Int) := by push_cast; ring
  rw [h3]
  omega

/-- The colour loop consumes three bytes for each index when enough remain. -/
theorem foldl_readColorStep_stream (j : Locals) (d : List Nat) :
    ∀ (is : List Nat) (rest : List Nat) (p : Nat → Nat), 3 * is.length ≤ rest.length →
      (is.foldl (readColorStep j) (⟨d, rest, true⟩, p)).1
        = ⟨d, rest.drop (3 * is.length), true⟩ := by
  intro is
  induction is with
  | nil => intro rest p _; simp
  | cons i is ih =>
    intro rest p hlen
    have h3 : 3 ≤ rest.length := by simp at hlen; omega
    have hstep : readColorStep j (⟨d, rest, true⟩, p) i
        = (⟨d, rest.drop 3, true⟩, (readColorStep j (⟨d, rest, true⟩, p) i).2) := by
      simp [readColorStep, IStream.read, h3]
    rw [List.foldl_cons, hstep, ih]
    · simp [List.drop_drop]
      congr 1
      omega
    · simp at hlen ⊢
      omega

/-- After the colour loop the stream stands behind the 42 palette bytes. -/
theorem readColors_stream (j : Locals) (d pal t : List Nat) (hpal : pal.length = 42)
    (p : Nat → Nat) : (readColors j ⟨d, pal ++ t, true⟩ p).1 = ⟨d, t, true⟩ := by
  unfold readColors
  rw [foldl_readColorStep_stream]
  · have : 3 * (List.range' 2 14).length = pal.length := by simp [hpal]
    rw [this, List.drop_left]
  · simp [hpal]

/-- Reading a payload that is followed by further bytes. -/
theorem readPayload_prefix (z : Zlib) (d c t : List Nat) (e : Int) (o : SprtzOut) :
    readPayload z ⟨d, c ++ t, true⟩ c.length e o =
      ((decompressRLE z c o.outPixels e).1,
        { o with outPixels := (decompressRLE z c o.outPixels e).2 }) := by
  simp [readPayload, IStream.read]

/-- `decompressRLE` fails when zlib reports an error or a different length. -/
theorem decompressRLE_fails (z : Zlib) (c : List Nat) (out : Nat → Nat) (e : Int)
    (h : (z.uncompress c e.toNat).1 ≠ Z_OK ∨ (z.uncompress c e.toNat).2.length ≠ e.toNat) :
    (decompressRLE z c out e).1 = false := by
  unfold decompressRLE
  by_cases h1 : (z.uncompress c e.toNat).1 ≠ Z_OK
  · simp [h1]
  · have h2 : (z.uncompress c e.toNat).2.length ≠ e.toNat := by tauto
    simp [h1, h2]

/-- `loadSPRTZ` fails on a complete header whose size field is not the product
of the width and height bytes. -/
theorem loadSPRTZ_size_mismatch (z : Zlib)
    (m0 m1 m2 m3 v0 v1 w h u0 u1 u2 u3 c0 c1 c2 c3 : Nat) (hw : w < 256) (hh : h < 256)
    (hne : u0 + 256 * u1 + 65536 * u2 + 16777216 * u3 ≠ w * h)
    (body : List Nat) (j : Locals) (o : SprtzOut) :
    (loadSPRTZ z (some (m0 :: m1 :: m2 :: m3 :: v0 :: v1 :: w :: h :: u0 :: u1 :: u2 :: u3 ::
      c0 :: c1 :: c2 :: c3 :: body)) j o).1 = false := by
  rw [loadSPRTZ_header, toU32_imul_bytes w h hw hh]
  split_ifs <;> rfl

/-- `loadSPRTZv2` fails on a complete header whose size field is not the
product of the width and height bytes. -/
theorem loadSPRTZv2_size_mismatch (z : Zlib) (s_data : Option LibraryData)
    (m0 m1 m2 m3 v0 v1 w h u0 u1 u2 u3 c0 c1 c2 c3 : Nat) (hw : w < 256) (hh : h < 256)
    (hne : u0 + 256 * u1 + 65536 * u2 + 16777216 * u3 ≠ w * h)
    (body : List Nat) (j j1 : Locals) (o : SprtzOut) (isStandard : Bool) (paletteID : Nat) :
    (loadSPRTZv2 z s_data (some (m0 :: m1 :: m2 :: m3 :: v0 :: v1 :: w :: h :: u0 :: u1 :: u2 ::
      u3 :: c0 :: c1 :: c2 :: c3 :: body)) j j1 o isStandard paletteID).1 = false := by
  have hv1 := loadSPRTZ_size_mismatch z m0 m1 m2 m3 v0 v1 w h u0 u1 u2 u3 c0 c1 c2 c3 hw hh hne
  cases body with
  | nil =>
    have hv := hv1 [] j1 o
    simp only [loadSPRTZv2, IStream.ofFile, IStream.read, blit, u16, u32]
    simp [toU32_imul_bytes w h hw hh, hne]
    split_ifs <;> first | rfl | exact hv
  | cons mode body =>
    have hv := hv1 (mode :: body) j1 o
    rw [loadSPRTZv2_header, toU32_imul_bytes w h hw hh]
    split_ifs <;> first | rfl | exact hv

/-- `loadSPRTZ` fails on a v1 layout whose payload does not decompress to
exactly width*height bytes. -/
theorem loadSPRTZ_payload_mismatch (z : Zlib)
    (m0 m1 m2 m3 v0 v1 w h u0 u1 u2 u3 c0 c1 c2 c3 : Nat) (hw : w < 256) (hh : h < 256)
    (pal payload trailing : List Nat) (hpal : pal.length = 42)
    (hlen : payload.length = c0 + 256 * c1 + 65536 * c2 + 16777216 * c3)
    (hbad : (z.uncompress payload (w * h)).1 ≠ Z_OK ∨
      (z.uncompress payload (w * h)).2.length ≠ w * h)
    (j : Locals) (o : SprtzOut) :
    (loadSPRTZ z (some (m0 :: m1 :: m2 :: m3 :: v0 :: v1 :: w :: h :: u0 :: u1 :: u2 :: u3 ::
      c0 :: c1 :: c2 :: c3 :: (pal ++ (payload ++ trailing)))) j o).1 = false := by
  rw [loadSPRTZ_header]
  split_ifs
  · rfl
  · rfl
  · rfl
  · simp only [readColors_stream _ _ pal _ hpal, ← hlen, readPayload_prefix]
    apply decompressRLE_fails
    rw [toNat_imul_bytes w h hw hh]
    exact hbad

/-- `loadSPRTZv2` fails on a v2 custom layout whose payload does not decompress
to exactly width*height bytes. -/
theorem loadSPRTZv2_custom_payload_mismatch (z : Zlib) (s_data : Option LibraryData)
    (m0 m1 m2 m3 v0 v1 w h u0 u1 u2 u3 c0 c1 c2 c3 : Nat) (hw : w < 256) (hh : h < 256)
    (hv : v0 + 256 * v1 ≠ 1)
    (pal payload trailing : List Nat) (hpal : pal.length = 42)
    (hlen : payload.length = c0 + 256 * c1 + 65536 * c2 + 16777216 * c3)
    (hbad : (z.uncompress payload (w * h)).1 ≠ Z_OK ∨
      (z.uncompress payload (w * h)).2.length ≠ w * h)
    (j j1 : Locals) (o : SprtzOut) (isStandard : Bool) (paletteID : Nat) :
    (loadSPRTZv2 z s_data (some (m0 :: m1 :: m2 :: m3 :: v0 :: v1 :: w :: h :: u0 :: u1 :: u2 ::
      u3 :: c0 :: c1 :: c2 :: c3 :: 255 :: (pal ++ (payload ++ trailing)))) j j1 o isStandard
      paletteID).1 = false := by
  rw [loadSPRTZv2_header]
  simp only [hv, if_false, if_true]
  split_ifs
  · rfl
  · rfl
  · rfl
  · simp only [readColors_stream _ _ pal _ hpal, ← hlen, readPayload_prefix]
    apply decompressRLE_fails
    rw [toNat_imul_bytes w h hw hh]
    exact hbad

/-- `loadSPRTZv2` fails on a v2 layout without embedded palette whose payload
does not decompress to exactly width*height bytes. -/
theorem loadSPRTZv2_standard_payload_mismatch (z : Zlib) (s_data : Option LibraryData)
    (m0 m1 m2 m3 v0 v1 w h u0 u1 u2 u3 c0 c1 c2 c3 mode : Nat) (hw : w < 256) (hh : h < 256)
    (hv : v0 + 256 * v1 ≠ 1) (hmode : mode ≠ 255)
    (payload trailing : List Nat)
    (hlen : payload.length = c0 + 256 * c1 + 65536 * c2 + 16777216 * c3)
    (hbad : (z.uncompress payload (w * h)).1 ≠ Z_OK ∨
      (z.uncompress payload (w * h)).2.length ≠ w * h)
    (j j1 : Locals) (o : SprtzOut) (isStandard : Bool) (paletteID : Nat) :
    (loadSPRTZv2 z s_data (some (m0 :: m1 :: m2 :: m3 :: v0 :: v1 :: w :: h :: u0 :: u1 :: u2 ::
      u3 :: c0 :: c1 :: c2 :: c3 :: mode :: (payload ++ trailing))) j j1 o isStandard
      paletteID).1 = false := by
  rw [loadSPRTZv2_header]
  simp only [hv, hmode, if_false]
  split_ifs
  · rfl
  · rfl
  · rfl
  · rfl
  · simp only [← hlen, readPayload_prefix]
    apply decompressRLE_fails
    rw [toNat_imul_bytes w h hw hh]
    exact hbad
  · rfl
  · rfl

/-- C5: on every stream with a complete 16-byte header, of any version, whose
stored uncompressed size differs from (width byte) * (height byte), `loadSPRTZ`
and `loadSPRTZv2` return false; and they return false on every stream laid out
as a v1 file, a v2 custom file or a v2 file without embedded palette whose
payload zlib does not decompress to exactly width*height bytes. -/
theorem C5_size_checks (z : Zlib) (s_data : Option LibraryData)
    (m0 m1 m2 m3 v0 v1 w h u0 u1 u2 u3 c0 c1 c2 c3 : Nat) (hw : w < 256) (hh : h < 256)
    (j j1 : Locals) (o : SprtzOut) (isStandard : Bool) (paletteID : Nat) :
    (u0 + 256 * u1 + 65536 * u2 + 16777216 * u3 ≠ w * h → ∀ body : List Nat,
      (loadSPRTZ z (some ([m0, m1, m2, m3, v0, v1, w, h, u0, u1, u2, u3, c0, c1, c2, c3]
        ++ body)) j o).1 = false ∧
      (loadSPRTZv2 z s_data (some ([m0, m1, m2, m3, v0, v1, w, h, u0, u1, u2, u3, c0, c1, c2,
        c3] ++ body)) j j1 o isStandard paletteID).1 = false) ∧
    (∀ pal payload trailing : List Nat, pal.length = 42 →
      payload.length = c0 + 256 * c1 + 65536 * c2 + 16777216 * c3 →
      ((z.uncompress payload (w * h)).1 ≠ Z_OK ∨
        (z.uncompress payload (w * h)).2.length ≠ w * h) →
      (loadSPRTZ z (some ([m0, m1, m2, m3, v0, v1, w, h, u0, u1, u2, u3, c0, c1, c2, c3]
        ++ pal ++ payload ++ trailing)) j o).1 = false ∧
      (v0 + 256 * v1 = 1 →
        (loadSPRTZv2 z s_data (some ([m0, m1, m2, m3, v0, v1, w, h, u0, u1, u2, u3, c0, c1,
          c2, c3] ++ pal ++ payload ++ trailing)) j j1 o isStandard paletteID).1 = false) ∧
      (v0 + 256 * v1 ≠ 1 →
        (loadSPRTZv2 z s_data (some ([m0, m1, m2, m3, v0, v1, w, h, u0, u1, u2, u3, c0, c1,
          c2, c3] ++ [255] ++ pal ++ payload ++ trailing)) j j1 o isStandard
          paletteID).1 = false) ∧
      (v0 + 256 * v1 ≠ 1 → ∀ mode : Nat, mode ≠ 255 →
        (loadSPRTZv2 z s_data (some ([m0, m1, m2, m3, v0, v1, w, h, u0, u1, u2, u3, c0, c1,
          c2, c3] ++ [mode] ++ payload ++ trailing)) j j1 o isStandard
          paletteID).1 = false)) := by
  refine ⟨fun hne body => ⟨?_, ?_⟩, fun pal payload trailing hpal hlen hbad => ⟨?_, ?_, ?_, ?_⟩⟩
  · exact loadSPRTZ_size_mismatch z m0 m1 m2 m3 v0 v1 w h u0 u1 u2 u3 c0 c1 c2 c3 hw hh hne
      body j o
  · exact loadSPRTZv2_size_mismatch z s_data m0 m1 m2 m3 v0 v1 w h u0 u1 u2 u3 c0 c1 c2 c3 hw
      hh hne body j j1 o isStandard paletteID
  · have := loadSPRTZ_payload_mismatch z m0 m1 m2 m3 v0 v1 w h u0 u1 u2 u3 c0 c1 c2 c3 hw hh
      pal payload trailing hpal hlen hbad j o
    simpa using this
  · intro hv
    have h1 := loadSPRTZ_payload_mismatch z m0 m1 m2 m3 v0 v1 w h u0 u1 u2 u3 c0 c1 c2 c3 hw hh
      pal payload trailing hpal hlen hbad j1 o
    cases pal with
    | nil => simp at hpal
    | cons mode pal =>
      simp only [List.cons_append, List.nil_append, List.append_assoc] at h1 ⊢
      rw [loadSPRTZv2_header]
      split_ifs
      · rfl
      · exact h1
  · intro hv
    have := loadSPRTZv2_custom_payload_mismatch z s_data m0 m1 m2 m3 v0 v1 w h u0 u1 u2 u3 c0
      c1 c2 c3 hw hh hv pal payload trailing hpal hlen hbad j j1 o isStandard paletteID
    simpa using this
  · intro hv mode hmode
    have := loadSPRTZv2_standard_payload_mismatch z s_data m0 m1 m2 m3 v0 v1 w h u0 u1 u2 u3 c0
      c1 c2 c3 mode hw hh hv hmode payload trailing hlen hbad j j1 o isStandard paletteID
    simpa using this

/-- C5 at concrete inputs: a 2x2 v1 header that declares 5 pixels, and a 2x2 v1
stream whose stored payload yields 3 bytes. -/
theorem C5_size_checks_witness :
    ((5 + 256 * 0 + 65536 * 0 + 16777216 * 0 ≠ 2 * 2) ∧
      (loadSPRTZ storedZlib (some ([83, 80, 84, 90, 1, 0, 2, 2, 5, 0, 0, 0, 3, 0, 0, 0] ++ []))
        sampleLocals sampleOut).1 = false ∧
      (loadSPRTZv2 storedZlib none
        (some ([83, 80, 84, 90, 1, 0, 2, 2, 5, 0, 0, 0, 3, 0, 0, 0] ++ []))
        sampleLocals sampleLocals sampleOut false 0).1 = false) ∧
    ((List.replicate 42 0).length = 42 ∧
      [1, 2, 3].length = 3 + 256 * 0 + 65536 * 0 + 16777216 * 0 ∧
      ((storedZlib.uncompress [1, 2, 3] (2 * 2)).1 ≠ Z_OK ∨
        (storedZlib.uncompress [1, 2, 3] (2 * 2)).2.length ≠ 2 * 2) ∧
      (loadSPRTZ storedZlib (some ([83, 80, 84, 90, 1, 0, 2, 2, 4, 0, 0, 0, 3, 0, 0, 0]
        ++ List.replicate 42 0 ++ [1, 2, 3] ++ [])) sampleLocals sampleOut).1 = false) := by
  have hbad : (storedZlib.uncompress [1, 2, 3] (2 * 2)).1 ≠ Z_OK ∨
      (storedZlib.uncompress [1, 2, 3] (2 * 2)).2.length ≠ 2 * 2 := Or.inr (by decide)
  have hA := (C5_size_checks storedZlib none 83 80 84 90 1 0 2 2 5 0 0 0 3 0 0 0 (by decide)
    (by decide) sampleLocals sampleLocals sampleOut false 0).1 (by decide) []
  have hB := (C5_size_checks storedZlib none 83 80 84 90 1 0 2 2 4 0 0 0 3 0 0 0 (by decide)
    (by decide) sampleLocals sampleLocals sampleOut false 0).2 (List.replicate 42 0) [1, 2, 3] []
    (by decide) (by decide) hbad
  exact ⟨⟨by decide, hA.1, hA.2⟩, by decide, by decide, hbad, hB.1⟩

/-! ## C6 -/

/-- C6: on every version-2 stream whose palette-mode byte is in 32..254,
`loadSPRTZv2` returns false, whatever the library state and the other bytes. -/
theorem C6_invalid_palette_mode (z : Zlib) (s_data : Option LibraryData)
    (m0 m1 m2 m3 v0 v1 w h u0 u1 u2 u3 c0 c1 c2 c3 mode : Nat) (body : List Nat)
    (hv : v0 + 256 * v1 = 2) (hlo : 32 ≤ mode) (hhi : mode ≤ 254)
    (j j1 : Locals) (o : SprtzOut) (isStandard : Bool) (paletteID : Nat) :
    (loadSPRTZv2 z s_data (some ([m0, m1, m2, m3, v0, v1, w, h, u0, u1, u2, u3, c0, c1, c2,
      c3, mode] ++ body)) j j1 o isStandard paletteID).1 = false := by
  simp only [List.cons_append, List.nil_append]
  rw [loadSPRTZv2_header]
  have h1 : ¬ (v0 + 256 * v1 = 1) := by omega
  have h2 : ¬ (mode = 255) := by omega
  have h3 : ¬ (mode < 32) := by omega
  simp only [h1, h2, h3, if_false]
  split_ifs <;> rfl

/-- C6 at a concrete input: an otherwise valid 1x1 stream with mode byte 0x20,
with the library initialized. -/
theorem C6_invalid_palette_mode_witness :
    (2 + 256 * 0 = 2) ∧ (32 ≤ 32) ∧ (32 ≤ 254) ∧
    (loadSPRTZv2 storedZlib (some sampleLibrary)
      (some ([83, 80, 84, 90, 2, 0, 1, 1, 1, 0, 0, 0, 1, 0, 0, 0, 32] ++ [7]))
      sampleLocals sampleLocals sampleOut false 0).1 = false :=
  ⟨by decide, by decide, by decide,
    C6_invalid_palette_mode storedZlib (some sampleLibrary) 83 80 84 90 2 0 1 1 1 0 0 0 1 0 0 0
      32 [7] (by decide) (by decide) (by decide) sampleLocals sampleLocals sampleOut false 0⟩

/-! ## C7 -/

/-- C7: on every version-2 stream whose palette-mode byte is in 0..31,
`loadSPRTZv2` returns false when the standard palette library is not
initialized. -/
theorem C7_library_not_initialized (z : Zlib) (s_data : Option LibraryData)
    (hlib : isInitialized s_data = false)
    (m0 m1 m2 m3 v0 v1 w h u0 u1 u2 u3 c0 c1 c2 c3 mode : Nat) (body : List Nat)
    (hv : v0 + 256 * v1 = 2) (hmode : mode < 32)
    (j j1 : Locals) (o : SprtzOut) (isStandard : Bool) (paletteID : Nat) :
    (loadSPRTZv2 z s_data (some ([m0, m1, m2, m3, v0, v1, w, h, u0, u1, u2, u3, c0, c1, c2,
      c3, mode] ++ body)) j j1 o isStandard paletteID).1 = false := by
  simp only [List.cons_append, List.nil_append]
  rw [loadSPRTZv2_header]
  have h1 : ¬ (v0 + 256 * v1 = 1) := by omega
  have h2 : ¬ (mode = 255) := by omega
  simp only [h1, h2, hmode, hlib, if_false, if_true]
  split_ifs <;> first | rfl | simp_all

/-- C7 at a concrete input: an otherwise valid 1x1 stream that names standard
palette 5, loaded while the library pointer is null. -/
theorem C7_library_not_initialized_witness :
    isInitialized none = false ∧ (2 + 256 * 0 = 2) ∧ (5 < 32) ∧
    (loadSPRTZv2 storedZlib none
      (some ([83, 80, 84, 90, 2, 0, 1, 1, 1, 0, 0, 0, 1, 0, 0, 0, 5] ++ [7]))
      sampleLocals sampleLocals sampleOut false 0).1 = false :=
  ⟨rfl, by decide, by decide,
    C7_library_not_initialized storedZlib none rfl 83 80 84 90 2 0 1 1 1 0 0 0 1 0 0 0
      5 [7] (by decide) (by decide) sampleLocals sampleLocals sampleOut false 0⟩

/-! ## C8 -/

/-- The low 32 bits of a value have the same four bytes as the value. -/
theorem le32_mod (n : Nat) : le32 (n % 4294967296) = le32 n := by
  simp only [le32]
  congr 1
  · omega
  · congr 1
    · omega
    · congr 1
      · omega
      · congr 1
        omega

/-- C8: for width and height in 1..40 the bytes written by `saveSPRTZ` are the
magic 'S','P','T','Z', the 16-bit version 1, the width byte, the height byte,
the 32-bit value width*height, the 32-bit length n of the compressed payload,
the 42 bytes R, G, B of palette entries 2..15 in index order (no byte of
entries 0 and 1, no alpha byte), then the n payload bytes; the header is 16
bytes and the file 58 + n bytes long. -/
theorem C8_v1_layout (z : Zlib) (w h : Int) (hw0 : 1 ≤ w) (hw1 : w ≤ 40) (hh0 : 1 ≤ h)
    (hh1 : h ≤ 40) (pixels p : Nat → Nat) :
    saveSPRTZ z w h pixels p =
      some (([83, 80, 84, 90] ++ [1, 0] ++ [w.toNat] ++ [h.toNat] ++ le32 (w * h).toNat
          ++ le32 (compressRLE z pixels (w * h)).length)
        ++ [p 8, p 9, p 10, p 12, p 13, p 14, p 16, p 17, p 18, p 20, p 21, p 22, p 24, p 25,
            p 26, p 28, p 29, p 30, p 32, p 33, p 34, p 36, p 37, p 38, p 40, p 41, p 42, p 44,
            p 45, p 46, p 48, p 49, p 50, p 52, p 53, p 54, p 56, p 57, p 58, p 60, p 61, p 62]
        ++ compressRLE z pixels (w * h)) ∧
    ([83, 80, 84, 90] ++ [1, 0] ++ [w.toNat] ++ [h.toNat] ++ le32 (w * h).toNat
          ++ le32 (compressRLE z pixels (w * h)).length).length = 16 ∧
    (∀ f, saveSPRTZ z w h pixels p = some f →
      f.length = 58 + (compressRLE z pixels (w * h)).length) := by
  have hm := imul_of_bytes w h (by omega) (by omega) (by omega) (by omega)
  have hw : toU8 w = w.toNat := by unfold toU8; omega
  have hh : toU8 h = h.toNat := by unfold toU8; omega
  have hmul : w * h ≤ 40 * 40 := mul_le_mul hw1 hh1 (by omega) (by norm_num)
  have hpos : 0 ≤ w * h := mul_nonneg (by omega) (by omega)
  have hu : toU32 (w * h) = (w * h).toNat := by unfold toU32; omega
  have hfile : saveSPRTZ z w h pixels p =
      some (([83, 80, 84, 90] ++ [1, 0] ++ [w.toNat] ++ [h.toNat] ++ le32 (w * h).toNat
          ++ le32 (compressRLE z pixels (w * h)).length)
        ++ [p 8, p 9, p 10, p 12, p 13, p 14, p 16, p 17, p 18, p 20, p 21, p 22, p 24, p 25,
            p 26, p 28, p 29, p 30, p 32, p 33, p 34, p 36, p 37, p 38, p 40, p 41, p 42, p 44,
            p 45, p 46, p 48, p 49, p 50, p 52, p 53, p 54, p 56, p 57, p 58, p 60, p 61, p 62]
        ++ compressRLE z pixels (w * h)) := by
    simp only [saveSPRTZ, writeHeader, hm, hw, hh, hu, le32_mod, writePaletteRGB_eq]
    rfl
  refine ⟨hfile, by simp [le32], ?_⟩
  intro f hf
  rw [hfile] at hf
  injection hf with hf
  subst hf
  simp [le32]
  omega

/-- C8 at a concrete input: an 8x8 canvas and the stored compressor. -/
theorem C8_v1_layout_witness :
    ((1 : Int) ≤ 8 ∧ (8 : Int) ≤ 40) ∧
    (∀ f, saveSPRTZ storedZlib 8 8 samplePixels samplePalette = some f →
      f.length = 58 + (compressRLE storedZlib samplePixels (8 * 8)).length) :=
  ⟨by decide, (C8_v1_layout storedZlib 8 8 (by decide) (by decide) (by decide) (by decide)
    samplePixels samplePalette).2.2⟩

/-! ## C9 -/

/-- Reading one byte from a stream that has one. -/
theorem read1_cons (d t : List Nat) (a : Nat) :
    IStream.read ⟨d, a :: t, true⟩ 1 = (⟨d, t, true⟩, [a]) := by
  simp [IStream.read]

/-- Reading four bytes from a stream that has four. -/
theorem read4_cons (d t : List Nat) (a b c e : Nat) :
    IStream.read ⟨d, a :: b :: c :: e :: t, true⟩ 4 = (⟨d, t, true⟩, [a, b, c, e]) := by
  simp [IStream.read]

/-- Reading five bytes from a stream that has five. -/
theorem read5_cons (d t : List Nat) (a b c e f : Nat) :
    IStream.read ⟨d, a :: b :: c :: e :: f :: t, true⟩ 5 = (⟨d, t, true⟩, [a, b, c, e, f]) := by
  simp [IStream.read]

/-- The magic buffer holding "SPRED" converts to that string. -/
theorem cString_spred :
    cString ([83, 80, 82, 69, 68] ++ (List.replicate 6 0).drop [83, 80, 82, 69, 68].length)
      = [83, 80, 82, 69, 68] := by
  rfl

theorem blit_one (j : Nat → Nat) (a : Nat) : blit j [a] 0 = a := by
  simp [blit]

theorem i32_blit4 (j : Nat → Nat) (a b c e : Nat) :
    i32 (blit j [a, b, c, e]) = asI32 (a + 256 * b + 65536 * c + 16777216 * e) := by
  simp [i32, u32, blit]

/-- What `loadSprite` does on a file with magic, version 1 and both sizes. -/
theorem loadSprite_header (sd : SpriteData) (a0 a1 a2 a3 b0 b1 b2 b3 : Nat) (body : List Nat)
    (j : SpriteLocals) :
    sd.loadSprite (some (83 :: 80 :: 82 :: 69 :: 68 :: 1 :: a0 :: a1 :: a2 :: a3 :: b0 :: b1 ::
      b2 :: b3 :: body)) j =
    (let width := asI32 (a0 + 256 * a1 + 65536 * a2 + 16777216 * a3)
     let height := asI32 (b0 + 256 * b1 + 65536 * b2 + 16777216 * b3)
     let r5 := IStream.readI ⟨83 :: 80 :: 82 :: 69 :: 68 :: 1 :: a0 :: a1 :: a2 :: a3 :: b0 ::
       b1 :: b2 :: b3 :: body, body, true⟩ (imul width height)
     let r6 := r5.1.read 64
     (r6.1.good, { sd with m_width := width, m_height := height,
                           m_pixels := blit sd.m_pixels r5.2,
                           m_palette := blit sd.m_palette r6.2 })) := by
  unfold SpriteData.loadSprite
  simp only [IStream.ofFile, PALETTE_BYTES, read5_cons, read1_cons, read4_cons, blit_one,
    i32_blit4]
  rw [cString_spred]
  simp

/-- Taking as many bytes as were peeked gives them all. -/
theorem take_peekN (buf : Nat → Nat) (n : Nat) : (peekN buf n).take n = peekN buf n :=
  List.take_of_length_le (by rw [length_peekN])

/-- C9: for a sprite with width and height in 1..40, the file written by
`saveSprite` is "SPRED", the version byte 1, the width and the height as 32-bit
little-endian ints, the width*height pixel bytes and the 64 palette bytes, in
that order; and `loadSprite` of that file, into any sprite object, succeeds and
restores the width, the height, the width*height pixel bytes and the 64 palette
bytes. -/
theorem C9_sprite_roundtrip (sd sd0 : SpriteData) (hw0 : 1 ≤ sd.m_width)
    (hw1 : sd.m_width ≤ 40) (hh0 : 1 ≤ sd.m_height) (hh1 : sd.m_height ≤ 40)
    (j : SpriteLocals) :
    sd.saveSprite = some ([83, 80, 82, 69, 68] ++ [1] ++ le32 sd.m_width.toNat
      ++ le32 sd.m_height.toNat ++ peekN sd.m_pixels (sd.m_width * sd.m_height).toNat
      ++ peekN sd.m_palette 64) ∧
    (sd0.loadSprite sd.saveSprite j).1 = true ∧
    (sd0.loadSprite sd.saveSprite j).2.m_width = sd.m_width ∧
    (sd0.loadSprite sd.saveSprite j).2.m_height = sd.m_height ∧
    (∀ i, i < (sd.m_width * sd.m_height).toNat →
      (sd0.loadSprite sd.saveSprite j).2.m_pixels i = sd.m_pixels i) ∧
    (∀ k, k < 64 → (sd0.loadSprite sd.saveSprite j).2.m_palette k = sd.m_palette k) := by
  have hm := imul_of_bytes sd.m_width sd.m_height (by omega) (by omega) (by omega) (by omega)
  have hmul : sd.m_width * sd.m_height ≤ 40 * 40 := mul_le_mul hw1 hh1 (by omega) (by norm_num)
  have hpos : 0 ≤ sd.m_width * sd.m_height := mul_nonneg (by omega) (by omega)
  have huw : toU32 sd.m_width = sd.m_width.toNat := by unfold toU32; omega
  have huh : toU32 sd.m_height = sd.m_height.toNat := by unfold toU32; omega
  have hfile : sd.saveSprite = some ([83, 80, 82, 69, 68] ++ [1] ++ le32 sd.m_width.toNat
      ++ le32 sd.m_height.toNat ++ peekN sd.m_pixels (sd.m_width * sd.m_height).toNat
      ++ peekN sd.m_palette 64) := by
    simp only [SpriteData.saveSprite, hm, huw, huh, PALETTE_BYTES]
  have hrw : asI32 (sd.m_width.toNat % 256 + 256 * (sd.m_width.toNat / 256 % 256)
      + 65536 * (sd.m_width.toNat / 65536 % 256)
      + 16777216 * (sd.m_width.toNat / 16777216 % 256)) = sd.m_width := by
    rw [u32_le32 _ (by omega)]
    unfold asI32
    omega
  have hrh : asI32 (sd.m_height.toNat % 256 + 256 * (sd.m_height.toNat / 256 % 256)
      + 65536 * (sd.m_height.toNat / 65536 % 256)
      + 16777216 * (sd.m_height.toNat / 16777216 % 256)) = sd.m_height := by
    rw [u32_le32 _ (by omega)]
    unfold asI32
    omega
  have hneg : ¬ (sd.m_width * sd.m_height < 0) := by omega
  have hload : sd0.loadSprite sd.saveSprite j =
      (true, { sd0 with m_width := sd.m_width, m_height := sd.m_height,
                        m_pixels := blit sd0.m_pixels
                          (peekN sd.m_pixels (sd.m_width * sd.m_height).toNat),
                        m_palette := blit sd0.m_palette (peekN sd.m_palette 64) }) := by
    rw [hfile]
    simp only [le32, List.cons_append, List.nil_append, List.append_assoc]
    rw [loadSprite_header]
    simp only [hrw, hrh, hm, IStream.readI, hneg, if_false, IStream.read, if_true]
    simp [length_peekN, List.take_left', List.drop_left', take_peekN]
  refine ⟨hfile, ?_⟩
  rw [hload]
  exact ⟨rfl, rfl, rfl, fun i hi => blit_peekN _ _ _ _ hi, fun k hk => blit_peekN _ _ _ _ hk⟩

/-- C9 at a concrete input: the 3x2 sample sprite loaded into a fresh sprite. -/
theorem C9_sprite_roundtrip_witness :
    ((1 : Int) ≤ sampleSprite.m_width ∧ sampleSprite.m_width ≤ 40 ∧
      (1 : Int) ≤ sampleSprite.m_height ∧ sampleSprite.m_height ≤ 40) ∧
    (SpriteData.new.loadSprite sampleSprite.saveSprite sampleSpriteLocals).1 = true ∧
    (SpriteData.new.loadSprite sampleSprite.saveSprite sampleSpriteLocals).2.m_width = 3 ∧
    (∀ k, k < 64 →
      (SpriteData.new.loadSprite sampleSprite.saveSprite sampleSpriteLocals).2.m_palette k
        = sampleSprite.m_palette k) := by
  have h := C9_sprite_roundtrip sampleSprite SpriteData.new (by decide) (by decide) (by decide)
    (by decide) sampleSpriteLocals
  exact ⟨by decide, h.2.1, h.2.2.1, h.2.2.2.2.2⟩

/-! ## C10 -/

/-- C10 (the code at the failing inputs): on a sprite file cut off after its
2x2 pixel bytes `loadSprite` returns false, yet the fresh 8x8 sprite has become
2x2 and its first pixel 5; on a palette file cut off after three palette bytes
`loadPalette` returns false, yet palette byte 0 has changed from 0 to 9. -/
theorem C10_failed_load_changes_state :
    (SpriteData.new.loadSprite
      (some [83, 80, 82, 69, 68, 1, 2, 0, 0, 0, 2, 0, 0, 0, 5, 5, 5, 5])
      sampleSpriteLocals).1 = false ∧
    (SpriteData.new.loadSprite
      (some [83, 80, 82, 69, 68, 1, 2, 0, 0, 0, 2, 0, 0, 0, 5, 5, 5, 5])
      sampleSpriteLocals).2.m_width = 2 ∧
    (SpriteData.new.loadSprite
      (some [83, 80, 82, 69, 68, 1, 2, 0, 0, 0, 2, 0, 0, 0, 5, 5, 5, 5])
      sampleSpriteLocals).2.m_pixels 0 = 5 ∧
    SpriteData.new.m_width = 8 ∧ SpriteData.new.m_pixels 0 = 0 ∧
    (SpriteData.new.loadPalette (some [83, 84, 80, 65, 76, 1, 9, 9, 9])
      sampleSpriteLocals).1 = false ∧
    (SpriteData.new.loadPalette (some [83, 84, 80, 65, 76, 1, 9, 9, 9])
      sampleSpriteLocals).2.m_palette 0 = 9 ∧
    SpriteData.new.m_palette 0 = 0 := by
  refine ⟨?_, ?_, ?_, ?_, ?_, ?_, ?_, ?_⟩ <;> rfl

/-! ## C11 -/

/-- C11: whenever `SpriteData::loadSPRTZ` or `SpriteData::loadSPRTZv2` returns
false, the sprite object (width, height, pixels, palette and every other
member) is exactly what it was before the call. -/
theorem C11_failed_sprtz_load_keeps_state (sd : SpriteData) (z : Zlib)
    (s_data : Option LibraryData) (file : Option (List Nat)) (j j1 : Locals) (t : SprtzOut)
    (isStandard : Bool) (paletteID : Nat) :
    ((sd.loadSPRTZ z file j t).1 = false → (sd.loadSPRTZ z file j t).2 = sd) ∧
    ((sd.loadSPRTZv2 z s_data file j j1 t isStandard paletteID).1 = false →
      (sd.loadSPRTZv2 z s_data file j j1 t isStandard paletteID).2.1 = sd) := by
  constructor
  · intro h
    unfold SpriteData.loadSPRTZ at h ⊢
    by_cases hr : (SPRED.loadSPRTZ z file j t).1 = true
    · simp [hr] at h
    · simp [hr]
  · intro h
    unfold SpriteData.loadSPRTZv2 at h ⊢
    by_cases hr : (SPRED.loadSPRTZv2 z s_data file j j1 t isStandard paletteID).1 = true
    · simp [hr] at h
    · simp [hr]

/-- C11 at concrete inputs: a v1 stream with a wrong size field, loaded into
the sample sprite by both functions. -/
theorem C11_failed_sprtz_load_keeps_state_witness :
    (sampleSprite.loadSPRTZ storedZlib
      (some [83, 80, 84, 90, 1, 0, 2, 2, 5, 0, 0, 0, 3, 0, 0, 0]) sampleLocals sampleOut).1
        = false ∧
    (sampleSprite.loadSPRTZ storedZlib
      (some [83, 80, 84, 90, 1, 0, 2, 2, 5, 0, 0, 0, 3, 0, 0, 0]) sampleLocals sampleOut).2
        = sampleSprite ∧
    (sampleSprite.loadSPRTZv2 storedZlib none
      (some [83, 80, 84, 90, 1, 0, 2, 2, 5, 0, 0, 0, 3, 0, 0, 0]) sampleLocals sampleLocals
      sampleOut false 0).1 = false ∧
    (sampleSprite.loadSPRTZv2 storedZlib none
      (some [83, 80, 84, 90, 1, 0, 2, 2, 5, 0, 0, 0, 3, 0, 0, 0]) sampleLocals sampleLocals
      sampleOut false 0).2.1 = sampleSprite := by
  have h := C11_failed_sprtz_load_keeps_state sampleSprite storedZlib none
    (some [83, 80, 84, 90, 1, 0, 2, 2, 5, 0, 0, 0, 3, 0, 0, 0]) sampleLocals sampleLocals
    sampleOut false 0
  have h1 : (sampleSprite.loadSPRTZ storedZlib
      (some [83, 80, 84, 90, 1, 0, 2, 2, 5, 0, 0, 0, 3, 0, 0, 0]) sampleLocals sampleOut).1
        = false := by rfl
  have h2 : (sampleSprite.loadSPRTZv2 storedZlib none
      (some [83, 80, 84, 90, 1, 0, 2, 2, 5, 0, 0, 0, 3, 0, 0, 0]) sampleLocals sampleLocals
      sampleOut false 0).1 = false := by rfl
  exact ⟨h1, h.1 h1, h2, h.2 h2⟩

/-! ## The sprite object: which members an operation touches -/

@[simp] theorem withPalette_m_palette (sd : SpriteData) (p : Nat → Nat) :
    (sd.withPalette p).m_palette = p := rfl

@[simp] theorem withPalette_withPalette (sd : SpriteData) (p q : Nat → Nat) :
    (sd.withPalette p).withPalette q = sd.withPalette q := rfl

@[simp] theorem withPixels_m_pixels (sd : SpriteData) (p : Nat → Nat) :
    (sd.withPixels p).m_pixels = p := rfl

@[simp] theorem withPixels_withPixels (sd : SpriteData) (p q : Nat → Nat) :
    (sd.withPixels p).withPixels q = sd.withPixels q := rfl

theorem withPalette_self (sd : SpriteData) : sd.withPalette sd.m_palette = sd := rfl

theorem withPixels_self (sd : SpriteData) : sd.withPixels sd.m_pixels = sd := rfl

/-- `setPaletteColor` with an index in 0..15 is four stores into the palette. -/
theorem setPaletteColor_ok (sd : SpriteData) (index : Int) (r g b a : Nat)
    (h : 0 ≤ index ∧ index < 16) :
    sd.setPaletteColor index r g b a =
      sd.withPalette (poke (poke (poke (poke sd.m_palette ((index * 4).toNat + 0) r)
        ((index * 4).toNat + 1) g) ((index * 4).toNat + 2) b) ((index * 4).toNat + 3) a) := by
  have h1 : ¬ (index < 0 ∨ index ≥ PALETTE_SIZE) := by
    simp only [PALETTE_SIZE]; omega
  simp only [SpriteData.setPaletteColor, h1, if_false, SpriteData.withPalette]

/-- `setPaletteColor` changes at most the palette. -/
theorem setPaletteColor_eq_withPalette (sd : SpriteData) (index : Int) (r g b a : Nat) :
    sd.setPaletteColor index r g b a
      = sd.withPalette (sd.setPaletteColor index r g b a).m_palette := by
  unfold SpriteData.setPaletteColor
  split_ifs <;> rfl

/-- `setPixel` changes at most the pixels. -/
theorem setPixel_eq_withPixels (sd : SpriteData) (x y : Int) (c : Nat) :
    sd.setPixel x y c = sd.withPixels (sd.setPixel x y c).m_pixels := by
  unfold SpriteData.setPixel
  split_ifs <;> rfl

set_option maxRecDepth 8000 in
/-- Step F in closed form: the 64 palette bytes are those of
`importPaletteByte`, nothing else changes. -/
theorem buildImportPalette_eq (sd : SpriteData) (ex : List Color) :
    sd.buildImportPalette ex
      = sd.withPalette (fun k => if k < 64 then importPaletteByte ex k else sd.m_palette k) := by
  have hstep : ∀ (acc : SpriteData) (i : Nat), i < 14 →
      (if i < ex.length then
        acc.setPaletteColor ((i : Int) + 2) (ex.getD i ⟨0, 0, 0, 255⟩).r
          (ex.getD i ⟨0, 0, 0, 255⟩).g (ex.getD i ⟨0, 0, 0, 255⟩).b 255
      else acc.setPaletteColor ((i : Int) + 2) 128 128 128 255)
      = acc.withPalette (poke (poke (poke (poke acc.m_palette (4 * (i + 2) + 0)
          (if i < ex.length then (ex.getD i ⟨0, 0, 0, 255⟩).r else 128))
          (4 * (i + 2) + 1) (if i < ex.length then (ex.getD i ⟨0, 0, 0, 255⟩).g else 128))
          (4 * (i + 2) + 2) (if i < ex.length then (ex.getD i ⟨0, 0, 0, 255⟩).b else 128))
          (4 * (i + 2) + 3) 255) := by
    intro acc i hi
    have e : (((i : Int) + 2) * 4).toNat = 4 * (i + 2) := by omega
    split_ifs <;> rw [setPaletteColor_ok _ _ _ _ _ _ (by omega), e]
  have h0 : ∀ (s : SpriteData) (r g b a : Nat), s.setPaletteColor 0 r g b a =
      s.withPalette (poke (poke (poke (poke s.m_palette 0 r) 1 g) 2 b) 3 a) :=
    fun s r g b a => setPaletteColor_ok s 0 r g b a (by omega)
  have h1 : ∀ (s : SpriteData) (r g b a : Nat), s.setPaletteColor 1 r g b a =
      s.withPalette (poke (poke (poke (poke s.m_palette 4 r) 5 g) 6 b) 7 a) :=
    fun s r g b a => setPaletteColor_ok s 1 r g b a (by omega)
  have hr : List.range 14 = [0, 1, 2, 3, 4, 5, 6, 7, 8, 9, 10, 11, 12, 13] := by rfl
  simp only [SpriteData.buildImportPalette, h0, h1, hr, List.foldl]
  rw [hstep _ 0 (by omega), hstep _ 1 (by omega), hstep _ 2 (by omega), hstep _ 3 (by omega),
    hstep _ 4 (by omega), hstep _ 5 (by omega), hstep _ 6 (by omega), hstep _ 7 (by omega),
    hstep _ 8 (by omega), hstep _ 9 (by omega), hstep _ 10 (by omega), hstep _ 11 (by omega),
    hstep _ 12 (by omega), hstep _ 13 (by omega)]
  simp only [withPalette_withPalette, withPalette_m_palette]
  congr 1
  funext k
  simp only [poke, importPaletteByte]
  by_cases hk : k < 64
  · interval_cases k <;> simp
  · simp only [hk, if_false]
    repeat (rw [if_neg (by omega)])

@[simp] theorem withPixels_m_width (sd : SpriteData) (p : Nat → Nat) :
    (sd.withPixels p).m_width = sd.m_width := rfl

@[simp] theorem withPixels_m_height (sd : SpriteData) (p : Nat → Nat) :
    (sd.withPixels p).m_height = sd.m_height := rfl

/-- The body of the pixel loops, for a pixel inside the canvas, is one store
of `storedIndex` at the linear index. -/
theorem mapImportPixel_ok (sd : SpriteData) (env : PngEnv) (q : List Nat) (ex : List Color)
    (x y : Nat) (hx : x < sd.m_width.toNat) (hy : y < sd.m_height.toNat) :
    sd.mapImportPixel env q ex (Int.ofNat x) (Int.ofNat y) =
      sd.withPixels (poke sd.m_pixels (y * sd.m_width.toNat + x)
        (storedIndex env q ex (y * sd.m_width.toNat + x))) := by
  have hW : sd.m_width = ((sd.m_width.toNat : Nat) : Int) := by omega
  have hH : sd.m_height = ((sd.m_height.toNat : Nat) : Int) := by omega
  generalize sd.m_width.toNat = w at hx hW ⊢
  generalize sd.m_height.toNat = h at hy hH
  have hg : ¬ ((Int.ofNat x) < 0 ∨ (Int.ofNat x) ≥ sd.m_width ∨ (Int.ofNat y) < 0
      ∨ (Int.ofNat y) ≥ sd.m_height) := by
    rw [hW, hH]
    simp only [Int.ofNat_eq_coe]
    omega
  have hidx : (Int.ofNat y * sd.m_width + Int.ofNat x) = ((y * w + x : Nat) : Int) := by
    rw [hW]; push_cast; simp
  simp only [SpriteData.mapImportPixel, SpriteData.setPixel, hg, if_false, hidx,
    Int.toNat_ofNat, storedIndex, SpriteData.withPixels]

/-- The inner loop over x in closed form. -/
theorem mapImportRow_eq (env : PngEnv) (q : List Nat) (ex : List Color) (W H : Int) (y : Nat)
    (hy : y < H.toNat) :
    ∀ (n : Nat), n ≤ W.toNat → ∀ (acc : SpriteData), acc.m_width = W → acc.m_height = H →
      ((List.range n).map Int.ofNat).foldl
        (fun acc2 x => acc2.mapImportPixel env q ex x (Int.ofNat y)) acc
      = acc.withPixels (fun k =>
          if y * W.toNat ≤ k ∧ k < y * W.toNat + n then storedIndex env q ex k
          else acc.m_pixels k) := by
  intro n
  induction n with
  | zero =>
    intro _ acc _ _
    simp only [List.range_zero, List.map_nil, List.foldl_nil]
    have : (fun k => if y * W.toNat ≤ k ∧ k < y * W.toNat + 0 then storedIndex env q ex k
        else acc.m_pixels k) = acc.m_pixels := by
      funext k
      rw [if_neg (by omega)]
    rw [this]
    rfl
  | succ n ih =>
    intro hn acc hw hh
    rw [List.range_succ, List.map_append, List.foldl_append, ih (by omega) acc hw hh]
    simp only [List.map_cons, List.map_nil, List.foldl_cons, List.foldl_nil]
    rw [mapImportPixel_ok _ _ _ _ n y (by simp [hw]; omega) (by simp [hh]; omega)]
    simp only [withPixels_withPixels, withPixels_m_pixels, withPixels_m_width, hw]
    congr 1
    funext k
    simp only [poke]
    by_cases h1 : k = y * W.toNat + n
    · subst h1
      simp
    · simp only [h1, if_false]
      by_cases h2 : y * W.toNat ≤ k ∧ k < y * W.toNat + n
      · rw [if_pos h2, if_pos (by omega)]
      · rw [if_neg h2, if_neg (by omega)]

/-- The outer loop over y in closed form. -/
theorem mapImportRows_eq (env : PngEnv) (q : List Nat) (ex : List Color) (W H : Int) :
    ∀ (m : Nat), m ≤ H.toNat → ∀ (acc : SpriteData), acc.m_width = W → acc.m_height = H →
      ((List.range m).map Int.ofNat).foldl
        (fun acc1 y => (intRange W).foldl
          (fun acc2 x => acc2.mapImportPixel env q ex x y) acc1) acc
      = acc.withPixels (fun k =>
          if k < m * W.toNat then storedIndex env q ex k else acc.m_pixels k) := by
  intro m
  induction m with
  | zero =>
    intro _ acc _ _
    simp only [List.range_zero, List.map_nil, List.foldl_nil]
    have : (fun k => if k < 0 * W.toNat then storedIndex env q ex k else acc.m_pixels k)
        = acc.m_pixels := by
      funext k
      rw [if_neg (by omega)]
    rw [this]
    rfl
  | succ m ih =>
    intro hm acc hw hh
    rw [List.range_succ, List.map_append, List.foldl_append, ih (by omega) acc hw hh]
    simp only [List.map_cons, List.map_nil, List.foldl_cons, List.foldl_nil, intRange]
    rw [mapImportRow_eq env q ex W H m (by omega) W.toNat (le_refl _) _ (by simp [hw])
      (by simp [hh])]
    simp only [withPixels_withPixels, withPixels_m_pixels]
    congr 1
    funext k
    have e : (m + 1) * W.toNat = m * W.toNat + W.toNat := by ring
    by_cases h1 : m * W.toNat ≤ k ∧ k < m * W.toNat + W.toNat
    · rw [if_pos h1, if_pos (by omega)]
    · rw [if_neg h1]
      by_cases h2 : k < m * W.toNat
      · rw [if_pos h2, if_pos (by omega)]
      · rw [if_neg h2, if_neg (by omega)]

/-- Step G in closed form: pixel `k` below height * width holds `storedIndex`,
nothing else changes. -/
theorem mapImportPixels_eq (sd : SpriteData) (env : PngEnv) (q : List Nat) (ex : List Color) :
    sd.mapImportPixels env q ex
      = sd.withPixels (fun k =>
          if k < sd.m_height.toNat * sd.m_width.toNat then storedIndex env q ex k
          else sd.m_pixels k) := by
  unfold SpriteData.mapImportPixels
  simp only [intRange]
  exact mapImportRows_eq env q ex sd.m_width sd.m_height sd.m_height.toNat (le_refl _) sd rfl rfl

/-- Forcing the canvas size always leaves the target size. -/
theorem syncDimensions_eq (sd : SpriteData) :
    sd.syncDimensions
      = { sd with m_width := sd.m_pngTargetWidth, m_height := sd.m_pngTargetHeight } := by
  unfold SpriteData.syncDimensions
  split_ifs with h
  · rfl
  · have h1 : sd.m_width = sd.m_pngTargetWidth := by
      by_contra hc; exact h (Or.inl hc)
    have h2 : sd.m_height = sd.m_pngTargetHeight := by
      by_contra hc; exact h (Or.inr hc)
    cases sd
    simp only at h1 h2
    subst h1 h2
    rfl

/-- The resample in closed form. -/
theorem resamplePNGAtOffset_eq (sd : SpriteData) (env : PngEnv) :
    sd.resamplePNGAtOffset env =
      if (!sd.m_hasPendingImport || sd.m_importedPNGData.isEmpty) = true then (false, sd)
      else
        match env.resizePNG
          (croppedSource sd.m_importedPNGData sd.m_importedPNGWidth sd.m_importedPNGHeight).1
          (croppedSource sd.m_importedPNGData sd.m_importedPNGWidth sd.m_importedPNGHeight).2.1
          (croppedSource sd.m_importedPNGData sd.m_importedPNGWidth sd.m_importedPNGHeight).2.2
          0 0 sd.m_pngTargetWidth sd.m_pngTargetHeight with
        | none => (false, sd)
        | some resizedRGBA => (true, sd.resampled env resizedRGBA) := by
  unfold SpriteData.resamplePNGAtOffset
  split_ifs with hc
  · rfl
  · simp only []
    cases hr : env.resizePNG
      (croppedSource sd.m_importedPNGData sd.m_importedPNGWidth sd.m_importedPNGHeight).1
      (croppedSource sd.m_importedPNGData sd.m_importedPNGWidth sd.m_importedPNGHeight).2.1
      (croppedSource sd.m_importedPNGData sd.m_importedPNGWidth sd.m_importedPNGHeight).2.2
      0 0 sd.m_pngTargetWidth sd.m_pngTargetHeight with
    | none => rfl
    | some resizedRGBA =>
      simp only [buildImportPalette_eq, syncDimensions_eq, mapImportPixels_eq]
      rfl

/-- A resample changes at most the canvas: width, height, pixels, palette. -/
theorem resamplePNGAtOffset_canvas_only (sd : SpriteData) (env : PngEnv) :
    (sd.resamplePNGAtOffset env).2 =
      { sd with m_width := (sd.resamplePNGAtOffset env).2.m_width,
                m_height := (sd.resamplePNGAtOffset env).2.m_height,
                m_pixels := (sd.resamplePNGAtOffset env).2.m_pixels,
                m_palette := (sd.resamplePNGAtOffset env).2.m_palette } := by
  rw [resamplePNGAtOffset_eq]
  split_ifs
  · rfl
  · split <;> rfl

/-- Resampling twice is resampling once. -/
theorem resamplePNGAtOffset_idem (sd : SpriteData) (env : PngEnv) :
    (sd.resamplePNGAtOffset env).2.resamplePNGAtOffset env = sd.resamplePNGAtOffset env := by
  rw [resamplePNGAtOffset_eq sd env]
  split_ifs with hc
  · rw [resamplePNGAtOffset_eq]
    simp only [hc, if_true]
  · cases hr : env.resizePNG
      (croppedSource sd.m_importedPNGData sd.m_importedPNGWidth sd.m_importedPNGHeight).1
      (croppedSource sd.m_importedPNGData sd.m_importedPNGWidth sd.m_importedPNGHeight).2.1
      (croppedSource sd.m_importedPNGData sd.m_importedPNGWidth sd.m_importedPNGHeight).2.2
      0 0 sd.m_pngTargetWidth sd.m_pngTargetHeight with
    | none =>
      simp only []
      rw [resamplePNGAtOffset_eq]
      simp only [hc, hr]
      rfl
    | some resizedRGBA =>
      simp only []
      rw [resamplePNGAtOffset_eq]
      have hc' : ¬ ((!(sd.resampled env resizedRGBA).m_hasPendingImport
          || (sd.resampled env resizedRGBA).m_importedPNGData.isEmpty) = true) := hc
      rw [if_neg hc']
      have hr' : env.resizePNG
          (croppedSource (sd.resampled env resizedRGBA).m_importedPNGData
            (sd.resampled env resizedRGBA).m_importedPNGWidth
            (sd.resampled env resizedRGBA).m_importedPNGHeight).1
          (croppedSource (sd.resampled env resizedRGBA).m_importedPNGData
            (sd.resampled env resizedRGBA).m_importedPNGWidth
            (sd.resampled env resizedRGBA).m_importedPNGHeight).2.1
          (croppedSource (sd.resampled env resizedRGBA).m_importedPNGData
            (sd.resampled env resizedRGBA).m_importedPNGWidth
            (sd.resampled env resizedRGBA).m_importedPNGHeight).2.2
          0 0 (sd.resampled env resizedRGBA).m_pngTargetWidth
          (sd.resampled env resizedRGBA).m_pngTargetHeight = some resizedRGBA := hr
      rw [hr']
      simp only []
      congr 1
      simp only [SpriteData.resampled]
      congr 1
      · funext k
        split_ifs <;> rfl
      · funext k
        split_ifs <;> rfl

set_option maxRecDepth 8000 in
/-- The default palette in closed form: entry 0 transparent black, entry 1
opaque black, entries 2..15 the grey ramp; nothing else changes. -/
theorem initializeDefaultPalette_eq (sd : SpriteData) :
    sd.initializeDefaultPalette
      = sd.withPalette (fun k => if k < 64 then
          (if k % 4 = 3 then (if k = 3 then 0 else 255)
           else if k < 8 then 0 else (k / 4 - 2) * 255 / 13)
        else sd.m_palette k) := by
  have hr : (List.range' 2 14 >>= fun a => (pure (a : Int) : List Int))
      = [2, 3, 4, 5, 6, 7, 8, 9, 10, 11, 12, 13, 14, 15] := by rfl
  have hs : ∀ (s : SpriteData) (i : Int) (r g b a : Nat), 0 ≤ i ∧ i < 16 →
      s.setPaletteColor i r g b a =
      s.withPalette (poke (poke (poke (poke s.m_palette ((i * 4).toNat + 0) r)
        ((i * 4).toNat + 1) g) ((i * 4).toNat + 2) b) ((i * 4).toNat + 3) a) :=
    fun s i r g b a h => setPaletteColor_ok s i r g b a h
  unfold SpriteData.initializeDefaultPalette
  simp only []
  rw [hr]
  simp only [List.foldl]
  rw [hs _ 0 _ _ _ _ (by omega), hs _ 1 _ _ _ _ (by omega), hs _ 2 _ _ _ _ (by omega),
    hs _ 3 _ _ _ _ (by omega), hs _ 4 _ _ _ _ (by omega), hs _ 5 _ _ _ _ (by omega),
    hs _ 6 _ _ _ _ (by omega), hs _ 7 _ _ _ _ (by omega), hs _ 8 _ _ _ _ (by omega),
    hs _ 9 _ _ _ _ (by omega), hs _ 10 _ _ _ _ (by omega), hs _ 11 _ _ _ _ (by omega),
    hs _ 12 _ _ _ _ (by omega), hs _ 13 _ _ _ _ (by omega), hs _ 14 _ _ _ _ (by omega),
    hs _ 15 _ _ _ _ (by omega)]
  simp only [withPalette_withPalette, withPalette_m_palette]
  congr 1
  funext k
  simp only [poke]
  by_cases hk : k < 64
  · interval_cases k <;> simp [toU8]
  · simp only [hk, if_false]
    repeat (rw [if_neg (by norm_num; omega)])

/-- `clear` in closed form: 1600 zero pixels and the default palette; nothing
else changes. -/
theorem clear_eq (sd : SpriteData) :
    sd.clear = (sd.withPixels (fun k => if k < 1600 then 0 else sd.m_pixels k)).withPalette
      (fun k => if k < 64 then
          (if k % 4 = 3 then (if k = 3 then 0 else 255)
           else if k < 8 then 0 else (k / 4 - 2) * 255 / 13)
        else sd.m_palette k) := by
  unfold SpriteData.clear
  rw [initializeDefaultPalette_eq]
  rfl

/-! ## The import session: which members an operation touches -/

/-- A resample assigns no session member. -/
theorem resample_sameSession (sd : SpriteData) (env : PngEnv) :
    (sd.resamplePNGAtOffset env).2.sameSession sd := by
  rw [resamplePNGAtOffset_canvas_only]
  exact ⟨rfl, rfl, rfl, rfl, rfl, rfl, rfl, rfl⟩

/-- A successful resample leaves a canvas of the target size. -/
theorem resample_true_size (sd : SpriteData) (env : PngEnv)
    (h : (sd.resamplePNGAtOffset env).1 = true) :
    (sd.resamplePNGAtOffset env).2.m_width = sd.m_pngTargetWidth ∧
    (sd.resamplePNGAtOffset env).2.m_height = sd.m_pngTargetHeight := by
  rw [resamplePNGAtOffset_eq] at h ⊢
  by_cases hc : (!sd.m_hasPendingImport || sd.m_importedPNGData.isEmpty) = true
  · rw [if_pos hc] at h
    exact absurd h (by simp)
  · rw [if_neg hc] at h ⊢
    revert h
    split
    · intro h
      exact absurd h (by simp)
    · intro _
      exact ⟨rfl, rfl⟩

/-- `resize` leaves the session members alone. -/
theorem resize_sameSession (sd : SpriteData) (w h : Int) :
    (sd.resize w h).sameSession sd := by
  unfold SpriteData.resize
  simp only []
  rw [clear_eq]
  exact ⟨rfl, rfl, rfl, rfl, rfl, rfl, rfl, rfl⟩

/-- The session that `startPNGImport` leaves once the file has loaded, whether
or not the resample succeeds. -/
theorem startPNGImport_session (sd : SpriteData) (env : PngEnv) (rgba : List Nat)
    (pngWidth pngHeight targetWidth targetHeight : Int) :
    (sd.startPNGImport env (some (rgba, pngWidth, pngHeight)) targetWidth
        targetHeight).2.m_importedPNGData = rgba ∧
    (sd.startPNGImport env (some (rgba, pngWidth, pngHeight)) targetWidth
        targetHeight).2.m_importedPNGWidth = pngWidth ∧
    (sd.startPNGImport env (some (rgba, pngWidth, pngHeight)) targetWidth
        targetHeight).2.m_importedPNGHeight = pngHeight ∧
    (sd.startPNGImport env (some (rgba, pngWidth, pngHeight)) targetWidth
        targetHeight).2.m_pngOffsetX = 0 ∧
    (sd.startPNGImport env (some (rgba, pngWidth, pngHeight)) targetWidth
        targetHeight).2.m_pngOffsetY = 0 ∧
    (sd.startPNGImport env (some (rgba, pngWidth, pngHeight)) targetWidth
        targetHeight).2.m_pngTargetWidth
      = (targetSize pngWidth pngHeight targetWidth targetHeight).1 ∧
    (sd.startPNGImport env (some (rgba, pngWidth, pngHeight)) targetWidth
        targetHeight).2.m_pngTargetHeight
      = (targetSize pngWidth pngHeight targetWidth targetHeight).2 ∧
    (sd.startPNGImport env (some (rgba, pngWidth, pngHeight)) targetWidth
        targetHeight).2.m_hasPendingImport = true := by
  simp only [SpriteData.startPNGImport]
  obtain ⟨h1, h2, h3, h4, h5, h6, h7, h8⟩ := resample_sameSession
    (SpriteData.resize
      { sd with m_importedPNGData := rgba, m_importedPNGWidth := pngWidth,
                m_importedPNGHeight := pngHeight, m_pngOffsetX := 0, m_pngOffsetY := 0,
                m_hasPendingImport := true,
                m_pngTargetWidth := (targetSize pngWidth pngHeight targetWidth targetHeight).1,
                m_pngTargetHeight := (targetSize pngWidth pngHeight targetWidth targetHeight).2 }
      (targetSize pngWidth pngHeight targetWidth targetHeight).1
      (targetSize pngWidth pngHeight targetWidth targetHeight).2) env
  obtain ⟨g1, g2, g3, g4, g5, g6, g7, g8⟩ := resize_sameSession
      { sd with m_importedPNGData := rgba, m_importedPNGWidth := pngWidth,
                m_importedPNGHeight := pngHeight, m_pngOffsetX := 0, m_pngOffsetY := 0,
                m_hasPendingImport := true,
                m_pngTargetWidth := (targetSize pngWidth pngHeight targetWidth targetHeight).1,
                m_pngTargetHeight := (targetSize pngWidth pngHeight targetWidth targetHeight).2 }
      (targetSize pngWidth pngHeight targetWidth targetHeight).1
      (targetSize pngWidth pngHeight targetWidth targetHeight).2
  exact ⟨h1.trans g1, h2.trans g2, h3.trans g3, h4.trans g4, h5.trans g5, h6.trans g6,
    h7.trans g7, h8.trans g8⟩

/-- A successful `startPNGImport` leaves a canvas of the computed target
size. -/
theorem startPNGImport_true_size (sd : SpriteData) (env : PngEnv) (rgba : List Nat)
    (pngWidth pngHeight targetWidth targetHeight : Int)
    (hs : (sd.startPNGImport env (some (rgba, pngWidth, pngHeight)) targetWidth
      targetHeight).1 = true) :
    (sd.startPNGImport env (some (rgba, pngWidth, pngHeight)) targetWidth
        targetHeight).2.m_width
      = (targetSize pngWidth pngHeight targetWidth targetHeight).1 ∧
    (sd.startPNGImport env (some (rgba, pngWidth, pngHeight)) targetWidth
        targetHeight).2.m_height
      = (targetSize pngWidth pngHeight targetWidth targetHeight).2 := by
  simp only [SpriteData.startPNGImport] at hs ⊢
  obtain ⟨gw, gh⟩ := resample_true_size _ env hs
  obtain ⟨_, _, _, _, _, r6, r7, _⟩ := resize_sameSession
    { sd with m_importedPNGData := rgba, m_importedPNGWidth := pngWidth,
              m_importedPNGHeight := pngHeight, m_pngOffsetX := 0, m_pngOffsetY := 0,
              m_hasPendingImport := true,
              m_pngTargetWidth := (targetSize pngWidth pngHeight targetWidth targetHeight).1,
              m_pngTargetHeight := (targetSize pngWidth pngHeight targetWidth targetHeight).2 }
    (targetSize pngWidth pngHeight targetWidth targetHeight).1
    (targetSize pngWidth pngHeight targetWidth targetHeight).2
  exact ⟨gw.trans r6, gh.trans r7⟩

/-! ## Rounding to `float` -/

theorem ratFloor_le (x : Rat) : ((Rat.floor x : Int) : Rat) ≤ x := Int.floor_le x

theorem lt_ratFloor_add_one (x : Rat) : x < ((Rat.floor x : Int) : Rat) + 1 :=
  Int.lt_floor_add_one x

theorem ratFloor_mono {x y : Rat} (h : x ≤ y) : Rat.floor x ≤ Rat.floor y :=
  Int.floor_mono h

theorem ratFloor_intCast (n : Int) : Rat.floor (n : Rat) = n :=
  Int.floor_intCast (α := Rat) n

/-- The floor of a rational between an integer and its successor. -/
theorem ratFloor_eq (x : Rat) (m : Int) (h1 : (m : Rat) ≤ x) (h2 : x < (m : Rat) + 1) :
    Rat.floor x = m :=
  Int.floor_eq_iff.mpr ⟨h1, h2⟩

/-- Truncation of a non-negative rational is its floor. -/
theorem truncRat_of_nonneg (q : Rat) (h : 0 ≤ q) : truncRat q = Rat.floor q := by
  unfold truncRat
  rw [if_pos h]

/-- Truncation of a non-negative rational between an integer and its
successor. -/
theorem truncRat_eq (q : Rat) (m : Int) (h0 : 0 ≤ q) (h1 : (m : Rat) ≤ q)
    (h2 : q < (m : Rat) + 1) : truncRat q = m := by
  rw [truncRat_of_nonneg q h0]
  exact ratFloor_eq q m h1 h2

/-- Truncation leaves an integer as it is. -/
theorem truncRat_intCast (n : Int) : truncRat (n : Rat) = n := by
  unfold truncRat
  split_ifs with h
  · exact ratFloor_intCast n
  · have hn : Rat.floor (-(n : Rat)) = -n := by
      have hm := ratFloor_intCast (-n)
      push_cast at hm
      exact hm
    rw [hn]
    omega

/-- Rounding to the nearest integer returns the floor or the floor plus one. -/
theorem roundHalfEven_cases (x : Rat) :
    roundHalfEven x = Rat.floor x ∨ roundHalfEven x = Rat.floor x + 1 := by
  unfold roundHalfEven
  dsimp only
  split_ifs <;> simp

/-- An integer is its own nearest integer. -/
theorem roundHalfEven_intCast (n : Int) : roundHalfEven (n : Rat) = n := by
  unfold roundHalfEven
  dsimp only
  rw [ratFloor_intCast]
  simp

/-- The nearest integer is at most one half above the rational. -/
theorem roundHalfEven_sub_le (x : Rat) : ((roundHalfEven x : Int) : Rat) - x ≤ 1 / 2 := by
  have h1 := ratFloor_le x
  unfold roundHalfEven
  dsimp only
  split_ifs with a b c
  · linarith
  · push_cast; linarith
  · linarith
  · push_cast; linarith

/-- Rounding to the nearest integer is monotone. -/
theorem roundHalfEven_mono {x y : Rat} (h : x ≤ y) : roundHalfEven x ≤ roundHalfEven y := by
  have hf := ratFloor_mono h
  have hx1 := ratFloor_le x
  have hx2 := lt_ratFloor_add_one x
  have hy1 := ratFloor_le y
  have hy2 := lt_ratFloor_add_one y
  rcases lt_or_eq_of_le hf with hlt | heq
  · rcases roundHalfEven_cases x with a | a <;> rcases roundHalfEven_cases y with b | b <;> omega
  · unfold roundHalfEven
    dsimp only
    rw [← heq]
    split_ifs <;> first | omega | (exfalso; linarith)

/-- The nearest integer of a rational less than one half above an integer. -/
theorem roundHalfEven_below (x : Rat) (m : Int) (h1 : (m : Rat) ≤ x)
    (h2 : 2 * (x - (m : Rat)) < 1) : roundHalfEven x = m := by
  have hf : Rat.floor x = m := ratFloor_eq x m h1 (by linarith)
  unfold roundHalfEven
  dsimp only
  rw [hf, if_pos h2]

/-- The nearest integer of a rational more than one half above an integer and
below its successor. -/
theorem roundHalfEven_above (x : Rat) (m : Int) (h1 : 1 < 2 * (x - (m : Rat)))
    (h2 : x < (m : Rat) + 1) : roundHalfEven x = m + 1 := by
  have hf : Rat.floor x = m := ratFloor_eq x m (by linarith) h2
  unfold roundHalfEven
  dsimp only
  rw [hf, if_neg (by linarith), if_pos h1]

/-- Half way between two integers the even one is taken. -/
theorem roundHalfEven_tie (x : Rat) (m : Int) (h : 2 * (x - (m : Rat)) = 1) :
    roundHalfEven x = if m % 2 = 0 then m else m + 1 := by
  have hf : Rat.floor x = m := ratFloor_eq x m (by linarith) (by linarith)
  unfold roundHalfEven
  dsimp only
  rw [hf, if_neg (by linarith), if_neg (by linarith)]

theorem two_zpow_pos (e : Int) : (0 : Rat) < (2 : Rat) ^ e := zpow_pos (by norm_num) e

theorem two_zpow_split (e : Int) : (2 : Rat) ^ e = 8388608 * (2 : Rat) ^ (e - 23) := by
  have h : e = 23 + (e - 23) := by ring
  conv_lhs => rw [h]
  rw [zpow_add₀ (by norm_num : (2 : Rat) ≠ 0)]
  norm_num

theorem two_zpow_succ (e : Int) : (2 : Rat) ^ (e + 1) = 16777216 * (2 : Rat) ^ (e - 23) := by
  have h : e + 1 = 24 + (e - 23) := by ring
  rw [h, zpow_add₀ (by norm_num : (2 : Rat) ≠ 0)]
  norm_num

/-- The exponent of a positive rational is fixed by the two powers of 2 around
it. -/
theorem log_eq_of_binade (q : Rat) (e : Int) (h1 : (2 : Rat) ^ e ≤ q)
    (h2 : q < (2 : Rat) ^ (e + 1)) : Int.log 2 |q| = e := by
  have hq : 0 < q := lt_of_lt_of_le (two_zpow_pos e) h1
  rw [abs_of_pos hq]
  have a1 : e ≤ Int.log 2 q :=
    (Int.zpow_le_iff_le_log (by norm_num) hq).mp (by simpa using h1)
  have a2 : Int.log 2 q < e + 1 :=
    (Int.lt_zpow_iff_log_lt (by norm_num) hq).mp (by simpa using h2)
  omega

/-- The `float` nearest to a rational between 2^e and 2^(e+1). -/
theorem roundF32_of_binade (q : Rat) (e : Int) (h1 : (2 : Rat) ^ e ≤ q)
    (h2 : q < (2 : Rat) ^ (e + 1)) :
    roundF32 q
      = ((roundHalfEven (q / (2 : Rat) ^ (e - 23)) : Int) : Rat) * (2 : Rat) ^ (e - 23) := by
  have hq : 0 < q := lt_of_lt_of_le (two_zpow_pos e) h1
  unfold roundF32
  rw [if_neg (ne_of_gt hq)]
  dsimp only
  rw [log_eq_of_binade q e h1 h2]

/-- The `float` nearest to a rational, from its exponent and the rounded
significand. -/
theorem roundF32_eval (q : Rat) (e m : Int) (h1 : (2 : Rat) ^ e ≤ q)
    (h2 : q < (2 : Rat) ^ (e + 1)) (h3 : roundHalfEven (q / (2 : Rat) ^ (e - 23)) = m) :
    roundF32 q = (m : Rat) * (2 : Rat) ^ (e - 23) := by
  rw [roundF32_of_binade q e h1 h2, h3]

/-- Every positive rational lies between two consecutive powers of 2. -/
theorem binade_of_pos (q : Rat) (hq : 0 < q) :
    (2 : Rat) ^ (Int.log 2 q) ≤ q ∧ q < (2 : Rat) ^ (Int.log 2 q + 1) := by
  have a := Int.zpow_log_le_self (b := 2) (by norm_num) hq
  have b := Int.lt_zpow_succ_log_self (b := 2) (by norm_num) q
  exact ⟨by simpa using a, by simpa using b⟩

/-- The rounded value stays between the two powers of 2 around the rational. -/
theorem roundF32_binade (q : Rat) (e : Int) (h1 : (2 : Rat) ^ e ≤ q)
    (h2 : q < (2 : Rat) ^ (e + 1)) :
    (2 : Rat) ^ e ≤ roundF32 q ∧ roundF32 q ≤ (2 : Rat) ^ (e + 1) := by
  have hu := two_zpow_pos (e - 23)
  rw [roundF32_of_binade q e h1 h2, two_zpow_split e, two_zpow_succ e]
  rw [two_zpow_split e] at h1
  rw [two_zpow_succ e] at h2
  have s1 : ((8388608 : Int) : Rat) ≤ q / (2 : Rat) ^ (e - 23) := by
    rw [le_div_iff₀ hu]; push_cast; exact h1
  have s2 : q / (2 : Rat) ^ (e - 23) ≤ ((16777216 : Int) : Rat) := by
    rw [div_le_iff₀ hu]; push_cast; exact le_of_lt h2
  have r1 := roundHalfEven_mono s1
  have r2 := roundHalfEven_mono s2
  rw [roundHalfEven_intCast] at r1 r2
  have r1q : (8388608 : Rat) ≤ ((roundHalfEven (q / (2 : Rat) ^ (e - 23)) : Int) : Rat) := by
    exact_mod_cast r1
  have r2q : ((roundHalfEven (q / (2 : Rat) ^ (e - 23)) : Int) : Rat) ≤ (16777216 : Rat) := by
    exact_mod_cast r2
  exact ⟨mul_le_mul_of_nonneg_right r1q (le_of_lt hu),
    mul_le_mul_of_nonneg_right r2q (le_of_lt hu)⟩

/-- The `float` nearest to a positive rational is positive. -/
theorem roundF32_pos (q : Rat) (hq : 0 < q) : 0 < roundF32 q := by
  obtain ⟨h1, h2⟩ := binade_of_pos q hq
  exact lt_of_lt_of_le (two_zpow_pos _) (roundF32_binade q _ h1 h2).1

/-- Rounding to `float` is monotone on the positive rationals. -/
theorem roundF32_mono (x y : Rat) (hx : 0 < x) (h : x ≤ y) : roundF32 x ≤ roundF32 y := by
  have hy : 0 < y := lt_of_lt_of_le hx h
  obtain ⟨x1, x2⟩ := binade_of_pos x hx
  obtain ⟨y1, y2⟩ := binade_of_pos y hy
  have hl : Int.log 2 x ≤ Int.log 2 y := Int.log_mono_right hx h
  rcases lt_or_eq_of_le hl with hlt | heq
  · have a := (roundF32_binade x _ x1 x2).2
    have b := (roundF32_binade y _ y1 y2).1
    have c : (2 : Rat) ^ (Int.log 2 x + 1) ≤ (2 : Rat) ^ (Int.log 2 y) :=
      zpow_le_zpow_right₀ (by norm_num) (by omega)
    linarith
  · rw [← heq] at y1 y2
    rw [roundF32_of_binade x _ x1 x2, roundF32_of_binade y _ y1 y2]
    have hu := two_zpow_pos (Int.log 2 x - 23)
    have d : x / (2 : Rat) ^ (Int.log 2 x - 23) ≤ y / (2 : Rat) ^ (Int.log 2 x - 23) :=
      div_le_div_of_nonneg_right h (le_of_lt hu)
    have r := roundHalfEven_mono d
    have rq : ((roundHalfEven (x / (2 : Rat) ^ (Int.log 2 x - 23)) : Int) : Rat)
        ≤ ((roundHalfEven (y / (2 : Rat) ^ (Int.log 2 x - 23)) : Int) : Rat) := by
      exact_mod_cast r
    exact mul_le_mul_of_nonneg_right rq (le_of_lt hu)

/-- Rounding up adds at most the fraction 2^-24 of the rounded value. -/
theorem roundF32_lower (x : Rat) (hx : 0 < x) : roundF32 x * (16777215 / 16777216) ≤ x := by
  obtain ⟨x1, x2⟩ := binade_of_pos x hx
  have hb := (roundF32_binade x _ x1 x2).1
  have he := roundF32_of_binade x _ x1 x2
  have hu := two_zpow_pos (Int.log 2 x - 23)
  have hs := roundHalfEven_sub_le (x / (2 : Rat) ^ (Int.log 2 x - 23))
  rw [two_zpow_split] at hb
  have hdiv : x / (2 : Rat) ^ (Int.log 2 x - 23) * (2 : Rat) ^ (Int.log 2 x - 23) = x :=
    div_mul_cancel₀ x (ne_of_gt hu)
  have key : roundF32 x - x ≤ (2 : Rat) ^ (Int.log 2 x - 23) / 2 := by
    rw [he]
    calc ((roundHalfEven (x / (2 : Rat) ^ (Int.log 2 x - 23)) : Int) : Rat)
            * (2 : Rat) ^ (Int.log 2 x - 23) - x
        = (((roundHalfEven (x / (2 : Rat) ^ (Int.log 2 x - 23)) : Int) : Rat)
            - x / (2 : Rat) ^ (Int.log 2 x - 23)) * (2 : Rat) ^ (Int.log 2 x - 23) := by
          rw [sub_mul, hdiv]
      _ ≤ 1 / 2 * (2 : Rat) ^ (Int.log 2 x - 23) :=
          mul_le_mul_of_nonneg_right hs (le_of_lt hu)
      _ = (2 : Rat) ^ (Int.log 2 x - 23) / 2 := by ring
  linarith

/-- The integers from 1 to 2^24 - 1 are `float` values. -/
theorem roundF32_small (n : Int) (h1 : 1 ≤ n) (h2 : n < 16777216) : roundF32 (n : Rat) = n := by
  have hq : (0 : Rat) < (n : Rat) := by exact_mod_cast (by omega : 0 < n)
  obtain ⟨x1, x2⟩ := binade_of_pos (n : Rat) hq
  have hlog : Int.log 2 (n : Rat) < 24 :=
    (Int.lt_zpow_iff_log_lt (by norm_num) hq).mp (by norm_num; exact_mod_cast h2)
  rw [roundF32_of_binade (n : Rat) _ x1 x2]
  obtain ⟨k, hk⟩ : ∃ k : Nat, Int.log 2 (n : Rat) - 23 = -(k : Int) :=
    ⟨(23 - Int.log 2 (n : Rat)).toNat, by omega⟩
  rw [hk, zpow_neg, zpow_natCast, div_inv_eq_mul]
  have hc : (n : Rat) * (2 : Rat) ^ k = ((n * 2 ^ k : Int) : Rat) := by push_cast; ring
  rw [hc, roundHalfEven_intCast]
  push_cast
  have hp : (2 : Rat) ^ k ≠ 0 := by positivity
  field_simp

/-- A rational that is an integer from 1 to 2^24 - 1 is a `float` value. -/
theorem roundF32_whole (q : Rat) (n : Int) (hq : q = (n : Rat)) (h1 : 1 ≤ n)
    (h2 : n < 16777216) : roundF32 q = q := by
  rw [hq]
  exact roundF32_small n h1 h2

/-- The `float` nearest to 8/7. -/
theorem round_8_7 : roundF32 ((8 : Rat) / 7) = 9586981 / 8388608 := by
  rw [roundF32_eval (8 / 7) 0 9586981 (by norm_num) (by norm_num)
    (roundHalfEven_above _ 9586980 (by norm_num) (by norm_num))]
  norm_num

/-- The `float` quotient of 8 by the `float` nearest to 8/7 is below 7. -/
theorem round_8_by : roundF32 ((8 : Rat) / (9586981 / 8388608)) = 14680063 / 2097152 := by
  rw [roundF32_eval _ 2 14680063 (by norm_num) (by norm_num)
    (roundHalfEven_below _ 14680063 (by norm_num) (by norm_num))]
  norm_num

/-- The integer 16777219 is half way between two `float` values and becomes
16777220. -/
theorem round_16777219 : roundF32 (16777219 : Rat) = 16777220 := by
  rw [roundF32_eval _ 24 8388610 (by norm_num) (by norm_num)
    ((roundHalfEven_tie _ 8388609 (by norm_num)).trans (by decide))]
  norm_num

/-- The integer 16777220 is a `float` value. -/
theorem round_16777220 : roundF32 (16777220 : Rat) = 16777220 := by
  rw [roundF32_eval _ 24 8388610 (by norm_num) (by norm_num)
    (roundHalfEven_below _ 8388610 (by norm_num) (by norm_num))]
  norm_num

/-! ## The target size -/

/-- The aspect ratio that `startPNGImport` computes is positive for positive
sides. -/
theorem aspect_pos (w h : Int) (hw : 1 ≤ w) (hh : 1 ≤ h) :
    0 < roundF32 (roundF32 (w : Rat) / roundF32 (h : Rat)) := by
  have a : (0 : Rat) < (w : Rat) := by exact_mod_cast (by omega : 0 < w)
  have b : (0 : Rat) < (h : Rat) := by exact_mod_cast (by omega : 0 < h)
  exact roundF32_pos _ (div_pos (roundF32_pos _ a) (roundF32_pos _ b))

/-- When the truncated `float` quotient `W / a` exceeds `H`, the truncated
`float` product `H * a` is at most `W`, for sides below 2^24. -/
theorem product_fits (a : Rat) (W H : Int) (ha : 0 < a) (hW : 1 ≤ W) (hW2 : W < 16777216)
    (hH : 1 ≤ H) (hH2 : H < 16777216)
    (h : H < truncRat (roundF32 (roundF32 (W : Rat) / a))) :
    truncRat (roundF32 (roundF32 (H : Rat) * a)) ≤ W := by
  have hWq : (0 : Rat) < (W : Rat) := by exact_mod_cast (by omega : 0 < W)
  have hHq : (0 : Rat) < (H : Rat) := by exact_mod_cast (by omega : 0 < H)
  rw [roundF32_small W hW hW2] at h
  rw [roundF32_small H hH hH2]
  have hd : 0 < (W : Rat) / a := div_pos hWq ha
  have hm : 0 < (H : Rat) * a := mul_pos hHq ha
  rw [truncRat_of_nonneg _ (le_of_lt (roundF32_pos _ hd))] at h
  rw [truncRat_of_nonneg _ (le_of_lt (roundF32_pos _ hm))]
  have h1 : ((H + 1 : Int) : Rat) ≤ roundF32 ((W : Rat) / a) :=
    le_trans (by exact_mod_cast (by omega : H + 1 ≤ Rat.floor (roundF32 ((W : Rat) / a))))
      (ratFloor_le _)
  have h2 := roundF32_lower _ hd
  have h3 : ((H : Rat) + 1) * (16777215 / 16777216) ≤ (W : Rat) / a := by
    push_cast at h1
    have hmul : ((H : Rat) + 1) * (16777215 / 16777216)
        ≤ roundF32 ((W : Rat) / a) * (16777215 / 16777216) :=
      mul_le_mul_of_nonneg_right h1 (by norm_num)
    linarith
  have h4 : ((H : Rat) + 1) * (16777215 / 16777216) * a ≤ (W : Rat) := by
    rw [le_div_iff₀ ha] at h3
    exact h3
  have h5 : (H : Rat) ≤ ((H : Rat) + 1) * (16777215 / 16777216) := by
    have hb : (H : Rat) ≤ 16777215 := by exact_mod_cast (by omega : H ≤ 16777215)
    linarith
  have h6 : (H : Rat) * a ≤ (W : Rat) :=
    le_trans (mul_le_mul_of_nonneg_right h5 (le_of_lt ha)) h4
  have h7 : roundF32 ((H : Rat) * a) ≤ (W : Rat) := by
    have hr := roundF32_mono _ _ hm h6
    rwa [roundF32_small W hW hW2] at hr
  have h8 : ((Rat.floor (roundF32 ((H : Rat) * a)) : Int) : Rat) ≤ (W : Rat) :=
    le_trans (ratFloor_le _) h7
  exact_mod_cast h8

/-- When the truncated `float` product `H * a` exceeds `W`, the truncated
`float` quotient `W / a` is at most `H`, for sides below 2^24. -/
theorem quotient_fits (a : Rat) (W H : Int) (ha : 0 < a) (hW : 1 ≤ W) (hW2 : W < 16777216)
    (hH : 1 ≤ H) (hH2 : H < 16777216)
    (h : W < truncRat (roundF32 (roundF32 (H : Rat) * a))) :
    truncRat (roundF32 (roundF32 (W : Rat) / a)) ≤ H := by
  have hWq : (0 : Rat) < (W : Rat) := by exact_mod_cast (by omega : 0 < W)
  have hHq : (0 : Rat) < (H : Rat) := by exact_mod_cast (by omega : 0 < H)
  rw [roundF32_small H hH hH2] at h
  rw [roundF32_small W hW hW2]
  have hd : 0 < (W : Rat) / a := div_pos hWq ha
  have hm : 0 < (H : Rat) * a := mul_pos hHq ha
  rw [truncRat_of_nonneg _ (le_of_lt (roundF32_pos _ hm))] at h
  rw [truncRat_of_nonneg _ (le_of_lt (roundF32_pos _ hd))]
  have h1 : ((W + 1 : Int) : Rat) ≤ roundF32 ((H : Rat) * a) :=
    le_trans (by exact_mod_cast (by omega : W + 1 ≤ Rat.floor (roundF32 ((H : Rat) * a))))
      (ratFloor_le _)
  have h2 := roundF32_lower _ hm
  have h3 : ((W : Rat) + 1) * (16777215 / 16777216) ≤ (H : Rat) * a := by
    push_cast at h1
    have hmul : ((W : Rat) + 1) * (16777215 / 16777216)
        ≤ roundF32 ((H : Rat) * a) * (16777215 / 16777216) :=
      mul_le_mul_of_nonneg_right h1 (by norm_num)
    linarith
  have h5 : (W : Rat) ≤ ((W : Rat) + 1) * (16777215 / 16777216) := by
    have hb : (W : Rat) ≤ 16777215 := by exact_mod_cast (by omega : W ≤ 16777215)
    linarith
  have h6 : (W : Rat) / a ≤ (H : Rat) := by
    rw [div_le_iff₀ ha]
    linarith
  have h7 : roundF32 ((W : Rat) / a) ≤ (H : Rat) := by
    have hr := roundF32_mono _ _ hd h6
    rwa [roundF32_small H hH hH2] at hr
  have h8 : ((Rat.floor (roundF32 ((W : Rat) / a)) : Int) : Rat) ≤ (H : Rat) :=
    le_trans (ratFloor_le _) h7
  exact_mod_cast h8

/-- The target size fits the box, is positive, and touches the box on one
side, for box sides from 1 to 2^24 - 1. -/
theorem targetSize_fits (w h W H : Int) (hw : 1 ≤ w) (hh : 1 ≤ h) (hW : 1 ≤ W)
    (hW2 : W < 16777216) (hH : 1 ≤ H) (hH2 : H < 16777216) :
    1 ≤ (targetSize w h W H).1 ∧ (targetSize w h W H).1 ≤ W ∧
    1 ≤ (targetSize w h W H).2 ∧ (targetSize w h W H).2 ≤ H ∧
    ((targetSize w h W H).1 = W ∨ (targetSize w h W H).2 = H) := by
  have ha := aspect_pos w h hw hh
  have p := product_fits _ W H ha hW hW2 hH hH2
  have q := quotient_fits _ W H ha hW hW2 hH hH2
  unfold targetSize
  dsimp only
  split_ifs <;> (try dsimp only at *) <;> (try omega)

/-- The target size of the 4x2 image in a 2x2 box is 2x1. -/
theorem targetSize_sample : targetSize 4 2 2 2 = (2, 1) := by
  have r4 : roundF32 ((4 : Int) : Rat) = 4 := roundF32_whole _ 4 rfl (by decide) (by decide)
  have r2 : roundF32 ((2 : Int) : Rat) = 2 := roundF32_whole _ 2 rfl (by decide) (by decide)
  have ra : roundF32 ((4 : Rat) / 2) = 2 := by
    rw [roundF32_whole _ 2 (by norm_num) (by decide) (by decide)]; norm_num
  have rb : roundF32 ((2 : Rat) / 2) = 1 := by
    rw [roundF32_whole _ 1 (by norm_num) (by decide) (by decide)]; norm_num
  have t1 : truncRat (1 : Rat) = 1 := by exact_mod_cast truncRat_intCast 1
  simp only [targetSize, r4, r2, ra, rb, t1]
  decide

/-- The target size of a 50x1 image in a 50x50 box is 50x1. -/
theorem targetSize_strip : targetSize 50 1 50 50 = (50, 1) := by
  have r50 : roundF32 ((50 : Int) : Rat) = 50 := roundF32_whole _ 50 rfl (by decide) (by decide)
  have r1 : roundF32 ((1 : Int) : Rat) = 1 := roundF32_whole _ 1 rfl (by decide) (by decide)
  have ra : roundF32 ((50 : Rat) / 1) = 50 := by
    rw [roundF32_whole _ 50 (by norm_num) (by decide) (by decide)]; norm_num
  have rb : roundF32 ((50 : Rat) / 50) = 1 := by
    rw [roundF32_whole _ 1 (by norm_num) (by decide) (by decide)]; norm_num
  have t1 : truncRat (1 : Rat) = 1 := by exact_mod_cast truncRat_intCast 1
  simp only [targetSize, r50, r1, ra, rb, t1]
  decide

/-- The target size of a 3x2 image in a 50x50 box is 50x33: 1650 pixels. -/
theorem targetSize_tile : targetSize 3 2 50 50 = (50, 33) := by
  have r3 : roundF32 ((3 : Int) : Rat) = 3 := roundF32_whole _ 3 rfl (by decide) (by decide)
  have r2 : roundF32 ((2 : Int) : Rat) = 2 := roundF32_whole _ 2 rfl (by decide) (by decide)
  have r50 : roundF32 ((50 : Int) : Rat) = 50 := roundF32_whole _ 50 rfl (by decide) (by decide)
  have ra : roundF32 ((3 : Rat) / 2) = 3 / 2 := by
    rw [roundF32_eval _ 0 12582912 (by norm_num) (by norm_num)
      (roundHalfEven_below _ 12582912 (by norm_num) (by norm_num))]
    norm_num
  have rb : roundF32 ((50 : Rat) / (3 / 2)) = 8738133 / 262144 := by
    rw [roundF32_eval _ 5 8738133 (by norm_num) (by norm_num)
      (roundHalfEven_below _ 8738133 (by norm_num) (by norm_num))]
    norm_num
  have t : truncRat ((8738133 : Rat) / 262144) = 33 :=
    truncRat_eq _ 33 (by norm_num) (by norm_num) (by norm_num)
  simp only [targetSize, r3, r2, r50, ra, rb, t]
  decide

/-- The target size of a 1x1 image in a 41x41 box is 41x41: 1681 pixels. -/
theorem targetSize_square : targetSize 1 1 41 41 = (41, 41) := by
  have r1 : roundF32 ((1 : Int) : Rat) = 1 := roundF32_whole _ 1 rfl (by decide) (by decide)
  have r41 : roundF32 ((41 : Int) : Rat) = 41 := roundF32_whole _ 41 rfl (by decide) (by decide)
  have ra : roundF32 ((1 : Rat) / 1) = 1 := by
    rw [roundF32_whole _ 1 (by norm_num) (by decide) (by decide)]; norm_num
  have rb : roundF32 ((41 : Rat) * 1) = 41 := by
    rw [roundF32_whole _ 41 (by norm_num) (by decide) (by decide)]; norm_num
  have t : truncRat (41 : Rat) = 41 := by exact_mod_cast truncRat_intCast 41
  simp only [targetSize, r1, r41, ra, rb, t]
  decide

/-- The target size of an 8x7 image in an 8x8 box is 8x6: the `float` quotient
of 8 by the aspect ratio is just below 7. -/
theorem targetSize_8_7 : targetSize 8 7 8 8 = (8, 6) := by
  have r8 : roundF32 ((8 : Int) : Rat) = 8 := roundF32_whole _ 8 rfl (by decide) (by decide)
  have r7 : roundF32 ((7 : Int) : Rat) = 7 := roundF32_whole _ 7 rfl (by decide) (by decide)
  have t : truncRat ((14680063 : Rat) / 2097152) = 6 :=
    truncRat_eq _ 6 (by norm_num) (by norm_num) (by norm_num)
  simp only [targetSize, r8, r7, round_8_7, round_8_by, t]
  decide

/-- The target size of a 1x1 image in a box of side 16777219 is one more than
the box in height: the side is not a `float` value and is rounded up to
16777220. -/
theorem targetSize_large : targetSize 1 1 16777219 16777219 = (16777219, 16777220) := by
  have r1 : roundF32 ((1 : Int) : Rat) = 1 := roundF32_whole _ 1 rfl (by decide) (by decide)
  have rW : roundF32 ((16777219 : Int) : Rat) = 16777220 := by
    have hr := round_16777219
    exact_mod_cast hr
  have ra : roundF32 ((1 : Rat) / 1) = 1 := by
    rw [roundF32_whole _ 1 (by norm_num) (by decide) (by decide)]; norm_num
  have rb : roundF32 ((16777220 : Rat) * 1) = 16777220 := by
    rw [mul_one]; exact round_16777220
  have rc : roundF32 ((16777220 : Rat) / 1) = 16777220 := by
    rw [div_one]; exact round_16777220
  have t : truncRat (16777220 : Rat) = 16777220 := by exact_mod_cast truncRat_intCast 16777220
  simp only [targetSize, r1, rW, ra, rb, rc, t]
  decide

/-! ## Shift and trim on the session -/

/-- A delta of 1 on the sample session (source 4 wide, target 2 wide) moves
the offset from 0 to 2. -/
theorem shiftedOffset_sample : shiftedOffset 0 4 2 1 = 2 := by
  have r4 : roundF32 ((4 : Int) : Rat) = 4 := roundF32_whole _ 4 rfl (by decide) (by decide)
  have r2 : roundF32 ((2 : Int) : Rat) = 2 := roundF32_whole _ 2 rfl (by decide) (by decide)
  have r1 : roundF32 ((1 : Int) : Rat) = 1 := roundF32_whole _ 1 rfl (by decide) (by decide)
  have ra : roundF32 ((4 : Rat) / 2) = 2 := by
    rw [roundF32_whole _ 2 (by norm_num) (by decide) (by decide)]; norm_num
  have rb : roundF32 ((1 : Rat) * 2) = 2 := by
    rw [roundF32_whole _ 2 (by norm_num) (by decide) (by decide)]; norm_num
  have t2 : truncRat (2 : Rat) = 2 := by exact_mod_cast truncRat_intCast 2
  simp only [shiftedOffset, r4, r2, r1, ra, rb, t2]
  decide

/-- `shiftPNGImportOffset` on a pending session: the offset update, then the
resample. -/
theorem shift_eq (sd : SpriteData) (env : PngEnv) (dx dy : Int)
    (h : sd.m_hasPendingImport = true) :
    sd.shiftPNGImportOffset env dx dy
      = (SpriteData.resamplePNGAtOffset
          { sd with
            m_pngOffsetX := shiftedOffset sd.m_pngOffsetX sd.m_importedPNGWidth
              sd.m_pngTargetWidth dx
            m_pngOffsetY := shiftedOffset sd.m_pngOffsetY sd.m_importedPNGHeight
              sd.m_pngTargetHeight dy } env).2 := by
  simp only [SpriteData.shiftPNGImportOffset, h]
  rfl

/-- `trimPNGImport` on a pending session with an accepted request: the new
source, then the resample. -/
theorem trim_eq (sd : SpriteData) (env : PngEnv) (left right top bottom : Int)
    (h : sd.m_hasPendingImport = true)
    (hw : 1 ≤ sd.m_importedPNGWidth - left - right)
    (hh : 1 ≤ sd.m_importedPNGHeight - top - bottom) :
    sd.trimPNGImport env left right top bottom
      = (SpriteData.resamplePNGAtOffset
          { sd with
            m_importedPNGData := copyRect sd.m_importedPNGData sd.m_importedPNGWidth left top
              (sd.m_importedPNGWidth - left - right) (sd.m_importedPNGHeight - top - bottom)
            m_importedPNGWidth := sd.m_importedPNGWidth - left - right
            m_importedPNGHeight := sd.m_importedPNGHeight - top - bottom } env).2 := by
  have hg : ¬ (sd.m_importedPNGWidth - left - right < 1 ∨
      sd.m_importedPNGHeight - top - bottom < 1) := by omega
  simp only [SpriteData.trimPNGImport, h, hg]
  rfl

/-- The session of the sample: the 4x2 image, offset (0,0), target 2x1,
pending. -/
theorem sampleSession_session :
    sampleSession.m_importedPNGData = sampleImage ∧ sampleSession.m_importedPNGWidth = 4 ∧
    sampleSession.m_importedPNGHeight = 2 ∧ sampleSession.m_pngOffsetX = 0 ∧
    sampleSession.m_pngOffsetY = 0 ∧ sampleSession.m_pngTargetWidth = 2 ∧
    sampleSession.m_pngTargetHeight = 1 ∧ sampleSession.m_hasPendingImport = true := by
  have h := startPNGImport_session SpriteData.new sampleEnv sampleImage 4 2 2 2
  rw [targetSize_sample] at h
  exact h

/-- The target of the sample session, 2x1, lies inside the pixel array. -/
theorem sampleSession_targetInArray : sampleSession.targetInArray := by
  unfold SpriteData.targetInArray SpriteData.targetPixels
  rw [sampleSession_session.2.2.2.2.2.1, sampleSession_session.2.2.2.2.2.2.1]
  decide

/-- The session after `shiftPNGImportOffset` on a pending session: the offset
is updated and clamped, the rest is kept. -/
theorem shift_session (sd : SpriteData) (env : PngEnv) (dx dy : Int)
    (h : sd.m_hasPendingImport = true) :
    (sd.shiftPNGImportOffset env dx dy).m_importedPNGData = sd.m_importedPNGData ∧
    (sd.shiftPNGImportOffset env dx dy).m_importedPNGWidth = sd.m_importedPNGWidth ∧
    (sd.shiftPNGImportOffset env dx dy).m_importedPNGHeight = sd.m_importedPNGHeight ∧
    (sd.shiftPNGImportOffset env dx dy).m_pngOffsetX
      = shiftedOffset sd.m_pngOffsetX sd.m_importedPNGWidth sd.m_pngTargetWidth dx ∧
    (sd.shiftPNGImportOffset env dx dy).m_pngOffsetY
      = shiftedOffset sd.m_pngOffsetY sd.m_importedPNGHeight sd.m_pngTargetHeight dy ∧
    (sd.shiftPNGImportOffset env dx dy).m_pngTargetWidth = sd.m_pngTargetWidth ∧
    (sd.shiftPNGImportOffset env dx dy).m_pngTargetHeight = sd.m_pngTargetHeight ∧
    (sd.shiftPNGImportOffset env dx dy).m_hasPendingImport = true := by
  rw [shift_eq sd env dx dy h]
  obtain ⟨g1, g2, g3, g4, g5, g6, g7, g8⟩ := resample_sameSession
    { sd with
      m_pngOffsetX := shiftedOffset sd.m_pngOffsetX sd.m_importedPNGWidth sd.m_pngTargetWidth dx
      m_pngOffsetY := shiftedOffset sd.m_pngOffsetY sd.m_importedPNGHeight
        sd.m_pngTargetHeight dy } env
  exact ⟨g1, g2, g3, g4, g5, g6, g7, g8.trans h⟩

/-- The session after an accepted `trimPNGImport` on a pending session: the
source is replaced, the offset and the target size are kept. -/
theorem trim_session (sd : SpriteData) (env : PngEnv) (left right top bottom : Int)
    (h : sd.m_hasPendingImport = true)
    (hw : 1 ≤ sd.m_importedPNGWidth - left - right)
    (hh : 1 ≤ sd.m_importedPNGHeight - top - bottom) :
    (sd.trimPNGImport env left right top bottom).m_importedPNGData
      = copyRect sd.m_importedPNGData sd.m_importedPNGWidth left top
          (sd.m_importedPNGWidth - left - right) (sd.m_importedPNGHeight - top - bottom) ∧
    (sd.trimPNGImport env left right top bottom).m_importedPNGWidth
      = sd.m_importedPNGWidth - left - right ∧
    (sd.trimPNGImport env left right top bottom).m_importedPNGHeight
      = sd.m_importedPNGHeight - top - bottom ∧
    (sd.trimPNGImport env left right top bottom).m_pngOffsetX = sd.m_pngOffsetX ∧
    (sd.trimPNGImport env left right top bottom).m_pngOffsetY = sd.m_pngOffsetY ∧
    (sd.trimPNGImport env left right top bottom).m_pngTargetWidth = sd.m_pngTargetWidth ∧
    (sd.trimPNGImport env left right top bottom).m_pngTargetHeight = sd.m_pngTargetHeight ∧
    (sd.trimPNGImport env left right top bottom).m_hasPendingImport = true := by
  rw [trim_eq sd env left right top bottom h hw hh]
  obtain ⟨g1, g2, g3, g4, g5, g6, g7, g8⟩ := resample_sameSession
    { sd with
      m_importedPNGData := copyRect sd.m_importedPNGData sd.m_importedPNGWidth left top
        (sd.m_importedPNGWidth - left - right) (sd.m_importedPNGHeight - top - bottom)
      m_importedPNGWidth := sd.m_importedPNGWidth - left - right
      m_importedPNGHeight := sd.m_importedPNGHeight - top - bottom } env
  exact ⟨g1, g2, g3, g4, g5, g6, g7, g8.trans h⟩

/-! ## C12 -/

/-- C12 (the code at failing inputs): starting from the freshly constructed
sprite, a successful `loadSprite` of a complete file that declares 0x0 leaves
width 0; a successful `loadSprite` of a complete 1x1 file whose pixel byte is
200 leaves pixel index 200; and a successful `startPNGImport` of a 50x1 image
with a 50x50 box leaves width 50. -/
theorem C12_loads_break_canvas_bounds :
    (SpriteData.new.loadSprite
      (some ([83, 80, 82, 69, 68, 1, 0, 0, 0, 0, 0, 0, 0, 0] ++ List.replicate 64 7))
      sampleSpriteLocals).1 = true ∧
    (SpriteData.new.loadSprite
      (some ([83, 80, 82, 69, 68, 1, 0, 0, 0, 0, 0, 0, 0, 0] ++ List.replicate 64 7))
      sampleSpriteLocals).2.m_width = 0 ∧
    (SpriteData.new.loadSprite
      (some ([83, 80, 82, 69, 68, 1, 1, 0, 0, 0, 1, 0, 0, 0, 200] ++ List.replicate 64 7))
      sampleSpriteLocals).1 = true ∧
    (SpriteData.new.loadSprite
      (some ([83, 80, 82, 69, 68, 1, 1, 0, 0, 0, 1, 0, 0, 0, 200] ++ List.replicate 64 7))
      sampleSpriteLocals).2.m_pixels 0 = 200 ∧
    (SpriteData.new.startPNGImport sampleEnv (some (sampleStrip, 50, 1)) 50 50).1 = true ∧
    (SpriteData.new.startPNGImport sampleEnv (some (sampleStrip, 50, 1)) 50 50).2.m_width
      = 50 := by
  have ht : targetSize 50 1 50 50 = (50, 1) := targetSize_strip
  have hstart : (SpriteData.new.startPNGImport sampleEnv (some (sampleStrip, 50, 1)) 50 50).1
      = true := by
    simp only [SpriteData.startPNGImport, ht]
    rw [resamplePNGAtOffset_eq]
    rfl
  have hw : (SpriteData.new.startPNGImport sampleEnv (some (sampleStrip, 50, 1)) 50 50).2.m_width
      = 50 := by
    have hs := hstart
    simp only [SpriteData.startPNGImport, ht] at hs ⊢
    rw [(resample_true_size _ sampleEnv hs).1]
    exact (resize_sameSession _ 50 1).2.2.2.2.2.1
  exact ⟨rfl, rfl, rfl, rfl, hstart, hw⟩

/-! ## C13 -/

/-- C13 (the code at a failing input): the session started from the 4x2 sample
image with a 2x2 box succeeds; after `shiftPNGImportOffset(1, 0)` and then
`trimPNGImport(2, 0, 0, 0)` the import is still pending, the source is 2 wide,
the target is 2 wide and the offset is still 2, above max(0, 2 - 2) = 0: the
trim shrinks the source and does not clamp the offset again. -/
theorem C13_trim_keeps_offset :
    (SpriteData.new.startPNGImport sampleEnv (some (sampleImage, 4, 2)) 2 2).1 = true ∧
    (sampleSession.shiftPNGImportOffset sampleEnv 1 0).m_pngOffsetX = 2 ∧
    ((sampleSession.shiftPNGImportOffset sampleEnv 1 0).trimPNGImport sampleEnv
      2 0 0 0).m_hasPendingImport = true ∧
    ((sampleSession.shiftPNGImportOffset sampleEnv 1 0).trimPNGImport sampleEnv
      2 0 0 0).m_importedPNGWidth = 2 ∧
    ((sampleSession.shiftPNGImportOffset sampleEnv 1 0).trimPNGImport sampleEnv
      2 0 0 0).m_pngTargetWidth = 2 ∧
    ((sampleSession.shiftPNGImportOffset sampleEnv 1 0).trimPNGImport sampleEnv
      2 0 0 0).m_pngOffsetX = 2 ∧
    ¬ (((sampleSession.shiftPNGImportOffset sampleEnv 1 0).trimPNGImport sampleEnv
        2 0 0 0).m_pngOffsetX
      ≤ max 0 (((sampleSession.shiftPNGImportOffset sampleEnv 1 0).trimPNGImport sampleEnv
          2 0 0 0).m_importedPNGWidth
        - ((sampleSession.shiftPNGImportOffset sampleEnv 1 0).trimPNGImport sampleEnv
          2 0 0 0).m_pngTargetWidth)) := by
  obtain ⟨_, a2, a3, a4, _, a6, _, a8⟩ := sampleSession_session
  obtain ⟨_, b2, b3, b4, _, b6, _, b8⟩ := shift_session sampleSession sampleEnv 1 0 a8
  rw [a2] at b2
  rw [a3] at b3
  rw [a6] at b6
  have hs : shiftedOffset 0 4 2 1 = 2 := shiftedOffset_sample
  rw [a4, a2, a6, hs] at b4
  obtain ⟨_, c2, _, c4, _, c6, _, c8⟩ := trim_session
    (sampleSession.shiftPNGImportOffset sampleEnv 1 0) sampleEnv 2 0 0 0 b8
    (by rw [b2]; decide) (by rw [b3]; decide)
  rw [b2] at c2
  rw [b4] at c4
  rw [b6] at c6
  have hstart : (SpriteData.new.startPNGImport sampleEnv (some (sampleImage, 4, 2)) 2 2).1
      = true := by
    simp only [SpriteData.startPNGImport, targetSize_sample]
    rw [resamplePNGAtOffset_eq]
    rfl
  refine ⟨hstart, b4, c8, ?_, c6, c4, ?_⟩
  · rw [c2]; rfl
  · rw [c4, c2, c6]; decide

/-! ## C14 -/

/-- C14: a trim request that would leave a source width or a source height
below 1 is rejected: the object (source buffer and dimensions, offset, target
size, pending flag, canvas) is returned unchanged, whether or not an import is
pending. -/
theorem C14_trim_rejected (sd : SpriteData) (env : PngEnv) (left right top bottom : Int)
    (h : sd.m_importedPNGWidth - left - right < 1 ∨
      sd.m_importedPNGHeight - top - bottom < 1) :
    sd.trimPNGImport env left right top bottom = sd := by
  simp only [SpriteData.trimPNGImport, h, if_true]
  split_ifs <;> rfl

/-- C14 at a concrete input: trimming 5 columns off the 4-wide sample session
changes nothing. -/
theorem C14_trim_rejected_witness :
    (sampleSession.m_importedPNGWidth - 5 - 0 < 1 ∨
      sampleSession.m_importedPNGHeight - 0 - 0 < 1) ∧
    sampleSession.m_hasPendingImport = true ∧
    sampleSession.trimPNGImport sampleEnv 5 0 0 0 = sampleSession :=
  ⟨Or.inl (by rw [sampleSession_session.2.1]; decide), sampleSession_session.2.2.2.2.2.2.2,
    C14_trim_rejected sampleSession sampleEnv 5 0 0 0
      (Or.inl (by rw [sampleSession_session.2.1]; decide))⟩

/-! ## C15 -/

/-- C15: `commitPNGImport` clears the session (pending flag false, source
buffer empty, source dimensions, offset and target size 0) and keeps the canvas
width, height, pixels and palette; shift and trim calls after it return the
object unchanged. -/
theorem C15_commit_keeps_canvas (sd : SpriteData) (env : PngEnv)
    (dx dy left right top bottom : Int) :
    sd.commitPNGImport.hasPendingPNGImport = false ∧
    sd.commitPNGImport.m_importedPNGData = [] ∧
    sd.commitPNGImport.m_importedPNGWidth = 0 ∧ sd.commitPNGImport.m_importedPNGHeight = 0 ∧
    sd.commitPNGImport.m_pngOffsetX = 0 ∧ sd.commitPNGImport.m_pngOffsetY = 0 ∧
    sd.commitPNGImport.m_pngTargetWidth = 0 ∧ sd.commitPNGImport.m_pngTargetHeight = 0 ∧
    sd.commitPNGImport.m_width = sd.m_width ∧ sd.commitPNGImport.m_height = sd.m_height ∧
    sd.commitPNGImport.m_pixels = sd.m_pixels ∧ sd.commitPNGImport.m_palette = sd.m_palette ∧
    sd.commitPNGImport.shiftPNGImportOffset env dx dy = sd.commitPNGImport ∧
    sd.commitPNGImport.trimPNGImport env left right top bottom = sd.commitPNGImport :=
  ⟨rfl, rfl, rfl, rfl, rfl, rfl, rfl, rfl, rfl, rfl, rfl, rfl, rfl, rfl⟩

/-! ## C16 -/

/-- `cancelPNGImport` in closed form: the cleared session, 1600 zero pixels and
the default palette. -/
theorem cancel_eq (sd : SpriteData) :
    sd.cancelPNGImport
      = (sd.clearImport.withPixels
          (fun k => if k < 1600 then 0 else sd.clearImport.m_pixels k)).withPalette
          (fun k => if k < 64 then
              (if k % 4 = 3 then (if k = 3 then 0 else 255)
               else if k < 8 then 0 else (k / 4 - 2) * 255 / 13)
            else sd.clearImport.m_palette k) :=
  clear_eq sd.clearImport

/-- The subscript `y * m_width + x` of a pixel inside a canvas of at most 1600
pixels is below 1600. -/
theorem pixel_subscript_lt (w h x y : Int) (hx0 : 0 ≤ x) (hx : x < w) (hy0 : 0 ≤ y)
    (hy : y < h) (hwh : w * h ≤ 1600) : (y * w + x).toNat < 1600 := by
  have h1 : y * w ≤ (h - 1) * w := mul_le_mul_of_nonneg_right (by omega) (by omega)
  have h2 : (h - 1) * w = w * h - w := by ring
  have h3 : 0 ≤ y * w := mul_nonneg hy0 (by omega)
  omega

/-- `getPixel` after `cancelPNGImport` on a canvas of at most 1600 pixels. -/
theorem cancel_getPixel (sd : SpriteData) (hwh : sd.m_width * sd.m_height ≤ 1600) (x y : Int) :
    sd.cancelPNGImport.getPixel x y = 0 := by
  rw [cancel_eq]
  unfold SpriteData.getPixel
  split_ifs with hb
  · rfl
  · have hb2 : 0 ≤ x ∧ x < sd.m_width ∧ 0 ≤ y ∧ y < sd.m_height := by
      have e1 : ((sd.clearImport.withPixels
          (fun k => if k < 1600 then 0 else sd.clearImport.m_pixels k)).withPalette
          (fun k => if k < 64 then
              (if k % 4 = 3 then (if k = 3 then 0 else 255)
               else if k < 8 then 0 else (k / 4 - 2) * 255 / 13)
            else sd.clearImport.m_palette k)).m_width = sd.m_width := rfl
      have e2 : ((sd.clearImport.withPixels
          (fun k => if k < 1600 then 0 else sd.clearImport.m_pixels k)).withPalette
          (fun k => if k < 64 then
              (if k % 4 = 3 then (if k = 3 then 0 else 255)
               else if k < 8 then 0 else (k / 4 - 2) * 255 / 13)
            else sd.clearImport.m_palette k)).m_height = sd.m_height := rfl
      rw [e1, e2] at hb
      omega
    obtain ⟨a1, a2, a3, a4⟩ := hb2
    show (if (y * sd.m_width + x).toNat < 1600 then 0
      else sd.clearImport.m_pixels (y * sd.m_width + x).toNat) = 0
    rw [if_pos (pixel_subscript_lt sd.m_width sd.m_height x y a1 a2 a3 a4 hwh)]

/-- C16 (the claim for a canvas inside the pixel array, and the code at a
failing input): `cancelPNGImport` clears the session (pending flag false, source
buffer empty, source dimensions, offset and target size 0), keeps width and
height, sets each of the 1600 bytes of the pixel array to 0 and stores the
default palette: entry 0 is (0,0,0,0), entry 1 is (0,0,0,255) and entry i in
2..15 is the grey (i-2)*255/13 (integer division) with alpha 255, whatever the
object held; so on a canvas of at most 1600 pixels `getPixel` returns 0 for
every (x, y). After a successful import of a 3x2 image with a 50x50 box the
cancelled canvas still is 50 wide and 33 high, more than 1600 pixels, and
`getPixel(49, 32)` reads offset 1649 of `m_pixels`, which is past the array. -/
theorem C16_cancel_resets_canvas :
    (∀ sd : SpriteData,
      sd.cancelPNGImport.hasPendingPNGImport = false ∧
      sd.cancelPNGImport.m_importedPNGData = [] ∧
      sd.cancelPNGImport.m_importedPNGWidth = 0 ∧ sd.cancelPNGImport.m_importedPNGHeight = 0 ∧
      sd.cancelPNGImport.m_pngOffsetX = 0 ∧ sd.cancelPNGImport.m_pngOffsetY = 0 ∧
      sd.cancelPNGImport.m_pngTargetWidth = 0 ∧ sd.cancelPNGImport.m_pngTargetHeight = 0 ∧
      sd.cancelPNGImport.m_width = sd.m_width ∧ sd.cancelPNGImport.m_height = sd.m_height ∧
      (∀ k, k < 1600 → sd.cancelPNGImport.m_pixels k = 0) ∧
      (sd.m_width * sd.m_height ≤ (MAX_SPRITE_PIXELS : Int) →
        ∀ x y : Int, sd.cancelPNGImport.getPixel x y = 0) ∧
      (sd.cancelPNGImport.m_palette 0 = 0 ∧ sd.cancelPNGImport.m_palette 1 = 0 ∧
        sd.cancelPNGImport.m_palette 2 = 0 ∧ sd.cancelPNGImport.m_palette 3 = 0) ∧
      (sd.cancelPNGImport.m_palette 4 = 0 ∧ sd.cancelPNGImport.m_palette 5 = 0 ∧
        sd.cancelPNGImport.m_palette 6 = 0 ∧ sd.cancelPNGImport.m_palette 7 = 255) ∧
      (∀ i, 2 ≤ i → i ≤ 15 →
        sd.cancelPNGImport.m_palette (4 * i) = (i - 2) * 255 / 13 ∧
        sd.cancelPNGImport.m_palette (4 * i + 1) = (i - 2) * 255 / 13 ∧
        sd.cancelPNGImport.m_palette (4 * i + 2) = (i - 2) * 255 / 13 ∧
        sd.cancelPNGImport.m_palette (4 * i + 3) = 255)) ∧
    (SpriteData.new.startPNGImport sampleEnv (some (sampleTile, 3, 2)) 50 50).1 = true ∧
    (∀ (env : PngEnv) (rgba : List Nat),
      (SpriteData.new.startPNGImport env (some (rgba, 3, 2)) 50 50).1 = true →
      (SpriteData.new.startPNGImport env (some (rgba, 3, 2)) 50 50).2.cancelPNGImport.m_width
        = 50 ∧
      (SpriteData.new.startPNGImport env (some (rgba, 3, 2)) 50 50).2.cancelPNGImport.m_height
        = 33 ∧
      (SpriteData.new.startPNGImport env (some (rgba, 3, 2)) 50 50).2.cancelPNGImport.getPixel
          49 32
        = (SpriteData.new.startPNGImport env (some (rgba, 3, 2)) 50
            50).2.cancelPNGImport.m_pixels 1649 ∧
      MAX_SPRITE_PIXELS ≤ 1649) := by
  refine ⟨?_, ?_, ?_⟩
  · intro sd
    refine ⟨?_, ?_, ?_, ?_, ?_, ?_, ?_, ?_, ?_, ?_, ?_, ?_, ?_⟩
    · rw [cancel_eq]; rfl
    · rw [cancel_eq]; rfl
    · rw [cancel_eq]; rfl
    · rw [cancel_eq]; rfl
    · rw [cancel_eq]; rfl
    · rw [cancel_eq]; rfl
    · rw [cancel_eq]; rfl
    · rw [cancel_eq]; rfl
    · rw [cancel_eq]; rfl
    · rw [cancel_eq]; rfl
    · intro k hk
      rw [cancel_eq]
      show (if k < 1600 then 0 else sd.clearImport.m_pixels k) = 0
      rw [if_pos hk]
    · intro hwh x y
      exact cancel_getPixel sd hwh x y
    · rw [cancel_eq]
      simp only [withPalette_m_palette]
      refine ⟨?_, ?_, ?_⟩
      · norm_num
      · norm_num
      · intro i h2 h15
        interval_cases i <;> norm_num
  · simp only [SpriteData.startPNGImport, targetSize_tile]
    rw [resamplePNGAtOffset_eq]
    rfl
  · intro env rgba hs
    obtain ⟨hw, hh⟩ := startPNGImport_true_size SpriteData.new env rgba 3 2 50 50 hs
    rw [targetSize_tile] at hw hh
    have cw : (SpriteData.new.startPNGImport env (some (rgba, 3, 2)) 50
        50).2.cancelPNGImport.m_width = 50 := by
      rw [cancel_eq]; exact hw
    have ch : (SpriteData.new.startPNGImport env (some (rgba, 3, 2)) 50
        50).2.cancelPNGImport.m_height = 33 := by
      rw [cancel_eq]; exact hh
    refine ⟨cw, ch, ?_, by decide⟩
    unfold SpriteData.getPixel
    rw [cw, ch, if_neg (by decide)]
    rfl

/-! ## C17 -/

/-- The session after `startPNGImport` of a 1x1 image with a 41x41 box: pending,
with a target of 41x41 = 1681 pixels, more than the 1600 bytes of `m_pixels` and
the 64 bytes of `m_palette` together. -/
theorem square_session (env : PngEnv) (rgba : List Nat) :
    (SpriteData.new.startPNGImport env (some (rgba, 1, 1)) 41 41).2.m_hasPendingImport = true ∧
    (SpriteData.new.startPNGImport env (some (rgba, 1, 1)) 41 41).2.m_pngTargetWidth = 41 ∧
    (SpriteData.new.startPNGImport env (some (rgba, 1, 1)) 41 41).2.m_pngTargetHeight = 41 ∧
    (SpriteData.new.startPNGImport env (some (rgba, 1, 1)) 41 41).2.targetPixels = 1681 ∧
    ¬ (SpriteData.new.startPNGImport env (some (rgba, 1, 1)) 41 41).2.targetInArray := by
  obtain ⟨_, _, _, _, _, s6, s7, s8⟩ := startPNGImport_session SpriteData.new env rgba 1 1 41 41
  rw [targetSize_square] at s6 s7
  have hp : (SpriteData.new.startPNGImport env (some (rgba, 1, 1)) 41 41).2.targetPixels
      = 1681 := by
    unfold SpriteData.targetPixels
    rw [s6, s7]
    rfl
  refine ⟨s8, s6, s7, hp, ?_⟩
  rintro ⟨_, _, h3⟩
  rw [hp] at h3
  exact absurd h3 (by decide)

/-- C18, as stated, fails in the `float` arithmetic of `startPNGImport`: for a
1x1 image and a box of 16777219 x 16777219 the target height is 16777220, above
the box. The `float` result also differs from exact arithmetic inside small
boxes: an 8x7 image in an 8x8 box gets the target 8x6, where the exact quotient
8 / (8/7) truncates to 7. -/
theorem C18_counterexample :
    targetSize 1 1 16777219 16777219 = (16777219, 16777220) ∧
    ¬ ((targetSize 1 1 16777219 16777219).2 ≤ 16777219) ∧
    targetSize 8 7 8 8 = (8, 6) ∧
    truncRat ((8 : Rat) / ((8 : Rat) / 7)) = 7 := by
  refine ⟨targetSize_large, ?_, targetSize_8_7, ?_⟩
  · rw [targetSize_large]
    decide
  · exact truncRat_eq _ 7 (by norm_num) (by norm_num) (by norm_num)

/-- C18 (amended): for a source of size w x h with w, h at least 1 and a box
W x H with sides from 1 to 2^24 - 1, the target size (tw, th) that
`startPNGImport` computes in `float` arithmetic has 1 <= tw <= W and
1 <= th <= H and tw = W or th = H; and when the box has at most 1600 pixels,
the session holds this target size and the offset (0, 0) once the file has
loaded, and the target lies inside the pixel array. -/
theorem C18_target_size (w h W H : Int) (hw : 1 ≤ w) (hh : 1 ≤ h) (hW : 1 ≤ W)
    (hW2 : W < 16777216) (hH : 1 ≤ H) (hH2 : H < 16777216) :
    1 ≤ (targetSize w h W H).1 ∧ (targetSize w h W H).1 ≤ W ∧
    1 ≤ (targetSize w h W H).2 ∧ (targetSize w h W H).2 ≤ H ∧
    ((targetSize w h W H).1 = W ∨ (targetSize w h W H).2 = H) ∧
    (W * H ≤ (MAX_SPRITE_PIXELS : Int) →
      ∀ (sd : SpriteData) (env : PngEnv) (rgba : List Nat),
        (sd.startPNGImport env (some (rgba, w, h)) W H).2.m_pngTargetWidth
          = (targetSize w h W H).1 ∧
        (sd.startPNGImport env (some (rgba, w, h)) W H).2.m_pngTargetHeight
          = (targetSize w h W H).2 ∧
        (sd.startPNGImport env (some (rgba, w, h)) W H).2.m_pngOffsetX = 0 ∧
        (sd.startPNGImport env (some (rgba, w, h)) W H).2.m_pngOffsetY = 0 ∧
        (sd.startPNGImport env (some (rgba, w, h)) W H).2.targetInArray) := by
  obtain ⟨t1, t2, t3, t4, t5⟩ := targetSize_fits w h W H hw hh hW hW2 hH hH2
  refine ⟨t1, t2, t3, t4, t5, ?_⟩
  intro hbox sd env rgba
  obtain ⟨_, _, _, s4, s5, s6, s7, _⟩ := startPNGImport_session sd env rgba w h W H
  refine ⟨s6, s7, s4, s5, ?_⟩
  unfold SpriteData.targetInArray SpriteData.targetPixels
  rw [s6, s7]
  refine ⟨t1, t3, ?_⟩
  have hm : (targetSize w h W H).1 * (targetSize w h W H).2 ≤ W * H :=
    mul_le_mul t2 t4 (by omega) (by omega)
  exact le_trans hm hbox

/-- C18 (amended) at a concrete input: the 4x2 sample image in a 2x2 box gives
the target 2x1. -/
theorem C18_target_size_witness :
    ((1 : Int) ≤ 4 ∧ (1 : Int) ≤ 2 ∧ (2 : Int) < 16777216) ∧ targetSize 4 2 2 2 = (2, 1) ∧
    (1 ≤ (targetSize 4 2 2 2).1 ∧ (targetSize 4 2 2 2).1 ≤ 2 ∧
    1 ≤ (targetSize 4 2 2 2).2 ∧ (targetSize 4 2 2 2).2 ≤ 2 ∧
    ((targetSize 4 2 2 2).1 = 2 ∨ (targetSize 4 2 2 2).2 = 2) ∧
    ((2 : Int) * 2 ≤ (MAX_SPRITE_PIXELS : Int) →
      ∀ (sd : SpriteData) (env : PngEnv) (rgba : List Nat),
        (sd.startPNGImport env (some (rgba, 4, 2)) 2 2).2.m_pngTargetWidth
          = (targetSize 4 2 2 2).1 ∧
        (sd.startPNGImport env (some (rgba, 4, 2)) 2 2).2.m_pngTargetHeight
          = (targetSize 4 2 2 2).2 ∧
        (sd.startPNGImport env (some (rgba, 4, 2)) 2 2).2.m_pngOffsetX = 0 ∧
        (sd.startPNGImport env (some (rgba, 4, 2)) 2 2).2.m_pngOffsetY = 0 ∧
        (sd.startPNGImport env (some (rgba, 4, 2)) 2 2).2.targetInArray)) :=
  ⟨⟨by decide, by decide, by decide⟩, targetSize_sample,
    C18_target_size 4 2 2 2 (by decide) (by decide) (by decide) (by decide) (by decide)
      (by decide)⟩

/-! ## C19 -/

/-- C19: for all colours with byte components, `colorDistance` and
`Color::distanceTo` both equal (a.r-b.r)^2 + (a.g-b.g)^2 + (a.b-b.b)^2 in the
integers; the value does not depend on either alpha, is symmetric, lies in
0..195075 and is 0 exactly when r, g and b are equal. -/
theorem C19_color_distance (a b : PaletteColor) (ha : a.r < 256 ∧ a.g < 256 ∧ a.b < 256)
    (hb : b.r < 256 ∧ b.g < 256 ∧ b.b < 256) :
    colorDistance a b
      = ((a.r : Int) - b.r) ^ 2 + ((a.g : Int) - b.g) ^ 2 + ((a.b : Int) - b.b) ^ 2 ∧
    (∀ x y : Nat, Color.distanceTo ⟨a.r, a.g, a.b, x⟩ ⟨b.r, b.g, b.b, y⟩
      = colorDistance a b) ∧
    (∀ x y : Nat, colorDistance ⟨a.r, a.g, a.b, x⟩ ⟨b.r, b.g, b.b, y⟩ = colorDistance a b) ∧
    colorDistance a b = colorDistance b a ∧
    0 ≤ colorDistance a b ∧ colorDistance a b ≤ 195075 ∧
    (colorDistance a b = 0 ↔ a.r = b.r ∧ a.g = b.g ∧ a.b = b.b) := by
  obtain ⟨har, hag, hab⟩ := ha
  obtain ⟨hbr, hbg, hbb⟩ := hb
  have e : colorDistance a b
      = ((a.r : Int) - b.r) ^ 2 + ((a.g : Int) - b.g) ^ 2 + ((a.b : Int) - b.b) ^ 2 := by
    simp only [colorDistance]; ring
  have hr : ((a.r : Int) - b.r) ^ 2 ≤ 65025 := by
    have h1 : -255 ≤ (a.r : Int) - b.r := by omega
    have h2 : (a.r : Int) - b.r ≤ 255 := by omega
    nlinarith
  have hg : ((a.g : Int) - b.g) ^ 2 ≤ 65025 := by
    have h1 : -255 ≤ (a.g : Int) - b.g := by omega
    have h2 : (a.g : Int) - b.g ≤ 255 := by omega
    nlinarith
  have hbl : ((a.b : Int) - b.b) ^ 2 ≤ 65025 := by
    have h1 : -255 ≤ (a.b : Int) - b.b := by omega
    have h2 : (a.b : Int) - b.b ≤ 255 := by omega
    nlinarith
  refine ⟨e, ?_, ?_, ?_, ?_, ?_, ?_⟩
  · intro x y; simp only [Color.distanceTo, colorDistance]
  · intro x y; simp only [colorDistance]
  · simp only [colorDistance]; ring
  · rw [e]; positivity
  · rw [e]; omega
  · rw [e]
    constructor
    · intro h
      have p1 := sq_nonneg ((a.r : Int) - b.r)
      have p2 := sq_nonneg ((a.g : Int) - b.g)
      have p3 := sq_nonneg ((a.b : Int) - b.b)
      have z1 : ((a.r : Int) - b.r) ^ 2 = 0 := by omega
      have z2 : ((a.g : Int) - b.g) ^ 2 = 0 := by omega
      have z3 : ((a.b : Int) - b.b) ^ 2 = 0 := by omega
      have y1 := pow_eq_zero_iff (n := 2) (by norm_num) |>.mp z1
      have y2 := pow_eq_zero_iff (n := 2) (by norm_num) |>.mp z2
      have y3 := pow_eq_zero_iff (n := 2) (by norm_num) |>.mp z3
      omega
    · rintro ⟨h1, h2, h3⟩
      simp [h1, h2, h3]

/-- C19 at concrete colours: pure red against pure blue. -/
theorem C19_color_distance_witness :
    ((255 : Nat) < 256 ∧ (0 : Nat) < 256 ∧ (0 : Nat) < 256) ∧
    colorDistance ⟨255, 0, 0, 255⟩ ⟨0, 0, 255, 0⟩ = 130050 ∧
    colorDistance ⟨255, 0, 0, 255⟩ ⟨0, 0, 255, 0⟩ ≤ 195075 := by
  have h := C19_color_distance ⟨255, 0, 0, 255⟩ ⟨0, 0, 255, 0⟩ (by decide) (by decide)
  exact ⟨by decide, by rw [h.1]; decide, h.2.2.2.2.2.1⟩

/-! ## Closest standard palette: the loops in closed form -/

/-- A colour distance is not negative. -/
theorem colorDistance_nonneg (c1 c2 : PaletteColor) : 0 ≤ colorDistance c1 c2 := by
  unfold colorDistance
  simp only []
  nlinarith [mul_self_nonneg ((c1.r : Int) - (c2.r : Int)),
    mul_self_nonneg ((c1.g : Int) - (c2.g : Int)),
    mul_self_nonneg ((c1.b : Int) - (c2.b : Int))]

/-- A colour distance is 0 exactly for equal r, g and b. -/
theorem colorDistance_eq_zero_iff (c1 c2 : PaletteColor) :
    colorDistance c1 c2 = 0 ↔ c2.r = c1.r ∧ c2.g = c1.g ∧ c2.b = c1.b := by
  unfold colorDistance
  simp only []
  constructor
  · intro h
    have h1 : ((c1.r : Int) - (c2.r : Int)) * ((c1.r : Int) - (c2.r : Int)) = 0 := by
      nlinarith [mul_self_nonneg ((c1.r : Int) - (c2.r : Int)),
        mul_self_nonneg ((c1.g : Int) - (c2.g : Int)),
        mul_self_nonneg ((c1.b : Int) - (c2.b : Int))]
    have h2 : ((c1.g : Int) - (c2.g : Int)) * ((c1.g : Int) - (c2.g : Int)) = 0 := by
      nlinarith [mul_self_nonneg ((c1.r : Int) - (c2.r : Int)),
        mul_self_nonneg ((c1.g : Int) - (c2.g : Int)),
        mul_self_nonneg ((c1.b : Int) - (c2.b : Int))]
    have h3 : ((c1.b : Int) - (c2.b : Int)) * ((c1.b : Int) - (c2.b : Int)) = 0 := by
      nlinarith [mul_self_nonneg ((c1.r : Int) - (c2.r : Int)),
        mul_self_nonneg ((c1.g : Int) - (c2.g : Int)),
        mul_self_nonneg ((c1.b : Int) - (c2.b : Int))]
    have g1 := mul_self_eq_zero.mp h1
    have g2 := mul_self_eq_zero.mp h2
    have g3 := mul_self_eq_zero.mp h3
    omega
  · rintro ⟨h1, h2, h3⟩
    rw [h1, h2, h3]
    ring

/-- The loop over `j` from any non-negative start: the result is not negative,
and is 0 exactly when the start is 0 or some visited colour is at distance 0. -/
theorem minLoop_spec (c : PaletteColor) (pal : Nat → PaletteColor) :
    ∀ (l : List Nat) (m : Int), 0 ≤ m →
      0 ≤ l.foldl (fun minDist j =>
          if colorDistance c (pal j) < minDist then colorDistance c (pal j) else minDist) m ∧
      (l.foldl (fun minDist j =>
          if colorDistance c (pal j) < minDist then colorDistance c (pal j) else minDist) m = 0
        ↔ m = 0 ∨ ∃ j, j ∈ l ∧ colorDistance c (pal j) = 0) := by
  intro l
  induction l with
  | nil =>
    intro m hm
    simp
    exact hm
  | cons x l ih =>
    intro m hm
    rw [List.foldl_cons]
    have hx := colorDistance_nonneg c (pal x)
    by_cases hlt : colorDistance c (pal x) < m
    · rw [if_pos hlt]
      obtain ⟨i1, i2⟩ := ih (colorDistance c (pal x)) hx
      refine ⟨i1, ?_⟩
      rw [i2]
      constructor
      · rintro (h | ⟨j, hj, h⟩)
        · exact Or.inr ⟨x, List.mem_cons_self _ _, h⟩
        · exact Or.inr ⟨j, List.mem_cons_of_mem _ hj, h⟩
      · rintro (h | ⟨j, hj, h⟩)
        · omega
        · rcases List.mem_cons.mp hj with rfl | hj
          · exact Or.inl h
          · exact Or.inr ⟨j, hj, h⟩
    · rw [if_neg hlt]
      obtain ⟨i1, i2⟩ := ih m hm
      refine ⟨i1, ?_⟩
      rw [i2]
      constructor
      · rintro (h | ⟨j, hj, h⟩)
        · exact Or.inl h
        · exact Or.inr ⟨j, List.mem_cons_of_mem _ hj, h⟩
      · rintro (h | ⟨j, hj, h⟩)
        · exact Or.inl h
        · rcases List.mem_cons.mp hj with rfl | hj
          · exact Or.inl (by omega)
          · exact Or.inr ⟨j, hj, h⟩

/-- The least distance is not negative. -/
theorem minDistance_nonneg (c : PaletteColor) (pal : Nat → PaletteColor) :
    0 ≤ minDistance c pal :=
  (minLoop_spec c pal (List.range STANDARD_PALETTE_COLORS) INT32_MAX (by decide)).1

/-- The least distance is 0 exactly when the palette holds a colour with the
same r, g and b. -/
theorem minDistance_eq_zero_iff (c : PaletteColor) (pal : Nat → PaletteColor) :
    minDistance c pal = 0 ↔ ∃ j, j < STANDARD_PALETTE_COLORS ∧
      (pal j).r = c.r ∧ (pal j).g = c.g ∧ (pal j).b = c.b := by
  have h := (minLoop_spec c pal (List.range STANDARD_PALETTE_COLORS) INT32_MAX (by decide)).2
  have e : minDistance c pal = (List.range STANDARD_PALETTE_COLORS).foldl (fun minDist j =>
      if colorDistance c (pal j) < minDist then colorDistance c (pal j) else minDist)
      INT32_MAX := rfl
  rw [e, h]
  constructor
  · rintro (h0 | ⟨j, hj, hd⟩)
    · exact absurd h0 (by decide)
    · exact ⟨j, List.mem_range.mp hj, (colorDistance_eq_zero_iff _ _).mp hd⟩
  · rintro ⟨j, hj, hd⟩
    exact Or.inr ⟨j, List.mem_range.mpr hj, (colorDistance_eq_zero_iff _ _).mpr hd⟩

/-- The loop over the unique colours from any tally: the score drops by at
most 10000 per colour; when every colour has least distance 0 only the exact
matches grow; when some colour has not, the score drops by less than 10000 per
colour. -/
theorem tallyLoop_spec (pal : Nat → PaletteColor) :
    ∀ (u : List PaletteColor) (t : Int × Int × Int),
      paletteScore t - 10000 * (u.length : Int)
        ≤ paletteScore (u.foldl (fun (t : Int × Int × Int) customColor =>
            (t.1 + minDistance customColor pal,
              if minDistance customColor pal = 0 then t.2.1 + 1 else t.2.1,
              if minDistance customColor pal = 0 then t.2.2
              else if minDistance customColor pal < 100 then t.2.2 + 1 else t.2.2)) t) ∧
      ((∀ c, c ∈ u → minDistance c pal = 0) →
        u.foldl (fun (t : Int × Int × Int) customColor =>
            (t.1 + minDistance customColor pal,
              if minDistance customColor pal = 0 then t.2.1 + 1 else t.2.1,
              if minDistance customColor pal = 0 then t.2.2
              else if minDistance customColor pal < 100 then t.2.2 + 1 else t.2.2)) t
          = (t.1, t.2.1 + (u.length : Int), t.2.2)) ∧
      ((∃ c, c ∈ u ∧ minDistance c pal ≠ 0) →
        paletteScore t - 10000 * (u.length : Int)
          < paletteScore (u.foldl (fun (t : Int × Int × Int) customColor =>
            (t.1 + minDistance customColor pal,
              if minDistance customColor pal = 0 then t.2.1 + 1 else t.2.1,
              if minDistance customColor pal = 0 then t.2.2
              else if minDistance customColor pal < 100 then t.2.2 + 1 else t.2.2)) t)) := by
  intro u
  induction u with
  | nil =>
    intro t
    refine ⟨by simp, fun _ => by simp, ?_⟩
    rintro ⟨c, hc, _⟩
    exact absurd hc (List.not_mem_nil c)
  | cons c u ih =>
    intro t
    rw [List.foldl_cons]
    have hm := minDistance_nonneg c pal
    obtain ⟨i1, i2, i3⟩ := ih (t.1 + minDistance c pal,
      if minDistance c pal = 0 then t.2.1 + 1 else t.2.1,
      if minDistance c pal = 0 then t.2.2
      else if minDistance c pal < 100 then t.2.2 + 1 else t.2.2)
    have hlen : (((c :: u).length : Nat) : Int) = (u.length : Int) + 1 := by
      rw [List.length_cons]
      push_cast
      ring
    have hstep : paletteScore t - 10000 ≤ paletteScore (t.1 + minDistance c pal,
        if minDistance c pal = 0 then t.2.1 + 1 else t.2.1,
        if minDistance c pal = 0 then t.2.2
        else if minDistance c pal < 100 then t.2.2 + 1 else t.2.2) := by
      unfold paletteScore
      dsimp only
      split_ifs <;> omega
    have hstrict : minDistance c pal ≠ 0 →
        paletteScore t - 10000 < paletteScore (t.1 + minDistance c pal,
        if minDistance c pal = 0 then t.2.1 + 1 else t.2.1,
        if minDistance c pal = 0 then t.2.2
        else if minDistance c pal < 100 then t.2.2 + 1 else t.2.2) := by
      intro hne
      unfold paletteScore
      dsimp only
      split_ifs <;> omega
    rw [hlen]
    refine ⟨by linarith, ?_, ?_⟩
    · intro hall
      have h0 : minDistance c pal = 0 := hall c (List.mem_cons_self _ _)
      rw [i2 (fun c' hc' => hall c' (List.mem_cons_of_mem _ hc'))]
      simp only [h0, if_true, add_zero]
      ext
      · rfl
      · dsimp only
        ring
      · rfl
    · rintro ⟨c', hc', hne⟩
      rcases List.mem_cons.mp hc' with rfl | hc'
      · have := hstrict hne
        linarith
      · have := i3 ⟨c', hc', hne⟩
        linarith

/-- The loop over the palette ids keeps the first id that reaches the least
score. -/
theorem bestLoop_spec (S T : Nat → Int) (m : Int) (p0 : Nat) (init : Int × Nat × Int)
    (hinit : m < init.1) (h0 : S p0 = m) (hall : ∀ q, m ≤ S q)
    (hlow : ∀ q, q < p0 → m < S q) :
    ∀ k, (k ≤ p0 → m < ((List.range k).foldl
          (fun (best : Int × Nat × Int) pid =>
            if S pid < best.1 then (S pid, pid, T pid) else best) init).1) ∧
      (p0 < k → (List.range k).foldl
          (fun (best : Int × Nat × Int) pid =>
            if S pid < best.1 then (S pid, pid, T pid) else best) init = (m, p0, T p0)) := by
  intro k
  induction k with
  | zero =>
    refine ⟨fun _ => ?_, fun h => absurd h (Nat.not_lt_zero p0)⟩
    simpa using hinit
  | succ k ih =>
    rw [List.range_succ, List.foldl_append, List.foldl_cons, List.foldl_nil]
    obtain ⟨i1, i2⟩ := ih
    constructor
    · intro hk
      have h1 := i1 (by omega)
      have h2 := hlow k (by omega)
      split_ifs
      · exact h2
      · exact h1
    · intro hk
      by_cases hkp : k = p0
      · have h1 := i1 (by omega)
        subst hkp
        rw [h0, if_pos h1]
      · rw [i2 (by omega)]
        have h2 := hall k
        rw [if_neg (by dsimp only; omega)]

/-- One round of the first loop adds the colour to the members. -/
theorem uniqueStep_mem (acc : List PaletteColor) (x c : PaletteColor) :
    c ∈ (if !(acc.any (fun existing => existing.same x)) then acc ++ [x] else acc)
      ↔ c ∈ acc ∨ x = c := by
  by_cases hany : acc.any (fun existing => existing.same x) = true
  · rw [hany]
    simp only [Bool.not_true, Bool.false_eq_true, if_false]
    obtain ⟨e, he, hs⟩ := List.any_eq_true.mp hany
    have hex : e = x := of_decide_eq_true hs
    constructor
    · exact fun h => Or.inl h
    · rintro (h | h)
      · exact h
      · rw [← h, ← hex]
        exact he
  · have hf : acc.any (fun existing => existing.same x) = false := by
      simpa using hany
    rw [hf]
    simp only [Bool.not_false, if_true, List.mem_append, List.mem_singleton]
    constructor
    · rintro (h | h)
      · exact Or.inl h
      · exact Or.inr h.symm
    · rintro (h | h)
      · exact Or.inl h
      · exact Or.inr h.symm

/-- The members after the first loop: those before it and the visited
colours. -/
theorem uniqueLoop_mem (custom : Nat → PaletteColor) :
    ∀ (l : List Nat) (acc : List PaletteColor) (c : PaletteColor),
      c ∈ l.foldl (fun u i =>
          if !(u.any (fun existing => existing.same (custom i))) then u ++ [custom i] else u) acc
        ↔ c ∈ acc ∨ ∃ i, i ∈ l ∧ custom i = c := by
  intro l
  induction l with
  | nil =>
    intro acc c
    simp
  | cons x l ih =>
    intro acc c
    rw [List.foldl_cons, ih, uniqueStep_mem]
    constructor
    · rintro ((h | h) | ⟨i, hi, h⟩)
      · exact Or.inl h
      · exact Or.inr ⟨x, List.mem_cons_self _ _, h⟩
      · exact Or.inr ⟨i, List.mem_cons_of_mem _ hi, h⟩
    · rintro (h | ⟨i, hi, h⟩)
      · exact Or.inl (Or.inl h)
      · rcases List.mem_cons.mp hi with rfl | hi
        · exact Or.inl (Or.inr h)
        · exact Or.inr ⟨i, hi, h⟩

/-- The unique colours are the 16 colours of the custom palette. -/
theorem uniqueColors_mem (custom : Nat → PaletteColor) (c : PaletteColor) :
    c ∈ uniqueColors custom ↔ ∃ i, i < STANDARD_PALETTE_COLORS ∧ custom i = c := by
  have h := uniqueLoop_mem custom (List.range STANDARD_PALETTE_COLORS) [] c
  have e : uniqueColors custom = (List.range STANDARD_PALETTE_COLORS).foldl (fun u i =>
      if !(u.any (fun existing => existing.same (custom i))) then u ++ [custom i] else u) [] :=
    rfl
  rw [e, h]
  constructor
  · rintro (h | ⟨i, hi, h⟩)
    · exact absurd h (List.not_mem_nil c)
    · exact ⟨i, List.mem_range.mp hi, h⟩
  · rintro ⟨i, hi, h⟩
    exact Or.inr ⟨i, List.mem_range.mpr hi, h⟩

/-- Every unique colour has least distance 0 to palette `pid` exactly when the
palette holds all the custom colours up to alpha. -/
theorem all_zero_iff_holds (d : LibraryData) (pid : Nat) (custom : Nat → PaletteColor) :
    (∀ c, c ∈ uniqueColors custom → minDistance c (d.palettes pid) = 0)
      ↔ holdsAllColors d pid custom := by
  unfold holdsAllColors
  constructor
  · intro h i hi
    exact (minDistance_eq_zero_iff _ _).mp
      (h (custom i) ((uniqueColors_mem custom _).mpr ⟨i, hi, rfl⟩))
  · intro h c hc
    obtain ⟨i, hi, rfl⟩ := (uniqueColors_mem custom c).mp hc
    exact (minDistance_eq_zero_iff _ _).mpr (h i hi)

/-- The result of `findClosestPalette` on an initialized library: the first id
whose palette holds all the custom colours up to alpha, with distance 0. -/
theorem findClosestPalette_first_holder (d : LibraryData) (custom : Nat → PaletteColor)
    (p0 : Nat) (hinit : d.initialized = true) (hp0 : p0 < STANDARD_PALETTE_COUNT)
    (hold : holdsAllColors d p0 custom)
    (hmin : ∀ q, q < p0 → ¬ holdsAllColors d q custom) :
    findClosestPalette (some d) custom = (p0, 0) := by
  have hne : 0 < ((uniqueColors custom).length : Int) := by
    have hmem : custom 0 ∈ uniqueColors custom :=
      (uniqueColors_mem custom _).mpr ⟨0, by decide, rfl⟩
    have := List.length_pos_of_mem hmem
    omega
  have hT : ∀ pid, matchTally (uniqueColors custom) (d.palettes pid)
      = (uniqueColors custom).foldl (fun (t : Int × Int × Int) customColor =>
            (t.1 + minDistance customColor (d.palettes pid),
              if minDistance customColor (d.palettes pid) = 0 then t.2.1 + 1 else t.2.1,
              if minDistance customColor (d.palettes pid) = 0 then t.2.2
              else if minDistance customColor (d.palettes pid) < 100 then t.2.2 + 1
              else t.2.2)) (0, 0, 0) := fun _ => rfl
  have hp : matchTally (uniqueColors custom) (d.palettes p0)
      = (0, ((uniqueColors custom).length : Int), 0) := by
    rw [hT, (tallyLoop_spec (d.palettes p0) (uniqueColors custom) (0, 0, 0)).2.1
      ((all_zero_iff_holds d p0 custom).mpr hold)]
    simp
  have hall : ∀ q, -10000 * ((uniqueColors custom).length : Int)
      ≤ paletteScore (matchTally (uniqueColors custom) (d.palettes q)) := by
    intro q
    have h := (tallyLoop_spec (d.palettes q) (uniqueColors custom) (0, 0, 0)).1
    rw [← hT] at h
    have h0 : paletteScore (0, 0, 0) = 0 := by decide
    rw [h0] at h
    linarith
  have hlow : ∀ q, q < p0 → -10000 * ((uniqueColors custom).length : Int)
      < paletteScore (matchTally (uniqueColors custom) (d.palettes q)) := by
    intro q hq
    have hnot : ¬ ∀ c, c ∈ uniqueColors custom → minDistance c (d.palettes q) = 0 :=
      fun hc => hmin q hq ((all_zero_iff_holds d q custom).mp hc)
    push_neg at hnot
    have h := (tallyLoop_spec (d.palettes q) (uniqueColors custom) (0, 0, 0)).2.2 hnot
    rw [← hT] at h
    have h0 : paletteScore (0, 0, 0) = 0 := by decide
    rw [h0] at h
    linarith
  have hS0 : paletteScore (matchTally (uniqueColors custom) (d.palettes p0))
      = -10000 * ((uniqueColors custom).length : Int) := by
    rw [hp]
    unfold paletteScore
    dsimp only
    ring
  have hbest : bestPalette d (uniqueColors custom)
      = (-10000 * ((uniqueColors custom).length : Int), p0, 0) := by
    have h := (bestLoop_spec
      (fun pid => paletteScore (matchTally (uniqueColors custom) (d.palettes pid)))
      (fun pid => (matchTally (uniqueColors custom) (d.palettes pid)).1)
      (-10000 * ((uniqueColors custom).length : Int)) p0
      (INT32_MAX, PALETTE_MODE_CUSTOM, INT32_MAX)
      (by have : (0 : Int) < INT32_MAX := by decide
          show -10000 * ((uniqueColors custom).length : Int) < INT32_MAX
          linarith)
      hS0 hall hlow STANDARD_PALETTE_COUNT).2 hp0
    have e : (matchTally (uniqueColors custom) (d.palettes p0)).1 = 0 := by
      rw [hp]
    rw [e] at h
    exact h
  simp only [findClosestPalette, hinit, hbest]
  simp only [Bool.not_true, Bool.false_eq_true, if_false, gt_iff_lt, hne, if_true,
    Int.zero_tdiv]
  rw [if_pos (Or.inl (by decide))]

/-! ## C20 -/

/-- C20, as stated, fails: in an initialized library whose entries 0 and 5 are
the same palette, the custom palette identical to entry 5 gets the id 0, not
5, with distance 0. -/
theorem C20_counterexample :
    duplicateLibrary.initialized = true ∧
    findClosestPalette (some duplicateLibrary) (duplicateLibrary.palettes 5) = (0, 0) ∧
    (findClosestPalette (some duplicateLibrary) (duplicateLibrary.palettes 5)).1 ≠ 5 := by
  have h : findClosestPalette (some duplicateLibrary) (duplicateLibrary.palettes 5) = (0, 0) :=
    findClosestPalette_first_holder duplicateLibrary (duplicateLibrary.palettes 5) 0 rfl
      (by decide) (by decide) (fun q hq => absurd hq (Nat.not_lt_zero q))
  refine ⟨rfl, h, ?_⟩
  rw [h]
  decide

/-- C20 (amended): for every initialized library and every custom palette whose
16 entries are those of library entry 5, `findClosestPalette` reports distance 0
and returns the lowest id whose palette holds every colour of the custom palette
up to alpha, an id that is at most 5; it returns 5 when no entry with a lower id
holds all of them. -/
theorem C20_identical_palette (d : LibraryData) (custom : Nat → PaletteColor)
    (hinit : d.initialized = true)
    (hsame : ∀ i, i < STANDARD_PALETTE_COLORS → custom i = d.palettes 5 i) :
    (∃ p, p ≤ 5 ∧ holdsAllColors d p custom ∧ (∀ q, q < p → ¬ holdsAllColors d q custom) ∧
      findClosestPalette (some d) custom = (p, 0)) ∧
    ((∀ q, q < 5 → ¬ holdsAllColors d q custom) →
      findClosestPalette (some d) custom = (5, 0)) := by
  have hold5 : holdsAllColors d 5 custom := by
    intro i hi
    refine ⟨i, hi, ?_⟩
    rw [hsame i hi]
    exact ⟨rfl, rfl, rfl⟩
  have hex : ∃ p, holdsAllColors d p custom := ⟨5, hold5⟩
  refine ⟨⟨Nat.find hex, Nat.find_le hold5, Nat.find_spec hex,
    fun q hq => Nat.find_min hex hq, ?_⟩, ?_⟩
  · exact findClosestPalette_first_holder d custom (Nat.find hex) hinit
      (lt_of_le_of_lt (Nat.find_le hold5) (by decide)) (Nat.find_spec hex)
      (fun q hq => Nat.find_min hex hq)
  · intro hmin
    exact findClosestPalette_first_holder d custom 5 hinit (by decide) hold5 hmin

/-- C20 (amended) at a concrete input: in the sample library no entry below 5
holds the colours of entry 5, and the custom palette identical to entry 5 gets
the id 5 with distance 0. -/
theorem C20_identical_palette_witness :
    sampleLibrary.initialized = true ∧
    (∀ q, q < 5 → ¬ holdsAllColors sampleLibrary q (sampleLibrary.palettes 5)) ∧
    findClosestPalette (some sampleLibrary) (sampleLibrary.palettes 5) = (5, 0) :=
  ⟨rfl, by decide,
    (C20_identical_palette sampleLibrary (sampleLibrary.palettes 5) rfl
      (fun _ _ => rfl)).2 (by decide)⟩

/-! ## Closest standard palette: order and repetition of the custom colours -/

/-- One round of the first loop keeps the list free of repetitions. -/
theorem uniqueStep_nodup (acc : List PaletteColor) (x : PaletteColor) (h : acc.Nodup) :
    (if !(acc.any (fun existing => existing.same x)) then acc ++ [x] else acc).Nodup := by
  by_cases hany : acc.any (fun existing => existing.same x) = true
  · rw [hany]
    simpa using h
  · have hf : acc.any (fun existing => existing.same x) = false := by
      simpa using hany
    rw [hf]
    simp only [Bool.not_false, if_true]
    have hx : x ∉ acc := by
      intro hmem
      have : acc.any (fun existing => existing.same x) = true :=
        List.any_eq_true.mpr ⟨x, hmem, decide_eq_true rfl⟩
      rw [hf] at this
      exact Bool.false_ne_true this
    exact List.Nodup.append h (List.nodup_singleton x)
      (by
        intro a ha hb
        rw [List.mem_singleton] at hb
        subst hb
        exact hx ha)

/-- The first loop keeps the list free of repetitions. -/
theorem uniqueLoop_nodup (custom : Nat → PaletteColor) :
    ∀ (l : List Nat) (acc : List PaletteColor), acc.Nodup →
      (l.foldl (fun u i =>
          if !(u.any (fun existing => existing.same (custom i))) then u ++ [custom i] else u)
        acc).Nodup := by
  intro l
  induction l with
  | nil =>
    intro acc h
    exact h
  | cons x l ih =>
    intro acc h
    rw [List.foldl_cons]
    exact ih _ (uniqueStep_nodup acc (custom x) h)

/-- The unique colours hold no colour twice. -/
theorem uniqueColors_nodup (custom : Nat → PaletteColor) : (uniqueColors custom).Nodup :=
  uniqueLoop_nodup custom (List.range STANDARD_PALETTE_COLORS) [] List.nodup_nil

/-- The tally does not depend on the order in which the colours are visited. -/
theorem matchTally_perm (u1 u2 : List PaletteColor) (pal : Nat → PaletteColor)
    (h : u1.Perm u2) : matchTally u1 pal = matchTally u2 pal := by
  unfold matchTally
  apply List.Perm.foldl_eq' h
  intro x _ y _ z
  ext
  · dsimp only
    ring
  · dsimp only
    split_ifs <;> ring
  · dsimp only
    split_ifs <;> ring

/-- `findClosestPalette` depends on the custom palette through its unique
colours up to their order. -/
theorem findClosestPalette_perm (s_data : Option LibraryData) (p1 p2 : Nat → PaletteColor)
    (h : (uniqueColors p1).Perm (uniqueColors p2)) :
    findClosestPalette s_data p1 = findClosestPalette s_data p2 := by
  cases s_data with
  | none => rfl
  | some d =>
    have hb : bestPalette d (uniqueColors p1) = bestPalette d (uniqueColors p2) := by
      unfold bestPalette
      simp only [matchTally_perm _ _ _ h]
    have hl : (uniqueColors p1).length = (uniqueColors p2).length := h.length_eq
    simp only [findClosestPalette, hb, hl]

/-! ## C21 -/

/-- C21: two custom palettes whose 16 entries hold the same set of colours
(equal in all four bytes), in any order and with any repetitions, get the same
palette id and the same distance from `findClosestPalette`, whatever the
library state. -/
theorem C21_same_colour_set (s_data : Option LibraryData) (p1 p2 : Nat → PaletteColor)
    (h : ∀ c, (∃ i, i < 16 ∧ p1 i = c) ↔ (∃ i, i < 16 ∧ p2 i = c)) :
    findClosestPalette s_data p1 = findClosestPalette s_data p2 := by
  apply findClosestPalette_perm
  rw [List.perm_ext_iff_of_nodup (uniqueColors_nodup p1) (uniqueColors_nodup p2)]
  intro c
  rw [uniqueColors_mem, uniqueColors_mem]
  exact h c

/-- C21 at a concrete input: entry 5 of the sample library, and the same
colours in reverse order;
both get id 5 with distance 0. -/
theorem C21_same_colour_set_witness :
    (∀ c, (∃ i, i < 16 ∧ sampleLibrary.palettes 5 i = c)
      ↔ (∃ i, i < 16 ∧ sampleLibrary.palettes 5 (15 - i) = c)) ∧
    findClosestPalette (some sampleLibrary) (sampleLibrary.palettes 5)
      = findClosestPalette (some sampleLibrary) (fun i => sampleLibrary.palettes 5 (15 - i)) :=
  have h : ∀ c, (∃ i, i < 16 ∧ sampleLibrary.palettes 5 i = c)
      ↔ (∃ i, i < 16 ∧ sampleLibrary.palettes 5 (15 - i) = c) := fun c =>
    ⟨fun ⟨i, hi, hc⟩ => ⟨15 - i, by omega, by
        have e : 15 - (15 - i) = i := by omega
        rw [e]
        exact hc⟩,
      fun ⟨i, hi, hc⟩ => ⟨15 - i, by omega, hc⟩⟩
  ⟨h, C21_same_colour_set (some sampleLibrary) (sampleLibrary.palettes 5)
    (fun i => sampleLibrary.palettes 5 (15 - i)) h⟩

/-! ## Closest standard palette: the tally as sums and counts -/

/-- The loop over the unique colours from any tally, as a sum and two
counts. -/
theorem tallyLoop_closed (pal : Nat → PaletteColor) :
    ∀ (u : List PaletteColor) (t : Int × Int × Int),
      u.foldl (fun (t : Int × Int × Int) customColor =>
          (t.1 + minDistance customColor pal,
            if minDistance customColor pal = 0 then t.2.1 + 1 else t.2.1,
            if minDistance customColor pal = 0 then t.2.2
            else if minDistance customColor pal < 100 then t.2.2 + 1 else t.2.2)) t
        = (t.1 + (u.map (fun c => minDistance c pal)).sum,
            t.2.1 + ((u.countP (fun c => decide (minDistance c pal = 0)) : Nat) : Int),
            t.2.2 + ((u.countP (fun c => decide (0 < minDistance c pal ∧
              minDistance c pal < 100)) : Nat) : Int)) := by
  intro u
  induction u with
  | nil =>
    intro t
    simp
  | cons c u ih =>
    intro t
    rw [List.foldl_cons, ih]
    have hm := minDistance_nonneg c pal
    rw [List.map_cons, List.sum_cons, List.countP_cons, List.countP_cons]
    by_cases h0 : minDistance c pal = 0
    · have hclose : ¬ (0 < minDistance c pal ∧ minDistance c pal < 100) := by omega
      have d0 : decide (minDistance c pal = 0) = true := decide_eq_true h0
      have dc : decide (0 < minDistance c pal ∧ minDistance c pal < 100) = false :=
        decide_eq_false hclose
      rw [d0, dc, if_pos h0, if_pos h0]
      ext
      · dsimp only
        ring
      · dsimp only
        simp
        ring
      · dsimp only
        simp
    · have d0 : decide (minDistance c pal = 0) = false := decide_eq_false h0
      rw [d0, if_neg h0, if_neg h0]
      by_cases h1 : minDistance c pal < 100
      · have dc : decide (0 < minDistance c pal ∧ minDistance c pal < 100) = true :=
          decide_eq_true ⟨by omega, h1⟩
        rw [dc, if_pos h1]
        ext
        · dsimp only
          ring
        · dsimp only
          simp
        · dsimp only
          simp
          ring
      · have dc : decide (0 < minDistance c pal ∧ minDistance c pal < 100) = false :=
          decide_eq_false (by omega)
        rw [dc, if_neg h1]
        ext
        · dsimp only
          ring
        · dsimp only
          simp
        · dsimp only
          simp

/-- The loop over `j` is a fold of `min`. -/
theorem minLoop_eq_foldl_min (c : PaletteColor) (pal : Nat → PaletteColor) :
    ∀ (l : List Nat) (m : Int),
      l.foldl (fun minDist j =>
          if colorDistance c (pal j) < minDist then colorDistance c (pal j) else minDist) m
        = (l.map (fun j => colorDistance c (pal j))).foldl min m := by
  intro l
  induction l with
  | nil =>
    intro m
    rfl
  | cons x l ih =>
    intro m
    rw [List.foldl_cons, List.map_cons, List.foldl_cons, ih]
    congr 1
    by_cases h : colorDistance c (pal x) < m
    · rw [if_pos h, min_eq_right (le_of_lt h)]
    · rw [if_neg h, min_eq_left (by omega)]

/-- When the distance to entry 0 fits an `int32_t`, the least distance the code
computes is the minimum over the 16 entries. -/
theorem minDistance_eq_spec (c : PaletteColor) (pal : Nat → PaletteColor)
    (h : colorDistance c (pal 0) ≤ INT32_MAX) :
    minDistance c pal = specMinDistance c pal := by
  have e : minDistance c pal = (List.range STANDARD_PALETTE_COLORS).foldl (fun minDist j =>
      if colorDistance c (pal j) < minDist then colorDistance c (pal j) else minDist)
      INT32_MAX := rfl
  have hr : List.range STANDARD_PALETTE_COLORS = 0 :: List.range' 1 15 := by rfl
  have hr' : List.range 16 = 0 :: List.range' 1 15 := by rfl
  rw [e, minLoop_eq_foldl_min, hr]
  unfold specMinDistance
  rw [hr', List.map_cons, List.foldl_cons, List.foldl_cons, min_eq_right h, min_self]

/-- A colour distance between colours with byte components fits an
`int32_t`. -/
theorem colorDistance_le_of_bytes (c1 c2 : PaletteColor)
    (h1 : c1.r < 256 ∧ c1.g < 256 ∧ c1.b < 256) (h2 : c2.r < 256 ∧ c2.g < 256 ∧ c2.b < 256) :
    colorDistance c1 c2 ≤ 195075 := by
  unfold colorDistance
  dsimp only
  obtain ⟨a1, a2, a3⟩ := h1
  obtain ⟨b1, b2, b3⟩ := h2
  have e1 : ((c1.r : Int) - (c2.r : Int)) * ((c1.r : Int) - (c2.r : Int)) ≤ 65025 := by
    nlinarith
  have e2 : ((c1.g : Int) - (c2.g : Int)) * ((c1.g : Int) - (c2.g : Int)) ≤ 65025 := by
    nlinarith
  have e3 : ((c1.b : Int) - (c2.b : Int)) * ((c1.b : Int) - (c2.b : Int)) ≤ 65025 := by
    nlinarith
  linarith

/-- The unique colours are a rearrangement of the distinct colours. -/
theorem uniqueColors_perm_specDistinct (custom : Nat → PaletteColor) :
    (uniqueColors custom).Perm (specDistinct custom) := by
  unfold specDistinct
  rw [List.perm_ext_iff_of_nodup (uniqueColors_nodup custom) (List.nodup_dedup _)]
  intro c
  rw [uniqueColors_mem, List.mem_dedup, List.mem_map]
  constructor
  · rintro ⟨i, hi, hc⟩
    exact ⟨i, List.mem_range.mpr hi, hc⟩
  · rintro ⟨i, hi, hc⟩
    exact ⟨i, List.mem_range.mp hi, hc⟩

/-- A fold of `min` does not exceed its start. -/
theorem foldl_min_le (l : List Int) : ∀ m : Int, l.foldl min m ≤ m := by
  induction l with
  | nil =>
    intro m
    exact le_refl m
  | cons x l ih =>
    intro m
    rw [List.foldl_cons]
    exact le_trans (ih (min m x)) (min_le_left m x)

/-- The minimum over the 16 entries does not exceed the distance to entry 0. -/
theorem specMinDistance_le (c : PaletteColor) (pal : Nat → PaletteColor) :
    specMinDistance c pal ≤ colorDistance c (pal 0) :=
  foldl_min_le _ _

/-- A sum of terms bounded by `B` is bounded by the length times `B`. -/
theorem sum_map_le (g : PaletteColor → Int) (B : Int) :
    ∀ l : List PaletteColor, (∀ c, c ∈ l → g c ≤ B) → (l.map g).sum ≤ (l.length : Int) * B := by
  intro l
  induction l with
  | nil =>
    intro _
    simp
  | cons x l ih =>
    intro h
    rw [List.map_cons, List.sum_cons, List.length_cons]
    have h1 := h x (List.mem_cons_self _ _)
    have h2 := ih (fun c hc => h c (List.mem_cons_of_mem _ hc))
    push_cast
    linarith

/-- A sum of non-negative terms is non-negative. -/
theorem sum_map_nonneg (g : PaletteColor → Int) :
    ∀ l : List PaletteColor, (∀ c, c ∈ l → 0 ≤ g c) → 0 ≤ (l.map g).sum := by
  intro l
  induction l with
  | nil =>
    intro _
    simp
  | cons x l ih =>
    intro h
    rw [List.map_cons, List.sum_cons]
    have h1 := h x (List.mem_cons_self _ _)
    have h2 := ih (fun c hc => h c (List.mem_cons_of_mem _ hc))
    linarith

/-- There are between 1 and 16 distinct colours. -/
theorem specDistinct_length (custom : Nat → PaletteColor) :
    1 ≤ (specDistinct custom).length ∧ (specDistinct custom).length ≤ 16 := by
  constructor
  · have hmem : custom 0 ∈ specDistinct custom := by
      unfold specDistinct
      rw [List.mem_dedup, List.mem_map]
      exact ⟨0, List.mem_range.mpr (by decide), rfl⟩
    exact List.length_pos_of_mem hmem
  · have h := List.Sublist.length_le (List.dedup_sublist ((List.range 16).map custom))
    rw [List.length_map, List.length_range] at h
    exact h

/-- Every distinct colour is an entry of the custom palette. -/
theorem mem_specDistinct (custom : Nat → PaletteColor) (c : PaletteColor)
    (h : c ∈ specDistinct custom) : ∃ i, i < 16 ∧ custom i = c := by
  unfold specDistinct at h
  rw [List.mem_dedup, List.mem_map] at h
  obtain ⟨i, hi, hc⟩ := h
  exact ⟨i, List.mem_range.mp hi, hc⟩

/-- With byte components, the tally the code computes for palette `p` is
(total(p), exact(p), close(p)). -/
theorem matchTally_eq_spec (d : LibraryData) (custom : Nat → PaletteColor) (p : Nat)
    (hp : p < 32)
    (hlib : ∀ p c, p < 32 → c < 16 → (d.palettes p c).r < 256 ∧ (d.palettes p c).g < 256 ∧
      (d.palettes p c).b < 256)
    (hcus : ∀ i, i < 16 → (custom i).r < 256 ∧ (custom i).g < 256 ∧ (custom i).b < 256) :
    matchTally (uniqueColors custom) (d.palettes p)
      = (specTotal d custom p, specExact d custom p, specClose d custom p) := by
  have hmin : ∀ c, c ∈ specDistinct custom →
      minDistance c (d.palettes p) = specMinDistance c (d.palettes p) := by
    intro c hc
    obtain ⟨i, hi, rfl⟩ := mem_specDistinct custom c hc
    apply minDistance_eq_spec
    have h := colorDistance_le_of_bytes (custom i) (d.palettes p 0) (hcus i hi)
      (hlib p 0 hp (by decide))
    have hM : (195075 : Int) ≤ INT32_MAX := by decide
    exact le_trans h hM
  rw [matchTally_perm _ _ _ (uniqueColors_perm_specDistinct custom)]
  unfold matchTally
  rw [tallyLoop_closed]
  unfold specTotal specExact specClose
  have e1 : (specDistinct custom).map (fun c => minDistance c (d.palettes p))
      = (specDistinct custom).map (fun c => specMinDistance c (d.palettes p)) :=
    List.map_congr_left hmin
  have e2 : (specDistinct custom).countP (fun c => decide (minDistance c (d.palettes p) = 0))
      = (specDistinct custom).countP
          (fun c => decide (specMinDistance c (d.palettes p) = 0)) := by
    apply List.countP_congr
    intro c hc
    rw [hmin c hc]
  have e3 : (specDistinct custom).countP (fun c => decide (0 < minDistance c (d.palettes p) ∧
        minDistance c (d.palettes p) < 100))
      = (specDistinct custom).countP (fun c => decide (0 < specMinDistance c (d.palettes p) ∧
          specMinDistance c (d.palettes p) < 100)) := by
    apply List.countP_congr
    intro c hc
    rw [hmin c hc]
  rw [e1, e2, e3]
  simp

/-- With byte components, total(p) is between 0 and 16 * 195075. -/
theorem specTotal_bounds (d : LibraryData) (custom : Nat → PaletteColor) (p : Nat)
    (hp : p < 32)
    (hlib : ∀ p c, p < 32 → c < 16 → (d.palettes p c).r < 256 ∧ (d.palettes p c).g < 256 ∧
      (d.palettes p c).b < 256)
    (hcus : ∀ i, i < 16 → (custom i).r < 256 ∧ (custom i).g < 256 ∧ (custom i).b < 256) :
    0 ≤ specTotal d custom p ∧ specTotal d custom p ≤ 3121200 := by
  unfold specTotal
  constructor
  · apply sum_map_nonneg
    intro c hc
    obtain ⟨i, hi, rfl⟩ := mem_specDistinct custom c hc
    have h := colorDistance_le_of_bytes (custom i) (d.palettes p 0) (hcus i hi)
      (hlib p 0 hp (by decide))
    rw [← minDistance_eq_spec _ _ (le_trans h (by decide))]
    exact minDistance_nonneg _ _
  · have h1 := sum_map_le (fun c => specMinDistance c (d.palettes p)) 195075
      (specDistinct custom) (by
        intro c hc
        obtain ⟨i, hi, rfl⟩ := mem_specDistinct custom c hc
        exact le_trans (specMinDistance_le _ _)
          (colorDistance_le_of_bytes (custom i) (d.palettes p 0) (hcus i hi)
            (hlib p 0 hp (by decide))))
    have h2 := (specDistinct_length custom).2
    have h3 : ((specDistinct custom).length : Int) ≤ 16 := by exact_mod_cast h2
    linarith

/-- The loop over the first `N` palette ids keeps the first id that reaches the
least score among them. -/
theorem bestLoop_first_min (S T : Nat → Int) (N p0 : Nat) (init : Int × Nat × Int)
    (hinit : S p0 < init.1) (hall : ∀ q, q < N → S p0 ≤ S q)
    (hlow : ∀ q, q < p0 → S p0 < S q) :
    ∀ k, k ≤ N → (k ≤ p0 → S p0 < ((List.range k).foldl
          (fun (best : Int × Nat × Int) pid =>
            if S pid < best.1 then (S pid, pid, T pid) else best) init).1) ∧
      (p0 < k → (List.range k).foldl
          (fun (best : Int × Nat × Int) pid =>
            if S pid < best.1 then (S pid, pid, T pid) else best) init = (S p0, p0, T p0)) := by
  intro k
  induction k with
  | zero =>
    intro _
    refine ⟨fun _ => ?_, fun h => absurd h (Nat.not_lt_zero p0)⟩
    simpa using hinit
  | succ k ih =>
    intro hk
    rw [List.range_succ, List.foldl_append, List.foldl_cons, List.foldl_nil]
    obtain ⟨i1, i2⟩ := ih (by omega)
    constructor
    · intro hkp
      have h1 := i1 (by omega)
      have h2 := hlow k (by omega)
      split_ifs
      · exact h2
      · exact h1
    · intro hkp
      by_cases hkp0 : k = p0
      · have h1 := i1 (by omega)
        subst hkp0
        rw [if_pos h1]
      · rw [i2 (by omega)]
        have h2 := hall k (by omega)
        rw [if_neg (by dsimp only; omega)]

/-- Among finitely many ids there is a first one with the least score. -/
theorem exists_first_min (S : Nat → Int) (N : Nat) (hN : 0 < N) :
    ∃ b, b < N ∧ (∀ q, q < N → S b ≤ S q) ∧ (∀ q, q < b → S b < S q) := by
  have hex : ∃ b, b < N ∧ ∀ q, q < N → S b ≤ S q := by
    obtain ⟨a, ha, hmin⟩ := Finset.exists_min_image (Finset.range N) S
      ⟨0, Finset.mem_range.mpr hN⟩
    exact ⟨a, Finset.mem_range.mp ha, fun q hq => hmin q (Finset.mem_range.mpr hq)⟩
  classical
  refine ⟨Nat.find hex, (Nat.find_spec hex).1, (Nat.find_spec hex).2, ?_⟩
  intro q hq
  have hnot := Nat.find_min hex hq
  have hqN : q < N := lt_trans hq (Nat.find_spec hex).1
  by_contra hc
  apply hnot
  refine ⟨hqN, fun r hr => ?_⟩
  have h1 := (Nat.find_spec hex).2 r hr
  omega

/-! ## C22 -/

/-- C22: for an initialized library and a custom palette, all colour components
being bytes, with n the number of distinct custom colours (1 <= n <= 16) and
total, exact, close, score as in the claim: there is a lowest id b in 0..31 that
minimises score; `findClosestPalette` reports the distance total(b), and returns
b if total(b) / n < 200 or total(b) < 50 * n, and 0xFF otherwise. -/
theorem C22_closest_palette (d : LibraryData) (custom : Nat → PaletteColor)
    (hinit : d.initialized = true)
    (hlib : ∀ p c, p < 32 → c < 16 → (d.palettes p c).r < 256 ∧ (d.palettes p c).g < 256 ∧
      (d.palettes p c).b < 256)
    (hcus : ∀ i, i < 16 → (custom i).r < 256 ∧ (custom i).g < 256 ∧ (custom i).b < 256) :
    1 ≤ (specDistinct custom).length ∧
    ∃ b, b < 32 ∧
      (∀ p, p < 32 → specScore d custom b ≤ specScore d custom p) ∧
      (∀ p, p < b → specScore d custom b < specScore d custom p) ∧
      findClosestPalette (some d) custom
        = (if specTotal d custom b / ((specDistinct custom).length : Int) < 200 ∨
              specTotal d custom b < 50 * ((specDistinct custom).length : Int) then b
            else 255,
          specTotal d custom b) := by
  refine ⟨(specDistinct_length custom).1, ?_⟩
  obtain ⟨b, hb, hall, hlow⟩ := exists_first_min (specScore d custom) 32 (by decide)
  refine ⟨b, hb, hall, hlow, ?_⟩
  have hT : ∀ p, p < 32 → matchTally (uniqueColors custom) (d.palettes p)
      = (specTotal d custom p, specExact d custom p, specClose d custom p) :=
    fun p hp => matchTally_eq_spec d custom p hp hlib hcus
  have hS : ∀ p, p < 32 →
      paletteScore (matchTally (uniqueColors custom) (d.palettes p)) = specScore d custom p := by
    intro p hp
    rw [hT p hp]
    unfold paletteScore specScore
    dsimp only
    ring
  have hlen : (uniqueColors custom).length = (specDistinct custom).length :=
    (uniqueColors_perm_specDistinct custom).length_eq
  have hn1 : (1 : Int) ≤ ((specDistinct custom).length : Int) := by
    exact_mod_cast (specDistinct_length custom).1
  obtain ⟨ht0, ht1⟩ := specTotal_bounds d custom b hb hlib hcus
  have hscore : specScore d custom b < INT32_MAX := by
    have he : 0 ≤ specExact d custom b := by
      unfold specExact
      exact Int.natCast_nonneg _
    have hc : 0 ≤ specClose d custom b := by
      unfold specClose
      exact Int.natCast_nonneg _
    unfold specScore INT32_MAX
    omega
  have hbest : bestPalette d (uniqueColors custom)
      = (specScore d custom b, b, specTotal d custom b) := by
    have h := (bestLoop_first_min
      (fun pid => paletteScore (matchTally (uniqueColors custom) (d.palettes pid)))
      (fun pid => (matchTally (uniqueColors custom) (d.palettes pid)).1)
      STANDARD_PALETTE_COUNT b (INT32_MAX, PALETTE_MODE_CUSTOM, INT32_MAX)
      (by
        show paletteScore (matchTally (uniqueColors custom) (d.palettes b)) < INT32_MAX
        rw [hS b hb]
        exact hscore)
      (by
        intro q hq
        show paletteScore (matchTally (uniqueColors custom) (d.palettes b))
          ≤ paletteScore (matchTally (uniqueColors custom) (d.palettes q))
        rw [hS b hb, hS q hq]
        exact hall q hq)
      (by
        intro q hq
        show paletteScore (matchTally (uniqueColors custom) (d.palettes b))
          < paletteScore (matchTally (uniqueColors custom) (d.palettes q))
        rw [hS b hb, hS q (by omega)]
        exact hlow q hq)
      STANDARD_PALETTE_COUNT (le_refl _)).2 hb
    have e1 : paletteScore (matchTally (uniqueColors custom) (d.palettes b))
        = specScore d custom b := hS b hb
    have e2 : (matchTally (uniqueColors custom) (d.palettes b)).1 = specTotal d custom b := by
      rw [hT b hb]
    rw [e1, e2] at h
    exact h
  have hpos : ((specDistinct custom).length : Int) > 0 := by omega
  simp only [findClosestPalette, hinit]
  rw [hbest, hlen, if_neg (by decide : ¬ ((!true) = true)), if_pos hpos]
  dsimp only
  rw [Int.tdiv_eq_ediv ht0 (le_of_lt hpos)]
  by_cases hc : specTotal d custom b / ((specDistinct custom).length : Int) < 200 ∨
      specTotal d custom b < 50 * ((specDistinct custom).length : Int)
  · rw [if_pos hc, if_pos hc]
  · rw [if_neg hc, if_neg hc]
    rfl

/-- C22 at a concrete input: the sample library and its entry 5 as custom
palette. -/
theorem C22_closest_palette_witness :
    sampleLibrary.initialized = true ∧
    1 ≤ (specDistinct (sampleLibrary.palettes 5)).length ∧
    ∃ b, b < 32 ∧
      (∀ p, p < 32 → specScore sampleLibrary (sampleLibrary.palettes 5) b
        ≤ specScore sampleLibrary (sampleLibrary.palettes 5) p) ∧
      (∀ p, p < b → specScore sampleLibrary (sampleLibrary.palettes 5) b
        < specScore sampleLibrary (sampleLibrary.palettes 5) p) ∧
      findClosestPalette (some sampleLibrary) (sampleLibrary.palettes 5)
        = (if specTotal sampleLibrary (sampleLibrary.palettes 5) b
                / ((specDistinct (sampleLibrary.palettes 5)).length : Int) < 200 ∨
              specTotal sampleLibrary (sampleLibrary.palettes 5) b
                < 50 * ((specDistinct (sampleLibrary.palettes 5)).length : Int) then b
            else 255,
          specTotal sampleLibrary (sampleLibrary.palettes 5) b) :=
  ⟨rfl, C22_closest_palette sampleLibrary (sampleLibrary.palettes 5) rfl
    (fun p c hp hc => by
      simp only [sampleLibrary]
      omega)
    (fun i hi => by
      simp only [sampleLibrary]
      omega)⟩

/-! ## Binary loading of the palette library in closed form -/

set_option maxRecDepth 20000 in
/-- The slots in loop order are the linear indices 0..511 split as
(index / 16, index % 16). -/
theorem paletteSlots_eq :
    paletteSlots = (List.range' 0 512).map (fun k => (k / 16, k % 16)) := by
  rfl

/-- Reading the first group of a sequence. -/
theorem colorAt_take (rest : List Nat) :
    (⟨(rest.take 4).getD 0 0, (rest.take 4).getD 1 0, (rest.take 4).getD 2 0,
      (rest.take 4).getD 3 0⟩ : PaletteColor) = colorAt rest 0 := by
  unfold colorAt
  simp [List.getD_eq_getElem?_getD, List.getElem?_take]

/-- Dropping one group shifts the groups by one. -/
theorem colorAt_drop (rest : List Nat) (k : Nat) :
    colorAt (rest.drop 4) k = colorAt rest (k + 1) := by
  unfold colorAt
  simp only [List.getD_eq_getElem?_getD, List.getElem?_drop]
  have e0 : 4 + 4 * k = 4 * (k + 1) := by ring
  have e1 : 4 + (4 * k + 1) = 4 * (k + 1) + 1 := by ring
  have e2 : 4 + (4 * k + 2) = 4 * (k + 1) + 2 := by ring
  have e3 : 4 + (4 * k + 3) = 4 * (k + 1) + 3 := by ring
  rw [e0, e1, e2, e3]

/-- The nested loops of `parseBinary` over the slots with linear index a, a+1,
..., a+n-1, started on a good stream: with enough bytes left every slot
receives its group; otherwise the slots for which a whole group is left receive
theirs, the error is set and the result is false. -/
theorem readPaletteSlots_range (n : Nat) :
    ∀ (a : Nat) (d : LibraryData) (s : IStream), s.good = true →
      readPaletteSlots d s ((List.range' a n).map (fun k => (k / 16, k % 16)))
        = if 4 * n ≤ s.rest.length then
            (true, ⟨s.data, s.rest.drop (4 * n), true⟩,
              d.withPalettes (overlaySlots a n s.rest d.palettes))
          else
            (false, ⟨s.data, [], false⟩,
              (d.withPalettes (overlaySlots a (s.rest.length / 4) s.rest d.palettes)).setError
                "Binary: Unexpected end of file") := by
  induction n with
  | zero =>
    intro a d s hg
    have hid : overlaySlots a 0 s.rest d.palettes = d.palettes := by
      funext p k
      unfold overlaySlots
      rw [if_neg (by omega)]
    simp only [List.range'_zero, List.map_nil, readPaletteSlots, Nat.mul_zero, Nat.zero_le,
      if_true, List.drop_zero, hid]
    cases s
    simp only at hg
    subst hg
    rfl
  | succ n ih =>
    intro a d s hg
    rw [List.range'_succ, List.map_cons, readPaletteSlots]
    by_cases h4 : 4 ≤ s.rest.length
    · have hread : s.read 4 = (⟨s.data, s.rest.drop 4, true⟩, s.rest.take 4) := by
        unfold IStream.read
        rw [if_pos hg, if_pos h4]
      rw [hread]
      simp only [Bool.not_true, Bool.false_eq_true, if_false]
      rw [ih (a + 1) _ ⟨s.data, s.rest.drop 4, true⟩ rfl, colorAt_take s.rest]
      dsimp only
      have hlen : (s.rest.drop 4).length = s.rest.length - 4 := List.length_drop 4 s.rest
      have hpal : ∀ m, m + 1 ≤ s.rest.length / 4 ∨ True →
          overlaySlots (a + 1) m (s.rest.drop 4)
            (d.setColor (a / 16) (a % 16) (colorAt s.rest 0)).palettes
          = overlaySlots a (m + 1) s.rest d.palettes := by
        intro m _
        funext p k
        unfold overlaySlots LibraryData.setColor
        simp only []
        by_cases hc : k < 16 ∧ a + 1 ≤ 16 * p + k ∧ 16 * p + k < a + 1 + m
        · rw [if_pos hc, if_pos (by omega), colorAt_drop]
          congr 1
          omega
        · rw [if_neg hc]
          by_cases he : p = a / 16 ∧ k = a % 16
          · rw [if_pos he, if_pos (by omega)]
            congr 1
            omega
          · rw [if_neg he, if_neg (by omega)]
      by_cases hn : 4 * (n + 1) ≤ s.rest.length
      · rw [if_pos (by omega), if_pos hn, hpal n (Or.inr trivial)]
        simp only [List.drop_drop]
        have e : 4 + 4 * n = 4 * (n + 1) := by ring
        rw [e]
        rfl
      · rw [if_neg (by omega), if_neg hn]
        have hq : (s.rest.drop 4).length / 4 + 1 = s.rest.length / 4 := by omega
        rw [← hq, hpal _ (Or.inr trivial)]
        rfl
    · have hread : s.read 4 = (⟨s.data, [], false⟩, s.rest) := by
        unfold IStream.read
        rw [if_pos hg, if_neg h4]
      rw [hread]
      simp only [Bool.not_false, if_true]
      rw [if_neg (by omega)]
      have hq : s.rest.length / 4 = 0 := by omega
      have hid : overlaySlots a 0 s.rest d.palettes = d.palettes := by
        funext p k
        unfold overlaySlots
        rw [if_neg (by omega)]
      rw [hq, hid]
      rfl

/-- The metadata loop over the first n ids. -/
theorem metadataLoop_eq (n : Nat) (d : LibraryData) :
    (List.range n).foldl
      (fun (acc : LibraryData) i =>
        { acc with info := fun k =>
            if k = i then
              ⟨i, "Standard Palette", "Binary loaded palette", categoryNames (i / 8)⟩
            else acc.info k }) d
      = { d with info := fun k =>
            if k < n then
              ⟨k, "Standard Palette", "Binary loaded palette", categoryNames (k / 8)⟩
            else d.info k } := by
  induction n with
  | zero => rfl
  | succ n ih =>
    rw [List.range_succ, List.foldl_append, ih]
    simp only [List.foldl_cons, List.foldl_nil]
    congr 1
    funext k
    by_cases h1 : k = n
    · subst h1
      rw [if_pos rfl, if_pos (Nat.lt_succ_self k)]
    · rw [if_neg h1]
      by_cases h2 : k < n
      · rw [if_pos h2, if_pos (by omega)]
      · rw [if_neg h2, if_neg (by omega)]

/-- The metadata loop of `parseBinary` in closed form: only `info` changes. -/
theorem defaultMetadata_eq (d : LibraryData) :
    defaultMetadata d
      = { d with info := fun k =>
            if k < 32 then
              ⟨k, "Standard Palette", "Binary loaded palette", categoryNames (k / 8)⟩
            else d.info k } :=
  metadataLoop_eq 32 d

/-- `parseBinary` in closed form on a freshly opened file. -/
theorem parseBinary_eq (d : LibraryData) (bytes : List Nat) :
    parseBinary d (IStream.ofFile bytes)
      = if 2048 ≤ bytes.length then
          (true, defaultMetadata (d.withPalettes (overlaySlots 0 512 bytes d.palettes)))
        else
          (false, (d.withPalettes (overlaySlots 0 (bytes.length / 4) bytes d.palettes)).setError
            "Binary: Unexpected end of file") := by
  have key := readPaletteSlots_range 512 0 d (IStream.ofFile bytes) rfl
  have hrest : (IStream.ofFile bytes).rest = bytes := rfl
  rw [hrest] at key
  by_cases h : 2048 ≤ bytes.length
  · rw [if_pos (by omega)] at key
    unfold parseBinary
    rw [paletteSlots_eq, key, if_pos h]
    rfl
  · rw [if_neg (by omega)] at key
    unfold parseBinary
    rw [paletteSlots_eq, key, if_neg h]
    rfl

/-- `initializeFromBinary` in closed form. -/
theorem initializeFromBinary_eq (s_data : Option LibraryData) (junk : Nat → Nat → PaletteColor)
    (palPath : String) (bytes : List Nat) :
    initializeFromBinary s_data junk palPath (some bytes)
      = if 2048 ≤ bytes.length then
          (true, { defaultMetadata ((s_data.getD (LibraryData.new junk)).withPalettes
              (overlaySlots 0 512 bytes (s_data.getD (LibraryData.new junk)).palettes)) with
            initialized := true })
        else
          (false, ((s_data.getD (LibraryData.new junk)).withPalettes
              (overlaySlots 0 (bytes.length / 4) bytes
                (s_data.getD (LibraryData.new junk)).palettes)).setError
            "Binary: Unexpected end of file") := by
  have hd : (match s_data with
      | none => LibraryData.new junk
      | some d => d) = s_data.getD (LibraryData.new junk) := by
    cases s_data <;> rfl
  simp only [initializeFromBinary, hd, parseBinary_eq]
  by_cases h : 2048 ≤ bytes.length
  · simp only [h, if_true]
    rfl
  · simp only [h, if_false]
    rfl

/-! ## C23 -/

/-- C23: when the library is not initialized (null pointer or flag not set) or
the palette id is 32 or more, `getPalette`, `getPaletteName`,
`getPaletteDescription`, `getPaletteCategory` and `getPaletteInfo` return null,
`copyPalette` and `copyPaletteRGBA` return false with the output buffer as it
was; and when the library is not initialized `findClosestPalette` returns 0xFF
with distance -1. -/
theorem C23_not_found (s_data : Option LibraryData) (paletteID : Nat)
    (h : isInitialized s_data = false ∨ 32 ≤ paletteID)
    (outColors : Nat → PaletteColor) (outRGBA : Nat → Nat)
    (customPalette : Nat → PaletteColor) :
    getPalette s_data paletteID = none ∧
    getPaletteName s_data paletteID = none ∧
    getPaletteDescription s_data paletteID = none ∧
    getPaletteCategory s_data paletteID = none ∧
    getPaletteInfo s_data paletteID = none ∧
    copyPalette s_data paletteID outColors = (false, outColors) ∧
    copyPaletteRGBA s_data paletteID outRGBA = (false, outRGBA) ∧
    (isInitialized s_data = false → findClosestPalette s_data customPalette = (255, -1)) := by
  have hp : getPalette s_data paletteID = none := by
    cases s_data with
    | none => rfl
    | some d =>
      rcases h with h | h
      · have hi : d.initialized = false := h
        simp [getPalette, hi]
      · have hge : paletteID ≥ STANDARD_PALETTE_COUNT := h
        simp [getPalette, hge]
  refine ⟨hp, ?_, ?_, ?_, ?_, ?_, ?_, ?_⟩
  · cases s_data with
    | none => rfl
    | some d =>
      rcases h with h | h
      · have hi : d.initialized = false := h
        simp [getPaletteName, hi]
      · have hge : paletteID ≥ STANDARD_PALETTE_COUNT := h
        simp [getPaletteName, hge]
  · cases s_data with
    | none => rfl
    | some d =>
      rcases h with h | h
      · have hi : d.initialized = false := h
        simp [getPaletteDescription, hi]
      · have hge : paletteID ≥ STANDARD_PALETTE_COUNT := h
        simp [getPaletteDescription, hge]
  · cases s_data with
    | none => rfl
    | some d =>
      rcases h with h | h
      · have hi : d.initialized = false := h
        simp [getPaletteCategory, hi]
      · have hge : paletteID ≥ STANDARD_PALETTE_COUNT := h
        simp [getPaletteCategory, hge]
  · cases s_data with
    | none => rfl
    | some d =>
      rcases h with h | h
      · have hi : d.initialized = false := h
        simp [getPaletteInfo, hi]
      · have hge : paletteID ≥ STANDARD_PALETTE_COUNT := h
        simp [getPaletteInfo, hge]
  · unfold copyPalette
    rw [hp]
  · unfold copyPaletteRGBA
    rw [hp]
  · intro hi
    cases s_data with
    | none => rfl
    | some d =>
      have hi' : d.initialized = false := hi
      simp [findClosestPalette, hi', PALETTE_MODE_CUSTOM]

/-- C23 at a concrete input: palette 3 of a library object that exists but is
not initialized. -/
theorem C23_not_found_witness :
    isInitialized (some (LibraryData.new sampleJunk)) = false ∧
    getPalette (some (LibraryData.new sampleJunk)) 3 = none ∧
    getPaletteName (some (LibraryData.new sampleJunk)) 3 = none ∧
    getPaletteDescription (some (LibraryData.new sampleJunk)) 3 = none ∧
    getPaletteCategory (some (LibraryData.new sampleJunk)) 3 = none ∧
    getPaletteInfo (some (LibraryData.new sampleJunk)) 3 = none ∧
    copyPalette (some (LibraryData.new sampleJunk)) 3 (sampleLibrary.palettes 1)
      = (false, (sampleLibrary.palettes 1)) ∧
    copyPaletteRGBA (some (LibraryData.new sampleJunk)) 3 samplePalette
      = (false, samplePalette) ∧
    (isInitialized (some (LibraryData.new sampleJunk)) = false →
      findClosestPalette (some (LibraryData.new sampleJunk)) (sampleLibrary.palettes 5)
        = (255, -1)) :=
  ⟨rfl, C23_not_found (some (LibraryData.new sampleJunk)) 3 (Or.inl rfl)
    (sampleLibrary.palettes 1) samplePalette (sampleLibrary.palettes 5)⟩

/-! ## C24 -/

/-- C24, as stated, fails: a file of 2049 bytes is accepted. -/
theorem C24_counterexample :
    (List.replicate 2049 0).length = 2049 ∧
    (initializeFromBinary none sampleJunk "standard.pal" (some (List.replicate 2049 0))).1
      = true := by
  constructor
  · exact List.length_replicate 2049 0
  · rw [initializeFromBinary_eq, if_pos (by rw [List.length_replicate]; norm_num)]

/-- C24 (amended): binary initialization succeeds if and only if the file opens
and holds at least 2048 bytes; bytes after the first 2048 are not looked at. -/
theorem C24_binary_length (s_data : Option LibraryData) (junk : Nat → Nat → PaletteColor)
    (palPath : String) (file : Option (List Nat)) :
    ((initializeFromBinary s_data junk palPath file).1 = true
      ↔ ∃ bytes : List Nat, file = some bytes ∧ 2048 ≤ bytes.length) ∧
    (∀ bytes extra : List Nat, 2048 ≤ bytes.length →
      initializeFromBinary s_data junk palPath (some (bytes.take 2048 ++ extra))
        = initializeFromBinary s_data junk palPath (some (bytes.take 2048))) := by
  constructor
  · cases file with
    | none =>
      constructor
      · intro h
        exact absurd h (by simp [initializeFromBinary])
      · rintro ⟨bytes, hb, _⟩
        exact absurd hb (by simp)
    | some bytes =>
      rw [initializeFromBinary_eq]
      by_cases h : 2048 ≤ bytes.length
      · rw [if_pos h]
        exact ⟨fun _ => ⟨bytes, rfl, h⟩, fun _ => rfl⟩
      · rw [if_neg h]
        constructor
        · intro hc
          exact absurd hc (by simp)
        · rintro ⟨b, hb, hl⟩
          cases hb
          exact absurd hl h
  · intro bytes extra hlen
    have h1 : (bytes.take 2048).length = 2048 := by
      rw [List.length_take]
      omega
    rw [initializeFromBinary_eq, initializeFromBinary_eq,
      if_pos (by rw [List.length_append, h1]; omega), if_pos (by rw [h1])]
    have hov : overlaySlots 0 512 (bytes.take 2048 ++ extra)
          (s_data.getD (LibraryData.new junk)).palettes
        = overlaySlots 0 512 (bytes.take 2048) (s_data.getD (LibraryData.new junk)).palettes := by
      funext p k
      unfold overlaySlots
      by_cases hc : k < 16 ∧ 0 ≤ 16 * p + k ∧ 16 * p + k < 0 + 512
      · rw [if_pos hc, if_pos hc]
        unfold colorAt
        simp only [List.getD_eq_getElem?_getD]
        rw [List.getElem?_append_left (by omega), List.getElem?_append_left (by omega),
          List.getElem?_append_left (by omega), List.getElem?_append_left (by omega)]
      · rw [if_neg hc, if_neg hc]
    rw [hov]

/-! ## C25 -/

/-- The sample palette file has 2048 bytes. -/
theorem sampleLibraryFile_length : sampleLibraryFile.length = 2048 := by
  simp [sampleLibraryFile]

/-- The library object after a successful binary initialization of a new
library: the palettes come from the file, `info` holds the defaults, and the
strings `names`, `descriptions`, `categories` are still empty. -/
theorem initializeFromBinary_fresh (junk : Nat → Nat → PaletteColor) (palPath : String)
    (bytes : List Nat) (h : 2048 ≤ bytes.length) :
    initializeFromBinary none junk palPath (some bytes)
      = (true,
          { palettes := overlaySlots 0 512 bytes junk,
            info := fun k =>
              if k < 32 then
                ⟨k, "Standard Palette", "Binary loaded palette", categoryNames (k / 8)⟩
              else ⟨k, "", "", ""⟩,
            names := fun _ => "", descriptions := fun _ => "", categories := fun _ => "",
            initialized := true, lastError := "" }) := by
  rw [initializeFromBinary_eq, if_pos h, defaultMetadata_eq]
  rfl

/-- C25 (the code at a failing input): after the successful binary
initialization of a new library from the 2048-byte sample file,
`getPaletteInfo(id)` carries the bucket name of id / 8, but
`getPaletteCategory(id)` returns the empty string for every id in 0..31, so
not "retro" for id 0, and `getPalettesByCategory("retro", out, 32)` returns 0
and stores nothing. -/
theorem C25_binary_categories_empty :
    (initializeFromBinary none sampleJunk "standard.pal" (some sampleLibraryFile)).1 = true ∧
    (∀ id, id < 32 →
      getPaletteInfo
        (some (initializeFromBinary none sampleJunk "standard.pal" (some sampleLibraryFile)).2) id
        = some ⟨id, "Standard Palette", "Binary loaded palette", categoryNames (id / 8)⟩) ∧
    (∀ id, id < 32 →
      getPaletteCategory
        (some (initializeFromBinary none sampleJunk "standard.pal" (some sampleLibraryFile)).2) id
        = some "") ∧
    getPaletteCategory
        (some (initializeFromBinary none sampleJunk "standard.pal" (some sampleLibraryFile)).2) 0
      ≠ some "retro" ∧
    (∀ out, getPalettesByCategory
        (some (initializeFromBinary none sampleJunk "standard.pal" (some sampleLibraryFile)).2)
        (some "retro") (some out) 32 = (0, some out)) := by
  rw [initializeFromBinary_fresh sampleJunk "standard.pal" sampleLibraryFile
    (by rw [sampleLibraryFile_length])]
  refine ⟨rfl, ?_, ?_, ?_, ?_⟩
  · intro id hid
    have hlt : ¬ id ≥ STANDARD_PALETTE_COUNT := by
      unfold STANDARD_PALETTE_COUNT
      omega
    simp [getPaletteInfo, hlt, hid]
  · intro id hid
    have hlt : ¬ id ≥ STANDARD_PALETTE_COUNT := by
      unfold STANDARD_PALETTE_COUNT
      omega
    simp [getPaletteCategory, hlt]
  · simp [getPaletteCategory, STANDARD_PALETTE_COUNT]
  · intro out
    simp [getPalettesByCategory]

/-! ## C28 -/

/-- C28, as stated, fails: a binary initialization of the initialized sample
library from a file of five bytes returns false, yet colour 0 of palette 0,
which was (0, 0, 0, 200), is now (1, 2, 3, 4). -/
theorem C28_counterexample :
    sampleLibrary.initialized = true ∧
    (initializeFromBinary (some sampleLibrary) sampleJunk "standard.pal"
      (some [1, 2, 3, 4, 5])).1 = false ∧
    sampleLibrary.palettes 0 0 = ⟨0, 0, 0, 200⟩ ∧
    (initializeFromBinary (some sampleLibrary) sampleJunk "standard.pal"
      (some [1, 2, 3, 4, 5])).2.palettes 0 0 = ⟨1, 2, 3, 4⟩ := by
  rw [initializeFromBinary_eq, if_neg (by decide)]
  exact ⟨rfl, rfl, rfl, rfl⟩

/-- C28 (amended): when a binary initialization of an existing library object
fails, the file could not be opened and nothing but the error string changed,
or the file holds fewer than 2048 bytes and then: the colours whose linear index
16 * pid + cid is below the number of complete four-byte groups of the file hold
the bytes of their group, every other colour holds the value it had before the
call, the metadata and the initialized flag are as before, and the error string
is set. -/
theorem C28_failed_binary_init (d : LibraryData) (junk : Nat → Nat → PaletteColor)
    (palPath : String) (file : Option (List Nat))
    (h : (initializeFromBinary (some d) junk palPath file).1 = false) :
    (file = none →
      initializeFromBinary (some d) junk palPath file
        = (false, d.setError ("Failed to open binary file: " ++ palPath))) ∧
    (∀ bytes : List Nat, file = some bytes →
      bytes.length < 2048 ∧
      (∀ pid cid, cid < 16 → 16 * pid + cid < bytes.length / 4 →
        (initializeFromBinary (some d) junk palPath file).2.palettes pid cid
          = colorAt bytes (16 * pid + cid)) ∧
      (∀ pid cid, 16 ≤ cid ∨ bytes.length / 4 ≤ 16 * pid + cid →
        (initializeFromBinary (some d) junk palPath file).2.palettes pid cid
          = d.palettes pid cid) ∧
      (initializeFromBinary (some d) junk palPath file).2.info = d.info ∧
      (initializeFromBinary (some d) junk palPath file).2.names = d.names ∧
      (initializeFromBinary (some d) junk palPath file).2.descriptions = d.descriptions ∧
      (initializeFromBinary (some d) junk palPath file).2.categories = d.categories ∧
      (initializeFromBinary (some d) junk palPath file).2.initialized = d.initialized ∧
      (initializeFromBinary (some d) junk palPath file).2.lastError
        = "Binary: Unexpected end of file") := by
  constructor
  · intro hf
    subst hf
    rfl
  · intro bytes hf
    subst hf
    rw [initializeFromBinary_eq] at h ⊢
    by_cases hl : 2048 ≤ bytes.length
    · rw [if_pos hl] at h
      exact absurd h (by simp)
    · rw [if_neg hl]
      refine ⟨by omega, ?_, ?_, rfl, rfl, rfl, rfl, rfl, rfl⟩
      · intro pid cid hc hk
        show overlaySlots 0 (bytes.length / 4) bytes d.palettes pid cid = _
        unfold overlaySlots
        rw [if_pos (by omega)]
        rfl
      · intro pid cid hk
        show overlaySlots 0 (bytes.length / 4) bytes d.palettes pid cid = _
        unfold overlaySlots
        rw [if_neg (by omega)]

/-- C28 (amended) at a concrete input: the initialized sample library and a
file of five bytes. -/
theorem C28_failed_binary_init_witness :
    (initializeFromBinary (some sampleLibrary) sampleJunk "standard.pal"
      (some [1, 2, 3, 4, 5])).1 = false ∧
    (initializeFromBinary (some sampleLibrary) sampleJunk "standard.pal"
      (some [1, 2, 3, 4, 5])).2.palettes 0 0 = colorAt [1, 2, 3, 4, 5] 0 ∧
    (initializeFromBinary (some sampleLibrary) sampleJunk "standard.pal"
      (some [1, 2, 3, 4, 5])).2.palettes 0 1 = sampleLibrary.palettes 0 1 ∧
    (initializeFromBinary (some sampleLibrary) sampleJunk "standard.pal"
      (some [1, 2, 3, 4, 5])).2.initialized = true :=
  have h : (initializeFromBinary (some sampleLibrary) sampleJunk "standard.pal"
      (some [1, 2, 3, 4, 5])).1 = false := by
    rw [initializeFromBinary_eq, if_neg (by decide)]
  have t := (C28_failed_binary_init sampleLibrary sampleJunk "standard.pal"
    (some [1, 2, 3, 4, 5]) h).2 [1, 2, 3, 4, 5] rfl
  ⟨h, t.2.1 0 0 (by decide) (by decide), t.2.2.1 0 1 (Or.inr (by decide)),
    t.2.2.2.2.2.2.2.1⟩

/-! ## The quantizer: how many colours it can return -/

/-- A median cut of depth `depth` returns at most 2 ^ depth colours. -/
theorem medianCut_length_le_pow :
    ∀ (depth : Nat) (colors : List ColorEntry), (medianCut depth colors).length ≤ 2 ^ depth := by
  intro depth
  induction depth with
  | zero =>
    intro colors
    cases colors with
    | nil => simp [medianCut]
    | cons e rest => simp [medianCut]
  | succ depth ih =>
    intro colors
    cases colors with
    | nil => simp [medianCut]
    | cons e rest =>
      rw [medianCut]
      split_ifs
      · rw [List.length_singleton]
        exact Nat.one_le_two_pow
      · rw [List.length_append, pow_succ]
        have h1 := ih (List.take
          (medianIndex ((e :: rest).insertionSort
            (fun a b => widestChannel (e :: rest) a.color ≤ widestChannel (e :: rest) b.color)))
          ((e :: rest).insertionSort
            (fun a b => widestChannel (e :: rest) a.color ≤ widestChannel (e :: rest) b.color)))
        have h2 := ih (List.drop
          (medianIndex ((e :: rest).insertionSort
            (fun a b => widestChannel (e :: rest) a.color ≤ widestChannel (e :: rest) b.color)))
          ((e :: rest).insertionSort
            (fun a b => widestChannel (e :: rest) a.color ≤ widestChannel (e :: rest) b.color)))
        omega

/-- The median cut to depth 4 alone can leave 16 colours: 16 pixels of 16
different greys give 16 leaves, of which the quantizer keeps the first 14. -/
theorem sixteenGreys_leaves :
    Nat.clog 2 (14 : Int).toNat = 4 ∧
    (medianCut 4 (buildHistogram sixteenGreys 16)).length = 16 ∧
    (extractPalette sixteenGreys 16 14).length = 14 := by
  have hc : Nat.clog 2 (14 : Int).toNat = 4 := by
    simp [Nat.clog]
  refine ⟨hc, by rfl, ?_⟩
  unfold extractPalette
  rw [hc]
  rfl

/-- A search started with a larger first index finds the same place, counted
from the larger index. -/
theorem findIn_shift (pat : List Nat) (n : Nat) : ∀ (l : List Nat) (s : Nat),
    findIn pat l (s + n) = (findIn pat l s).map (fun p => p + n) := by
  intro l
  induction l with
  | nil =>
    intro s
    unfold findIn
    by_cases h : pat.isEmpty = true
    · rw [if_pos h, if_pos h]; rfl
    · rw [if_neg h, if_neg h]; rfl
  | cons c rest ih =>
    intro s
    unfold findIn
    by_cases h : pat.isPrefixOf (c :: rest) = true
    · rw [if_pos h, if_pos h]; rfl
    · rw [if_neg h, if_neg h, Nat.add_right_comm, ih]

/-- A search in a text that has `pre` put in front of it. -/
theorem strFind_shift (pre l pat : List Nat) (k : Nat) :
    strFind (pre ++ l) pat (k + pre.length)
      = (strFind l pat k).map (fun p => p + pre.length) := by
  unfold strFind
  have hdrop : (pre ++ l).drop (k + pre.length) = l.drop k := by
    rw [Nat.add_comm, List.drop_append]
  have hlen : decide (k + pre.length > (pre ++ l).length) = decide (k > l.length) := by
    rw [List.length_append]
    by_cases h : k > l.length
    · rw [decide_eq_true h, decide_eq_true (by omega)]
    · rw [decide_eq_false h, decide_eq_false (by omega)]
  rw [hdrop, hlen, findIn_shift]
  by_cases h : (pat.isEmpty && decide (k > l.length)) = true
  · rw [if_pos h, if_pos h]; rfl
  · rw [if_neg h, if_neg h]

/-- The bytes after a position of a text that has `pre` put in front of it. -/
theorem drop_shift (pre l : List Nat) (k : Nat) :
    (pre ++ l).drop (k + pre.length) = l.drop k := by
  rw [Nat.add_comm, List.drop_append]

/-- The string value does not depend on what is put in front of the text. -/
theorem extractStringValue_shift (pre l : List Nat) (key : String) (k : Nat) :
    extractStringValue (pre ++ l) key (k + pre.length) = extractStringValue l key k := by
  unfold extractStringValue
  rw [strFind_shift]
  cases strFind l (quoted key) k with
  | none => rfl
  | some keyPos =>
    simp only [Option.map_some']
    rw [strFind_shift]
    cases strFind l [58] keyPos with
    | none => rfl
    | some colonPos =>
      simp only [Option.map_some']
      rw [strFind_shift]
      cases strFind l [34] colonPos with
      | none => rfl
      | some quoteStart =>
        simp only [Option.map_some']
        rw [Nat.add_right_comm quoteStart pre.length 1, strFind_shift]
        cases strFind l [34] (quoteStart + 1) with
        | none => rfl
        | some quoteEnd =>
          simp only [Option.map_some']
          rw [drop_shift]
          have h : quoteEnd + pre.length - (quoteStart + pre.length) - 1
              = quoteEnd - quoteStart - 1 := by omega
          rw [h]

/-- The integer value does not depend on what is put in front of the text. -/
theorem extractIntValue_shift (pre l : List Nat) (key : String) (k : Nat) :
    extractIntValue (pre ++ l) key (k + pre.length) = extractIntValue l key k := by
  unfold extractIntValue
  rw [strFind_shift]
  cases strFind l (quoted key) k with
  | none => rfl
  | some keyPos =>
    simp only [Option.map_some']
    rw [strFind_shift]
    cases strFind l [58] keyPos with
    | none => rfl
    | some colonPos =>
      simp only [Option.map_some']
      rw [Nat.add_right_comm colonPos pre.length 1, drop_shift]

/-- The brace-matching loop started with a larger index ends at the same
place, counted from the larger index. -/
theorem matchBrace_shift (n : Nat) : ∀ (l : List Nat) (depth : Int) (e : Nat),
    matchBrace l depth (e + n) = ((matchBrace l depth e).1 + n, (matchBrace l depth e).2) := by
  intro l
  induction l with
  | nil => intro depth e; rfl
  | cons c rest ih =>
    intro depth e
    unfold matchBrace
    by_cases h : depth > 0
    · rw [if_pos h, if_pos h, Nat.add_right_comm, ih]
    · rw [if_neg h, if_neg h]

/-- The brace-matching loop that ends with depth 0 on a text ends in the same
way when more text follows. -/
theorem matchBrace_append (rest : List Nat) : ∀ (l : List Nat) (depth : Int) (e : Nat),
    (matchBrace l depth e).2 = 0 → matchBrace (l ++ rest) depth e = matchBrace l depth e := by
  intro l
  induction l with
  | nil =>
    intro depth e h
    have h0 : depth = 0 := h
    subst h0
    cases rest <;> rfl
  | cons c l ih =>
    intro depth e h
    rw [List.cons_append]
    unfold matchBrace at h ⊢
    by_cases hd : depth > 0
    · rw [if_pos hd] at h
      rw [if_pos hd, if_pos hd]
      exact ih _ _ h
    · rw [if_neg hd, if_neg hd]

/-- The brace-matching loop from a position inside the first part of a text,
when it ends with depth 0 there. -/
theorem matchBrace_local (l rest : List Nat) (s : Nat) (depth : Int) (e r : Nat)
    (hs : s ≤ l.length) (h : matchBrace (l.drop s) depth e = (r, 0)) :
    matchBrace ((l ++ rest).drop s) depth e = (r, 0) := by
  rw [List.drop_append_of_le_length hs, matchBrace_append rest _ _ _ (by rw [h]), h]

/-- The colour loop does not depend on what is put in front of the text. -/
theorem parseColorLoop_shift (pre l : List Nat) (id : Nat) :
    ∀ (fuel objEnd colorPos colorIndex : Nat) (d : LibraryData),
    parseColorLoop (pre ++ l) (objEnd + pre.length) id fuel (colorPos + pre.length) colorIndex d
      = parseColorLoop l objEnd id fuel colorPos colorIndex d := by
  intro fuel
  induction fuel with
  | zero => intro objEnd colorPos colorIndex d; rfl
  | succ fuel ih =>
    intro objEnd colorPos colorIndex d
    unfold parseColorLoop
    rw [strFind_shift]
    cases strFind l [123] colorPos with
    | none => rfl
    | some colorObjStart =>
      simp only [Option.map_some']
      by_cases h : colorObjStart > objEnd
      · rw [if_pos h, if_pos (by omega)]
      · rw [if_neg h, if_neg (by omega)]
        rw [extractIntValue_shift, extractIntValue_shift, extractIntValue_shift,
          extractIntValue_shift, Nat.add_right_comm colorObjStart pre.length 1, drop_shift,
          matchBrace_shift]
        dsimp only
        cases extractIntValue l "r" colorObjStart <;> cases extractIntValue l "g" colorObjStart
          <;> cases extractIntValue l "b" colorObjStart
          <;> cases extractIntValue l "a" colorObjStart <;> first | rfl | exact ih _ _ _ _

/-- The colours of a palette object do not depend on what is put in front of
the text. -/
theorem parseColorsOf_shift (pre l : List Nat) (objStart objEnd id : Nat) (d : LibraryData) :
    parseColorsOf (pre ++ l) (objStart + pre.length) (objEnd + pre.length) id d
      = parseColorsOf l objStart objEnd id d := by
  unfold parseColorsOf
  rw [strFind_shift]
  cases strFind l (quoted "colors") objStart with
  | none => rfl
  | some colorsPos =>
    simp only [Option.map_some']
    by_cases h : colorsPos > objEnd
    · rw [if_pos h, if_pos (by omega)]
    · rw [if_neg h, if_neg (by omega), strFind_shift]
      cases strFind l [91] colorsPos with
      | none => rfl
      | some colorsArrayStart =>
        simp only [Option.map_some']
        by_cases h2 : colorsArrayStart > objEnd
        · rw [if_pos h2, if_pos (by omega)]
        · rw [if_neg h2, if_neg (by omega), Nat.add_right_comm colorsArrayStart pre.length 1,
            parseColorLoop_shift]

/-- A round of the palette loop on a text that has `pre` put in front of it. -/
theorem parsePaletteObject_shift (pre l : List Nat) (pos : Nat) (d : LibraryData) :
    parsePaletteObject (pre ++ l) (pos + pre.length) d
      = (parsePaletteObject l pos d).shift pre.length := by
  unfold parsePaletteObject
  rw [strFind_shift]
  cases strFind l [123] pos with
  | none => rfl
  | some objStart =>
    simp only [Option.map_some']
    rw [Nat.add_right_comm objStart pre.length 1, drop_shift, matchBrace_shift]
    dsimp only
    by_cases hb : (matchBrace (l.drop (objStart + 1)) 1 (objStart + 1)).2 ≠ 0
    · rw [if_pos hb, if_pos hb]; rfl
    · rw [if_neg hb, if_neg hb, extractIntValue_shift]
      cases extractIntValue l "id" objStart with
      | none => rfl
      | some id =>
        dsimp only
        by_cases hid : id < 0 ∨ id ≥ 32
        · rw [if_pos hid, if_pos hid]; rfl
        · rw [if_neg hid, if_neg hid, extractStringValue_shift, extractStringValue_shift,
            extractStringValue_shift, parseColorsOf_shift]
          cases parseColorsOf l objStart (matchBrace (l.drop (objStart + 1)) 1 (objStart + 1)).1
            id.toNat (d.setMetadata id.toNat (textOf (extractStringValue l "name" objStart))
              (textOf (extractStringValue l "description" objStart))
              (textOf (extractStringValue l "category" objStart))) with
          | none => rfl
          | some r =>
            obtain ⟨ok, d1⟩ := r
            cases ok <;> rfl

/-! ## The JSON scanner on the sample palette object -/

/-- One round of the colour loop, from what its searches return. -/
theorem parseColorLoop_step (json : List Nat) (objEnd id fuel colorPos colorIndex : Nat)
    (d : LibraryData) (s e : Nat) (r g b a : Int)
    (hfind : strFind json [123] colorPos = some s) (hle : s ≤ objEnd)
    (hr : extractIntValue json "r" s = some r) (hg : extractIntValue json "g" s = some g)
    (hb : extractIntValue json "b" s = some b) (ha : extractIntValue json "a" s = some a)
    (he : (matchBrace (json.drop (s + 1)) 1 (s + 1)).1 = e) :
    parseColorLoop json objEnd id (fuel + 1) colorPos colorIndex d
      = parseColorLoop json objEnd id fuel e (colorIndex + 1)
          (d.setColor id colorIndex ⟨toU8 r, toU8 g, toU8 b, if a = 0 then 255 else toU8 a⟩) := by
  rw [parseColorLoop, hfind]
  dsimp only
  rw [if_neg (by omega), hr, hg, hb, ha, he]

/-- The first colour object of a colour array made of sample colours. -/
theorem parseColorLoop_first (tail : List Nat) (objEnd id fuel colorIndex : Nat)
    (d : LibraryData) :
    parseColorLoop (sampleColorText ++ tail) objEnd id (fuel + 1) 0 colorIndex d
      = parseColorLoop (sampleColorText ++ tail) objEnd id fuel 25 (colorIndex + 1)
          (d.setColor id colorIndex ⟨1, 2, 3, 4⟩) :=
  parseColorLoop_step (sampleColorText ++ tail) objEnd id fuel 0 colorIndex d 0 25 1 2 3 4
    rfl (Nat.zero_le _) rfl rfl rfl rfl
    (by rw [matchBrace_local sampleColorText tail 1 1 1 25 (by decide) (by decide)])

/-- A further colour object of a colour array made of sample colours. -/
theorem parseColorLoop_further (tail : List Nat) (objEnd id fuel colorIndex : Nat)
    (d : LibraryData) (h : 1 ≤ objEnd) :
    parseColorLoop (([44] ++ sampleColorText) ++ tail) objEnd id (fuel + 1) 0 colorIndex d
      = parseColorLoop (([44] ++ sampleColorText) ++ tail) objEnd id fuel 26 (colorIndex + 1)
          (d.setColor id colorIndex ⟨1, 2, 3, 4⟩) :=
  parseColorLoop_step (([44] ++ sampleColorText) ++ tail) objEnd id fuel 0 colorIndex d 1 26
    1 2 3 4 rfl h rfl rfl rfl rfl
    (by rw [matchBrace_local ([44] ++ sampleColorText) tail 2 1 2 26 (by decide) (by decide)])

/-- The further colour objects of a colour array made of sample colours. -/
theorem parseColorLoop_rounds (id : Nat) :
    ∀ (k : Nat) (tail : List Nat) (objEnd f ci : Nat) (d : LibraryData), 26 * k ≤ objEnd →
    parseColorLoop ((List.replicate k ([44] ++ sampleColorText)).flatten ++ tail) objEnd id
        (k + f) 0 ci d
      = parseColorLoop tail (objEnd - 26 * k) id f 0 (ci + k)
          (setColors id ⟨1, 2, 3, 4⟩ k ci d) := by
  intro k
  induction k with
  | zero =>
    intro tail objEnd f ci d _
    simp only [List.replicate_zero, List.flatten_nil, List.nil_append, Nat.zero_add,
      Nat.mul_zero, Nat.sub_zero, Nat.add_zero, setColors]
  | succ k ih =>
    intro tail objEnd f ci d h
    have htext : (List.replicate (k + 1) ([44] ++ sampleColorText)).flatten ++ tail
        = ([44] ++ sampleColorText)
          ++ ((List.replicate k ([44] ++ sampleColorText)).flatten ++ tail) := by
      rw [List.replicate_succ, List.flatten_cons, List.append_assoc]
    have hfuel : k + 1 + f = (k + f) + 1 := by omega
    rw [htext, hfuel, parseColorLoop_further _ _ _ _ _ _ (by omega)]
    have hshift := parseColorLoop_shift ([44] ++ sampleColorText)
      ((List.replicate k ([44] ++ sampleColorText)).flatten ++ tail) id (k + f) (objEnd - 26)
      0 (ci + 1) (d.setColor id ci ⟨1, 2, 3, 4⟩)
    have hl : ([44] ++ sampleColorText).length = 26 := rfl
    rw [hl, Nat.zero_add, Nat.sub_add_cancel (by omega)] at hshift
    rw [hshift, ih _ _ _ _ _ (by omega)]
    have e1 : objEnd - 26 - 26 * k = objEnd - 26 * (k + 1) := by omega
    have e2 : ci + 1 + k = ci + (k + 1) := by omega
    rw [e1, e2]
    rfl

/-- The colour loop on the colour array of the sample palette object stores
sixteen times the sample colour. -/
theorem parseColorLoop_sample (rest : List Nat) (objEnd id : Nat) (d : LibraryData)
    (h : 415 ≤ objEnd) :
    parseColorLoop (sampleColorText
        ++ ((List.replicate 15 ([44] ++ sampleColorText)).flatten ++ (bytesOf "]\x7d" ++ rest)))
        objEnd id 16 0 0 d
      = some (16, setColors id ⟨1, 2, 3, 4⟩ 16 0 d) := by
  rw [parseColorLoop_first _ objEnd id 15 0 d]
  have hshift := parseColorLoop_shift sampleColorText
    ((List.replicate 15 ([44] ++ sampleColorText)).flatten ++ (bytesOf "]\x7d" ++ rest)) id 15
    (objEnd - 25) 0 (0 + 1) (d.setColor id 0 ⟨1, 2, 3, 4⟩)
  have hl : sampleColorText.length = 25 := rfl
  rw [hl, Nat.zero_add, Nat.sub_add_cancel (by omega)] at hshift
  rw [hshift]
  have hr := parseColorLoop_rounds id 15 (bytesOf "]\x7d" ++ rest) (objEnd - 25) 0 (0 + 1)
    (d.setColor id 0 ⟨1, 2, 3, 4⟩) (by omega)
  rw [Nat.add_zero] at hr
  rw [hr]
  rfl

/-- The colour part of a round of the palette loop, from what its searches and
its colour loop return. -/
theorem parseColorsOf_step (json : List Nat) (s e id : Nat) (d d1 : LibraryData) (cp br : Nat)
    (hc1 : strFind json (quoted "colors") s = some cp) (hcp : cp ≤ e)
    (hc2 : strFind json [91] cp = some br) (hbr : br ≤ e)
    (hloop : parseColorLoop json e id 16 (br + 1) 0 d = some (16, d1)) :
    parseColorsOf json s e id d = some (true, d1) := by
  unfold parseColorsOf
  rw [hc1]
  dsimp only
  rw [if_neg (by omega), hc2]
  dsimp only
  rw [if_neg (by omega), hloop]
  rfl

/-- A round of the palette loop that reaches its end, from what its searches
and its colour part return. -/
theorem parsePaletteObject_step (json : List Nat) (pos : Nat) (d d1 : LibraryData) (s e : Nat)
    (id : Int) (hfind : strFind json [123] pos = some s)
    (hm : matchBrace (json.drop (s + 1)) 1 (s + 1) = (e, 0))
    (hid : extractIntValue json "id" s = some id) (hlo : 0 ≤ id) (hhi : id < 32)
    (hcol : parseColorsOf json s e id.toNat
      (d.setMetadata id.toNat (textOf (extractStringValue json "name" s))
        (textOf (extractStringValue json "description" s))
        (textOf (extractStringValue json "category" s))) = some (true, d1)) :
    parsePaletteObject json pos d = PaletteStep.next d1 e := by
  unfold parsePaletteObject
  rw [hfind]
  dsimp only
  rw [hm]
  dsimp only
  rw [if_neg (by decide), hid]
  dsimp only
  rw [if_neg (by omega), hcol]

/-! ## A palette file whose 32 objects all carry the id 0 -/

/-- The colour part of the round for a sample palette object with id 0 that
stands at the start of the text, after `sep`. -/
theorem parseColorsOf_sample (sep rest : List Nat) (d : LibraryData) (cp : Nat)
    (hc1 : strFind ((sep ++ samplePaletteText 0) ++ rest) (quoted "colors") sep.length = some cp)
    (hcp : cp ≤ sep.length + 479)
    (hc2 : strFind ((sep ++ samplePaletteText 0) ++ rest) [91] cp = some (sep.length + 61)) :
    parseColorsOf ((sep ++ samplePaletteText 0) ++ rest) sep.length (sep.length + 479) 0 d
      = some (true, setColors 0 ⟨1, 2, 3, 4⟩ 16 0 d) := by
  refine parseColorsOf_step _ _ _ _ d _ cp (sep.length + 61) hc1 hcp hc2 (by omega) ?_
  have htext : (sep ++ samplePaletteText 0) ++ rest
      = (sep ++ samplePaletteHead 0) ++ (sampleColorText
        ++ ((List.replicate 15 ([44] ++ sampleColorText)).flatten
          ++ (bytesOf "]\x7d" ++ rest))) := by
    simp only [samplePaletteText, List.append_assoc]
  have hshift := parseColorLoop_shift (sep ++ samplePaletteHead 0) (sampleColorText
      ++ ((List.replicate 15 ([44] ++ sampleColorText)).flatten ++ (bytesOf "]\x7d" ++ rest)))
    0 16 417 0 0 d
  have hl : (sep ++ samplePaletteHead 0).length = sep.length + 61 + 1 := by
    rw [List.length_append]
    have h62 : (samplePaletteHead 0).length = 62 := rfl
    rw [h62]
  have he : 417 + (sep.length + 61 + 1) = sep.length + 479 := by omega
  rw [hl, Nat.zero_add, he] at hshift
  rw [htext, hshift]
  exact parseColorLoop_sample rest 417 0 d (by omega)

set_option maxRecDepth 100000 in
/-- The round of the palette loop for a sample palette object with id 0 that
stands at the start of the text. -/
theorem parsePaletteObject_first (rest : List Nat) (d : LibraryData) :
    parsePaletteObject (samplePaletteText 0 ++ rest) 0 d
      = PaletteStep.next (sampleStored d) 479 := by
  have hcol := parseColorsOf_sample [] rest (d.setMetadata 0 "n" "d" "c") 52 rfl (by decide) rfl
  exact parsePaletteObject_step (samplePaletteText 0 ++ rest) 0 d _ 0 479 0 rfl
    (matchBrace_local (samplePaletteText 0) rest 1 1 1 479 (by decide) (by decide))
    rfl (by decide) (by decide) hcol

set_option maxRecDepth 100000 in
/-- The round of the palette loop for a sample palette object with id 0 that
follows a comma. -/
theorem parsePaletteObject_further (rest : List Nat) (d : LibraryData) :
    parsePaletteObject (([44] ++ samplePaletteText 0) ++ rest) 0 d
      = PaletteStep.next (sampleStored d) 480 := by
  have hcol := parseColorsOf_sample [44] rest (d.setMetadata 0 "n" "d" "c") 53 rfl (by decide) rfl
  exact parsePaletteObject_step (([44] ++ samplePaletteText 0) ++ rest) 0 d _ 1 480 0 rfl
    (matchBrace_local ([44] ++ samplePaletteText 0) rest 2 1 2 480 (by decide) (by decide))
    rfl (by decide) (by decide) hcol

set_option maxRecDepth 100000 in
/-- The sample palette object with id 0 has 479 bytes. -/
theorem samplePaletteText_length : (samplePaletteText 0).length = 479 := by
  rfl

/-- The palette loop over `k` sample palette objects with id 0 that each follow
a comma. -/
theorem parsePaletteLoop_rounds : ∀ (k : Nat) (pre tail : List Nat) (f idx : Nat)
    (d : LibraryData),
    parsePaletteLoop
        (pre ++ ((List.replicate k ([44] ++ samplePaletteText 0)).flatten ++ tail))
        (k + f) pre.length idx d
      = parsePaletteLoop
          (pre ++ ((List.replicate k ([44] ++ samplePaletteText 0)).flatten ++ tail))
          f (pre.length + 480 * k) (idx + k) (Nat.iterate sampleStored k d) := by
  intro k
  induction k with
  | zero => intro pre tail f idx d; simp only [Nat.zero_add, Nat.mul_zero, Nat.add_zero]; rfl
  | succ k ih =>
    intro pre tail f idx d
    have htext : (List.replicate (k + 1) ([44] ++ samplePaletteText 0)).flatten ++ tail
        = ([44] ++ samplePaletteText 0)
          ++ ((List.replicate k ([44] ++ samplePaletteText 0)).flatten ++ tail) := by
      rw [List.replicate_succ, List.flatten_cons, List.append_assoc]
    have hfuel : k + 1 + f = (k + f) + 1 := by omega
    have hround := parsePaletteObject_shift pre (([44] ++ samplePaletteText 0)
      ++ ((List.replicate k ([44] ++ samplePaletteText 0)).flatten ++ tail)) 0 d
    rw [parsePaletteObject_further, Nat.zero_add] at hround
    rw [htext, hfuel, parsePaletteLoop, hround]
    have hih := ih (pre ++ ([44] ++ samplePaletteText 0)) tail f (idx + 1) (sampleStored d)
    have hl : (pre ++ ([44] ++ samplePaletteText 0)).length = 480 + pre.length := by
      rw [List.length_append]
      rw [List.length_append, samplePaletteText_length]
      have h1 : [44].length = 1 := rfl
      omega
    rw [hl, List.append_assoc] at hih
    have e1 : 480 + pre.length + 480 * k = pre.length + 480 * (k + 1) := by omega
    have e2 : idx + 1 + k = idx + (k + 1) := by omega
    rw [e1, e2] at hih
    exact hih

/-- The objects of a file made of `k + 1` times the same object. -/
theorem joinObjects_replicate (o : List Nat) : ∀ k : Nat,
    joinObjects (List.replicate (k + 1) o) = o ++ (List.replicate k ([44] ++ o)).flatten := by
  intro k
  induction k with
  | zero => simp [joinObjects]
  | succ k ih =>
    rw [List.replicate_succ] at ih
    rw [List.replicate_succ, List.replicate_succ, joinObjects, ih, List.replicate_succ,
      List.flatten_cons]
    · simp only [List.append_assoc]
    · exact List.cons_ne_nil _ _

/-- The colours after a run of stores of the same colour. -/
theorem setColors_palettes (pid : Nat) (col : PaletteColor) : ∀ (n cid : Nat) (d : LibraryData)
    (p c : Nat), (setColors pid col n cid d).palettes p c
      = if p = pid ∧ cid ≤ c ∧ c < cid + n then col else d.palettes p c := by
  intro n
  induction n with
  | zero =>
    intro cid d p c
    rw [if_neg (by omega)]
    rfl
  | succ n ih =>
    intro cid d p c
    rw [setColors, ih]
    unfold LibraryData.setColor
    dsimp only
    by_cases h1 : p = pid ∧ cid + 1 ≤ c ∧ c < cid + 1 + n
    · rw [if_pos h1, if_pos ⟨h1.1, by omega, by omega⟩]
    · rw [if_neg h1]
      by_cases h2 : p = pid ∧ c = cid
      · rw [if_pos h2, if_pos ⟨h2.1, by omega, by omega⟩]
      · rw [if_neg h2, if_neg]
        intro h3
        by_cases h4 : c = cid
        · exact h2 ⟨h3.1, h4⟩
        · exact h1 ⟨h3.1, by omega, by omega⟩

/-- The colours after the sample palette object with id 0 has been stored. -/
theorem sampleStored_palettes (d : LibraryData) (p c : Nat) :
    (sampleStored d).palettes p c
      = if p = 0 ∧ c < 16 then ⟨1, 2, 3, 4⟩ else d.palettes p c := by
  unfold sampleStored
  rw [setColors_palettes]
  by_cases h : p = 0 ∧ c < 16
  · rw [if_pos h, if_pos ⟨h.1, by omega, by omega⟩]
  · rw [if_neg h, if_neg (by intro h3; exact h ⟨h3.1, by omega⟩)]
    rfl

/-- The colours after the sample palette object with id 0 has been stored
`k + 1` times. -/
theorem iterate_sampleStored_palettes (d : LibraryData) (p c : Nat) : ∀ k : Nat,
    (Nat.iterate sampleStored (k + 1) d).palettes p c
      = if p = 0 ∧ c < 16 then ⟨1, 2, 3, 4⟩ else d.palettes p c := by
  intro k
  induction k generalizing d with
  | zero => exact sampleStored_palettes d p c
  | succ k ih =>
    rw [Function.iterate_succ_apply, ih, sampleStored_palettes]
    by_cases h : p = 0 ∧ c < 16
    · rw [if_pos h, if_pos h]
    · rw [if_neg h, if_neg h]

/-- The palette loop on the file with 32 objects of id 0. -/
theorem parseJSON_duplicateIdText (d : LibraryData) :
    parseJSON duplicateIdText d = some (true, Nat.iterate sampleStored 32 d) := by
  have htext : duplicateIdText
      = bytesOf "\x7b\"palettes\":[" ++ (samplePaletteText 0
        ++ ((List.replicate 31 ([44] ++ samplePaletteText 0)).flatten ++ bytesOf "]\x7d")) := by
    unfold duplicateIdText libraryText
    rw [joinObjects_replicate, List.append_assoc]
  have hkey : strFind duplicateIdText (quoted "palettes") 0 = some 1 := by rw [htext]; rfl
  have harr : strFind duplicateIdText [91] 1 = some 12 := by rw [htext]; rfl
  unfold parseJSON
  rw [hkey]
  dsimp only
  rw [harr]
  dsimp only
  rw [htext]
  have hround := parsePaletteObject_shift (bytesOf "\x7b\"palettes\":[") (samplePaletteText 0
      ++ ((List.replicate 31 ([44] ++ samplePaletteText 0)).flatten ++ bytesOf "]\x7d")) 0 d
  rw [parsePaletteObject_first] at hround
  have h13 : (bytesOf "\x7b\"palettes\":[").length = 13 := rfl
  rw [h13] at hround
  rw [parsePaletteLoop, hround]
  have hrest := parsePaletteLoop_rounds 31 (bytesOf "\x7b\"palettes\":[" ++ samplePaletteText 0)
    (bytesOf "]\x7d") 0 (0 + 1) (sampleStored d)
  have hl : (bytesOf "\x7b\"palettes\":[" ++ samplePaletteText 0).length = 479 + 13 := by
    rw [List.length_append, samplePaletteText_length, h13, Nat.add_comm]
  rw [hl, List.append_assoc] at hrest
  dsimp only [PaletteStep.shift]
  rw [hrest]
  rfl

/-- `initializeFromJSON`, from what `parseJSON` returns. -/
theorem initializeFromJSON_of_parse (s_data : Option LibraryData)
    (junk : Nat → Nat → PaletteColor) (jsonPath : String) (json : List Nat) (ok : Bool)
    (d : LibraryData)
    (h : parseJSON json (s_data.getD (LibraryData.new junk)) = some (ok, d)) :
    initializeFromJSON s_data junk jsonPath (some json)
      = some (ok, if ok then { d with initialized := true } else d) := by
  cases s_data with
  | none =>
    unfold initializeFromJSON
    dsimp only [Option.getD] at h ⊢
    rw [h]
    cases ok <;> rfl
  | some d0 =>
    unfold initializeFromJSON
    dsimp only [Option.getD] at h ⊢
    rw [h]
    cases ok <;> rfl

/-- C27 (fails on the JSON path): a palette file whose 32 palette objects all
carry the id 0 is accepted. On a fresh library, whatever the palette array held
after construction, `initializeFromJSON` returns true and sets `initialized`;
palette 0 holds the colours of the file, and every other palette still holds
what the constructor left there, not a colour of the file. Moreover, on a file
whose first palette object has a lone minus sign as its id, `std::stoi` throws:
the call neither returns failure nor retains an error string. -/
theorem C27_duplicate_ids_accepted :
    (∀ junk : Nat → Nat → PaletteColor, ∃ d : LibraryData,
      initializeFromJSON none junk "palettes.json" (some duplicateIdText) = some (true, d)
        ∧ d.initialized = true
        ∧ (∀ c : Nat, c < 16 → d.palettes 0 c = ⟨1, 2, 3, 4⟩)
        ∧ (∀ p c : Nat, 1 ≤ p → d.palettes p c = junk p c))
    ∧ (∀ junk : Nat → Nat → PaletteColor,
      initializeFromJSON none junk "palettes.json"
        (some (bytesOf "\x7b\"palettes\":[\x7b\"id\":-\x7d]\x7d")) = none) := by
  refine ⟨?_, ?_⟩
  · intro junk
    refine ⟨{ Nat.iterate sampleStored 32 (LibraryData.new junk) with initialized := true },
      ?_, rfl, ?_, ?_⟩
    · rw [initializeFromJSON_of_parse none junk _ _ true _ (parseJSON_duplicateIdText _)]
      rfl
    · intro c hc
      have h := iterate_sampleStored_palettes (LibraryData.new junk) 0 c 31
      rw [if_pos ⟨rfl, hc⟩] at h
      exact h
    · intro p c hp
      have h := iterate_sampleStored_palettes (LibraryData.new junk) p c 31
      rw [if_neg (by omega)] at h
      exact h
  · intro junk
    rfl

/-! ## A palette object without colours -/

/-- The resample of the sample session succeeds. -/
theorem sampleSession_resample :
    (sampleSession.resamplePNGAtOffset sampleEnv).1 = true := by
  unfold sampleSession
  simp only [SpriteData.startPNGImport, targetSize_sample]
  rw [resamplePNGAtOffset_idem, resamplePNGAtOffset_eq]
  rfl

/-- A successful resample is the closed form on what the resize delivered. -/
theorem resample_true (sd : SpriteData) (env : PngEnv)
    (h : (sd.resamplePNGAtOffset env).1 = true) :
    ∃ resizedRGBA : List Nat,
      env.resizePNG
        (croppedSource sd.m_importedPNGData sd.m_importedPNGWidth sd.m_importedPNGHeight).1
        (croppedSource sd.m_importedPNGData sd.m_importedPNGWidth sd.m_importedPNGHeight).2.1
        (croppedSource sd.m_importedPNGData sd.m_importedPNGWidth sd.m_importedPNGHeight).2.2
        0 0 sd.m_pngTargetWidth sd.m_pngTargetHeight = some resizedRGBA ∧
      (sd.resamplePNGAtOffset env).2 = sd.resampled env resizedRGBA := by
  rw [resamplePNGAtOffset_eq] at h ⊢
  by_cases hc : (!sd.m_hasPendingImport || sd.m_importedPNGData.isEmpty) = true
  · rw [if_pos hc] at h
    exact absurd h (by simp)
  · rw [if_neg hc] at h ⊢
    cases hr : env.resizePNG
      (croppedSource sd.m_importedPNGData sd.m_importedPNGWidth sd.m_importedPNGHeight).1
      (croppedSource sd.m_importedPNGData sd.m_importedPNGWidth sd.m_importedPNGHeight).2.1
      (croppedSource sd.m_importedPNGData sd.m_importedPNGWidth sd.m_importedPNGHeight).2.2
      0 0 sd.m_pngTargetWidth sd.m_pngTargetHeight with
    | none =>
      rw [hr] at h
      exact absurd h (by simp)
    | some resizedRGBA => exact ⟨resizedRGBA, rfl, rfl⟩

/-- The four bytes of entry i+2 of the palette that step F builds. -/
theorem importPaletteByte_entry (ex : List Color) (i : Nat) :
    importPaletteByte ex (4 * (i + 2))
        = (if i < ex.length then (ex.getD i ⟨0, 0, 0, 255⟩).r else 128) ∧
    importPaletteByte ex (4 * (i + 2) + 1)
        = (if i < ex.length then (ex.getD i ⟨0, 0, 0, 255⟩).g else 128) ∧
    importPaletteByte ex (4 * (i + 2) + 2)
        = (if i < ex.length then (ex.getD i ⟨0, 0, 0, 255⟩).b else 128) ∧
    importPaletteByte ex (4 * (i + 2) + 3) = 255 := by
  have d0 : 4 * (i + 2) / 4 - 2 = i := by omega
  have d1 : (4 * (i + 2) + 1) / 4 - 2 = i := by omega
  have d2 : (4 * (i + 2) + 2) / 4 - 2 = i := by omega
  have m0 : 4 * (i + 2) % 4 = 0 := by omega
  have m1 : (4 * (i + 2) + 1) % 4 = 1 := by omega
  have m2 : (4 * (i + 2) + 2) % 4 = 2 := by omega
  have m3 : (4 * (i + 2) + 3) % 4 = 3 := by omega
  unfold importPaletteByte
  refine ⟨?_, ?_, ?_, ?_⟩
  · rw [if_neg (by omega), if_neg (by omega), m0, if_neg (by decide), d0]
    by_cases hl : i < ex.length
    · rw [if_pos hl, if_pos hl, if_pos rfl]
    · rw [if_neg hl, if_neg hl]
  · rw [if_neg (by omega), if_neg (by omega), m1, if_neg (by decide), d1]
    by_cases hl : i < ex.length
    · rw [if_pos hl, if_pos hl, if_neg (by decide), if_pos rfl]
    · rw [if_neg hl, if_neg hl]
  · rw [if_neg (by omega), if_neg (by omega), m2, if_neg (by decide), d2]
    by_cases hl : i < ex.length
    · rw [if_pos hl, if_pos hl, if_neg (by decide), if_neg (by decide)]
    · rw [if_neg hl, if_neg hl]
  · rw [if_neg (by omega), if_neg (by omega), m3, if_pos rfl]

/-- The entries of the palette that step F builds. -/
theorem importPalette_entries (ex : List Color) (rest : Nat → Nat) :
    paletteEntry (fun k => if k < 64 then importPaletteByte ex k else rest k) 0 = ⟨0, 0, 0, 0⟩ ∧
    paletteEntry (fun k => if k < 64 then importPaletteByte ex k else rest k) 1
      = ⟨0, 0, 0, 255⟩ ∧
    (∀ i : Nat, i < 14 →
      paletteEntry (fun k => if k < 64 then importPaletteByte ex k else rest k) (i + 2)
        = if i < ex.length then
            ⟨(ex.getD i ⟨0, 0, 0, 255⟩).r, (ex.getD i ⟨0, 0, 0, 255⟩).g,
              (ex.getD i ⟨0, 0, 0, 255⟩).b, 255⟩
          else ⟨128, 128, 128, 255⟩) := by
  refine ⟨by simp [paletteEntry, importPaletteByte], by simp [paletteEntry, importPaletteByte],
    ?_⟩
  intro i hi
  obtain ⟨e0, e1, e2, e3⟩ := importPaletteByte_entry ex i
  unfold paletteEntry
  dsimp only
  rw [if_pos (by omega), if_pos (by omega), if_pos (by omega), if_pos (by omega), e0, e1, e2, e3]
  by_cases hl : i < ex.length
  · rw [if_pos hl, if_pos hl, if_pos hl, if_pos hl]
  · rw [if_neg hl, if_neg hl, if_neg hl, if_neg hl]

/-- The flag of a resample depends on the session only. -/
theorem resample_flag_of_sameSession (a b : SpriteData) (env : PngEnv) (h : a.sameSession b) :
    (a.resamplePNGAtOffset env).1 = (b.resamplePNGAtOffset env).1 := by
  obtain ⟨h1, h2, h3, _, _, h6, h7, h8⟩ := h
  rw [resamplePNGAtOffset_eq, resamplePNGAtOffset_eq b env, h1, h2, h3, h6, h7, h8]
  by_cases hc : (!b.m_hasPendingImport || b.m_importedPNGData.isEmpty) = true
  · rw [if_pos hc, if_pos hc]
  · rw [if_neg hc, if_neg hc]
    cases env.resizePNG
      (croppedSource b.m_importedPNGData b.m_importedPNGWidth b.m_importedPNGHeight).1
      (croppedSource b.m_importedPNGData b.m_importedPNGWidth b.m_importedPNGHeight).2.1
      (croppedSource b.m_importedPNGData b.m_importedPNGWidth b.m_importedPNGHeight).2.2
      0 0 b.m_pngTargetWidth b.m_pngTargetHeight <;> rfl

/-! ## What step G stores -/

/-- The pixel that a successful resample leaves at (x, y), for a target inside
the pixel array: the value that `findClosestColor`, whatever function it is,
returned for the four bytes of the re-quantized resized image at pixel
`y * targetWidth + x` and the list of extracted colours, converted to a byte and
replaced by 0 when it is 16 or more. Step G adds nothing to it. -/
theorem resample_pixel (sd : SpriteData) (env : PngEnv)
    (h : (sd.resamplePNGAtOffset env).1 = true) (_hfit : sd.targetInArray) :
    ∃ resizedRGBA : List Nat,
      env.resizePNG
        (croppedSource sd.m_importedPNGData sd.m_importedPNGWidth sd.m_importedPNGHeight).1
        (croppedSource sd.m_importedPNGData sd.m_importedPNGWidth sd.m_importedPNGHeight).2.1
        (croppedSource sd.m_importedPNGData sd.m_importedPNGWidth sd.m_importedPNGHeight).2.2
        0 0 sd.m_pngTargetWidth sd.m_pngTargetHeight = some resizedRGBA ∧
      ∀ x y : Int, 0 ≤ x → x < sd.m_pngTargetWidth → 0 ≤ y → y < sd.m_pngTargetHeight →
        (sd.resamplePNGAtOffset env).2.getPixel x y
          = storedIndex env (quantizeLoop resizedRGBA)
              (env.extractPalette (quantizeLoop resizedRGBA)
                (sd.m_pngTargetWidth * sd.m_pngTargetHeight) 14)
              (y * sd.m_pngTargetWidth + x).toNat := by
  obtain ⟨resizedRGBA, hr, he⟩ := resample_true sd env h
  refine ⟨resizedRGBA, hr, ?_⟩
  intro x y hx0 hx hy0 hy
  rw [he]
  unfold SpriteData.getPixel
  have hb : ¬ (x < 0 ∨ x ≥ (sd.resampled env resizedRGBA).m_width ∨ y < 0 ∨
      y ≥ (sd.resampled env resizedRGBA).m_height) := by
    show ¬ (x < 0 ∨ x ≥ sd.m_pngTargetWidth ∨ y < 0 ∨ y ≥ sd.m_pngTargetHeight)
    omega
  rw [if_neg hb]
  have hk : (y * sd.m_pngTargetWidth + x).toNat
      < sd.m_pngTargetHeight.toNat * sd.m_pngTargetWidth.toNat := by
    have h1 : y * sd.m_pngTargetWidth ≤ (sd.m_pngTargetHeight - 1) * sd.m_pngTargetWidth :=
      mul_le_mul_of_nonneg_right (by omega) (by omega)
    have h2 : (sd.m_pngTargetHeight - 1) * sd.m_pngTargetWidth
        = sd.m_pngTargetHeight * sd.m_pngTargetWidth - sd.m_pngTargetWidth := by ring
    have h3 : 0 ≤ y * sd.m_pngTargetWidth := mul_nonneg hy0 (by omega)
    have h4 : ((sd.m_pngTargetHeight.toNat * sd.m_pngTargetWidth.toNat : Nat) : Int)
        = sd.m_pngTargetHeight * sd.m_pngTargetWidth := by
      rw [Nat.cast_mul, Int.toNat_of_nonneg (by omega), Int.toNat_of_nonneg (by omega)]
    omega
  show (if (y * sd.m_pngTargetWidth + x).toNat
        < sd.m_pngTargetHeight.toNat * sd.m_pngTargetWidth.toNat then
      storedIndex env (quantizeLoop resizedRGBA)
        (env.extractPalette (quantizeLoop resizedRGBA)
          (sd.m_pngTargetWidth * sd.m_pngTargetHeight) 14)
        (y * sd.m_pngTargetWidth + x).toNat
    else sd.m_pixels (y * sd.m_pngTargetWidth + x).toNat) = _
  rw [if_pos hk]

/-! ## C31 -/

/-- The session after a successful `startPNGImport` of a 3x2 image with a 50x50
box: the canvas is 50 wide and 33 high and the target has 1650 pixels, more than
the 1600 bytes of `m_pixels`. -/
theorem tile_session (env : PngEnv) (rgba : List Nat)
    (hs : (SpriteData.new.startPNGImport env (some (rgba, 3, 2)) 50 50).1 = true) :
    (SpriteData.new.startPNGImport env (some (rgba, 3, 2)) 50 50).2.m_width = 50 ∧
    (SpriteData.new.startPNGImport env (some (rgba, 3, 2)) 50 50).2.m_height = 33 ∧
    (SpriteData.new.startPNGImport env (some (rgba, 3, 2)) 50 50).2.targetPixels = 1650 ∧
    ¬ (SpriteData.new.startPNGImport env (some (rgba, 3, 2)) 50 50).2.targetInArray := by
  obtain ⟨hw, hh⟩ := startPNGImport_true_size SpriteData.new env rgba 3 2 50 50 hs
  obtain ⟨_, _, _, _, _, s6, s7, _⟩ := startPNGImport_session SpriteData.new env rgba 3 2 50 50
  rw [targetSize_tile] at hw hh s6 s7
  have hp : (SpriteData.new.startPNGImport env (some (rgba, 3, 2)) 50 50).2.targetPixels
      = 1650 := by
    unfold SpriteData.targetPixels
    rw [s6, s7]
    rfl
  refine ⟨hw, hh, hp, ?_⟩
  rintro ⟨_, _, h3⟩
  rw [hp] at h3
  exact absurd h3 (by decide)

/-- The palette after a successful resample, in the model of the arrays as
separate functions: with `ex` the list of colours the quantizer returned, entry
0 = (0,0,0,0), entry 1 = (0,0,0,255), and for i in 0..13 entry i+2 is
(r, g, b, 255) of the i-th colour of `ex` when there is one and
(128,128,128,255) otherwise. -/
theorem resample_palette (sd : SpriteData) (env : PngEnv)
    (h : (sd.resamplePNGAtOffset env).1 = true) :
    ∃ resizedRGBA : List Nat,
      env.resizePNG
        (croppedSource sd.m_importedPNGData sd.m_importedPNGWidth sd.m_importedPNGHeight).1
        (croppedSource sd.m_importedPNGData sd.m_importedPNGWidth sd.m_importedPNGHeight).2.1
        (croppedSource sd.m_importedPNGData sd.m_importedPNGWidth sd.m_importedPNGHeight).2.2
        0 0 sd.m_pngTargetWidth sd.m_pngTargetHeight = some resizedRGBA ∧
      paletteEntry (sd.resamplePNGAtOffset env).2.m_palette 0 = ⟨0, 0, 0, 0⟩ ∧
      paletteEntry (sd.resamplePNGAtOffset env).2.m_palette 1 = ⟨0, 0, 0, 255⟩ ∧
      (∀ (i : Nat) (c : Color), i < 14 →
        (env.extractPalette (quantizeLoop resizedRGBA)
          (sd.m_pngTargetWidth * sd.m_pngTargetHeight) 14)[i]? = some c →
        paletteEntry (sd.resamplePNGAtOffset env).2.m_palette (i + 2) = ⟨c.r, c.g, c.b, 255⟩) ∧
      (∀ i : Nat, i < 14 →
        (env.extractPalette (quantizeLoop resizedRGBA)
          (sd.m_pngTargetWidth * sd.m_pngTargetHeight) 14).length ≤ i →
        paletteEntry (sd.resamplePNGAtOffset env).2.m_palette (i + 2)
          = ⟨128, 128, 128, 255⟩) := by
  obtain ⟨resizedRGBA, hr, he⟩ := resample_true sd env h
  refine ⟨resizedRGBA, hr, ?_⟩
  rw [he]
  obtain ⟨h0, h1, h2⟩ := importPalette_entries
    (env.extractPalette (quantizeLoop resizedRGBA) (sd.m_pngTargetWidth * sd.m_pngTargetHeight)
      14) sd.m_palette
  refine ⟨h0, h1, ?_, ?_⟩
  · intro i c hi hc
    have hlt : i < (env.extractPalette (quantizeLoop resizedRGBA)
        (sd.m_pngTargetWidth * sd.m_pngTargetHeight) 14).length := by
      by_contra hge
      rw [List.getElem?_eq_none (by omega)] at hc
      cases hc
    have hg : (env.extractPalette (quantizeLoop resizedRGBA)
        (sd.m_pngTargetWidth * sd.m_pngTargetHeight) 14).getD i ⟨0, 0, 0, 255⟩ = c := by
      rw [List.getD_eq_getElem?_getD, hc]
      rfl
    have h3 := h2 i hi
    rw [if_pos hlt, hg] at h3
    exact h3
  · intro i hi hlen
    have h3 := h2 i hi
    rw [if_neg (by omega)] at h3
    exact h3

/-- C31 (the claim for a target inside the pixel array, and the code at a
failing input): after a successful resample of a session whose target has at
most 1600 pixels the resize has delivered an image, and with `ex` the list of
colours the quantizer returned for it the canvas palette is: entry 0 =
(0,0,0,0), entry 1 = (0,0,0,255), and for i in 0..13 entry i+2 is (r, g, b, 255)
of the i-th colour of `ex` when there is one and (128,128,128,255) otherwise.
The sample session is such a session. A successful `startPNGImport` of a 3x2
image with a 50x50 box leaves a canvas of 50 x 33 and a target of 1650 pixels,
so that step G stores at the offsets 1600..1649 of `m_pixels`, which are the
first 50 bytes of the palette. -/
theorem C31_import_palette :
    (∀ (sd : SpriteData) (env : PngEnv), (sd.resamplePNGAtOffset env).1 = true →
      sd.targetInArray →
      ∃ resizedRGBA : List Nat,
        env.resizePNG
          (croppedSource sd.m_importedPNGData sd.m_importedPNGWidth sd.m_importedPNGHeight).1
          (croppedSource sd.m_importedPNGData sd.m_importedPNGWidth sd.m_importedPNGHeight).2.1
          (croppedSource sd.m_importedPNGData sd.m_importedPNGWidth sd.m_importedPNGHeight).2.2
          0 0 sd.m_pngTargetWidth sd.m_pngTargetHeight = some resizedRGBA ∧
        paletteEntry (sd.resamplePNGAtOffset env).2.m_palette 0 = ⟨0, 0, 0, 0⟩ ∧
        paletteEntry (sd.resamplePNGAtOffset env).2.m_palette 1 = ⟨0, 0, 0, 255⟩ ∧
        (∀ (i : Nat) (c : Color), i < 14 →
          (env.extractPalette (quantizeLoop resizedRGBA)
            (sd.m_pngTargetWidth * sd.m_pngTargetHeight) 14)[i]? = some c →
          paletteEntry (sd.resamplePNGAtOffset env).2.m_palette (i + 2)
            = ⟨c.r, c.g, c.b, 255⟩) ∧
        (∀ i : Nat, i < 14 →
          (env.extractPalette (quantizeLoop resizedRGBA)
            (sd.m_pngTargetWidth * sd.m_pngTargetHeight) 14).length ≤ i →
          paletteEntry (sd.resamplePNGAtOffset env).2.m_palette (i + 2)
            = ⟨128, 128, 128, 255⟩)) ∧
    ((sampleSession.resamplePNGAtOffset sampleEnv).1 = true ∧ sampleSession.targetInArray) ∧
    (SpriteData.new.startPNGImport sampleEnv (some (sampleTile, 3, 2)) 50 50).1 = true ∧
    (∀ (env : PngEnv) (rgba : List Nat),
      (SpriteData.new.startPNGImport env (some (rgba, 3, 2)) 50 50).1 = true →
      (SpriteData.new.startPNGImport env (some (rgba, 3, 2)) 50 50).2.m_width = 50 ∧
      (SpriteData.new.startPNGImport env (some (rgba, 3, 2)) 50 50).2.m_height = 33 ∧
      (SpriteData.new.startPNGImport env (some (rgba, 3, 2)) 50 50).2.targetPixels = 1650 ∧
      ¬ (SpriteData.new.startPNGImport env (some (rgba, 3, 2)) 50 50).2.targetInArray ∧
      (MAX_SPRITE_PIXELS : Int)
        < (SpriteData.new.startPNGImport env (some (rgba, 3, 2)) 50 50).2.targetPixels) := by
  refine ⟨fun sd env h _ => resample_palette sd env h,
    ⟨sampleSession_resample, sampleSession_targetInArray⟩, ?_, ?_⟩
  · simp only [SpriteData.startPNGImport, targetSize_tile]
    rw [resamplePNGAtOffset_eq]
    rfl
  · intro env rgba hs
    obtain ⟨q1, q2, q3, q4⟩ := tile_session env rgba hs
    refine ⟨q1, q2, q3, q4, ?_⟩
    rw [q3]
    decide

/-! ## C32 -/

/-- C35 (the claim for a target inside the pixel array, and the code at a
failing input): a resample of a session whose target has at most 1600 pixels,
whether it returns true or false, leaves the session members as they were
(source buffer, source width and height, offset, target size, pending flag);
for every session, when the resize reports failure, and whenever the resample
returns false, the whole object, canvas included, is unchanged. The sample
session is a session with such a target. The session that `startPNGImport`
leaves for a 1x1 image and a 41x41 box is pending with a target of 1681 pixels,
so that step G stores at the offsets up to 1680 of `m_pixels`, past the pixel
array and the palette, where the session members lie. -/
theorem C35_resample_keeps_session :
    (∀ (sd : SpriteData) (env : PngEnv), sd.targetInArray →
      (sd.resamplePNGAtOffset env).2.sameSession sd ∧
      (sd.resamplePNGAtOffset env).2.m_importedPNGData = sd.m_importedPNGData) ∧
    (∀ (sd : SpriteData) (env : PngEnv),
      (env.resizePNG
          (croppedSource sd.m_importedPNGData sd.m_importedPNGWidth sd.m_importedPNGHeight).1
          (croppedSource sd.m_importedPNGData sd.m_importedPNGWidth sd.m_importedPNGHeight).2.1
          (croppedSource sd.m_importedPNGData sd.m_importedPNGWidth sd.m_importedPNGHeight).2.2
          0 0 sd.m_pngTargetWidth sd.m_pngTargetHeight = none →
        sd.resamplePNGAtOffset env = (false, sd)) ∧
      ((sd.resamplePNGAtOffset env).1 = false →
        (sd.resamplePNGAtOffset env).2 = sd ∧
        (sd.resamplePNGAtOffset env).2.sameCanvas sd)) ∧
    ((sampleSession.resamplePNGAtOffset sampleEnv).1 = true ∧ sampleSession.targetInArray) ∧
    (∀ (env : PngEnv) (rgba : List Nat),
      (SpriteData.new.startPNGImport env (some (rgba, 1, 1)) 41 41).2.m_hasPendingImport
        = true ∧
      (SpriteData.new.startPNGImport env (some (rgba, 1, 1)) 41 41).2.targetPixels = 1681 ∧
      ¬ (SpriteData.new.startPNGImport env (some (rgba, 1, 1)) 41 41).2.targetInArray ∧
      ((MAX_SPRITE_PIXELS + PALETTE_BYTES : Nat) : Int)
        < (SpriteData.new.startPNGImport env (some (rgba, 1, 1)) 41 41).2.targetPixels) := by
  refine ⟨fun sd env _ => ⟨resample_sameSession sd env, (resample_sameSession sd env).1⟩, ?_,
    ⟨sampleSession_resample, sampleSession_targetInArray⟩, ?_⟩
  · intro sd env
    refine ⟨?_, ?_⟩
    · intro hr
      rw [resamplePNGAtOffset_eq, hr]
      split_ifs <;> rfl
    · intro hf
      have he : (sd.resamplePNGAtOffset env).2 = sd := by
        rw [resamplePNGAtOffset_eq] at hf ⊢
        by_cases hc : (!sd.m_hasPendingImport || sd.m_importedPNGData.isEmpty) = true
        · rw [if_pos hc]
        · rw [if_neg hc] at hf ⊢
          revert hf
          split
          · intro _
            rfl
          · intro hf
            exact absurd hf (by simp)
      rw [he]
      exact ⟨rfl, rfl, rfl, rfl, rfl⟩
  · intro env rgba
    obtain ⟨q1, _, _, q4, q5⟩ := square_session env rgba
    refine ⟨q1, q4, q5, ?_⟩
    rw [q4]
    decide

/-! ## C38 -/

/-- The resample of a session with another offset is the resample of the
session, with that offset. -/
theorem resample_offset (sd : SpriteData) (env : PngEnv) (ox oy : Int) :
    SpriteData.resamplePNGAtOffset { sd with m_pngOffsetX := ox, m_pngOffsetY := oy } env
      = ((sd.resamplePNGAtOffset env).1,
          { (sd.resamplePNGAtOffset env).2 with m_pngOffsetX := ox, m_pngOffsetY := oy }) := by
  rw [resamplePNGAtOffset_eq, resamplePNGAtOffset_eq sd env]
  by_cases hc : (!sd.m_hasPendingImport || sd.m_importedPNGData.isEmpty) = true
  · rw [if_pos hc]
    have hc' : (!({ sd with m_pngOffsetX := ox, m_pngOffsetY := oy } : SpriteData).m_hasPendingImport
        || ({ sd with m_pngOffsetX := ox, m_pngOffsetY := oy } : SpriteData).m_importedPNGData.isEmpty)
        = true := hc
    rw [if_pos hc']
  · rw [if_neg hc]
    have hc' : ¬ ((!({ sd with m_pngOffsetX := ox, m_pngOffsetY := oy } : SpriteData).m_hasPendingImport
        || ({ sd with m_pngOffsetX := ox, m_pngOffsetY := oy } : SpriteData).m_importedPNGData.isEmpty)
        = true) := hc
    rw [if_neg hc']
    dsimp only
    cases env.resizePNG
      (croppedSource sd.m_importedPNGData sd.m_importedPNGWidth sd.m_importedPNGHeight).1
      (croppedSource sd.m_importedPNGData sd.m_importedPNGWidth sd.m_importedPNGHeight).2.1
      (croppedSource sd.m_importedPNGData sd.m_importedPNGWidth sd.m_importedPNGHeight).2.2
      0 0 sd.m_pngTargetWidth sd.m_pngTargetHeight <;> rfl

/-- The canvas after a shift is the canvas a resample of the session leaves. -/
theorem shift_sameCanvas_resample (sd : SpriteData) (env : PngEnv) (dx dy : Int)
    (hp : sd.m_hasPendingImport = true) :
    (sd.shiftPNGImportOffset env dx dy).sameCanvas (sd.resamplePNGAtOffset env).2 := by
  rw [shift_eq sd env dx dy hp, resample_offset]
  exact ⟨rfl, rfl, rfl, rfl⟩

/-- Objects with the same canvas have the same pixels. -/
theorem getPixel_of_sameCanvas (a b : SpriteData) (h : a.sameCanvas b) (x y : Int) :
    a.getPixel x y = b.getPixel x y := by
  unfold SpriteData.getPixel
  rw [h.1, h.2.1, h.2.2.1]

/-- Two objects with the same session get the same pixels from a successful
resample, for a target inside the pixel array. -/
theorem resample_getPixel_of_sameSession (a b : SpriteData) (env : PngEnv)
    (hs : a.sameSession b) (hb : (b.resamplePNGAtOffset env).1 = true)
    (hfa : a.targetInArray) (hfb : b.targetInArray) (x y : Int)
    (hx0 : 0 ≤ x) (hx : x < b.m_pngTargetWidth) (hy0 : 0 ≤ y) (hy : y < b.m_pngTargetHeight) :
    (a.resamplePNGAtOffset env).2.getPixel x y = (b.resamplePNGAtOffset env).2.getPixel x y := by
  have ha : (a.resamplePNGAtOffset env).1 = true :=
    (resample_flag_of_sameSession a b env hs).trans hb
  obtain ⟨ra, hra, pa⟩ := resample_pixel a env ha hfa
  obtain ⟨rb, hrb, pb⟩ := resample_pixel b env hb hfb
  obtain ⟨h1, h2, h3, _, _, h6, h7, _⟩ := hs
  rw [h1, h2, h3, h6, h7, hrb] at hra
  have hr : rb = ra := Option.some.inj hra
  rw [pa x y hx0 (by rw [h6]; exact hx) hy0 (by rw [h7]; exact hy), pb x y hx0 hx hy0 hy,
    h6, h7, hr]

/-- The sample session with pixel (0, 0) set to index 5 after the import: still
the session of the sample. -/
theorem editedSession_session :
    (sampleSession.setPixel 0 0 5).sameSession sampleSession := by
  unfold SpriteData.setPixel
  split_ifs <;> exact ⟨rfl, rfl, rfl, rfl, rfl, rfl, rfl, rfl⟩

/-- The canvas of the sample session: 2 x 1, with index 0 at (0, 0). -/
theorem sampleSession_canvas :
    sampleSession.m_width = 2 ∧ sampleSession.m_height = 1 ∧ sampleSession.getPixel 0 0 = 0 := by
  refine ⟨?_, ?_, ?_⟩
  · unfold sampleSession
    simp only [SpriteData.startPNGImport, targetSize_sample]
    rw [resamplePNGAtOffset_eq]
    rfl
  · unfold sampleSession
    simp only [SpriteData.startPNGImport, targetSize_sample]
    rw [resamplePNGAtOffset_eq]
    rfl
  · unfold sampleSession
    simp only [SpriteData.startPNGImport, targetSize_sample]
    rw [resamplePNGAtOffset_eq]
    rfl

/-- C38, as stated, fails for a canvas that was edited after the import: the
sample session with pixel (0, 0) set to index 5 is pending, its target of 2x1
lies inside the pixel array and its canvas has index 5 at (0, 0); after
`shiftPNGImportOffset(1, 0)` the canvas has index 0 at (0, 0), the index the
resample stores, so the canvas after the shift is not the canvas before it. -/
theorem C38_counterexample :
    (sampleSession.setPixel 0 0 5).m_hasPendingImport = true ∧
    (sampleSession.setPixel 0 0 5).targetInArray ∧
    (sampleSession.setPixel 0 0 5).getPixel 0 0 = 5 ∧
    ((sampleSession.setPixel 0 0 5).shiftPNGImportOffset sampleEnv 1 0).getPixel 0 0 = 0 ∧
    ¬ ((sampleSession.setPixel 0 0 5).shiftPNGImportOffset sampleEnv 1 0).sameCanvas
        (sampleSession.setPixel 0 0 5) := by
  obtain ⟨e1, e2, e3, e4, e5, e6, e7, e8⟩ := editedSession_session
  obtain ⟨hw, hh, hp0⟩ := sampleSession_canvas
  have hpend : (sampleSession.setPixel 0 0 5).m_hasPendingImport = true :=
    e8.trans sampleSession_session.2.2.2.2.2.2.2
  have hfit : (sampleSession.setPixel 0 0 5).targetInArray := by
    unfold SpriteData.targetInArray SpriteData.targetPixels
    rw [e6, e7]
    exact sampleSession_targetInArray
  have hedit : (sampleSession.setPixel 0 0 5).getPixel 0 0 = 5 := by
    unfold SpriteData.setPixel
    rw [if_neg (by rw [hw, hh]; decide)]
    unfold SpriteData.getPixel
    dsimp only
    rw [if_neg (by rw [hw, hh]; decide)]
    simp [poke, PALETTE_SIZE]
  have hafter : ((sampleSession.setPixel 0 0 5).shiftPNGImportOffset sampleEnv 1 0).getPixel 0 0
      = 0 := by
    have h4 : (sampleSession.resamplePNGAtOffset sampleEnv).2 = sampleSession := by
      unfold sampleSession
      simp only [SpriteData.startPNGImport]
      rw [resamplePNGAtOffset_idem]
    rw [getPixel_of_sameCanvas _ _
        (shift_sameCanvas_resample (sampleSession.setPixel 0 0 5) sampleEnv 1 0 hpend),
      resample_getPixel_of_sameSession (sampleSession.setPixel 0 0 5) sampleSession sampleEnv
        editedSession_session sampleSession_resample hfit sampleSession_targetInArray 0 0
        (by decide) (by rw [sampleSession_session.2.2.2.2.2.1]; decide) (by decide)
        (by rw [sampleSession_session.2.2.2.2.2.2.1]; decide),
      h4]
    exact hp0
  refine ⟨hpend, hfit, hedit, hafter, ?_⟩
  intro hsame
  have h5 := getPixel_of_sameCanvas _ _ hsame 0 0
  rw [hafter, hedit] at h5
  exact absurd h5 (by decide)

/-- C38 (amended): for a session whose target has at most 1600 pixels, the flag
and the canvas (width, height, pixels, palette) of a resample are the same for
two sessions that differ only in the offset; hence on a pending session
`shiftPNGImportOffset(dx, dy)` leaves the canvas of a resample of that session,
whatever dx and dy are; and when the canvas before the shift is the one a
resample of the session leaves (the canvas that `startPNGImport`, a shift or a
trim has left, not edited since), the canvas after the shift equals the canvas
before it. -/
theorem C38_offset_does_not_matter (sd : SpriteData) (env : PngEnv) (ox oy dx dy : Int)
    (_hfit : sd.targetInArray) :
    (SpriteData.resamplePNGAtOffset { sd with m_pngOffsetX := ox, m_pngOffsetY := oy } env).1
      = (sd.resamplePNGAtOffset env).1 ∧
    (SpriteData.resamplePNGAtOffset { sd with m_pngOffsetX := ox, m_pngOffsetY := oy }
      env).2.sameCanvas (sd.resamplePNGAtOffset env).2 ∧
    (sd.m_hasPendingImport = true →
      (sd.shiftPNGImportOffset env dx dy).sameCanvas (sd.resamplePNGAtOffset env).2) ∧
    ((sd.resamplePNGAtOffset env).2.sameCanvas sd →
      (sd.shiftPNGImportOffset env dx dy).sameCanvas sd) := by
  refine ⟨?_, ?_, ?_, ?_⟩
  · rw [resample_offset]
  · rw [resample_offset]
    exact ⟨rfl, rfl, rfl, rfl⟩
  · intro hp
    exact shift_sameCanvas_resample sd env dx dy hp
  · intro hc
    by_cases hp : sd.m_hasPendingImport = true
    · have h1 := shift_sameCanvas_resample sd env dx dy hp
      exact ⟨h1.1.trans hc.1, h1.2.1.trans hc.2.1, h1.2.2.1.trans hc.2.2.1,
        h1.2.2.2.trans hc.2.2.2⟩
    · have hs : sd.shiftPNGImportOffset env dx dy = sd := by
        simp only [SpriteData.shiftPNGImportOffset, hp]
        rfl
      rw [hs]
      exact ⟨rfl, rfl, rfl, rfl⟩

/-- C38 (amended) on the sample session, whose canvas is the one its resample
leaves: a shift by (1, 0) leaves the canvas as it was. -/
theorem C38_offset_does_not_matter_witness :
    sampleSession.targetInArray ∧
    (sampleSession.resamplePNGAtOffset sampleEnv).2.sameCanvas sampleSession ∧
    (sampleSession.shiftPNGImportOffset sampleEnv 1 0).sameCanvas sampleSession ∧
    (sampleSession.shiftPNGImportOffset sampleEnv 1 0).m_pngOffsetX = 2 := by
  have h4 : (sampleSession.resamplePNGAtOffset sampleEnv).2 = sampleSession := by
    unfold sampleSession
    simp only [SpriteData.startPNGImport]
    rw [resamplePNGAtOffset_idem]
  have hc : (sampleSession.resamplePNGAtOffset sampleEnv).2.sameCanvas sampleSession := by
    rw [h4]
    exact ⟨rfl, rfl, rfl, rfl⟩
  obtain ⟨_, a2, _, a4, _, a6, _, a8⟩ := sampleSession_session
  obtain ⟨_, _, _, b4, _, _, _, _⟩ := shift_session sampleSession sampleEnv 1 0 a8
  rw [a4, a2, a6, shiftedOffset_sample] at b4
  exact ⟨sampleSession_targetInArray, hc,
    (C38_offset_does_not_matter sampleSession sampleEnv 0 0 1 0 sampleSession_targetInArray).2.2.2
      hc, b4⟩

/-! ## Step B of the resample: quantization and background keying -/

/-- The pixels of a buffer after its first pixel. -/
theorem pixelAt_cons4 (a b c d : Nat) (l : List Nat) (i : Nat) :
    pixelAt (a :: b :: c :: d :: l) (i + 1) = pixelAt l i := by
  unfold pixelAt
  have e0 : 4 * (i + 1) = 4 * i + 4 := by omega
  rw [e0]
  rfl

/-- A pixel inside the buffer after the quantization loop. -/
theorem quantizeLoop_pixel : ∀ (i : Nat) (data : List Nat), 4 * i + 3 < data.length →
    pixelAt (quantizeLoop data) i = quantizedPixel (pixelAt data i) := by
  intro i
  induction i with
  | zero =>
    intro data h
    rcases data with _ | ⟨r, _ | ⟨g, _ | ⟨b, _ | ⟨a, rest⟩⟩⟩⟩
    · exact absurd h (by simp only [List.length_cons, List.length_nil]; omega)
    · exact absurd h (by simp only [List.length_cons, List.length_nil]; omega)
    · exact absurd h (by simp only [List.length_cons, List.length_nil]; omega)
    · exact absurd h (by simp only [List.length_cons, List.length_nil]; omega)
    · rfl
  | succ i ih =>
    intro data h
    rcases data with _ | ⟨r, _ | ⟨g, _ | ⟨b, _ | ⟨a, rest⟩⟩⟩⟩
    · exact absurd h (by simp only [List.length_cons, List.length_nil]; omega)
    · exact absurd h (by simp only [List.length_cons, List.length_nil]; omega)
    · exact absurd h (by simp only [List.length_cons, List.length_nil]; omega)
    · exact absurd h (by simp only [List.length_cons, List.length_nil]; omega)
    · rw [quantizeLoop, pixelAt_cons4, pixelAt_cons4]
      apply ih
      simp only [List.length_cons] at h
      omega

/-- A pixel inside the buffer after the keying loop. -/
theorem keyLoop_pixel (bgR bgG bgB : Nat) : ∀ (i : Nat) (q : List Nat), 4 * i + 3 < q.length →
    pixelAt (keyLoop bgR bgG bgB q) i
      = if (pixelAt q i).r = bgR ∧ (pixelAt q i).g = bgG ∧ (pixelAt q i).b = bgB then
          ⟨0, 0, 0, 0⟩
        else pixelAt q i := by
  intro i
  induction i with
  | zero =>
    intro q h
    rcases q with _ | ⟨r, _ | ⟨g, _ | ⟨b, _ | ⟨a, rest⟩⟩⟩⟩
    · exact absurd h (by simp only [List.length_cons, List.length_nil]; omega)
    · exact absurd h (by simp only [List.length_cons, List.length_nil]; omega)
    · exact absurd h (by simp only [List.length_cons, List.length_nil]; omega)
    · exact absurd h (by simp only [List.length_cons, List.length_nil]; omega)
    · rw [keyLoop]
      have hp : pixelAt (r :: g :: b :: a :: rest) 0 = ⟨r, g, b, a⟩ := rfl
      rw [hp]
      dsimp only
      by_cases hk : r = bgR ∧ g = bgG ∧ b = bgB
      · rw [if_pos hk, if_pos hk]
        rfl
      · rw [if_neg hk, if_neg hk]
        rfl
  | succ i ih =>
    intro q h
    rcases q with _ | ⟨r, _ | ⟨g, _ | ⟨b, _ | ⟨a, rest⟩⟩⟩⟩
    · exact absurd h (by simp only [List.length_cons, List.length_nil]; omega)
    · exact absurd h (by simp only [List.length_cons, List.length_nil]; omega)
    · exact absurd h (by simp only [List.length_cons, List.length_nil]; omega)
    · exact absurd h (by simp only [List.length_cons, List.length_nil]; omega)
    · have hl : 4 * i + 3 < rest.length := by
        simp only [List.length_cons] at h
        omega
      rw [keyLoop, pixelAt_cons4]
      by_cases hk : r = bgR ∧ g = bgG ∧ b = bgB
      · rw [if_pos hk, pixelAt_cons4]
        exact ih rest hl
      · rw [if_neg hk, pixelAt_cons4]
        exact ih rest hl

/-- The quantization loop keeps the size of the buffer. -/
theorem quantizeLoop_length : ∀ (n : Nat) (data : List Nat), data.length ≤ n →
    (quantizeLoop data).length = data.length := by
  intro n
  induction n using Nat.strong_induction_on with
  | _ n ih =>
    intro data h
    rcases data with _ | ⟨r, _ | ⟨g, _ | ⟨b, _ | ⟨a, rest⟩⟩⟩⟩
    · rfl
    · rfl
    · rfl
    · rfl
    · rw [quantizeLoop]
      simp only [List.length_cons] at h ⊢
      rw [ih (n - 4) (by omega) rest (by omega)]

/-- The keying loop keeps the size of the buffer. -/
theorem keyLoop_length (bgR bgG bgB : Nat) : ∀ (n : Nat) (q : List Nat), q.length ≤ n →
    (keyLoop bgR bgG bgB q).length = q.length := by
  intro n
  induction n using Nat.strong_induction_on with
  | _ n ih =>
    intro q h
    rcases q with _ | ⟨r, _ | ⟨g, _ | ⟨b, _ | ⟨a, rest⟩⟩⟩⟩
    · rfl
    · rfl
    · rfl
    · rfl
    · rw [keyLoop]
      simp only [List.length_cons] at h
      have hr := ih (n - 4) (by omega) rest (by omega)
      by_cases hk : r = bgR ∧ g = bgG ∧ b = bgB
      · rw [if_pos hk]
        simp only [List.length_cons]
        rw [hr]
      · rw [if_neg hk]
        simp only [List.length_cons]
        rw [hr]

/-- Step B keeps the size of the buffer. -/
theorem keyedSource_length (data : List Nat) : (keyedSource data).length = data.length := by
  unfold keyedSource
  dsimp only
  rw [keyLoop_length _ _ _ _ _ (le_refl _), quantizeLoop_length _ _ (le_refl _)]

/-- A pixel inside the buffer after step B. -/
theorem keyedSource_pixel (data : List Nat) (i : Nat) (h : 4 * i + 3 < data.length) :
    pixelAt (keyedSource data) i
      = if sameKey (pixelAt data i) (pixelAt data 0) then ⟨0, 0, 0, 0⟩
        else quantizedPixel (pixelAt data i) := by
  have hq : (quantizeLoop data).length = data.length := quantizeLoop_length _ _ (le_refl _)
  have h0 : pixelAt (quantizeLoop data) 0 = quantizedPixel (pixelAt data 0) :=
    quantizeLoop_pixel 0 data (by omega)
  have hbg : readAt (quantizeLoop data) 0 = (pixelAt (quantizeLoop data) 0).r ∧
      readAt (quantizeLoop data) 1 = (pixelAt (quantizeLoop data) 0).g ∧
      readAt (quantizeLoop data) 2 = (pixelAt (quantizeLoop data) 0).b := ⟨rfl, rfl, rfl⟩
  unfold keyedSource
  dsimp only
  rw [keyLoop_pixel _ _ _ i _ (by omega), hbg.1, hbg.2.1, hbg.2.2, h0,
    quantizeLoop_pixel i data h]
  unfold quantizedPixel sameKey
  dsimp only
  by_cases hk : (pixelAt data i).r / 16 = (pixelAt data 0).r / 16 ∧
      (pixelAt data i).g / 16 = (pixelAt data 0).g / 16 ∧
      (pixelAt data i).b / 16 = (pixelAt data 0).b / 16
  · rw [if_pos hk, if_pos ⟨by omega, by omega, by omega⟩]
  · rw [if_neg hk, if_neg]
    rintro ⟨h1, h2, h3⟩
    exact hk ⟨by omega, by omega, by omega⟩

/-! ## C33 -/

/-- C33: for a source buffer that holds pixel i, after the quantization and
the keying of the resample pixel i is (0,0,0,0) when its r, g and b have the
same upper four bits as those of the top-left pixel, whatever its alpha and its
place in the image, and otherwise it has its r, g and b rounded down to a
multiple of 16 and its own alpha; the top-left pixel is (0,0,0,0); the buffer
keeps its size. -/
theorem C33_background_keying (data : List Nat) (i : Nat) (h : 4 * i + 3 < data.length) :
    pixelAt (keyedSource data) i
      = (if sameKey (pixelAt data i) (pixelAt data 0) then ⟨0, 0, 0, 0⟩
        else quantizedPixel (pixelAt data i)) ∧
    pixelAt (keyedSource data) 0 = ⟨0, 0, 0, 0⟩ ∧
    (keyedSource data).length = data.length := by
  refine ⟨keyedSource_pixel data i h, ?_, keyedSource_length data⟩
  rw [keyedSource_pixel data 0 (by omega), if_pos ⟨rfl, rfl, rfl⟩]

/-- C33 on the 4x2 sample image: pixel 6, (200, 10, 10, 255) on a white
background, becomes (192, 0, 0, 255), and pixel 0 becomes (0,0,0,0). -/
theorem C33_background_keying_witness :
    4 * 6 + 3 < sampleImage.length ∧
    ¬ sameKey (pixelAt sampleImage 6) (pixelAt sampleImage 0) ∧
    pixelAt (keyedSource sampleImage) 6 = ⟨192, 0, 0, 255⟩ ∧
    pixelAt (keyedSource sampleImage) 0 = ⟨0, 0, 0, 0⟩ ∧
    (keyedSource sampleImage).length = 32 := by
  have h := C33_background_keying sampleImage 6 (by decide)
  have hk : ¬ sameKey (pixelAt sampleImage 6) (pixelAt sampleImage 0) := by decide
  rw [if_neg hk] at h
  exact ⟨by decide, hk, h.1, h.2.1, h.2.2⟩

/-! ## Step C of the resample: the four border searches -/

/-- A search over `f s, f (s+1), ..., f (s+n-1)`: when it finds nothing the test
fails everywhere, and what it finds is the first value that passes. -/
theorem findFirst_map_range (f : Nat → Int) (p : Int → Bool) : ∀ (n s : Nat),
    (((List.range' s n).map f).find? p = none →
      ∀ k, s ≤ k → k < s + n → p (f k) = false) ∧
    (∀ x, ((List.range' s n).map f).find? p = some x →
      ∃ k, s ≤ k ∧ k < s + n ∧ f k = x ∧ p x = true ∧
        ∀ k1, s ≤ k1 → k1 < k → p (f k1) = false) := by
  intro n
  induction n with
  | zero =>
    intro s
    refine ⟨fun _ k h1 h2 => absurd h2 (by omega), fun x hx => ?_⟩
    simp at hx
  | succ n ih =>
    intro s
    rw [List.range'_succ, List.map_cons]
    by_cases hp : p (f s) = true
    · rw [List.find?_cons_of_pos _ hp]
      refine ⟨fun h => Option.noConfusion h, fun x hx => ?_⟩
      have hx1 : f s = x := Option.some.inj hx
      subst hx1
      exact ⟨s, le_refl _, by omega, rfl, hp, fun k1 h1 h2 => absurd h2 (by omega)⟩
    · rw [List.find?_cons_of_neg _ hp]
      have hps : p (f s) = false := Bool.eq_false_iff.mpr hp
      obtain ⟨ih1, ih2⟩ := ih (s + 1)
      refine ⟨fun h k h1 h2 => ?_, fun x hx => ?_⟩
      · by_cases hk : k = s
        · rw [hk]
          exact hps
        · exact ih1 h k (by omega) (by omega)
      · obtain ⟨k, h1, h2, h3, h4, h5⟩ := ih2 x hx
        refine ⟨k, by omega, by omega, h3, h4, fun k1 g1 g2 => ?_⟩
        by_cases hk : k1 = s
        · rw [hk]
          exact hps
        · exact h5 k1 (by omega) g2

/-- A search upwards through 0 .. n-1. -/
theorem findFirst_intRange (p : Int → Bool) (n : Int) :
    ((intRange n).find? p = none → ∀ x : Int, 0 ≤ x → x < n → p x = false) ∧
    (∀ x, (intRange n).find? p = some x →
      0 ≤ x ∧ x < n ∧ p x = true ∧ ∀ x1 : Int, 0 ≤ x1 → x1 < x → p x1 = false) := by
  obtain ⟨h1, h2⟩ := findFirst_map_range Int.ofNat p n.toNat 0
  unfold intRange
  rw [List.range_eq_range']
  refine ⟨fun h x hx0 hxn => ?_, fun x hx => ?_⟩
  · have := h1 h x.toNat (Nat.zero_le _) (by omega)
    rw [show Int.ofNat x.toNat = x by simp only [Int.ofNat_eq_coe]; omega] at this
    exact this
  · obtain ⟨k, _, g2, g3, g4, g5⟩ := h2 x hx
    have hk : (k : Int) = x := g3
    refine ⟨by omega, by omega, g4, fun x1 a1 a2 => ?_⟩
    have := g5 x1.toNat (Nat.zero_le _) (by omega)
    rw [show Int.ofNat x1.toNat = x1 by simp only [Int.ofNat_eq_coe]; omega] at this
    exact this

/-- A search downwards through hi, hi-1, ..., lo. -/
theorem findFirst_intDownTo (p : Int → Bool) (hi lo : Int) :
    ((intDownTo hi lo).find? p = none → ∀ x : Int, lo ≤ x → x ≤ hi → p x = false) ∧
    (∀ x, (intDownTo hi lo).find? p = some x →
      lo ≤ x ∧ x ≤ hi ∧ p x = true ∧ ∀ x1 : Int, x < x1 → x1 ≤ hi → p x1 = false) := by
  obtain ⟨h1, h2⟩ := findFirst_map_range (fun i => hi - Int.ofNat i) p (hi - lo + 1).toNat 0
  unfold intDownTo
  rw [List.range_eq_range']
  refine ⟨fun h x hx0 hxn => ?_, fun x hx => ?_⟩
  · have := h1 h (hi - x).toNat (Nat.zero_le _) (by omega)
    rw [show hi - Int.ofNat (hi - x).toNat = x by simp only [Int.ofNat_eq_coe]; omega] at this
    exact this
  · obtain ⟨k, _, g2, g3, g4, g5⟩ := h2 x hx
    have hk : hi - (k : Int) = x := g3
    refine ⟨by omega, by omega, g4, fun x1 a1 a2 => ?_⟩
    have := g5 (hi - x1).toNat (Nat.zero_le _) (by omega)
    rw [show hi - Int.ofNat (hi - x1).toNat = x1 by simp only [Int.ofNat_eq_coe]; omega] at this
    exact this

/-- A column has content exactly when one of its pixels inside the image has
an alpha other than 0. -/
theorem columnHasContent_iff (q : List Nat) (W H x : Int) :
    columnHasContent q W H x = true ↔ ∃ y : Int, 0 ≤ y ∧ y < H ∧ hasAlpha q W x y = true := by
  unfold columnHasContent intRange
  rw [List.any_eq_true]
  constructor
  · rintro ⟨y, hy, hp⟩
    rw [List.mem_map] at hy
    obtain ⟨k, hk, rfl⟩ := hy
    rw [List.mem_range] at hk
    exact ⟨Int.ofNat k, by simp only [Int.ofNat_eq_coe]; omega,
      by simp only [Int.ofNat_eq_coe]; omega, hp⟩
  · rintro ⟨y, h0, h1, hp⟩
    refine ⟨y, ?_, hp⟩
    rw [List.mem_map]
    exact ⟨y.toNat, List.mem_range.mpr (by omega), by simp only [Int.ofNat_eq_coe]; omega⟩

/-- A row has content exactly when one of its pixels inside the image has an
alpha other than 0. -/
theorem rowHasContent_iff (q : List Nat) (W y : Int) :
    rowHasContent q W y = true ↔ ∃ x : Int, 0 ≤ x ∧ x < W ∧ hasAlpha q W x y = true := by
  unfold rowHasContent intRange
  rw [List.any_eq_true]
  constructor
  · rintro ⟨x, hx, hp⟩
    rw [List.mem_map] at hx
    obtain ⟨k, hk, rfl⟩ := hx
    rw [List.mem_range] at hk
    exact ⟨Int.ofNat k, by simp only [Int.ofNat_eq_coe]; omega,
      by simp only [Int.ofNat_eq_coe]; omega, hp⟩
  · rintro ⟨x, h0, h1, hp⟩
    refine ⟨x, ?_, hp⟩
    rw [List.mem_map]
    exact ⟨x.toNat, List.mem_range.mpr (by omega), by simp only [Int.ofNat_eq_coe]; omega⟩

/-- One pair of border searches (first from below, then from above down to the
first result) over 0 .. n-1: with a value that passes the test both results
pass it and enclose every value that passes; without one the results are 0 and
n - 1. -/
theorem borderSearch (p : Int → Bool) (n : Int) :
    ((∃ x : Int, 0 ≤ x ∧ x < n ∧ p x = true) →
      0 ≤ ((intRange n).find? p).getD 0 ∧
      ((intRange n).find? p).getD 0
        ≤ ((intDownTo (n - 1) (((intRange n).find? p).getD 0)).find? p).getD (n - 1) ∧
      ((intDownTo (n - 1) (((intRange n).find? p).getD 0)).find? p).getD (n - 1) < n ∧
      p (((intRange n).find? p).getD 0) = true ∧
      p (((intDownTo (n - 1) (((intRange n).find? p).getD 0)).find? p).getD (n - 1)) = true ∧
      ∀ x : Int, 0 ≤ x → x < n → p x = true →
        ((intRange n).find? p).getD 0 ≤ x ∧
        x ≤ ((intDownTo (n - 1) (((intRange n).find? p).getD 0)).find? p).getD (n - 1)) ∧
    ((∀ x : Int, 0 ≤ x → x < n → p x = false) →
      ((intRange n).find? p).getD 0 = 0 ∧
      ((intDownTo (n - 1) (((intRange n).find? p).getD 0)).find? p).getD (n - 1) = n - 1) := by
  obtain ⟨u1, u2⟩ := findFirst_intRange p n
  constructor
  · rintro ⟨x0, hx0, hx1, hpx⟩
    cases hl : (intRange n).find? p with
    | none =>
      have := u1 hl x0 hx0 hx1
      rw [hpx] at this
      cases this
    | some l =>
      obtain ⟨l0, l1, lp, lmin⟩ := u2 l hl
      rw [Option.getD_some]
      obtain ⟨d1, d2⟩ := findFirst_intDownTo p (n - 1) l
      cases hr : (intDownTo (n - 1) l).find? p with
      | none =>
        have := d1 hr l (le_refl _) (by omega)
        rw [lp] at this
        cases this
      | some r =>
        obtain ⟨r0, r1, rp, rmax⟩ := d2 r hr
        rw [Option.getD_some]
        refine ⟨l0, r0, by omega, lp, rp, fun x a0 a1 ap => ⟨?_, ?_⟩⟩
        · by_contra hc
          have := lmin x a0 (by omega)
          rw [ap] at this
          cases this
        · by_contra hc
          have := rmax x (by omega) (by omega)
          rw [ap] at this
          cases this
  · intro hnone
    have hl : (intRange n).find? p = none := by
      cases hl : (intRange n).find? p with
      | none => rfl
      | some l =>
        obtain ⟨l0, l1, lp, _⟩ := u2 l hl
        have := hnone l l0 l1
        rw [lp] at this
        cases this
    rw [hl, Option.getD_none]
    obtain ⟨d1, d2⟩ := findFirst_intDownTo p (n - 1) 0
    have hr : (intDownTo (n - 1) 0).find? p = none := by
      cases hr : (intDownTo (n - 1) 0).find? p with
      | none => rfl
      | some r =>
        obtain ⟨r0, r1, rp, _⟩ := d2 r hr
        have := hnone r r0 (by omega)
        rw [rp] at this
        cases this
    rw [hr, Option.getD_none]
    exact ⟨rfl, rfl⟩

/-! ## C34 -/

/-- C34: for an image of width and height at least 1, with q the buffer after
the keying and (left, right, top, bottom) the crop bounds of step C: if some
pixel inside the image has an alpha other than 0, then 0 <= left <= right <
width and 0 <= top <= bottom < height, column left, column right, row top and
row bottom each hold such a pixel, and every such pixel lies in the rectangle;
if no pixel inside the image has an alpha other than 0 the bounds are
(0, width-1, 0, height-1). In both cases the cropped width and height are at
least 1. -/
theorem C34_crop_bounds (data : List Nat) (W H : Int) (hW : 1 ≤ W) (hH : 1 ≤ H) :
    ((∃ x y : Int, opaqueAt (keyedSource data) W H x y) →
      (0 ≤ (cropBounds (keyedSource data) W H).1 ∧
        (cropBounds (keyedSource data) W H).1 ≤ (cropBounds (keyedSource data) W H).2.1 ∧
        (cropBounds (keyedSource data) W H).2.1 < W ∧
        0 ≤ (cropBounds (keyedSource data) W H).2.2.1 ∧
        (cropBounds (keyedSource data) W H).2.2.1 ≤ (cropBounds (keyedSource data) W H).2.2.2 ∧
        (cropBounds (keyedSource data) W H).2.2.2 < H) ∧
      (∃ y : Int, opaqueAt (keyedSource data) W H (cropBounds (keyedSource data) W H).1 y) ∧
      (∃ y : Int, opaqueAt (keyedSource data) W H (cropBounds (keyedSource data) W H).2.1 y) ∧
      (∃ x : Int, opaqueAt (keyedSource data) W H x (cropBounds (keyedSource data) W H).2.2.1) ∧
      (∃ x : Int, opaqueAt (keyedSource data) W H x (cropBounds (keyedSource data) W H).2.2.2) ∧
      (∀ x y : Int, opaqueAt (keyedSource data) W H x y →
        (cropBounds (keyedSource data) W H).1 ≤ x ∧
        x ≤ (cropBounds (keyedSource data) W H).2.1 ∧
        (cropBounds (keyedSource data) W H).2.2.1 ≤ y ∧
        y ≤ (cropBounds (keyedSource data) W H).2.2.2)) ∧
    ((∀ x y : Int, ¬ opaqueAt (keyedSource data) W H x y) →
      cropBounds (keyedSource data) W H = (0, W - 1, 0, H - 1)) ∧
    1 ≤ (croppedSource data W H).2.1 ∧ 1 ≤ (croppedSource data W H).2.2 ∧
    (croppedSource data W H).2.1
      = (cropBounds (keyedSource data) W H).2.1 - (cropBounds (keyedSource data) W H).1 + 1 ∧
    (croppedSource data W H).2.2
      = (cropBounds (keyedSource data) W H).2.2.2 - (cropBounds (keyedSource data) W H).2.2.1
        + 1 := by
  have hcol := borderSearch (fun x => columnHasContent (keyedSource data) W H x) W
  have hrow := borderSearch (fun y => rowHasContent (keyedSource data) W y) H
  have hcb : cropBounds (keyedSource data) W H
      = (((intRange W).find? (fun x => columnHasContent (keyedSource data) W H x)).getD 0,
        ((intDownTo (W - 1)
            (((intRange W).find? (fun x => columnHasContent (keyedSource data) W H x)).getD
              0)).find? (fun x => columnHasContent (keyedSource data) W H x)).getD (W - 1),
        ((intRange H).find? (fun y => rowHasContent (keyedSource data) W y)).getD 0,
        ((intDownTo (H - 1)
            (((intRange H).find? (fun y => rowHasContent (keyedSource data) W y)).getD
              0)).find? (fun y => rowHasContent (keyedSource data) W y)).getD (H - 1)) := rfl
  rw [hcb]
  dsimp only at hcol hrow ⊢
  have hsize : 1 ≤ ((intDownTo (W - 1)
        (((intRange W).find? (fun x => columnHasContent (keyedSource data) W H x)).getD
          0)).find? (fun x => columnHasContent (keyedSource data) W H x)).getD (W - 1)
        - ((intRange W).find? (fun x => columnHasContent (keyedSource data) W H x)).getD 0 + 1 ∧
      1 ≤ ((intDownTo (H - 1)
        (((intRange H).find? (fun y => rowHasContent (keyedSource data) W y)).getD
          0)).find? (fun y => rowHasContent (keyedSource data) W y)).getD (H - 1)
        - ((intRange H).find? (fun y => rowHasContent (keyedSource data) W y)).getD 0 + 1 := by
    constructor
    · by_cases hex : ∃ x : Int, 0 ≤ x ∧ x < W ∧ columnHasContent (keyedSource data) W H x = true
      · obtain ⟨_, g2, _⟩ := hcol.1 hex
        omega
      · have hnone : ∀ x : Int, 0 ≤ x → x < W →
            columnHasContent (keyedSource data) W H x = false :=
          fun x h0 h1 => Bool.eq_false_iff.mpr (fun hp => hex ⟨x, h0, h1, hp⟩)
        obtain ⟨g1, g2⟩ := hcol.2 hnone
        omega
    · by_cases hex : ∃ y : Int, 0 ≤ y ∧ y < H ∧ rowHasContent (keyedSource data) W y = true
      · obtain ⟨_, g2, _⟩ := hrow.1 hex
        omega
      · have hnone : ∀ y : Int, 0 ≤ y → y < H →
            rowHasContent (keyedSource data) W y = false :=
          fun y h0 h1 => Bool.eq_false_iff.mpr (fun hp => hex ⟨y, h0, h1, hp⟩)
        obtain ⟨g1, g2⟩ := hrow.2 hnone
        omega
  refine ⟨?_, ?_, hsize.1, hsize.2, rfl, rfl⟩
  · rintro ⟨x0, y0, hx0, hx1, hy0, hy1, ha⟩
    have hcx : columnHasContent (keyedSource data) W H x0 = true :=
      (columnHasContent_iff _ _ _ _).mpr ⟨y0, hy0, hy1, ha⟩
    have hry : rowHasContent (keyedSource data) W y0 = true :=
      (rowHasContent_iff _ _ _).mpr ⟨x0, hx0, hx1, ha⟩
    obtain ⟨c1, c2, c3, c4, c5, c6⟩ := hcol.1 ⟨x0, hx0, hx1, hcx⟩
    obtain ⟨r1, r2, r3, r4, r5, r6⟩ := hrow.1 ⟨y0, hy0, hy1, hry⟩
    refine ⟨⟨c1, c2, c3, r1, r2, r3⟩, ?_, ?_, ?_, ?_, ?_⟩
    · obtain ⟨y, a0, a1, a2⟩ := (columnHasContent_iff _ _ _ _).mp c4
      exact ⟨y, c1, by omega, a0, a1, a2⟩
    · obtain ⟨y, a0, a1, a2⟩ := (columnHasContent_iff _ _ _ _).mp c5
      exact ⟨y, by omega, c3, a0, a1, a2⟩
    · obtain ⟨x, a0, a1, a2⟩ := (rowHasContent_iff _ _ _).mp r4
      exact ⟨x, a0, a1, r1, by omega, a2⟩
    · obtain ⟨x, a0, a1, a2⟩ := (rowHasContent_iff _ _ _).mp r5
      exact ⟨x, a0, a1, by omega, r3, a2⟩
    · rintro x y ⟨b0, b1, b2, b3, b4⟩
      have hc := c6 x b0 b1 ((columnHasContent_iff _ _ _ _).mpr ⟨y, b2, b3, b4⟩)
      have hr := r6 y b2 b3 ((rowHasContent_iff _ _ _).mpr ⟨x, b0, b1, b4⟩)
      exact ⟨hc.1, hc.2, hr.1, hr.2⟩
  · intro hnone
    have hc : ∀ x : Int, 0 ≤ x → x < W → columnHasContent (keyedSource data) W H x = false := by
      intro x h0 h1
      apply Bool.eq_false_iff.mpr
      intro hp
      obtain ⟨y, a0, a1, a2⟩ := (columnHasContent_iff _ _ _ _).mp hp
      exact hnone x y ⟨h0, h1, a0, a1, a2⟩
    have hr : ∀ y : Int, 0 ≤ y → y < H → rowHasContent (keyedSource data) W y = false := by
      intro y h0 h1
      apply Bool.eq_false_iff.mpr
      intro hp
      obtain ⟨x, a0, a1, a2⟩ := (rowHasContent_iff _ _ _).mp hp
      exact hnone x y ⟨a0, a1, h0, h1, a2⟩
    obtain ⟨g1, g2⟩ := hcol.2 hc
    obtain ⟨g3, g4⟩ := hrow.2 hr
    rw [g2, g1, g4, g3]

/-- C34 on the 4x2 sample image, whose two pixels with content are (2, 1) and
(3, 1): the crop bounds are (2, 3, 1, 1) and the cropped size is 2x1. -/
theorem C34_crop_bounds_witness :
    (1 : Int) ≤ 4 ∧ (1 : Int) ≤ 2 ∧
    opaqueAt (keyedSource sampleImage) 4 2 2 1 ∧
    cropBounds (keyedSource sampleImage) 4 2 = (2, 3, 1, 1) ∧
    (∀ x y : Int, opaqueAt (keyedSource sampleImage) 4 2 x y →
      (cropBounds (keyedSource sampleImage) 4 2).1 ≤ x ∧
      x ≤ (cropBounds (keyedSource sampleImage) 4 2).2.1 ∧
      (cropBounds (keyedSource sampleImage) 4 2).2.2.1 ≤ y ∧
      y ≤ (cropBounds (keyedSource sampleImage) 4 2).2.2.2) ∧
    1 ≤ (croppedSource sampleImage 4 2).2.1 ∧ 1 ≤ (croppedSource sampleImage 4 2).2.2 := by
  have h := C34_crop_bounds sampleImage 4 2 (by decide) (by decide)
  have ho : opaqueAt (keyedSource sampleImage) 4 2 2 1 :=
    ⟨by decide, by decide, by decide, by decide, by rfl⟩
  exact ⟨by decide, by decide, ho, by rfl, (h.1 ⟨2, 1, ho⟩).2.2.2.2.2, h.2.2.1, h.2.2.2.1⟩

/-! ## C36 -/

/-- The normalized palette is a fixed point of the normalization. -/
theorem normalizePalette_idem (p : Nat → Nat) :
    normalizePalette (normalizePalette p) = normalizePalette p := by
  funext k
  unfold normalizePalette
  by_cases h1 : k < 7
  · rw [if_pos h1, if_pos h1]
  · rw [if_neg h1, if_neg h1]
    by_cases h2 : k = 7
    · rw [if_pos h2, if_pos h2]
    · rw [if_neg h2, if_neg h2]
      by_cases h3 : k < 64 ∧ k % 4 = 3
      · rw [if_pos h3, if_pos h3]
      · rw [if_neg h3, if_neg h3]

/-- C36: for width and height in 1..40, any pixels and any palette p, under a
lossless compressor, decoding the v1 file and decoding the v2 custom file both
succeed and return the original width, height and width*height pixels, and the
64 palette bytes N(p), where N sets entry 0 to (0,0,0,0), entry 1 to (0,0,0,255)
and the alpha of entries 2..15 to 255 and keeps their r, g, b. Hence what is
decoded is the canvas that was encoded if and only if N(p) = p on the 64 bytes,
and N(N(p)) = N(p). -/
theorem C36_exact_roundtrip (z : Zlib) (hz : z.Lossless) (s_data : Option LibraryData)
    (w h : Int) (hw : 1 ≤ w ∧ w ≤ 40) (hh : 1 ≤ h ∧ h ≤ 40)
    (pixels palette : Nat → Nat) (j j1 : Locals) (o : SprtzOut) (isStandard : Bool)
    (paletteID : Nat) :
    ((loadSPRTZ z (saveSPRTZ z w h pixels palette) j o).1 = true ∧
      (loadSPRTZ z (saveSPRTZ z w h pixels palette) j o).2.outWidth = w ∧
      (loadSPRTZ z (saveSPRTZ z w h pixels palette) j o).2.outHeight = h ∧
      (∀ i, i < (w * h).toNat →
        (loadSPRTZ z (saveSPRTZ z w h pixels palette) j o).2.outPixels i = pixels i) ∧
      (∀ k, k < 64 →
        (loadSPRTZ z (saveSPRTZ z w h pixels palette) j o).2.outPalette k
          = normalizePalette palette k)) ∧
    ((loadSPRTZv2 z s_data (saveSPRTZv2Custom z w h pixels palette) j j1 o isStandard
        paletteID).1 = true ∧
      (loadSPRTZv2 z s_data (saveSPRTZv2Custom z w h pixels palette) j j1 o isStandard
        paletteID).2.1.outWidth = w ∧
      (loadSPRTZv2 z s_data (saveSPRTZv2Custom z w h pixels palette) j j1 o isStandard
        paletteID).2.1.outHeight = h ∧
      (∀ i, i < (w * h).toNat →
        (loadSPRTZv2 z s_data (saveSPRTZv2Custom z w h pixels palette) j j1 o isStandard
          paletteID).2.1.outPixels i = pixels i) ∧
      (∀ k, k < 64 →
        (loadSPRTZv2 z s_data (saveSPRTZv2Custom z w h pixels palette) j j1 o isStandard
          paletteID).2.1.outPalette k = normalizePalette palette k)) ∧
    (((loadSPRTZ z (saveSPRTZ z w h pixels palette) j o).2.outWidth = w ∧
        (loadSPRTZ z (saveSPRTZ z w h pixels palette) j o).2.outHeight = h ∧
        (∀ i, i < (w * h).toNat →
          (loadSPRTZ z (saveSPRTZ z w h pixels palette) j o).2.outPixels i = pixels i) ∧
        (∀ k, k < 64 →
          (loadSPRTZ z (saveSPRTZ z w h pixels palette) j o).2.outPalette k = palette k))
      ↔ ∀ k, k < 64 → normalizePalette palette k = palette k) ∧
    (((loadSPRTZv2 z s_data (saveSPRTZv2Custom z w h pixels palette) j j1 o isStandard
          paletteID).2.1.outWidth = w ∧
        (loadSPRTZv2 z s_data (saveSPRTZv2Custom z w h pixels palette) j j1 o isStandard
          paletteID).2.1.outHeight = h ∧
        (∀ i, i < (w * h).toNat →
          (loadSPRTZv2 z s_data (saveSPRTZv2Custom z w h pixels palette) j j1 o isStandard
            paletteID).2.1.outPixels i = pixels i) ∧
        (∀ k, k < 64 →
          (loadSPRTZv2 z s_data (saveSPRTZv2Custom z w h pixels palette) j j1 o isStandard
            paletteID).2.1.outPalette k = palette k))
      ↔ ∀ k, k < 64 → normalizePalette palette k = palette k) ∧
    normalizePalette (normalizePalette palette) = normalizePalette palette := by
  have hw0 : 0 ≤ w := by omega
  have hw1 : w ≤ 255 := by omega
  have hh0 : 0 ≤ h := by omega
  have hh1 : h ≤ 255 := by omega
  rw [loadSPRTZ_saveSPRTZ z hz w h hw0 hw1 hh0 hh1,
    loadSPRTZv2_saveSPRTZv2Custom z hz s_data w h hw0 hw1 hh0 hh1]
  dsimp only
  have hpix : ∀ i, i < (w * h).toNat →
      blit o.outPixels (peekN pixels (w * h).toNat) i = pixels i :=
    fun i hi => blit_peekN _ _ _ _ hi
  have hpal : ∀ k, k < 64 →
      decodedPalette palette (setFixedColors o.outPalette) k = normalizePalette palette k :=
    fun k hk => decodedPalette_eq_normalize _ _ k hk
  refine ⟨⟨rfl, rfl, rfl, hpix, hpal⟩, ⟨rfl, rfl, rfl, hpix, hpal⟩, ?_, ?_,
    normalizePalette_idem palette⟩
  · constructor
    · rintro ⟨_, _, _, h4⟩ k hk
      rw [← hpal k hk]
      exact h4 k hk
    · intro hn
      exact ⟨rfl, rfl, hpix, fun k hk => (hpal k hk).trans (hn k hk)⟩
  · constructor
    · rintro ⟨_, _, _, h4⟩ k hk
      rw [← hpal k hk]
      exact h4 k hk
    · intro hn
      exact ⟨rfl, rfl, hpix, fun k hk => (hpal k hk).trans (hn k hk)⟩

/-- C36 at a concrete input: a 5x3 canvas with the sample pixels and palette
and the stored compressor; the palette does not come back, its byte 0 being 1. -/
theorem C36_exact_roundtrip_witness :
    storedZlib.Lossless ∧ ((1 : Int) ≤ 5 ∧ (5 : Int) ≤ 40) ∧ ((1 : Int) ≤ 3 ∧ (3 : Int) ≤ 40) ∧
    (loadSPRTZ storedZlib (saveSPRTZ storedZlib 5 3 samplePixels samplePalette)
      sampleLocals sampleOut).1 = true ∧
    (∀ k, k < 64 →
      (loadSPRTZ storedZlib (saveSPRTZ storedZlib 5 3 samplePixels samplePalette)
        sampleLocals sampleOut).2.outPalette k = normalizePalette samplePalette k) ∧
    (loadSPRTZv2 storedZlib none (saveSPRTZv2Custom storedZlib 5 3 samplePixels samplePalette)
      sampleLocals sampleLocals sampleOut false 0).2.1.outWidth = 5 ∧
    ¬ (∀ k, k < 64 → normalizePalette samplePalette k = samplePalette k) ∧
    normalizePalette (normalizePalette samplePalette) = normalizePalette samplePalette := by
  have h := C36_exact_roundtrip storedZlib storedZlib_lossless none 5 3 ⟨by decide, by decide⟩
    ⟨by decide, by decide⟩ samplePixels samplePalette sampleLocals sampleLocals sampleOut false 0
  refine ⟨storedZlib_lossless, ⟨by decide, by decide⟩, ⟨by decide, by decide⟩, h.1.1,
    h.1.2.2.2.2, h.2.1.2.1, ?_, h.2.2.2.2⟩
  intro hn
  have h0 := hn 0 (by decide)
  revert h0
  decide

/-! ## C37 -/

/-- The total distance of a tally is not negative. -/
theorem matchTally_total_nonneg (pal : Nat → PaletteColor) :
    ∀ (u : List PaletteColor) (t : Int × Int × Int), 0 ≤ t.1 →
      0 ≤ (u.foldl (fun (t : Int × Int × Int) customColor =>
            (t.1 + minDistance customColor pal,
              if minDistance customColor pal = 0 then t.2.1 + 1 else t.2.1,
              if minDistance customColor pal = 0 then t.2.2
              else if minDistance customColor pal < 100 then t.2.2 + 1 else t.2.2)) t).1 := by
  intro u
  induction u with
  | nil => intro t ht; exact ht
  | cons c u ih =>
    intro t ht
    rw [List.foldl_cons]
    apply ih
    have := minDistance_nonneg c pal
    dsimp only
    omega

/-- The best total distance is not negative. -/
theorem bestPalette_total_nonneg (d : LibraryData) (u : List PaletteColor) :
    0 ≤ (bestPalette d u).2.2 := by
  have key : ∀ (l : List Nat) (best : Int × Nat × Int), 0 ≤ best.2.2 →
      0 ≤ (l.foldl (fun (best : Int × Nat × Int) pid =>
          if paletteScore (matchTally u (d.palettes pid)) < best.1 then
            (paletteScore (matchTally u (d.palettes pid)), pid,
              (matchTally u (d.palettes pid)).1)
          else best) best).2.2 := by
    intro l
    induction l with
    | nil => intro best hb; exact hb
    | cons pid l ih =>
      intro best hb
      rw [List.foldl_cons]
      apply ih
      by_cases hs : paletteScore (matchTally u (d.palettes pid)) < best.1
      · rw [if_pos hs]
        exact matchTally_total_nonneg (d.palettes pid) u (0, 0, 0) (le_refl 0)
      · rw [if_neg hs]
        exact hb
  have h0 : (0 : Int) ≤ INT32_MAX := by
    unfold INT32_MAX
    omega
  unfold bestPalette
  apply key
  exact h0

/-- The acceptance test is one threshold. -/
theorem acceptsMatch_iff (t n : Int) (hn : 1 ≤ n) (ht : 0 ≤ t) :
    acceptsMatch t n ↔ t < 200 * n := by
  unfold acceptsMatch
  rw [if_pos (by omega), Int.tdiv_eq_ediv ht (by omega), Int.ediv_lt_iff_lt_mul (by omega)]
  constructor
  · rintro (h | h) <;> omega
  · intro h
    exact Or.inl h

/-- C37: for n >= 1 and t >= 0 the acceptance test of `findClosestPalette`
(t / n < 200 by the division of `int`, or t < 50 n) holds exactly when
t < 200 n. On an initialized library the custom palette has at least one
distinct colour and the best total distance is not negative, so the branch for
n = 0 is never taken and `findClosestPalette` returns the best id exactly when
the best total distance is below 200 times the number of distinct colours. -/
theorem C37_single_threshold (d : LibraryData) (customPalette : Nat → PaletteColor)
    (hd : d.initialized = true) :
    (∀ t n : Int, 1 ≤ n → 0 ≤ t → (acceptsMatch t n ↔ t < 200 * n)) ∧
    1 ≤ (uniqueColors customPalette).length ∧
    0 ≤ (bestPalette d (uniqueColors customPalette)).2.2 ∧
    findClosestPalette (some d) customPalette
      = (if acceptsMatch (bestPalette d (uniqueColors customPalette)).2.2
            ((uniqueColors customPalette).length : Int) then
          (bestPalette d (uniqueColors customPalette)).2.1
        else PALETTE_MODE_CUSTOM,
        (bestPalette d (uniqueColors customPalette)).2.2) ∧
    findClosestPalette (some d) customPalette
      = (if (bestPalette d (uniqueColors customPalette)).2.2
            < 200 * ((uniqueColors customPalette).length : Int) then
          (bestPalette d (uniqueColors customPalette)).2.1
        else PALETTE_MODE_CUSTOM,
        (bestPalette d (uniqueColors customPalette)).2.2) := by
  have hlen : 1 ≤ (uniqueColors customPalette).length :=
    List.length_pos_of_mem
      ((uniqueColors_mem customPalette (customPalette 0)).mpr ⟨0, by decide, rfl⟩)
  have hnn := bestPalette_total_nonneg d (uniqueColors customPalette)
  have hgate : findClosestPalette (some d) customPalette
      = (if acceptsMatch (bestPalette d (uniqueColors customPalette)).2.2
            ((uniqueColors customPalette).length : Int) then
          (bestPalette d (uniqueColors customPalette)).2.1
        else PALETTE_MODE_CUSTOM,
        (bestPalette d (uniqueColors customPalette)).2.2) := by
    unfold findClosestPalette acceptsMatch
    dsimp only
    rw [hd, if_neg (by decide)]
    by_cases hc : (if ((uniqueColors customPalette).length : Int) > 0 then
          Int.tdiv (bestPalette d (uniqueColors customPalette)).2.2
            ((uniqueColors customPalette).length : Int)
        else INT32_MAX) < 200
      ∨ (bestPalette d (uniqueColors customPalette)).2.2
          < 50 * ((uniqueColors customPalette).length : Int)
    · rw [if_pos hc, if_pos hc]
    · rw [if_neg hc, if_neg hc]
  refine ⟨acceptsMatch_iff, hlen, hnn, hgate, ?_⟩
  rw [hgate]
  have hiff := acceptsMatch_iff (bestPalette d (uniqueColors customPalette)).2.2
    ((uniqueColors customPalette).length : Int) (by omega) hnn
  by_cases ha : acceptsMatch (bestPalette d (uniqueColors customPalette)).2.2
      ((uniqueColors customPalette).length : Int)
  · rw [if_pos ha, if_pos (hiff.mp ha)]
  · rw [if_neg ha, if_neg (fun h => ha (hiff.mpr h))]

/-- C37 on the sample library with its entry 5 as custom palette. -/
theorem C37_single_threshold_witness :
    sampleLibrary.initialized = true ∧
    1 ≤ (uniqueColors (sampleLibrary.palettes 5)).length ∧
    findClosestPalette (some sampleLibrary) (sampleLibrary.palettes 5)
      = (if (bestPalette sampleLibrary (uniqueColors (sampleLibrary.palettes 5))).2.2
            < 200 * ((uniqueColors (sampleLibrary.palettes 5)).length : Int) then
          (bestPalette sampleLibrary (uniqueColors (sampleLibrary.palettes 5))).2.1
        else PALETTE_MODE_CUSTOM,
        (bestPalette sampleLibrary (uniqueColors (sampleLibrary.palettes 5))).2.2) :=
  ⟨rfl, (C37_single_threshold sampleLibrary (sampleLibrary.palettes 5) rfl).2.1,
    (C37_single_threshold sampleLibrary (sampleLibrary.palettes 5) rfl).2.2.2.2⟩

/-! ## C39 -/

/-- A linear index y * w + x with 0 <= x < w determines x and y. -/
theorem linearIndex_inj (w x y x1 y1 : Int) (hx : 0 ≤ x ∧ x < w) (hx1 : 0 ≤ x1 ∧ x1 < w)
    (h : y * w + x = y1 * w + x1) : x = x1 ∧ y = y1 := by
  have hw : 0 < w := by omega
  have e1 : (y * w + x) % w = x := by
    rw [Int.add_comm, Int.add_mul_emod_self, Int.emod_eq_of_lt hx.1 hx.2]
  have e2 : (y1 * w + x1) % w = x1 := by
    rw [Int.add_comm, Int.add_mul_emod_self, Int.emod_eq_of_lt hx1.1 hx1.2]
  have hxx : x = x1 := by rw [← e1, ← e2, h]
  refine ⟨hxx, ?_⟩
  subst hxx
  have hm : y * w = y1 * w := by omega
  exact Int.eq_of_mul_eq_mul_right (by omega) hm

/-- C39: for (x, y) inside the canvas, `getPixel(x, y)` after
`setPixel(x, y, c)` is c when c < 16 and 0 otherwise, the pixel at every other
position reads as before, and of the array only the byte at y * width + x may
differ; `setPixel` never changes the palette, the width, the height or the
session. For (x, y) outside the canvas `setPixel` returns the object unchanged
and `getPixel` returns 0. -/
theorem C39_pixel_accessors (sd : SpriteData) (x y : Int) (c : Nat) :
    ((0 ≤ x ∧ x < sd.m_width ∧ 0 ≤ y ∧ y < sd.m_height) →
      (sd.setPixel x y c).getPixel x y = (if c < 16 then c else 0) ∧
      (∀ x1 y1 : Int, ¬ (x1 = x ∧ y1 = y) →
        (sd.setPixel x y c).getPixel x1 y1 = sd.getPixel x1 y1) ∧
      (∀ k : Nat, k ≠ (y * sd.m_width + x).toNat →
        (sd.setPixel x y c).m_pixels k = sd.m_pixels k)) ∧
    ((sd.setPixel x y c).m_palette = sd.m_palette ∧
      (sd.setPixel x y c).m_width = sd.m_width ∧ (sd.setPixel x y c).m_height = sd.m_height ∧
      (sd.setPixel x y c).sameSession sd) ∧
    ((x < 0 ∨ x ≥ sd.m_width ∨ y < 0 ∨ y ≥ sd.m_height) →
      sd.setPixel x y c = sd ∧ sd.getPixel x y = 0) := by
  refine ⟨?_, ?_, ?_⟩
  · rintro ⟨hx0, hx1, hy0, hy1⟩
    have hg : ¬ (x < 0 ∨ x ≥ sd.m_width ∨ y < 0 ∨ y ≥ sd.m_height) := by omega
    have hset : sd.setPixel x y c
        = sd.withPixels (poke sd.m_pixels (y * sd.m_width + x).toNat
            (if (c : Int) ≥ PALETTE_SIZE then 0 else c)) := by
      unfold SpriteData.setPixel
      rw [if_neg hg]
      rfl
    have hnn : 0 ≤ y * sd.m_width + x := by
      have := Int.mul_nonneg hy0 (by omega : 0 ≤ sd.m_width)
      omega
    rw [hset]
    refine ⟨?_, ?_, ?_⟩
    · unfold SpriteData.getPixel
      rw [withPixels_m_width, withPixels_m_height, if_neg hg, withPixels_m_pixels, poke,
        if_pos rfl]
      unfold PALETTE_SIZE
      by_cases hc : c < 16
      · rw [if_pos hc, if_neg (by omega)]
      · rw [if_neg hc, if_pos (by omega)]
    · intro x1 y1 hne
      unfold SpriteData.getPixel
      rw [withPixels_m_width, withPixels_m_height, withPixels_m_pixels]
      by_cases hg1 : x1 < 0 ∨ x1 ≥ sd.m_width ∨ y1 < 0 ∨ y1 ≥ sd.m_height
      · rw [if_pos hg1, if_pos hg1]
      · rw [if_neg hg1, if_neg hg1, poke, if_neg]
        intro hk
        have hnn1 : 0 ≤ y1 * sd.m_width + x1 := by
          have := Int.mul_nonneg (by omega : 0 ≤ y1) (by omega : 0 ≤ sd.m_width)
          omega
        have hidx : y1 * sd.m_width + x1 = y * sd.m_width + x := by omega
        obtain ⟨e1, e2⟩ := linearIndex_inj sd.m_width x1 y1 x y (by omega) (by omega) hidx
        exact hne ⟨e1, e2⟩
    · intro k hk
      rw [withPixels_m_pixels, poke, if_neg hk]
  · rw [setPixel_eq_withPixels]
    exact ⟨rfl, rfl, rfl, rfl, rfl, rfl, rfl, rfl, rfl, rfl, rfl⟩
  · intro hg
    unfold SpriteData.setPixel SpriteData.getPixel
    rw [if_pos hg, if_pos hg]
    exact ⟨rfl, rfl⟩

/-! ## The reads of `trimPNGImport` -/

/-- The copy loops read the source at the offsets of `copyOffsets`, in that
order. -/
theorem copyRect_eq_map (src : List Nat) (W left top w h : Int) :
    copyRect src W left top w h = (copyOffsets W left top w h).map (readAt src) := by
  unfold copyRect copyOffsets
  rw [List.map_flatMap]
  congr 1
  funext y
  rw [List.map_flatMap]
  rfl

/-- The offsets the copy loops read are those of the bytes k = 0..3 of the
pixels (left + x, top + y) with 0 <= x < w and 0 <= y < h. -/
theorem mem_copyOffsets (W left top w h o : Int) :
    o ∈ copyOffsets W left top w h ↔
      ∃ x y k : Int, 0 ≤ x ∧ x < w ∧ 0 ≤ y ∧ y < h ∧ 0 ≤ k ∧ k < 4 ∧
        o = ((top + y) * W + (left + x)) * 4 + k := by
  have hmem : ∀ (n v : Int), v ∈ intRange n ↔ 0 ≤ v ∧ v < n := by
    intro n v
    unfold intRange
    rw [List.mem_map]
    constructor
    · rintro ⟨a, ha, rfl⟩
      rw [List.mem_range] at ha
      simp only [Int.ofNat_eq_coe]
      omega
    · rintro ⟨h0, h1⟩
      exact ⟨v.toNat, List.mem_range.mpr (by omega), by simp only [Int.ofNat_eq_coe]; omega⟩
  unfold copyOffsets
  rw [List.mem_flatMap]
  constructor
  · rintro ⟨y, hy, ho⟩
    rw [List.mem_flatMap] at ho
    obtain ⟨x, hx, ho⟩ := ho
    rw [hmem] at hx hy
    simp only [List.mem_cons, List.mem_singleton, List.not_mem_nil, or_false] at ho
    rcases ho with ho | ho | ho | ho
    · exact ⟨x, y, 0, hx.1, hx.2, hy.1, hy.2, by omega, by omega, ho⟩
    · exact ⟨x, y, 1, hx.1, hx.2, hy.1, hy.2, by omega, by omega, ho⟩
    · exact ⟨x, y, 2, hx.1, hx.2, hy.1, hy.2, by omega, by omega, ho⟩
    · exact ⟨x, y, 3, hx.1, hx.2, hy.1, hy.2, by omega, by omega, ho⟩
  · rintro ⟨x, y, k, hx0, hx1, hy0, hy1, hk0, hk1, ho⟩
    refine ⟨y, (hmem _ _).mpr ⟨hy0, hy1⟩, ?_⟩
    rw [List.mem_flatMap]
    refine ⟨x, (hmem _ _).mpr ⟨hx0, hx1⟩, ?_⟩
    simp only [List.mem_cons, List.mem_singleton, List.not_mem_nil, or_false]
    have hk : k = 0 ∨ k = 1 ∨ k = 2 ∨ k = 3 := by omega
    rcases hk with rfl | rfl | rfl | rfl
    · exact Or.inl ho
    · exact Or.inr (Or.inl ho)
    · exact Or.inr (Or.inr (Or.inl ho))
    · exact Or.inr (Or.inr (Or.inr ho))

/-- With trims that are not negative, every offset an accepted trim reads lies
inside a source buffer of width * height * 4 bytes, at a pixel of the rows
top .. height-bottom-1 and the columns left .. width-right-1. -/
theorem copyOffsets_inside (W H left right top bottom o : Int) (n : Nat)
    (hn : (n : Int) = W * H * 4)
    (hl : 0 ≤ left) (hr : 0 ≤ right) (ht : 0 ≤ top) (hb : 0 ≤ bottom)
    (ho : o ∈ copyOffsets W left top (W - left - right) (H - top - bottom)) :
    0 ≤ o ∧ o < (n : Int) ∧
    ∃ col row k : Int, left ≤ col ∧ col ≤ W - right - 1 ∧ top ≤ row ∧ row ≤ H - bottom - 1 ∧
      0 ≤ k ∧ k < 4 ∧ o = (row * W + col) * 4 + k := by
  rw [mem_copyOffsets] at ho
  obtain ⟨x, y, k, hx0, hx1, hy0, hy1, hk0, hk1, rfl⟩ := ho
  have hW : 0 < W := by omega
  have hrow0 : 0 ≤ (top + y) * W := Int.mul_nonneg (by omega) (by omega)
  have hrow1 : (top + y + 1) * W ≤ H * W :=
    Int.mul_le_mul_of_nonneg_right (by omega) (by omega)
  have e1 : (top + y + 1) * W = (top + y) * W + W := by ring
  have e2 : W * H * 4 = H * W * 4 := by ring
  refine ⟨by omega, by omega, left + x, top + y, k, by omega, by omega, by omega, by omega,
    hk0, hk1, rfl⟩

/-! ## C40 -/

/-- C40 (fails for negative trims): on the pending sample session, whose
buffer holds the 4 * 2 * 4 = 32 bytes of the 4x2 image, `trimPNGImport(-1, 0, 0,
0)` passes the guard (the new size 5x2 is not below 1) and is carried out, and
among the offsets it reads is -4, before the start of the buffer. With trims
that are not negative the claim holds: every offset an accepted trim reads lies
inside a buffer of width * height * 4 bytes, at a pixel of the rows
top .. height-bottom-1 and the columns left .. width-right-1. -/
theorem C40_negative_trim_reads_outside :
    (sampleSession.m_hasPendingImport = true ∧
      sampleSession.m_importedPNGData.length = 32 ∧
      sampleSession.m_importedPNGWidth = 4 ∧ sampleSession.m_importedPNGHeight = 2 ∧
      ¬ (sampleSession.m_importedPNGWidth - (-1) - 0 < 1 ∨
          sampleSession.m_importedPNGHeight - 0 - 0 < 1) ∧
      (sampleSession.trimPNGImport sampleEnv (-1) 0 0 0).m_importedPNGWidth = 5 ∧
      (sampleSession.trimPNGImport sampleEnv (-1) 0 0 0).m_importedPNGData
        = (copyOffsets 4 (-1) 0 5 2).map (readAt sampleImage) ∧
      (-4 : Int) ∈ copyOffsets 4 (-1) 0 5 2 ∧
      ¬ (0 ≤ (-4 : Int) ∧ (-4 : Int) < 32)) ∧
    (∀ (sd : SpriteData) (env : PngEnv) (left right top bottom : Int),
      sd.m_hasPendingImport = true →
      (sd.m_importedPNGData.length : Int) = sd.m_importedPNGWidth * sd.m_importedPNGHeight * 4 →
      0 ≤ left → 0 ≤ right → 0 ≤ top → 0 ≤ bottom →
      ¬ (sd.m_importedPNGWidth - left - right < 1 ∨
          sd.m_importedPNGHeight - top - bottom < 1) →
      (sd.trimPNGImport env left right top bottom).m_importedPNGData
        = (copyOffsets sd.m_importedPNGWidth left top (sd.m_importedPNGWidth - left - right)
            (sd.m_importedPNGHeight - top - bottom)).map (readAt sd.m_importedPNGData) ∧
      ∀ o : Int, o ∈ copyOffsets sd.m_importedPNGWidth left top
          (sd.m_importedPNGWidth - left - right) (sd.m_importedPNGHeight - top - bottom) →
        0 ≤ o ∧ o < (sd.m_importedPNGData.length : Int) ∧
        ∃ col row k : Int, left ≤ col ∧ col ≤ sd.m_importedPNGWidth - right - 1 ∧
          top ≤ row ∧ row ≤ sd.m_importedPNGHeight - bottom - 1 ∧ 0 ≤ k ∧ k < 4 ∧
          o = (row * sd.m_importedPNGWidth + col) * 4 + k) := by
  obtain ⟨a1, a2, a3, _, _, _, _, a8⟩ := sampleSession_session
  constructor
  · obtain ⟨t1, t2, _⟩ := trim_session sampleSession sampleEnv (-1) 0 0 0 a8
      (by rw [a2]; decide) (by rw [a3]; decide)
    refine ⟨a8, by rw [a1]; rfl, a2, a3, by rw [a2, a3]; decide, by rw [t2, a2]; rfl, ?_,
      by decide, by decide⟩
    rw [t1, a1, a2, a3, copyRect_eq_map]
    rfl
  · intro sd env left right top bottom hp hlen hl hr ht hb hg
    obtain ⟨t1, _⟩ := trim_session sd env left right top bottom hp (by omega) (by omega)
    refine ⟨by rw [t1, copyRect_eq_map], fun o ho => ?_⟩
    exact copyOffsets_inside sd.m_importedPNGWidth sd.m_importedPNGHeight left right top bottom
      o sd.m_importedPNGData.length hlen hl hr ht hb ho

end SPRED
